import Mathlib

/-!
# Rat Rider (Boxing prototypes): contact tracking, jumping, spawning, scoring

A shallow embedding of the gameplay core of `Boxing9_2_Fixed.cpp` (and of the
single-player listener of `Boxing7_temp.cpp`), with the properties the
specification states about it.

Conventions of the embedding
* `uintptr_t` fixture tags are natural numbers; the program only compares them.
* `b2Body*` pointers are natural-number handles; a null pointer is `none`.
* `std::map<K, V>` is a function `K → Option V` (`none`: no entry);
  `operator[]` inserts the value-initialised entry when the key is absent.
* C++ `int` variables are integers. The only `int` arithmetic of the program is
  `++`, `--`, `+= 3`, `- 2`; signed overflow is undefined behaviour in C++, so
  every defined run of the program computes exactly these integer results.
* `float` values are rationals. Positions, speeds, lengths and times are
  computed exactly, and a literal stands for the decimal it is written as
  (`collectibleSpawnChance` is 0.45, the frame-time clamp is 0.1). Binary32 is
  modelled for the choice of the collectible kind and for the spawn-time
  interpolation: the six kind weights (`0.35f` and the others) and
  `minSpawnTimeBase` (`0.8f`) are the binary32 values of their literals, and
  the sums of the weights, the speed ratio and `lerp` round every operation
  to binary32 (`roundF32`).
* An `sf::Clock` is the instant (in microseconds) at which it was last
  restarted; the current instant is an input of the code that restarts it.
* The `b2World` is the sequence of calls made on it, with a counter for fresh
  body handles. What Box2D computes is an input of the code that reads it: the
  contact callbacks of a step, the positions read back after it, the contacts
  that end when a body is destroyed, the mass of a body.
* The random generator is an input: each draw is its canonical value, which
  the distribution maps onto its interval.
* The high-score file is the number it holds (`none`: it cannot be opened for
  reading); whether it can be opened for writing is an input.
-/

namespace Boxing9_2_Fixed

/-! ## Fixture tags (lines 36-47) -/

def PLAYER1_ID : Nat := 0
def PLAYER2_ID : Nat := 10
def FOOT_SENSOR_ID : Nat := 1
def GROUND_ID : Nat := 2
def CEILING_ID : Nat := 3
def MAGENTA_COLLECTIBLE_ID : Nat := 4
def ORANGE_COLLECTIBLE_ID : Nat := 5
def GREEN_COLLECTIBLE_ID : Nat := 6
def RED_COLLECTIBLE_ID : Nat := 7
def WHITE_COLLECTIBLE_ID : Nat := 8
def MINUS_SCORE_COLLECTIBLE_ID : Nat := 9
def PLATFORM_ID_BASE : Nat := 1000

/-! ## Physics-engine values the listener reads -/

/-- Handle of a `b2Body` (the pointer value). -/
abbrev b2Body := Nat

/-- What the listener reads of a `b2Fixture`: its user-data tag and its body. -/
structure b2Fixture where
  userData : Nat
  body : b2Body
deriving DecidableEq, Repr

/-- What the listener reads of a `b2Contact`: the two fixtures. -/
structure b2Contact where
  fixtureA : b2Fixture
  fixtureB : b2Fixture
deriving DecidableEq, Repr

/-! ## `std::map` as a finite partial function -/

/-- Assignment `m[k] = v`. -/
def mapSet {V : Type} (m : Nat → Option V) (k : Nat) (v : V) : Nat → Option V :=
  fun j => if j = k then some v else m j

/-- Value read through `m[k]`: the entry, or the value-initialised default. -/
def mapAt {V : Type} (m : Nat → Option V) (k : Nat) (dflt : V) : V :=
  (m k).getD dflt

/-- Map left behind by evaluating `m[k]`: the default entry is inserted when
the key is absent. -/
def mapTouch {V : Type} (m : Nat → Option V) (k : Nat) (dflt : V) : Nat → Option V :=
  mapSet m k (mapAt m k dflt)

/-! ## `PlayerContactListener` (lines 50-157) -/

/-- State of the listener. `collectiblesToRemove` is the vector of `main`
(`collectiblesToRemoveFromWorld`) that the listener holds by reference. -/
structure PlayerContactListener where
  footContactsMap : Nat → Option Int
  touchedGroundMap : Nat → Option Bool
  collectiblesToRemove : List b2Body

/-- Constructor (line 56): empty maps, bound to the given vector. -/
def PlayerContactListener.new (bodiesToRemove : List b2Body) : PlayerContactListener :=
  { footContactsMap := fun _ => none
    touchedGroundMap := fun _ => none
    collectiblesToRemove := bodiesToRemove }

/-- Method `BeginContact` (lines 58-101). -/
def PlayerContactListener.BeginContact (l : PlayerContactListener) (contact : b2Contact) :
    PlayerContactListener :=
  let userDataA := contact.fixtureA.userData
  let userDataB := contact.fixtureB.userData
  let ids : Nat × Nat :=
    if userDataA = PLAYER1_ID ∨ userDataA = PLAYER2_ID then (userDataA, userDataB)
    else if userDataB = PLAYER1_ID ∨ userDataB = PLAYER2_ID then (userDataB, userDataA)
    else (0, 0)
  let playerUserData := ids.1
  let otherUserData := ids.2
  if playerUserData = PLAYER1_ID ∨ playerUserData = PLAYER2_ID then
    let l1 : PlayerContactListener :=
      if (userDataA = FOOT_SENSOR_ID ∧ userDataB ≥ PLATFORM_ID_BASE) ∨
         (userDataB = FOOT_SENSOR_ID ∧ userDataA ≥ PLATFORM_ID_BASE) then
        let footSensorOwnerId := if userDataA = FOOT_SENSOR_ID then userDataB else userDataA
        if footSensorOwnerId = PLAYER1_ID ∨ footSensorOwnerId = PLAYER2_ID then
          let count := mapAt l.footContactsMap footSensorOwnerId 0
          { l with footContactsMap := mapSet l.footContactsMap footSensorOwnerId (count + 1) }
        else l
      else l
    let l2 : PlayerContactListener :=
      if otherUserData = GROUND_ID then
        { l1 with touchedGroundMap := mapSet l1.touchedGroundMap playerUserData true }
      else l1
    if otherUserData = MAGENTA_COLLECTIBLE_ID ∨ otherUserData = ORANGE_COLLECTIBLE_ID ∨
       otherUserData = GREEN_COLLECTIBLE_ID ∨ otherUserData = RED_COLLECTIBLE_ID ∨
       otherUserData = WHITE_COLLECTIBLE_ID ∨ otherUserData = MINUS_SCORE_COLLECTIBLE_ID then
      let collectibleBody :=
        if userDataA = playerUserData then contact.fixtureB.body else contact.fixtureA.body
      { l2 with collectiblesToRemove := l2.collectiblesToRemove ++ [collectibleBody] }
    else l2
  else l

/-- Method `PreSolve` (lines 103-114): the listener state is not touched; the result
tells whether the contact's friction is set to 0. -/
def PlayerContactListener.PreSolve (contact : b2Contact) : Bool :=
  let userDataA := contact.fixtureA.userData
  let userDataB := contact.fixtureB.userData
  decide (((userDataA = PLAYER1_ID ∨ userDataA = PLAYER2_ID) ∧ userDataB ≥ PLATFORM_ID_BASE) ∨
          ((userDataB = PLAYER1_ID ∨ userDataB = PLAYER2_ID) ∧ userDataA ≥ PLATFORM_ID_BASE))

/-- Method `EndContact` (lines 116-140). The test `footContactsMap[id] > 0` goes
through `operator[]`, which inserts a 0 entry for an absent key. -/
def PlayerContactListener.EndContact (l : PlayerContactListener) (contact : b2Contact) :
    PlayerContactListener :=
  let userDataA := contact.fixtureA.userData
  let userDataB := contact.fixtureB.userData
  let l1 : PlayerContactListener :=
    if (userDataA = FOOT_SENSOR_ID ∧ userDataB ≥ PLATFORM_ID_BASE) ∨
       (userDataB = FOOT_SENSOR_ID ∧ userDataA ≥ PLATFORM_ID_BASE) then
      let footSensorOwnerId := if userDataA = FOOT_SENSOR_ID then userDataB else userDataA
      if footSensorOwnerId = PLAYER1_ID ∨ footSensorOwnerId = PLAYER2_ID then
        let touched := mapTouch l.footContactsMap footSensorOwnerId 0
        let count := mapAt touched footSensorOwnerId 0
        if count > 0 then
          { l with footContactsMap := mapSet touched footSensorOwnerId (count - 1) }
        else { l with footContactsMap := touched }
      else l
    else l
  if ((userDataA = PLAYER1_ID ∨ userDataA = PLAYER2_ID) ∧ userDataB = GROUND_ID) ∨
     ((userDataB = PLAYER1_ID ∨ userDataB = PLAYER2_ID) ∧ userDataA = GROUND_ID) then
    let playerUserData := if userDataA = GROUND_ID then userDataB else userDataA
    if playerUserData = PLAYER1_ID ∨ playerUserData = PLAYER2_ID then
      { l1 with touchedGroundMap := mapSet l1.touchedGroundMap playerUserData false }
    else l1
  else l1

/-- Method `isGrounded` (lines 142-145). -/
def PlayerContactListener.isGrounded (l : PlayerContactListener) (playerId : Nat) : Bool :=
  match l.footContactsMap playerId with
  | some v => decide (v > 0)
  | none => false

/-- Method `hasTouchedGround` (lines 147-150). -/
def PlayerContactListener.hasTouchedGround (l : PlayerContactListener) (playerId : Nat) : Bool :=
  match l.touchedGroundMap playerId with
  | some v => v
  | none => false

/-- Method `reset` (lines 152-156). -/
def PlayerContactListener.reset (_l : PlayerContactListener) : PlayerContactListener :=
  { footContactsMap := fun _ => none
    touchedGroundMap := fun _ => none
    collectiblesToRemove := [] }

/-- The foot-contact counter of a player; a player with no map entry counts
as 0. -/
def PlayerContactListener.footContacts (l : PlayerContactListener) (playerId : Nat) : Int :=
  mapAt l.footContactsMap playerId 0

/-- The calls the rest of the program makes on the listener: the two contact
callbacks that change it, and `reset`. -/
inductive ListenerCall where
  | BeginContact (contact : b2Contact)
  | EndContact (contact : b2Contact)
  | reset

/-- One call on the listener. -/
def PlayerContactListener.call (l : PlayerContactListener) : ListenerCall → PlayerContactListener
  | .BeginContact contact => l.BeginContact contact
  | .EndContact contact => l.EndContact contact
  | .reset => l.reset

/-- A sequence of calls, in order. -/
def PlayerContactListener.calls (l : PlayerContactListener) (cs : List ListenerCall) :
    PlayerContactListener :=
  cs.foldl PlayerContactListener.call l

/-- The callbacks Box2D makes on the listener. -/
inductive ContactCallback where
  | BeginContact (contact : b2Contact)
  | PreSolve (contact : b2Contact)
  | EndContact (contact : b2Contact)
deriving DecidableEq, Repr

/-- One callback; `PreSolve` writes no member of the listener. -/
def PlayerContactListener.callback (l : PlayerContactListener) :
    ContactCallback → PlayerContactListener
  | .BeginContact contact => l.BeginContact contact
  | .PreSolve _ => l
  | .EndContact contact => l.EndContact contact

/-- A sequence of callbacks, in order. -/
def PlayerContactListener.callbacks (l : PlayerContactListener) (cs : List ContactCallback) :
    PlayerContactListener :=
  cs.foldl PlayerContactListener.callback l

/-- The tag is one of the two main-body tags. -/
abbrev isPlayerTag (tag : Nat) : Prop := tag = PLAYER1_ID ∨ tag = PLAYER2_ID

/-- The tag is one of the six collectible tags. -/
abbrev isCollectibleTag (tag : Nat) : Prop :=
  tag = MAGENTA_COLLECTIBLE_ID ∨ tag = ORANGE_COLLECTIBLE_ID ∨ tag = GREEN_COLLECTIBLE_ID ∨
  tag = RED_COLLECTIBLE_ID ∨ tag = WHITE_COLLECTIBLE_ID ∨ tag = MINUS_SCORE_COLLECTIBLE_ID

/-- The contact joins the main body of player `p` and the ground, in either
fixture order. -/
abbrev isGroundContactOf (p : Nat) (contact : b2Contact) : Prop :=
  (contact.fixtureA.userData = p ∧ contact.fixtureB.userData = GROUND_ID) ∨
  (contact.fixtureB.userData = p ∧ contact.fixtureA.userData = GROUND_ID)

/-! ## Constants and helpers (lines 15-28, 209-241) -/

def PIXELS_PER_METER : ℚ := 50
def METERS_PER_PIXEL : ℚ := 1 / PIXELS_PER_METER

/-- Function `toMeters` (lines 18-20). -/
def toMeters (pixels : ℚ × ℚ) : ℚ × ℚ :=
  (pixels.1 * METERS_PER_PIXEL, pixels.2 * METERS_PER_PIXEL)

/-- Function `toPixels` (lines 22-24). -/
def toPixels (meters : ℚ × ℚ) : ℚ × ℚ :=
  (meters.1 * PIXELS_PER_METER, meters.2 * PIXELS_PER_METER)

/-! ## Binary32 rounding

The arithmetic of `float` where a result is compared with a generator value or
stated exactly: every operation is the exact one followed by rounding to the
nearest binary32 value, ties to the even significand. Overflow to infinity is
not modelled; the values here are far below `2 ^ 128`. -/

/-- The integer nearest to `z`, the even one of the two when `z` lies halfway. -/
def roundNearestEven (z : ℚ) : ℤ :=
  if z - ⌊z⌋ < 1 / 2 then ⌊z⌋
  else if 1 / 2 < z - ⌊z⌋ then ⌊z⌋ + 1
  else if ⌊z⌋ % 2 = 0 then ⌊z⌋ else ⌊z⌋ + 1

/-- The exponent of the spacing of the binary32 values around a positive `q`:
24 significant bits, hence `⌊log₂ q⌋ - 23`, and `-149` in the subnormal
range. -/
def ulpExponent (q : ℚ) : ℤ := max (Int.log 2 q - 23) (-149)

/-- The binary32 value nearest to a non-negative `q`. -/
def roundMagnitude (q : ℚ) : ℚ :=
  roundNearestEven (q / 2 ^ ulpExponent q) * 2 ^ ulpExponent q

/-- The binary32 value nearest to `q`, ties to even. -/
def roundF32 (q : ℚ) : ℚ :=
  if q < 0 then - roundMagnitude (-q) else roundMagnitude q

/-- Function `lerp` (lines 26-28): `a + t * (b - a)` on `float`, each of the
three operations rounded to binary32. -/
def lerp (a b t : ℚ) : ℚ := roundF32 (a + roundF32 (t * roundF32 (b - a)))

def windowWidth : ℚ := 1200
def windowHeight : ℚ := 700
def fixedHeight : ℚ := 20
def baseMinLength : ℚ := 100
def baseMaxLength : ℚ := 300
def blockSpeedIncreaseFactor : ℚ := 5
def maxBlockSpeed : ℚ := 600
/-- The literal `0.8f`. -/
def minSpawnTimeBase : ℚ := 13421773 / 16777216
def maxSpawnTimeBase : ℚ := 15 / 10
def playerWidth : ℚ := 40
def playerHeight : ℚ := 60
def playerJumpForce : ℚ := 700
def maxJumps : Int := 10
def collectibleRadius : ℚ := 25
def collectibleSpawnChance : ℚ := 45 / 100
/-- The literal `0.35f`. -/
def magentaCollectibleProb : ℚ := 11744051 / 33554432
/-- The literal `0.20f`. -/
def orangeCollectibleProb : ℚ := 13421773 / 67108864
def greenCollectibleProb : ℚ := 125 / 1000
def redCollectibleProb : ℚ := 125 / 1000
/-- The literal `0.05f`. -/
def whiteCollectibleProb : ℚ := 13421773 / 268435456
/-- The literal `0.15f`. -/
def minusScoreCollectibleProb : ℚ := 5033165 / 33554432
def platformEffectDuration : ℚ := 10
def lengthenFactor : ℚ := 2
def shortenFactor : ℚ := 1 / 2
def magentaRainDuration : ℚ := 10
def magentaRainSpawnInterval : ℚ := 25 / 100
def magentaRainSpeed : ℚ := 300
def fastFallGravityScale : ℚ := 100

/-! ## Entities (lines 31-33, 201-204) -/

inductive CollectibleType where
  | Magenta | Orange | Green | Red | White | MinusScore
deriving DecidableEq, Repr

inductive PlatformEffect where
  | None | Lengthen | Shorten
deriving DecidableEq, Repr

inductive GameState where
  | StartScreen | PlayingSingle | PlayingMulti | GameOver
deriving DecidableEq, Repr

/-- The three fill colours a block gets (lines 243-245). -/
inductive BlockColor where
  | defaultBlockColor | greenBlockColor | redBlockColor
deriving DecidableEq, Repr

/-- An `sf::FloatRect`. -/
structure FloatRect where
  left : ℚ
  top : ℚ
  width : ℚ
  height : ℚ
deriving DecidableEq, Repr

/-- SFML's `sf::Rect<T>::intersects` (library code): the two rectangles,
normalised for negative sizes, share a region of non-zero area. -/
def FloatRect.intersects (r1 r2 : FloatRect) : Bool :=
  let r1MinX := min r1.left (r1.left + r1.width)
  let r1MaxX := max r1.left (r1.left + r1.width)
  let r1MinY := min r1.top (r1.top + r1.height)
  let r1MaxY := max r1.top (r1.top + r1.height)
  let r2MinX := min r2.left (r2.left + r2.width)
  let r2MaxX := max r2.left (r2.left + r2.width)
  let r2MinY := min r2.top (r2.top + r2.height)
  let r2MaxY := max r2.top (r2.top + r2.height)
  let interLeft := max r1MinX r2MinX
  let interTop := max r1MinY r2MinY
  let interRight := min r1MaxX r2MaxX
  let interBottom := min r1MaxY r2MaxY
  decide (interLeft < interRight ∧ interTop < interBottom)

/-- What the program sets on the `sf::RectangleShape` of a block. -/
structure RectangleShape where
  size : ℚ × ℚ
  origin : ℚ × ℚ
  position : ℚ × ℚ
  outlineThickness : ℚ
  fillColor : BlockColor
deriving DecidableEq, Repr

/-- SFML's `getGlobalBounds` of an unrotated, unscaled rectangle shape
(library code): the local rectangle grown by the outline thickness on every
side, moved to `position - origin`. The spawn code takes this function as a
parameter; this instance is used to evaluate concrete scenes. -/
def sfGlobalBounds (shape : RectangleShape) : FloatRect :=
  { left := shape.position.1 - shape.origin.1 - shape.outlineThickness
    top := shape.position.2 - shape.origin.2 - shape.outlineThickness
    width := shape.size.1 + 2 * shape.outlineThickness
    height := shape.size.2 + 2 * shape.outlineThickness }

/-- The `struct Block` (line 31); the decorative `line` shape is render-only and
left out. -/
structure Block where
  shape : RectangleShape
  body : Option b2Body
  markedForRemoval : Bool
  id : Nat
deriving DecidableEq, Repr

/-- The `struct Collectible` (line 33); of the sprite only the position is kept. -/
structure Collectible where
  spritePosition : ℚ × ℚ
  type : CollectibleType
  body : Option b2Body
  markedForRemoval : Bool
deriving DecidableEq, Repr

/-! ## The physics world as the program drives it -/

inductive b2BodyType where
  | b2_staticBody | b2_kinematicBody | b2_dynamicBody
deriving DecidableEq, Repr

/-- The calls the program makes on the `b2World` and its bodies. -/
inductive b2Call where
  | CreateBody (body : b2Body) (type : b2BodyType) (position : ℚ × ℚ)
  | CreateFixture (body : b2Body) (userData : Nat) (isSensor : Bool)
  | DestroyBody (body : b2Body)
  | ApplyLinearImpulseToCenter (body : b2Body) (impulse : ℚ × ℚ)
  | SetLinearVelocity (body : b2Body) (velocity : ℚ × ℚ)
  | SetGravityScale (body : b2Body) (scale : ℚ)
  | Step (timeStep : ℚ)
deriving DecidableEq, Repr

/-- The world is an external collaborator: the model keeps the ordered record
of the calls made on it and the handle the next `CreateBody` returns. -/
structure b2World where
  nextBody : b2Body
  calls : List b2Call
deriving DecidableEq, Repr

/-- The call `world.CreateBody`: a fresh handle is returned. -/
def b2World.CreateBody (w : b2World) (type : b2BodyType) (position : ℚ × ℚ) :
    b2World × b2Body :=
  ({ nextBody := w.nextBody + 1
     calls := w.calls ++ [b2Call.CreateBody w.nextBody type position] }, w.nextBody)

/-- Any other call on the world or on one of its bodies. -/
def b2World.call (w : b2World) (c : b2Call) : b2World :=
  { w with calls := w.calls ++ [c] }

/-- An `sf::Clock`: the instant of its last restart, in microseconds. -/
structure Clock where
  m_startTime : Int
deriving DecidableEq, Repr

/-- The value `clock.getElapsedTime().asSeconds()` read at instant `now`. -/
def Clock.elapsedSeconds (c : Clock) (now : Int) : ℚ :=
  ((now - c.m_startTime : Int) : ℚ) / 1000000

/-- The call `clock.restart()` executed at instant `now`. -/
def Clock.restart (_c : Clock) (now : Int) : Clock :=
  { m_startTime := now }

/-- Function `loadHighScore` (lines 182-190); the argument is the number stored in the
file, `none` when the file cannot be opened. -/
def loadHighScore (file : Option Int) : Int :=
  match file with
  | some highscore => highscore
  | none => 0

/-! ## The variables of `main` (lines 209-381) -/

structure Game where
  windowOpen : Bool
  highScoreFile : Option Int
  world : b2World
  contactListener : PlayerContactListener
  minLength : ℚ
  maxLength : ℚ
  blockSpeed : ℚ
  minSpawnTime : ℚ
  maxSpawnTime : ℚ
  playerBody : Option b2Body
  jumpsRemaining : Int
  fastFallActive : Bool
  player1Alive : Bool
  player2Body : Option b2Body
  jumpsRemaining2 : Int
  fastFallActive2 : Bool
  player2Alive : Bool
  winner : Int
  blocks : List Block
  collectibles : List Collectible
  nextPlatformId : Nat
  currentState : GameState
  spawnClock : Clock
  nextSpawnTime : ℚ
  deltaClock : Clock
  gameTime : ℚ
  score : Int
  highScore : Int
  currentPlatformEffect : PlatformEffect
  platformEffectClock : Clock
  isRainingMagenta : Bool
  magentaRainClock : Clock
  magentaRainSpawnClock : Clock

/-- The vector `collectiblesToRemoveFromWorld` of `main`, which the listener
holds by reference. -/
def Game.collectiblesToRemoveFromWorld (g : Game) : List b2Body :=
  g.contactListener.collectiblesToRemove

/-- The state of `main` when the frame loop is entered (lines 209-381), for a
program started at instant `now` with the given high-score file. The world
holds the ground body (handle 0) and the ceiling body (handle 1). -/
def Game.start (highScoreFile : Option Int) (now : Int) : Game :=
  let w0 : b2World := { nextBody := 0, calls := [] }
  let g := w0.CreateBody .b2_staticBody (toMeters (windowWidth / 2, windowHeight + 50))
  let w1 := g.1.call (.CreateFixture g.2 GROUND_ID false)
  let c := w1.CreateBody .b2_staticBody (toMeters (windowWidth / 2, -10))
  let w2 := c.1.call (.CreateFixture c.2 CEILING_ID false)
  { windowOpen := true
    highScoreFile := highScoreFile
    world := w2
    contactListener := PlayerContactListener.new []
    minLength := baseMinLength
    maxLength := baseMaxLength
    blockSpeed := 200
    minSpawnTime := 25 / 10
    maxSpawnTime := 35 / 10
    playerBody := none
    jumpsRemaining := maxJumps
    fastFallActive := false
    player1Alive := true
    player2Body := none
    jumpsRemaining2 := maxJumps
    fastFallActive2 := false
    player2Alive := true
    winner := 0
    blocks := []
    collectibles := []
    nextPlatformId := PLATFORM_ID_BASE
    currentState := .StartScreen
    spawnClock := { m_startTime := now }
    nextSpawnTime := 0
    deltaClock := { m_startTime := now }
    gameTime := 0
    score := 0
    highScore := loadHighScore highScoreFile
    currentPlatformEffect := .None
    platformEffectClock := { m_startTime := now }
    isRainingMagenta := false
    magentaRainClock := { m_startTime := now }
    magentaRainSpawnClock := { m_startTime := now } }

/-! ## Event handling (lines 422-626) -/

inductive Key where
  | W | S | Up | Down | Space | Other
deriving DecidableEq, Repr

/-- An `sf::Event` as the program reads it. For a mouse press the event
carries whether the button is the left one and whether the mapped position
lies in the bounds of the two menu texts. -/
inductive Event where
  | Closed
  | MouseButtonPressed (left : Bool) (onSinglePlayerText : Bool) (onMultiPlayerText : Bool)
  | KeyPressed (code : Key)
  | KeyReleased (code : Key)
  | Other
deriving DecidableEq, Repr

/-- Creation of a player body with its box fixture and its foot sensor
(lines 451-475, 501-525, 532-556). -/
def createPlayer (w : b2World) (position : ℚ × ℚ) (playerId : Nat) : b2World × b2Body :=
  let created := w.CreateBody .b2_dynamicBody (toMeters position)
  let w1 := created.1.call (.CreateFixture created.2 playerId false)
  let w2 := w1.call (.CreateFixture created.2 FOOT_SENSOR_ID true)
  (w2, created.2)

/-- The jump statement (lines 568-572, 585-589, 594-598) on a player's body
pointer and jump counter; `GetMass` is Box2D's `b2Body::GetMass`. -/
def jump (GetMass : b2Body → ℚ) (w : b2World) (body : Option b2Body) (jumps : Int) :
    b2World × Int :=
  match body with
  | some b =>
    if jumps > 0 then
      let impulseMagnitude := playerJumpForce * METERS_PER_PIXEL * GetMass b
      (w.call (.ApplyLinearImpulseToCenter b (0, -impulseMagnitude)), jumps - 1)
    else (w, jumps)
  | none => (w, jumps)

/-- Selection of single-player mode (lines 432-480), executed at `now`. -/
def startSingle (now : Int) (g : Game) : Game :=
  let p1 := createPlayer g.world (windowWidth / 4, windowHeight - 200) PLAYER1_ID
  { g with
    currentState := .PlayingSingle
    score := 0
    highScore := loadHighScore g.highScoreFile
    blocks := []
    collectibles := []
    contactListener := g.contactListener.reset
    gameTime := 0
    blockSpeed := 200
    minLength := baseMinLength
    maxLength := baseMaxLength
    minSpawnTime := 25 / 10
    maxSpawnTime := 35 / 10
    currentPlatformEffect := .None
    isRainingMagenta := false
    spawnClock := g.spawnClock.restart now
    deltaClock := g.deltaClock.restart now
    world := p1.1
    playerBody := some p1.2
    jumpsRemaining := maxJumps
    fastFallActive := false
    player1Alive := true }

/-- Selection of multiplayer mode (lines 483-561), executed at `now`. -/
def startMulti (now : Int) (g : Game) : Game :=
  let p1 := createPlayer g.world (windowWidth / 4, windowHeight - 200) PLAYER1_ID
  let p2 := createPlayer p1.1 (windowWidth / 4 - 100, windowHeight - 200) PLAYER2_ID
  { g with
    currentState := .PlayingMulti
    blocks := []
    collectibles := []
    contactListener := g.contactListener.reset
    gameTime := 0
    blockSpeed := 200
    minLength := baseMinLength
    maxLength := baseMaxLength
    minSpawnTime := 25 / 10
    maxSpawnTime := 35 / 10
    currentPlatformEffect := .None
    isRainingMagenta := false
    spawnClock := g.spawnClock.restart now
    deltaClock := g.deltaClock.restart now
    winner := 0
    world := p2.1
    playerBody := some p1.2
    jumpsRemaining := maxJumps
    fastFallActive := false
    player1Alive := true
    player2Body := some p2.2
    jumpsRemaining2 := maxJumps
    fastFallActive2 := false
    player2Alive := true }

/-- Player 1's jump key (lines 568-572 and 585-589). -/
def jumpPlayer1 (GetMass : b2Body → ℚ) (g : Game) : Game :=
  let r := jump GetMass g.world g.playerBody g.jumpsRemaining
  { g with world := r.1, jumpsRemaining := r.2 }

/-- Player 2's jump key (lines 594-598). -/
def jumpPlayer2 (GetMass : b2Body → ℚ) (g : Game) : Game :=
  let r := jump GetMass g.world g.player2Body g.jumpsRemaining2
  { g with world := r.1, jumpsRemaining2 := r.2 }

/-- The body of the event loop (lines 424-625) for one polled event,
executed at instant `now`. -/
def handleEvent (GetMass : b2Body → ℚ) (now : Int) (g0 : Game) (event : Event) : Game :=
  let g : Game := if event = .Closed then { g0 with windowOpen := false } else g0
  match g.currentState with
  | .StartScreen =>
    match event with
    | .MouseButtonPressed true onSinglePlayerText onMultiPlayerText =>
      if onSinglePlayerText then startSingle now g
      else if onMultiPlayerText then startMulti now g
      else g
    | _ => g
  | .PlayingSingle =>
    match event with
    | .KeyPressed code =>
      if code = .W then jumpPlayer1 GetMass g
      else if code = .S then { g with fastFallActive := true }
      else g
    | .KeyReleased code =>
      if code = .S then { g with fastFallActive := false } else g
    | _ => g
  | .PlayingMulti =>
    match event with
    | .KeyPressed code =>
      let g1 : Game :=
        if code = .W then jumpPlayer1 GetMass g
        else if code = .S then { g with fastFallActive := true }
        else g
      if code = .Up then jumpPlayer2 GetMass g1
      else if code = .Down then { g1 with fastFallActive2 := true }
      else g1
    | .KeyReleased code =>
      let g1 : Game := if code = .S then { g with fastFallActive := false } else g
      if code = .Down then { g1 with fastFallActive2 := false } else g1
    | _ => g
  | .GameOver =>
    match event with
    | .KeyPressed .Space =>
      { g with
        currentState := .StartScreen
        playerBody := none
        player2Body := none
        blocks := []
        collectibles := []
        contactListener := g.contactListener.reset }
    | _ => g

/-! ## Per-frame game logic (lines 628-1095), by fragment -/

/-- The `switch` on the collectible type (lines 686-693), executed at `now`.
The pickup sound is an audio signal and is not part of the state. -/
def collect (now : Int) (g : Game) (type : CollectibleType) : Game :=
  match type with
  | .Magenta => { g with score := g.score + 1 }
  | .Orange => { g with score := g.score + 3 }
  | .Green =>
    { g with currentPlatformEffect := .Lengthen
             platformEffectClock := g.platformEffectClock.restart now }
  | .Red =>
    { g with currentPlatformEffect := .Shorten
             platformEffectClock := g.platformEffectClock.restart now }
  | .White =>
    { g with isRainingMagenta := true
             magentaRainClock := g.magentaRainClock.restart now
             magentaRainSpawnClock := g.magentaRainSpawnClock.restart now }
  | .MinusScore => { g with score := max 0 (g.score - 2) }

/-- The inner loop (lines 684-697 and 702-707): the first collectible whose
body is `bodyToRemove` is marked for removal; its type is returned. -/
def markCollected (bodyToRemove : b2Body) :
    List Collectible → Option (CollectibleType × List Collectible)
  | [] => none
  | c :: cs =>
    if c.body = some bodyToRemove then
      some (c.type, { c with markedForRemoval := true } :: cs)
    else
      match markCollected bodyToRemove cs with
      | some r => some (r.1, c :: r.2)
      | none => none

/-- One iteration of the outer loop in single-player mode (lines 683-698). -/
def resolveSingle (now : Int) (g : Game) (bodyToRemove : b2Body) : Game :=
  match markCollected bodyToRemove g.collectibles with
  | some r => { collect now g r.1 with collectibles := r.2 }
  | none => g

/-- One iteration of the outer loop in the other mode (lines 701-708). -/
def resolveMulti (g : Game) (bodyToRemove : b2Body) : Game :=
  match markCollected bodyToRemove g.collectibles with
  | some r => { g with collectibles := r.2 }
  | none => g

/-- Resolution of the removal queue (lines 682-710), executed at `now`. -/
def processCollected (now : Int) (g : Game) : Game :=
  let g1 : Game :=
    if g.currentState = .PlayingSingle then
      g.collectiblesToRemoveFromWorld.foldl (resolveSingle now) g
    else
      g.collectiblesToRemoveFromWorld.foldl resolveMulti g
  { g1 with contactListener := { g1.contactListener with collectiblesToRemove := [] } }

/-- The statements of the per-tick player logic that write the jump counters
(lines 734-737, 786-788, 827-829): a grounded player gets `maxJumps` back. -/
def refillJumps (g : Game) : Game :=
  match g.currentState with
  | .PlayingSingle =>
    if g.playerBody.isSome ∧ g.contactListener.isGrounded PLAYER1_ID = true then
      { g with jumpsRemaining := maxJumps }
    else g
  | .PlayingMulti =>
    let g1 : Game :=
      if (g.player1Alive = true ∧ g.playerBody.isSome) ∧
          g.contactListener.isGrounded PLAYER1_ID = true then
        { g with jumpsRemaining := maxJumps }
      else g
    if (g1.player2Alive = true ∧ g1.player2Body.isSome) ∧
        g1.contactListener.isGrounded PLAYER2_ID = true then
      { g1 with jumpsRemaining2 := maxJumps }
    else g1
  | _ => g

/-- The length bounds and colour of the next block (lines 929-943). -/
structure LengthBounds where
  currentMinLength : ℚ
  currentMaxLength : ℚ
  currentBlockColor : BlockColor
deriving DecidableEq, Repr

/-- Lines 929-943. -/
def currentLengthBounds (g : Game) : LengthBounds :=
  if g.currentState = .PlayingSingle then
    if g.currentPlatformEffect = .Lengthen then
      { currentMinLength := baseMinLength * lengthenFactor
        currentMaxLength := baseMaxLength * lengthenFactor
        currentBlockColor := .greenBlockColor }
    else if g.currentPlatformEffect = .Shorten then
      { currentMinLength := baseMinLength * shortenFactor
        currentMaxLength := baseMaxLength * shortenFactor
        currentBlockColor := .redBlockColor }
    else
      { currentMinLength := baseMinLength
        currentMaxLength := baseMaxLength
        currentBlockColor := .defaultBlockColor }
  else
    { currentMinLength := baseMinLength
      currentMaxLength := baseMaxLength
      currentBlockColor := .defaultBlockColor }

/-- A draw of `std::uniform_real_distribution<float>(a, b)`: the generator's
canonical value `u` in `[0, 1)` mapped affinely onto `[a, b)`. -/
def uniformReal (a b u : ℚ) : ℚ := a + u * (b - a)

/-- The canonical values the generator yields during one spawn attempt, in
the order the distributions are sampled. -/
structure SpawnDraws where
  blockLength : ℚ
  spawnY : ℚ
  collectibleRoll : ℚ
  typeRoll : ℚ
  nextSpawnTime : ℚ
deriving DecidableEq, Repr

/-- The type and fixture tag chosen for a type roll (lines 1013-1037). The
sums of the weights are `float` sums, added from the left, each rounded to
binary32. -/
def chooseType (typeRoll : ℚ) : CollectibleType × Nat :=
  if typeRoll < magentaCollectibleProb then (.Magenta, MAGENTA_COLLECTIBLE_ID)
  else if typeRoll < roundF32 (magentaCollectibleProb + orangeCollectibleProb) then
    (.Orange, ORANGE_COLLECTIBLE_ID)
  else if typeRoll <
      roundF32 (roundF32 (magentaCollectibleProb + orangeCollectibleProb)
        + greenCollectibleProb) then
    (.Green, GREEN_COLLECTIBLE_ID)
  else if typeRoll <
      roundF32 (roundF32 (roundF32 (magentaCollectibleProb + orangeCollectibleProb)
        + greenCollectibleProb) + redCollectibleProb) then
    (.Red, RED_COLLECTIBLE_ID)
  else if typeRoll <
      roundF32 (roundF32 (roundF32 (roundF32 (magentaCollectibleProb + orangeCollectibleProb)
        + greenCollectibleProb) + redCollectibleProb) + whiteCollectibleProb) then
    (.White, WHITE_COLLECTIBLE_ID)
  else (.MinusScore, MINUS_SCORE_COLLECTIBLE_ID)

/-- The candidate block of a spawn attempt (lines 949-972): its shape, the
body just created for it and the id taken from `nextPlatformId`. -/
def newBlock (d : SpawnDraws) (g : Game) : Block :=
  let bounds := currentLengthBounds g
  let blockLength := uniformReal bounds.currentMinLength bounds.currentMaxLength d.blockLength
  let spawnY := uniformReal (windowHeight - 450) (windowHeight - 150) d.spawnY
  { shape :=
      { size := (blockLength, fixedHeight)
        fillColor := bounds.currentBlockColor
        outlineThickness := 25 / 10
        origin := (blockLength / 2, fixedHeight / 2)
        position := (windowWidth + blockLength / 2, spawnY) }
    body := some g.world.nextBody
    markedForRemoval := false
    id := g.nextPlatformId }

/-- The rectangle tested against the live blocks (lines 986-988). -/
def candidateBounds (getGlobalBounds : RectangleShape → FloatRect) (b : Block) : FloatRect :=
  let r := getGlobalBounds b.shape
  { r with left := r.left - 50, width := r.width + 100 }

/-- The overlap loop (lines 985-995). -/
def visualOverlap (getGlobalBounds : RectangleShape → FloatRect) (blocks : List Block)
    (candidate : Block) : Bool :=
  blocks.any fun block =>
    !block.markedForRemoval && block.body.isSome &&
      (candidateBounds getGlobalBounds candidate).intersects (getGlobalBounds block.shape)

/-- Block spawning (lines 948-1076), executed at `now` with the generator
output `d`; `getGlobalBounds` is SFML's `sf::Shape::getGlobalBounds`. -/
def spawnBlock (getGlobalBounds : RectangleShape → FloatRect) (now : Int) (d : SpawnDraws)
    (g : Game) : Game :=
  if g.spawnClock.elapsedSeconds now ≥ g.nextSpawnTime then
    let candidate := newBlock d g
    let spawnPos := candidate.shape.position
    let created := g.world.CreateBody .b2_kinematicBody (toMeters spawnPos)
    let w1 := created.1.call (.CreateFixture created.2 candidate.id false)
    let velocity : ℚ × ℚ := ((toMeters (-g.blockSpeed, 0)).1, 0)
    let w2 := w1.call (.SetLinearVelocity created.2 velocity)
    let g1 : Game := { g with nextPlatformId := (g.nextPlatformId + 1) % 2 ^ 64 }
    let g2 : Game :=
      if !visualOverlap getGlobalBounds g.blocks candidate then
        let g3 : Game := { g1 with world := w2, blocks := g.blocks ++ [candidate] }
        if g.currentState = .PlayingSingle ∧ d.collectibleRoll < collectibleSpawnChance then
          let collectiblePos : ℚ × ℚ :=
            (spawnPos.1, spawnPos.2 - (fixedHeight / 2 + collectibleRadius + 5))
          let chosen := chooseType d.typeRoll
          let cb := w2.CreateBody .b2_kinematicBody (toMeters collectiblePos)
          let w3 := cb.1.call (.CreateFixture cb.2 chosen.2 true)
          let w4 := w3.call (.SetLinearVelocity cb.2 velocity)
          let newCollectible : Collectible :=
            { spritePosition := collectiblePos, type := chosen.1, body := some cb.2
              markedForRemoval := false }
          { g3 with world := w4, collectibles := g.collectibles ++ [newCollectible] }
        else g3
      else { g1 with world := w2.call (.DestroyBody created.2) }
    { g2 with
      spawnClock := g.spawnClock.restart now
      nextSpawnTime := uniformReal g.minSpawnTime g.maxSpawnTime d.nextSpawnTime }
  else g

/-- The local `speedRatio` of the speed ramp (line 1083),
`(blockSpeed - 200.f) / (maxBlockSpeed - 200.f)`, each of the three operations
rounded to binary32. -/
def speedRatio (blockSpeed : ℚ) : ℚ :=
  roundF32 (roundF32 (blockSpeed - 200) / roundF32 (maxBlockSpeed - 200))

/-- The speed ramp (lines 1079-1086) for a frame of duration `dt`. -/
def speedRamp (dt : ℚ) (g : Game) : Game :=
  if g.blockSpeed < maxBlockSpeed then
    let blockSpeed := min (g.blockSpeed + blockSpeedIncreaseFactor * dt) maxBlockSpeed
    { g with
      blockSpeed := blockSpeed
      minSpawnTime := lerp (25 / 10) minSpawnTimeBase (speedRatio blockSpeed)
      maxSpawnTime := lerp (35 / 10) maxSpawnTimeBase (speedRatio blockSpeed) }
  else g

/-! ## The rest of the frame (lines 628-925) -/

/-- Function `saveHighScore` (lines 192-198) on the stored number; `writable`
tells whether the file can be opened for writing. -/
def saveHighScore (writable : Bool) (file : Option Int) (highscore : Int) : Option Int :=
  if writable then some highscore else file

/-- The text shown after a multiplayer game (lines 872-875). -/
def winMessage (winner : Int) : String :=
  if winner = 1 then "Player 1 Wins!"
  else if winner = 2 then "Player 2 Wins!"
  else "Tie!"

/-- The call `world.DestroyBody(body)` as the session sees it: the call is
recorded, and Box2D (`b2ContactManager::Destroy`) reports to the listener the
end of every touching contact of the body; `ended body` lists them. -/
def destroyBody (ended : b2Body → List b2Contact) (g : Game) (body : b2Body) : Game :=
  { g with
    world := g.world.call (.DestroyBody body)
    contactListener := (ended body).foldl PlayerContactListener.EndContact g.contactListener }

/-- The gravity-scale statement (lines 637-641, 743-747, 794-798 for player 1,
lines 644-648, 835-839 for player 2) for an existing body. -/
def setGravityScale (g : Game) (body : b2Body) (fastFall : Bool) (playerId : Nat) : Game :=
  if fastFall = true ∧ g.contactListener.isGrounded playerId = false then
    { g with world := g.world.call (.SetGravityScale body fastFallGravityScale) }
  else
    { g with world := g.world.call (.SetGravityScale body 1) }

/-- The gravity scale of both players at the start of a playing frame
(lines 635-649). -/
def applyGravityScale (g : Game) : Game :=
  let g1 : Game :=
    match g.playerBody with
    | some body => setGravityScale g body g.fastFallActive PLAYER1_ID
    | none => g
  match g1.player2Body with
  | some body => setGravityScale g1 body g1.fastFallActive2 PLAYER2_ID
  | none => g1

/-- The call `world.Step(dt, 8, 3)` (line 651): the call is recorded and the
listener receives the callbacks Box2D makes during the step. -/
def worldStep (dt : ℚ) (callbacks : List ContactCallback) (g : Game) : Game :=
  { g with
    world := g.world.call (.Step dt)
    contactListener := g.contactListener.callbacks callbacks }

/-- One block of the loop of lines 658-666; `GetPosition` is the position of
a body after the step. -/
def syncBlock (GetPosition : b2Body → ℚ × ℚ) (block : Block) : Block :=
  match block.body with
  | some body =>
    let position := toPixels (GetPosition body)
    { block with
      shape := { block.shape with position := position }
      markedForRemoval :=
        block.markedForRemoval || decide (position.1 < -block.shape.size.1 / 2) }
  | none => block

/-- One collectible of the loop of lines 670-677. The sprite is scaled to the
diameter `2 * collectibleRadius`, which is the width and the height of its
global bounds. -/
def syncCollectible (GetPosition : b2Body → ℚ × ℚ) (c : Collectible) : Collectible :=
  match c.body with
  | some body =>
    let position := toPixels (GetPosition body)
    { c with
      spritePosition := position
      markedForRemoval :=
        c.markedForRemoval ||
          decide (position.1 < -(2 * collectibleRadius) / 2 ∨
            position.2 > windowHeight + (2 * collectibleRadius) / 2) }
  | none => c

/-- Lines 654-678: positions are read back from the world and entities that
left the screen are marked (collectibles in single-player mode only). -/
def syncEntities (GetPosition : b2Body → ℚ × ℚ) (g : Game) : Game :=
  let g1 : Game := { g with blocks := g.blocks.map (syncBlock GetPosition) }
  if g1.currentState = .PlayingSingle then
    { g1 with collectibles := g1.collectibles.map (syncCollectible GetPosition) }
  else g1

/-- Lines 714-721: every block that is marked and has a body has the body
destroyed and is erased from the list. -/
def eraseBlocks (ended : b2Body → List b2Contact) (g : Game) : Game :=
  let g1 : Game :=
    g.blocks.foldl
      (fun h block =>
        match block.body with
        | some body => if block.markedForRemoval = true then destroyBody ended h body else h
        | none => h)
      g
  { g1 with
    blocks := g.blocks.filter fun block => !(block.markedForRemoval && block.body.isSome) }

/-- Lines 723-730: the same for the collectibles. -/
def eraseCollectibles (ended : b2Body → List b2Contact) (g : Game) : Game :=
  let g1 : Game :=
    g.collectibles.foldl
      (fun h c =>
        match c.body with
        | some body => if c.markedForRemoval = true then destroyBody ended h body else h
        | none => h)
      g
  { g1 with
    collectibles := g.collectibles.filter fun c => !(c.markedForRemoval && c.body.isSome) }

/-- The death test of lines 766, 817 and 858 for a player whose body is at
`position` (in meters): the ground was touched, or the body is below the
window by more than the player's height, or left of the window by more than
the player's width. -/
def deathCondition (l : PlayerContactListener) (playerId : Nat) (position : ℚ × ℚ) : Bool :=
  l.hasTouchedGround playerId ||
    decide (position.2 > (toMeters (0, windowHeight + playerHeight)).2 ∨
      position.1 < (toMeters (-playerWidth, 0)).1)

/-- The per-frame logic of the player in single-player mode (lines 735-783).
Textures and the game-over text are render state and are left out. -/
def playerLogicSingle (GetPosition : b2Body → ℚ × ℚ) (ended : b2Body → List b2Contact)
    (writable : Bool) (g : Game) : Game :=
  match g.playerBody with
  | some body =>
    let g1 : Game :=
      if g.contactListener.isGrounded PLAYER1_ID = true then
        { g with jumpsRemaining := maxJumps }
      else g
    let g2 := setGravityScale g1 body g1.fastFallActive PLAYER1_ID
    if deathCondition g2.contactListener PLAYER1_ID (GetPosition body) = true then
      let g3 : Game := { g2 with currentState := .GameOver }
      let g4 : Game :=
        if g3.score > g3.highScore then
          { g3 with
            highScore := g3.score
            highScoreFile := saveHighScore writable g3.highScoreFile g3.score }
        else g3
      let g5 := destroyBody ended g4 body
      { g5 with playerBody := none }
    else g2
  | none => g

/-- Player 1's part of the multiplayer logic (lines 786-824). -/
def playerLogicMulti1 (GetPosition : b2Body → ℚ × ℚ) (ended : b2Body → List b2Contact)
    (g : Game) : Game :=
  match g.playerBody with
  | some body =>
    if g.player1Alive = true then
      let g1 : Game :=
        if g.contactListener.isGrounded PLAYER1_ID = true then
          { g with jumpsRemaining := maxJumps }
        else g
      let g2 := setGravityScale g1 body g1.fastFallActive PLAYER1_ID
      if deathCondition g2.contactListener PLAYER1_ID (GetPosition body) = true then
        let g3 : Game := { g2 with player1Alive := false }
        let g4 := destroyBody ended g3 body
        { g4 with playerBody := none, winner := if g4.player2Alive = true then 2 else 0 }
      else g2
    else g
  | none => g

/-- Player 2's part of the multiplayer logic (lines 827-865). -/
def playerLogicMulti2 (GetPosition : b2Body → ℚ × ℚ) (ended : b2Body → List b2Contact)
    (g : Game) : Game :=
  match g.player2Body with
  | some body =>
    if g.player2Alive = true then
      let g1 : Game :=
        if g.contactListener.isGrounded PLAYER2_ID = true then
          { g with jumpsRemaining2 := maxJumps }
        else g
      let g2 := setGravityScale g1 body g1.fastFallActive2 PLAYER2_ID
      if deathCondition g2.contactListener PLAYER2_ID (GetPosition body) = true then
        let g3 : Game := { g2 with player2Alive := false }
        let g4 := destroyBody ended g3 body
        { g4 with player2Body := none, winner := if g4.player1Alive = true then 1 else 0 }
      else g2
    else g
  | none => g

/-- The per-frame logic of the players in multiplayer mode (lines 784-882):
player 1's check, then player 2's, then the end of the session when a player
is no longer alive. -/
def playerLogicMulti (GetPosition : b2Body → ℚ × ℚ) (ended : b2Body → List b2Contact)
    (g : Game) : Game :=
  let g1 := playerLogicMulti1 GetPosition ended g
  let g2 := playerLogicMulti2 GetPosition ended g1
  if g2.player1Alive = false ∨ g2.player2Alive = false then
    { g2 with currentState := .GameOver }
  else g2

/-- Lines 734-882. -/
def playerLogic (GetPosition : b2Body → ℚ × ℚ) (ended : b2Body → List b2Contact)
    (writable : Bool) (g : Game) : Game :=
  match g.currentState with
  | .PlayingSingle => playerLogicSingle GetPosition ended writable g
  | .PlayingMulti => playerLogicMulti GetPosition ended g
  | _ => g

/-- Expiry of the platform effect (lines 886-890), read at `now`. -/
def effectExpiry (now : Int) (g : Game) : Game :=
  if g.currentPlatformEffect ≠ .None ∧
      g.platformEffectClock.elapsedSeconds now ≥ platformEffectDuration then
    { g with currentPlatformEffect := .None }
  else g

/-- The item rain (lines 891-924), read at `now`; `rainX` is the generator's
canonical value for the drop's horizontal position. -/
def magentaRain (now : Int) (rainX : ℚ) (g : Game) : Game :=
  if g.isRainingMagenta = true then
    if g.magentaRainClock.elapsedSeconds now ≥ magentaRainDuration then
      { g with isRainingMagenta := false }
    else if g.magentaRainSpawnClock.elapsedSeconds now ≥ magentaRainSpawnInterval then
      let spawnPos : ℚ × ℚ :=
        (uniformReal collectibleRadius (windowWidth - collectibleRadius) rainX,
          -collectibleRadius)
      let created := g.world.CreateBody .b2_kinematicBody (toMeters spawnPos)
      let w1 := created.1.call (.CreateFixture created.2 MAGENTA_COLLECTIBLE_ID true)
      let w2 := w1.call (.SetLinearVelocity created.2 (0, (toMeters (0, magentaRainSpeed)).2))
      let rainCollectible : Collectible :=
        { spritePosition := spawnPos, type := .Magenta, body := some created.2
          markedForRemoval := false }
      { g with
        world := w2
        collectibles := g.collectibles ++ [rainCollectible]
        magentaRainSpawnClock := g.magentaRainSpawnClock.restart now }
    else g
  else g

/-- Lines 885-925: effect expiry and item rain, in single-player mode only. -/
def effectAndRain (now : Int) (rainX : ℚ) (g : Game) : Game :=
  if g.currentState = .PlayingSingle then magentaRain now rainX (effectExpiry now g)
  else g

/-- What a frame receives from outside the program: the instant, the
callbacks of the physics step, the positions of the bodies after the step,
the contacts ended by the destruction of a body, the generator's values and
whether the high-score file can be written. -/
structure FrameInput where
  now : Int
  callbacks : List ContactCallback
  GetPosition : b2Body → ℚ × ℚ
  ended : b2Body → List b2Contact
  rainX : ℚ
  draws : SpawnDraws
  writable : Bool

/-- The time step of a playing frame (lines 628, 632). -/
def frameDt (inp : FrameInput) (g : Game) : ℚ :=
  min (g.deltaClock.elapsedSeconds inp.now) (1 / 10)

/-- A playing frame up to the point where the player logic runs
(lines 628-730): time step, gravity scale, physics step, positions read back,
removal queue resolved, marked entities erased. -/
def beforePlayerLogic (inp : FrameInput) (g : Game) : Game :=
  let g1 : Game :=
    { g with
      deltaClock := g.deltaClock.restart inp.now
      gameTime := g.gameTime + frameDt inp g }
  let g2 := applyGravityScale g1
  let g3 := worldStep (frameDt inp g) inp.callbacks g2
  let g4 := syncEntities inp.GetPosition g3
  let g5 := processCollected inp.now g4
  let g6 := eraseBlocks inp.ended g5
  eraseCollectibles inp.ended g6

/-- A playing frame up to the point where the spawn code runs (lines 628-925). -/
def beforeSpawn (inp : FrameInput) (g : Game) : Game :=
  effectAndRain inp.now inp.rainX
    (playerLogic inp.GetPosition inp.ended inp.writable (beforePlayerLogic inp g))

/-- One frame (lines 628-1095): in a playing state, the logic up to the spawn
code, the spawn attempt and the speed ramp; in the other states only the frame
clock is restarted. -/
def frame (getGlobalBounds : RectangleShape → FloatRect) (inp : FrameInput) (g : Game) :
    Game :=
  if g.currentState ≠ .PlayingSingle ∧ g.currentState ≠ .PlayingMulti then
    { g with deltaClock := g.deltaClock.restart inp.now }
  else
    speedRamp (frameDt inp g)
      (spawnBlock getGlobalBounds inp.now inp.draws (beforeSpawn inp g))

/-- A run of frames, in order. -/
def frames (getGlobalBounds : RectangleShape → FloatRect) (inps : List FrameInput)
    (g : Game) : Game :=
  inps.foldl (fun h inp => frame getGlobalBounds inp h) g

/-- The types of the collectibles consumed by the resolution of a removal
queue (lines 683-698): each queued body consumes the first list entry that
has it. -/
def collectedTypes : List b2Body → List Collectible → List CollectibleType
  | [], _ => []
  | bodyToRemove :: rest, cs =>
    match markCollected bodyToRemove cs with
    | some r => r.1 :: collectedTypes rest r.2
    | none => collectedTypes rest cs

/-- The bodies alive after a sequence of calls on the world, starting from the
bodies `live`: `CreateBody` adds its body, `DestroyBody` removes it. -/
def liveBodiesAfter (live : List b2Body) : List b2Call → List b2Body
  | [] => live
  | .CreateBody body _ _ :: rest => liveBodiesAfter (live ++ [body]) rest
  | .DestroyBody body :: rest => liveBodiesAfter (live.filter (· ≠ body)) rest
  | _ :: rest => liveBodiesAfter live rest

/-- The bodies alive in the world: created and not destroyed since. -/
def b2World.liveBodies (w : b2World) : List b2Body :=
  liveBodiesAfter [] w.calls

/-- The variables that only the event handler and the player logic write. -/
def Game.playerVars (g : Game) :
    GameState × Option b2Body × Option b2Body × Bool × Bool × Int × Int × Option Int :=
  (g.currentState, g.playerBody, g.player2Body, g.player1Alive, g.player2Alive, g.winner,
    g.highScore, g.highScoreFile)

/-- The platform effect and its clock. -/
def Game.effectVars (g : Game) : PlatformEffect × Clock :=
  (g.currentPlatformEffect, g.platformEffectClock)

/-- A playing frame up to the point where the removal queue is resolved
(lines 628-678). -/
def beforeCollected (inp : FrameInput) (g : Game) : Game :=
  let g1 : Game :=
    { g with
      deltaClock := g.deltaClock.restart inp.now
      gameTime := g.gameTime + frameDt inp g }
  let g2 := applyGravityScale g1
  let g3 := worldStep (frameDt inp g) inp.callbacks g2
  syncEntities inp.GetPosition g3

/-- The types of the collectibles consumed in a frame, in order. -/
def frameCollected (inp : FrameInput) (g : Game) : List CollectibleType :=
  collectedTypes (beforeCollected inp g).collectiblesToRemoveFromWorld
    (beforeCollected inp g).collectibles

/-- No Lengthen and no Shorten collectible is consumed in any frame of the
run that starts in `g`. -/
def noEffectPickup (getGlobalBounds : RectangleShape → FloatRect) :
    List FrameInput → Game → Prop
  | [], _ => True
  | inp :: rest, g =>
    (∀ type ∈ frameCollected inp g, type ≠ .Green ∧ type ≠ .Red) ∧
      noEffectPickup getGlobalBounds rest (frame getGlobalBounds inp g)

/-- The variable `dt` of a frame (lines 628-632): 0 outside the playing
states, the clamped frame time in them. -/
def dt (inp : FrameInput) (g : Game) : ℚ :=
  if g.currentState ≠ .PlayingSingle ∧ g.currentState ≠ .PlayingMulti then 0
  else min (g.deltaClock.elapsedSeconds inp.now) (1 / 10)

/-- The variables only the frame clock code and the spawn code write. -/
def Game.spawnVars (g : Game) : ℚ × Nat :=
  (g.gameTime, g.nextPlatformId)

/-- One turn of the body of the main loop: a polled event is handled, or the
per-frame update runs. -/
inductive LoopStep where
  | event (now : Int) (e : Event)
  | frame (inp : FrameInput)

/-- One turn of the main loop. -/
def Game.step (getGlobalBounds : RectangleShape → FloatRect) (GetMass : b2Body → ℚ)
    (g : Game) : LoopStep → Game
  | .event now e => handleEvent GetMass now g e
  | .frame inp => frame getGlobalBounds inp g

/-- A sequence of turns of the main loop, in order. -/
def Game.run (getGlobalBounds : RectangleShape → FloatRect) (GetMass : b2Body → ℚ)
    (g : Game) (steps : List LoopStep) : Game :=
  steps.foldl (Game.step getGlobalBounds GetMass) g

/-- The ids of the live platforms increase along the list, and each is at
least `PLATFORM_ID_BASE` and below the id counter. -/
def Game.platformIdsOrdered (g : Game) : Prop :=
  (g.blocks.map (·.id)).Pairwise (· < ·) ∧
  ∀ i ∈ g.blocks.map (·.id), PLATFORM_ID_BASE ≤ i ∧ i < g.nextPlatformId

/-- The fixture tags the program assigns other than platform ids. -/
def fixedTags : List Nat :=
  [PLAYER1_ID, PLAYER2_ID, FOOT_SENSOR_ID, GROUND_ID, CEILING_ID, MAGENTA_COLLECTIBLE_ID,
    ORANGE_COLLECTIBLE_ID, GREEN_COLLECTIBLE_ID, RED_COLLECTIBLE_ID, WHITE_COLLECTIBLE_ID,
    MINUS_SCORE_COLLECTIBLE_ID]

/-- The number of jump impulses among calls made on the world that were
applied to `body`. -/
def impulsesOn (body : b2Body) (calls : List b2Call) : Nat :=
  calls.countP fun c =>
    match c with
    | .ApplyLinearImpulseToCenter b _ => decide (b = body)
    | _ => false

/-- The number of jump impulses applied to `body` so far. -/
def b2World.impulses (w : b2World) (body : b2Body) : Nat :=
  impulsesOn body w.calls

/-- The variables the jump code reads and writes, with the impulses applied to
`body`. -/
def Game.jumpVars (body : b2Body) (g : Game) : (Nat → Option Int) × Int × Int × Nat :=
  (g.contactListener.footContactsMap, g.jumpsRemaining, g.jumpsRemaining2,
    g.world.impulses body)

/-- The step is a left click on one of the two menu texts, the event that
selects a mode on the start screen. -/
def LoopStep.selectsMode : LoopStep → Bool
  | .event _ (.MouseButtonPressed true onSinglePlayerText onMultiPlayerText) =>
    onSinglePlayerText || onMultiPlayerText
  | _ => false

/-- A step from `g` to `h` that writes no foot counter, no jump counter and
applies no impulse to `body`, clears player handles at most, and does not
enter multiplayer mode. -/
def Game.quietStep (body : b2Body) (g h : Game) : Prop :=
  h.jumpVars body = g.jumpVars body ∧
  (h.playerBody = g.playerBody ∨ h.playerBody = none) ∧
  (h.player2Body = g.player2Body ∨ h.player2Body = none) ∧
  (h.currentState = .PlayingMulti → g.currentState = .PlayingMulti)

/-- The jump budget of player 1 for `body`: no foot counter is set, player 1
holds `body` or no body, player 2 does not hold it while both play, and the
impulses applied to `body` so far plus the jumps left are at most `c`. -/
def Game.jumpBudget1 (body : b2Body) (c : Int) (g : Game) : Prop :=
  g.contactListener.footContactsMap = (fun _ => none) ∧
  (g.playerBody = some body ∨ g.playerBody = none) ∧
  (g.currentState = .PlayingMulti → g.player2Body ≠ some body) ∧
  0 ≤ g.jumpsRemaining ∧ (g.world.impulses body : Int) + g.jumpsRemaining ≤ c

/-- The jump budget of player 2 for `body`. -/
def Game.jumpBudget2 (body : b2Body) (c : Int) (g : Game) : Prop :=
  g.contactListener.footContactsMap = (fun _ => none) ∧
  (g.player2Body = some body ∨ g.player2Body = none) ∧
  g.playerBody ≠ some body ∧
  0 ≤ g.jumpsRemaining2 ∧ (g.world.impulses body : Int) + g.jumpsRemaining2 ≤ c

/-- The variables the speed ramp writes. -/
def Game.rampVars (g : Game) : ℚ × ℚ × ℚ :=
  (g.blockSpeed, g.minSpawnTime, g.maxSpawnTime)

/-- The spawn-time bounds are the interpolations at the current speed, as a
ramp step computes them (lines 1083-1085). -/
def Game.spawnTimesFollowSpeed (g : Game) : Prop :=
  g.minSpawnTime = lerp (25 / 10) minSpawnTimeBase (speedRatio g.blockSpeed) ∧
  g.maxSpawnTime = lerp (35 / 10) maxSpawnTimeBase (speedRatio g.blockSpeed)

/-! ## Sequences of operations -/

/-- The places of the program that write to the jump counters or to what
their updates read: a polled event (handled at an instant), a callback on the
listener, and the per-tick refill. -/
inductive GameOp where
  | event (now : Int) (e : Event)
  | listener (call : ListenerCall)
  | refillJumps

/-- One operation on the session. -/
def Game.op (GetMass : b2Body → ℚ) (g : Game) : GameOp → Game
  | .event now e => handleEvent GetMass now g e
  | .listener call => { g with contactListener := g.contactListener.call call }
  | .refillJumps => refillJumps g

/-- A sequence of operations, in order. -/
def Game.ops (GetMass : b2Body → ℚ) (g : Game) (os : List GameOp) : Game :=
  os.foldl (Game.op GetMass) g

/-- Both jump counters lie in `[0, maxJumps]`. -/
def Game.jumpsInRange (g : Game) : Prop :=
  (0 ≤ g.jumpsRemaining ∧ g.jumpsRemaining ≤ maxJumps) ∧
  (0 ≤ g.jumpsRemaining2 ∧ g.jumpsRemaining2 ≤ maxJumps)

/-- A sequence of consumptions: each is the `switch` of lines 686-693 run at
some instant on a collectible of some type. -/
def collectAll (g : Game) (picks : List (Int × CollectibleType)) : Game :=
  picks.foldl (fun h pick => collect pick.1 h pick.2) g

/-- A rectangle with `left` moved 50 to the left and `width` grown by 100:
50 units of buffer on each horizontal side. -/
def FloatRect.widened (r : FloatRect) : FloatRect :=
  { r with left := r.left - 50, width := r.width + 100 }

/-! ## Concrete scenes, used to evaluate the code -/

/-- Mass of a player body: density 1 on a box of 0.8 m by 1.2 m. -/
def playerMass (_b : b2Body) : ℚ := 24 / 25

/-- A single-player session, just selected from the start screen at instant 0
of a program started at instant 0 without a high-score file. The player's body
has handle 2 (ground and ceiling have 0 and 1). -/
def sceneSingle : Game :=
  handleEvent playerMass 0 (Game.start none 0) (.MouseButtonPressed true true false)

/-- The session `sceneSingle` in which the listener reports one foot contact
for player 1 and three jumps are left. -/
def sceneGrounded : Game :=
  { sceneSingle with
    jumpsRemaining := 3
    contactListener :=
      { sceneSingle.contactListener with
        footContactsMap := mapSet (fun _ => none) PLAYER1_ID 1 } }

/-- A block of length 500 (spawned under the Lengthen effect) that has moved
560 pixels to the left of its spawn position: its centre is at x = 890, its
visual bounds run from x = 637.5 to x = 1142.5. -/
def longBlock : Block :=
  { shape :=
      { size := (500, 20)
        fillColor := .greenBlockColor
        outlineThickness := 25 / 10
        origin := (250, 10)
        position := (890, 400) }
    body := some 3
    markedForRemoval := false
    id := 1000 }

/-- A single-player session under the Lengthen effect whose only live block
is `longBlock`; the spawn timer was restarted at instant 0 and expires after
2.8 seconds. -/
def sceneLongBlock : Game :=
  { sceneSingle with
    currentPlatformEffect := .Lengthen
    blocks := [longBlock]
    nextPlatformId := 1001
    world := { sceneSingle.world with nextBody := 4 }
    nextSpawnTime := 28 / 10 }

/-- The session `sceneLongBlock` with the block 10 pixels further right: its
visual bounds run from x = 647.5 to x = 1152.5. -/
def sceneNearBlock : Game :=
  { sceneLongBlock with
    blocks := [{ longBlock with shape := { longBlock.shape with position := (900, 400) } }] }

/-- Generator output for a spawn attempt: the shortest length, the middle of
the vertical band (y = 400), no collectible. -/
def drawsLow : SpawnDraws :=
  { blockLength := 0, spawnY := 1 / 2, collectibleRoll := 1 / 2, typeRoll := 0
    nextSpawnTime := 0 }

/-- A pizza (Orange) on body 4 and a poison (MinusScore) on body 5. -/
def pizza : Collectible :=
  { spritePosition := (700, 365), type := .Orange, body := some 4, markedForRemoval := false }

def poison : Collectible :=
  { spritePosition := (300, 365), type := .MinusScore, body := some 5
    markedForRemoval := false }

/-- The session `sceneSingle` with score 1 and the two collectibles, after the
listener was told that the player's box (tag `PLAYER1_ID`, body 2) began to
touch the poison's fixture (tag `MINUS_SCORE_COLLECTIBLE_ID`, body 5). -/
def scenePickup : Game :=
  { sceneSingle with
    score := 1
    collectibles := [pizza, poison]
    contactListener :=
      sceneSingle.contactListener.BeginContact
        ⟨⟨PLAYER1_ID, 2⟩, ⟨MINUS_SCORE_COLLECTIBLE_ID, 5⟩⟩ }

/-- The session `sceneSingle` after all ten jumps have been used. -/
def sceneNoJumps : Game :=
  { sceneSingle with jumpsRemaining := 0 }

/-! ## Scenes of whole frames -/

/-- A frame 16 ms after the start in which the physics step reports no
contact and every body is found at `(6, 16)` meters, below the window. -/
def inputFall : FrameInput :=
  { now := 16000
    callbacks := []
    GetPosition := fun _ => (6, 16)
    ended := fun _ => []
    rainX := 1 / 2
    draws := drawsLow
    writable := true }

/-- A multiplayer session right after the mode was chosen on the start
screen; player 1 has body 2 and player 2 has body 3. -/
def sceneMulti : Game :=
  handleEvent playerMass 0 (Game.start none 0) (.MouseButtonPressed true false true)

/-- A frame in which body 2 is found below the window and every other body at
`(4, 10)` meters. -/
def inputPlayer1Falls : FrameInput :=
  { now := 16000
    callbacks := []
    GetPosition := fun body => if body = 2 then (6, 16) else (4, 10)
    ended := fun _ => []
    rainX := 1 / 2
    draws := drawsLow
    writable := true }


/-- A single-player session with score 5 whose high-score file holds 3. -/
def sceneScored : Game :=
  { handleEvent playerMass 0 (Game.start (some 3) 0) (.MouseButtonPressed true true false) with
    score := 5 }

/-- The frame `inputFall` when the high-score file cannot be opened for
writing. -/
def inputFallReadOnly : FrameInput :=
  { inputFall with writable := false }

/-- A frame 16 ms after the start in which the physics step reports no
contact and every body is found at `(6, 10)` meters, inside the window. -/
def inputIdle : FrameInput :=
  { now := 16000
    callbacks := []
    GetPosition := fun _ => (6, 10)
    ended := fun _ => []
    rainX := 1 / 2
    draws := drawsLow
    writable := true }

/-- A frame one second later in which body 2 is found below the window and
every other body at `(20, 8)` meters. -/
def inputLater : FrameInput :=
  { now := 1016000
    callbacks := []
    GetPosition := fun body => if body = 2 then (6, 16) else (20, 8)
    ended := fun _ => []
    rainX := 1 / 2
    draws := drawsLow
    writable := true }

/-- The platform spawned in the first frame of `sceneSingle`: length 100,
centred at `(1250, 400)`, body 3, id 1000. -/
def firstBlock : Block :=
  { shape :=
      { size := (100, 20)
        fillColor := .defaultBlockColor
        outlineThickness := 25 / 10
        origin := (50, 10)
        position := (1250, 400) }
    body := some 3
    markedForRemoval := false
    id := 1000 }

/-- The session `sceneSingle` after the frame `inputIdle`: the physics step
was made, the first platform was spawned and the speed ramp applied. -/
def sceneFirstFrame : Game :=
  { sceneSingle with
    world :=
      { nextBody := 4
        calls := sceneSingle.world.calls ++
          [.SetGravityScale 2 1, .Step (2 / 125), .SetGravityScale 2 1,
           .CreateBody 3 .b2_kinematicBody (25, 8), .CreateFixture 3 1000 false,
           .SetLinearVelocity 3 (-4, 0)] }
    blocks := [firstBlock]
    nextPlatformId := 1001
    spawnClock := ⟨16000⟩
    nextSpawnTime := 5 / 2
    deltaClock := ⟨16000⟩
    gameTime := 2 / 125
    blockSpeed := 5002 / 25
    minSpawnTime := lerp (25 / 10) minSpawnTimeBase (speedRatio (5002 / 25))
    maxSpawnTime := lerp (35 / 10) maxSpawnTimeBase (speedRatio (5002 / 25)) }

/-- The single-player session `sceneSingle` after two frames: in the first a
platform is spawned (body 3), in the second the player falls out of the
window. -/
def sceneGameOver : Game :=
  frames sfGlobalBounds [inputIdle, inputLater] sceneSingle

/-- The session `sceneGameOver` after Space was pressed. -/
def sceneRestarted : Game :=
  handleEvent playerMass 3000000 sceneGameOver (.KeyPressed .Space)

/-- The session `sceneRestarted` after single-player mode was selected again. -/
def sceneSecondSession : Game :=
  handleEvent playerMass 4000000 sceneRestarted (.MouseButtonPressed true true false)

/-- The multiplayer session `sceneMulti` after the frame `inputPlayer1Falls`,
in which player 1 dies and player 2 (body 3) survives. -/
def sceneMultiOver : Game :=
  frame sfGlobalBounds inputPlayer1Falls sceneMulti

/-- The session `sceneMultiOver` after Space was pressed. -/
def sceneMultiRestarted : Game :=
  handleEvent playerMass 3000000 sceneMultiOver (.KeyPressed .Space)

/-- A Lengthen collectible (Green) on body 3 and a Shorten collectible (Red)
on body 4. -/
def lengthener : Collectible :=
  { spritePosition := (300, 500), type := .Green, body := some 3, markedForRemoval := false }

def shortener : Collectible :=
  { spritePosition := (300, 500), type := .Red, body := some 4, markedForRemoval := false }

/-- The session `sceneSingle` with the two collectibles in the list. -/
def sceneItems : Game :=
  { sceneSingle with
    collectibles := [lengthener, shortener]
    world := { sceneSingle.world with nextBody := 5 } }

/-- A frame 16 ms after the start in which the player's box (body 2) begins
to touch the Lengthen collectible's fixture (body 3); every body is found at
`(6, 10)` meters. -/
def inputGreen : FrameInput :=
  { inputIdle with
    callbacks := [.BeginContact ⟨⟨PLAYER1_ID, 2⟩, ⟨GREEN_COLLECTIBLE_ID, 3⟩⟩] }

/-- The platform spawned in the frame `inputGreen` of `sceneItems`: length
200, green, centred at `(1300, 400)`, body 5, id 1000. -/
def greenBlock : Block :=
  { shape :=
      { size := (200, 20)
        fillColor := .greenBlockColor
        outlineThickness := 25 / 10
        origin := (100, 10)
        position := (1300, 400) }
    body := some 5
    markedForRemoval := false
    id := 1000 }

/-- The session `sceneItems` after the frame `inputGreen`: the Lengthen
collectible was consumed and erased, the effect is Lengthen with its clock
restarted at 16 ms, and the first platform was spawned. -/
def sceneAfterGreen : Game :=
  { sceneItems with
    world :=
      { nextBody := 6
        calls := sceneItems.world.calls ++
          [.SetGravityScale 2 1, .Step (2 / 125), .DestroyBody 3, .SetGravityScale 2 1,
           .CreateBody 5 .b2_kinematicBody (26, 8), .CreateFixture 5 1000 false,
           .SetLinearVelocity 5 (-4, 0)] }
    collectibles := [shortener]
    blocks := [greenBlock]
    nextPlatformId := 1001
    currentPlatformEffect := .Lengthen
    platformEffectClock := ⟨16000⟩
    spawnClock := ⟨16000⟩
    nextSpawnTime := 5 / 2
    deltaClock := ⟨16000⟩
    gameTime := 2 / 125
    blockSpeed := 5002 / 25
    minSpawnTime := lerp (25 / 10) minSpawnTimeBase (speedRatio (5002 / 25))
    maxSpawnTime := lerp (35 / 10) maxSpawnTimeBase (speedRatio (5002 / 25)) }

/-- A frame three seconds later in which the player's box begins to touch the
Shorten collectible's fixture (body 4); the platform's body 5 is found at
`(19, 8)` meters and every other body at `(6, 10)`. -/
def inputRed : FrameInput :=
  { now := 3016000
    callbacks := [.BeginContact ⟨⟨PLAYER1_ID, 2⟩, ⟨RED_COLLECTIBLE_ID, 4⟩⟩]
    GetPosition := fun body => if body = 5 then (19, 8) else (6, 10)
    ended := fun _ => []
    rainX := 1 / 2
    draws := drawsLow
    writable := true }

/-- The frame `inputRed` without the contact. -/
def inputQuiet : FrameInput :=
  { inputRed with callbacks := [] }

/-- The session `scenePickup` after the listener was told of three contacts
of the player's box (body 2), in this order: with the poison's fixture
(body 5), with a Magenta fixture on body 9, which no collectible of the list
has, and with the pizza's fixture (body 4). -/
def sceneQueue : Game :=
  { scenePickup with
    contactListener :=
      sceneSingle.contactListener.calls
        [.BeginContact ⟨⟨PLAYER1_ID, 2⟩, ⟨MINUS_SCORE_COLLECTIBLE_ID, 5⟩⟩,
         .BeginContact ⟨⟨PLAYER1_ID, 2⟩, ⟨MAGENTA_COLLECTIBLE_ID, 9⟩⟩,
         .BeginContact ⟨⟨ORANGE_COLLECTIBLE_ID, 4⟩, ⟨PLAYER1_ID, 2⟩⟩] }

/-- The session `sceneSingle` later on, when the speed has grown to 599.875
(a binary32 value). -/
def sceneNearCap : Game :=
  { sceneSingle with
    blockSpeed := 4799 / 8
    minSpawnTime := lerp (25 / 10) minSpawnTimeBase (speedRatio (4799 / 8))
    maxSpawnTime := lerp (35 / 10) maxSpawnTimeBase (speedRatio (4799 / 8)) }

end Boxing9_2_Fixed

/-! ## The single-player listener of `Boxing7_temp.cpp` (lines 62-136) -/

namespace Boxing7_temp

def FOOT_SENSOR_ID : Nat := 1
def GROUND_ID : Nat := 2
def CEILING_ID : Nat := 3
def MAGENTA_COLLECTIBLE_ID : Nat := 4
def ORANGE_COLLECTIBLE_ID : Nat := 5
def GREEN_COLLECTIBLE_ID : Nat := 6
def RED_COLLECTIBLE_ID : Nat := 7
def WHITE_COLLECTIBLE_ID : Nat := 8
def MINUS_SCORE_COLLECTIBLE_ID : Nat := 9
def PLATFORM_ID_BASE : Nat := 1000

open Boxing9_2_Fixed (b2Body b2Fixture b2Contact)

/-- State of the listener of `Boxing7_temp.cpp`: one counter, one flag. -/
structure PlayerContactListener where
  footContacts : Int
  touchedGround : Bool
  collectiblesToRemove : List b2Body
deriving DecidableEq, Repr

/-- Constructor with the member initialisers of lines 64-68. -/
def PlayerContactListener.new (bodiesToRemove : List b2Body) : PlayerContactListener :=
  { footContacts := 0, touchedGround := false, collectiblesToRemove := bodiesToRemove }

/-- Method `BeginContact` (lines 70-108). -/
def PlayerContactListener.BeginContact (l : PlayerContactListener) (contact : b2Contact) :
    PlayerContactListener :=
  let userDataA := contact.fixtureA.userData
  let userDataB := contact.fixtureB.userData
  let l1 : PlayerContactListener :=
    if userDataA = FOOT_SENSOR_ID ∧ userDataB ≥ PLATFORM_ID_BASE then
      { l with footContacts := l.footContacts + 1 }
    else l
  let l2 : PlayerContactListener :=
    if userDataB = FOOT_SENSOR_ID ∧ userDataA ≥ PLATFORM_ID_BASE then
      { l1 with footContacts := l1.footContacts + 1 }
    else l1
  let l3 : PlayerContactListener :=
    if (userDataA = 0 ∧ userDataB = GROUND_ID) ∨ (userDataB = 0 ∧ userDataA = GROUND_ID) then
      { l2 with touchedGround := true }
    else l2
  let found : Option (Nat × b2Body) :=
    if userDataA = 0 then some (userDataB, contact.fixtureB.body)
    else if userDataB = 0 then some (userDataA, contact.fixtureA.body)
    else none
  match found with
  | some (collectibleUserData, collectibleBody) =>
    if collectibleUserData = MAGENTA_COLLECTIBLE_ID ∨ collectibleUserData = ORANGE_COLLECTIBLE_ID ∨
       collectibleUserData = GREEN_COLLECTIBLE_ID ∨ collectibleUserData = RED_COLLECTIBLE_ID ∨
       collectibleUserData = WHITE_COLLECTIBLE_ID ∨
       collectibleUserData = MINUS_SCORE_COLLECTIBLE_ID then
      { l3 with collectiblesToRemove := l3.collectiblesToRemove ++ [collectibleBody] }
    else l3
  | none => l3

/-- Method `EndContact` (lines 122-131). -/
def PlayerContactListener.EndContact (l : PlayerContactListener) (contact : b2Contact) :
    PlayerContactListener :=
  let userDataA := contact.fixtureA.userData
  let userDataB := contact.fixtureB.userData
  let l1 : PlayerContactListener :=
    if userDataA = FOOT_SENSOR_ID ∧ userDataB ≥ PLATFORM_ID_BASE ∧ l.footContacts > 0 then
      { l with footContacts := l.footContacts - 1 }
    else l
  if userDataB = FOOT_SENSOR_ID ∧ userDataA ≥ PLATFORM_ID_BASE ∧ l1.footContacts > 0 then
    { l1 with footContacts := l1.footContacts - 1 }
  else l1

/-- Method `isGrounded` (lines 133-135). -/
def PlayerContactListener.isGrounded (l : PlayerContactListener) : Bool :=
  decide (l.footContacts > 0)

/-- The two callbacks that change the listener. -/
inductive ListenerCall where
  | BeginContact (contact : b2Contact)
  | EndContact (contact : b2Contact)

/-- One callback. -/
def PlayerContactListener.call (l : PlayerContactListener) : ListenerCall → PlayerContactListener
  | .BeginContact contact => l.BeginContact contact
  | .EndContact contact => l.EndContact contact

/-- A sequence of callbacks, in order. -/
def PlayerContactListener.calls (l : PlayerContactListener) (cs : List ListenerCall) :
    PlayerContactListener :=
  cs.foldl PlayerContactListener.call l

/-! ### The snap ray-cast callback of `Boxing7_temp.cpp` (lines 138-159) -/

/-- Members of `SnapRayCastCallback` (lines 140-142). -/
structure SnapRayCastCallback where
  closestFixture : Option b2Fixture
  hitPoint : ℚ × ℚ
  closestFraction : ℚ
deriving DecidableEq, Repr

/-- A callback as line 503 declares it: the default member initialisers give
a null `closestFixture` and `closestFraction = 1`; `hitPoint` has none, the
value it starts with is a parameter. -/
def SnapRayCastCallback.new (hitPoint : ℚ × ℚ) : SnapRayCastCallback :=
  { closestFixture := none, hitPoint := hitPoint, closestFraction := 1 }

/-- Method `ReportFixture` (lines 144-158): the callback after the call and
the value returned. -/
def SnapRayCastCallback.ReportFixture (cb : SnapRayCastCallback) (fixture : b2Fixture)
    (point : ℚ × ℚ) (_normal : ℚ × ℚ) (fraction : ℚ) : SnapRayCastCallback × ℚ :=
  let userData := fixture.userData
  if userData ≥ PLATFORM_ID_BASE then
    let cb1 : SnapRayCastCallback :=
      if fraction < cb.closestFraction then
        { closestFraction := fraction, closestFixture := some fixture, hitPoint := point }
      else cb
    (cb1, fraction)
  else (cb, -1)

/-- The arguments of one `ReportFixture` call made by `b2World::RayCast`. -/
structure RayCastReport where
  fixture : b2Fixture
  point : ℚ × ℚ
  normal : ℚ × ℚ
  fraction : ℚ
deriving DecidableEq, Repr

/-- One report made to the callback. -/
def SnapRayCastCallback.report (cb : SnapRayCastCallback) (r : RayCastReport) :
    SnapRayCastCallback :=
  (cb.ReportFixture r.fixture r.point r.normal r.fraction).1

/-- A sequence of reports, in order. -/
def SnapRayCastCallback.reports (cb : SnapRayCastCallback) (rs : List RayCastReport) :
    SnapRayCastCallback :=
  rs.foldl SnapRayCastCallback.report cb

/-- The report is of a fixture with a platform tag. -/
def RayCastReport.isPlatform (r : RayCastReport) : Prop :=
  r.fixture.userData ≥ PLATFORM_ID_BASE

end Boxing7_temp

/-! # Properties -/

namespace Boxing9_2_Fixed

/-! ## Binary32 rounding: lemmas -/

theorem roundNearestEven_bounds (z : ℚ) :
    ⌊z⌋ ≤ roundNearestEven z ∧ roundNearestEven z ≤ ⌊z⌋ + 1 := by
  unfold roundNearestEven
  split_ifs <;> constructor <;> omega

theorem roundNearestEven_intCast (n : ℤ) : roundNearestEven (n : ℚ) = n := by
  unfold roundNearestEven
  rw [Int.floor_intCast]
  simp

theorem roundNearestEven_mono {z w : ℚ} (h : z ≤ w) :
    roundNearestEven z ≤ roundNearestEven w := by
  have hf : ⌊z⌋ ≤ ⌊w⌋ := Int.floor_mono h
  rcases lt_or_eq_of_le hf with hlt | heq
  · have h1 := (roundNearestEven_bounds z).2
    have h2 := (roundNearestEven_bounds w).1
    omega
  · unfold roundNearestEven
    rw [heq]
    split_ifs <;> first | omega | (exfalso; linarith)

/-- The integer `n` is the rounding of `z` when it is nearer than one half, or
at one half and even. -/
theorem roundNearestEven_eq (z : ℚ) (n : ℤ)
    (h : |z - n| < 1 / 2 ∨ (|z - n| = 1 / 2 ∧ n % 2 = 0)) : roundNearestEven z = n := by
  have hle : |z - n| ≤ 1 / 2 := by
    rcases h with h | h
    · exact le_of_lt h
    · exact le_of_eq h.1
  have h1 := (abs_le.mp hle).1
  have h2 := (abs_le.mp hle).2
  have hfl : n - 1 ≤ ⌊z⌋ := by
    apply Int.le_floor.mpr
    push_cast
    linarith
  have hfu : ⌊z⌋ ≤ n := by
    have : ⌊z⌋ < n + 1 := by
      apply Int.floor_lt.mpr
      push_cast
      linarith
    omega
  have hz1 := Int.floor_le z
  have hz2 := Int.lt_floor_add_one z
  rcases (by omega : ⌊z⌋ = n ∨ ⌊z⌋ = n - 1) with hf | hf
  · unfold roundNearestEven
    rw [hf]
    split_ifs with a b c
    · rfl
    · exfalso; linarith
    · rfl
    · exfalso
      have hzn : z - n = 1 / 2 := by linarith
      rcases h with h | h
      · rw [hzn] at h
        have : |(1 / 2 : ℚ)| = 1 / 2 := abs_of_pos (by norm_num)
        rw [this] at h
        exact lt_irrefl _ h
      · exact c h.2
  · unfold roundNearestEven
    rw [hf]
    rw [hf] at hz1 hz2
    push_cast at hz1 hz2 ⊢
    split_ifs with a b c
    · exfalso; linarith
    · omega
    · exfalso
      have hzn : z - n = -(1 / 2) := by linarith
      rcases h with h | h
      · rw [hzn, abs_neg] at h
        have : |(1 / 2 : ℚ)| = 1 / 2 := abs_of_pos (by norm_num)
        rw [this] at h
        exact lt_irrefl _ h
      · omega
    · omega

theorem roundNearestEven_nonneg {z : ℚ} (h : 0 ≤ z) : 0 ≤ roundNearestEven z := by
  have := roundNearestEven_mono h
  rwa [show (0 : ℚ) = ((0 : ℤ) : ℚ) by norm_num, roundNearestEven_intCast] at this

theorem two_zpow_pos (e : ℤ) : (0 : ℚ) < 2 ^ e := zpow_pos (by norm_num) e

theorem ulpExponent_mono {x y : ℚ} (hx : 0 < x) (h : x ≤ y) :
    ulpExponent x ≤ ulpExponent y := by
  unfold ulpExponent
  exact max_le_max (sub_le_sub_right (Int.log_mono_right hx h) _) le_rfl

theorem log_two_eq {q : ℚ} {k : ℤ} (h1 : 2 ^ k ≤ q) (h2 : q < 2 ^ (k + 1)) :
    Int.log 2 q = k := by
  have hq : 0 < q := lt_of_lt_of_le (two_zpow_pos k) h1
  have a : k ≤ Int.log 2 q := by
    apply (Int.zpow_le_iff_le_log (by norm_num) hq).mp
    simpa using h1
  have b : Int.log 2 q < k + 1 := by
    apply (Int.lt_zpow_iff_log_lt (by norm_num) hq).mp
    simpa using h2
  omega

theorem two_zpow_log_le {q : ℚ} (hq : 0 < q) : (2 : ℚ) ^ Int.log 2 q ≤ q := by
  simpa using Int.zpow_log_le_self (b := 2) (by norm_num) hq

theorem lt_two_zpow_log_succ (q : ℚ) : q < (2 : ℚ) ^ (Int.log 2 q + 1) := by
  simpa using Int.lt_zpow_succ_log_self (b := 2) (by norm_num) q

theorem roundMagnitude_zero : roundMagnitude 0 = 0 := by
  unfold roundMagnitude
  rw [zero_div, show (0 : ℚ) = ((0 : ℤ) : ℚ) by norm_num, roundNearestEven_intCast]
  simp

theorem roundMagnitude_nonneg {q : ℚ} (h : 0 ≤ q) : 0 ≤ roundMagnitude q := by
  unfold roundMagnitude
  apply mul_nonneg
  · exact_mod_cast roundNearestEven_nonneg (div_nonneg h (le_of_lt (two_zpow_pos _)))
  · exact le_of_lt (two_zpow_pos _)

/-- A non-negative power of two is an integer. -/
theorem two_zpow_eq_intCast {m : ℤ} (hm : 0 ≤ m) : (2 : ℚ) ^ m = (((2 : ℤ) ^ m.toNat : ℤ) : ℚ) := by
  obtain ⟨n, rfl⟩ := Int.eq_ofNat_of_zero_le hm
  simp [zpow_natCast]

theorem roundMagnitude_mono {x y : ℚ} (hx : 0 ≤ x) (h : x ≤ y) :
    roundMagnitude x ≤ roundMagnitude y := by
  rcases eq_or_lt_of_le hx with h0 | hpos
  · rw [← h0, roundMagnitude_zero]
    exact roundMagnitude_nonneg (le_trans hx h)
  · have hy : 0 < y := lt_of_lt_of_le hpos h
    have he := ulpExponent_mono hpos h
    rcases eq_or_lt_of_le he with heq | hlt
    · unfold roundMagnitude
      rw [heq]
      apply mul_le_mul_of_nonneg_right _ (le_of_lt (two_zpow_pos _))
      have : x / 2 ^ ulpExponent y ≤ y / 2 ^ ulpExponent y :=
        div_le_div_of_nonneg_right h (le_of_lt (two_zpow_pos _))
      exact_mod_cast roundNearestEven_mono this
    · -- the exponents differ: a power of two lies between the two roundings
      have hey : ulpExponent y = Int.log 2 y - 23 := by
        unfold ulpExponent at hlt ⊢
        have : -149 ≤ max (Int.log 2 x - 23) (-149) := le_max_right _ _
        rcases max_cases (Int.log 2 y - 23) (-149) with ⟨e, _⟩ | ⟨e, _⟩
        · exact e
        · rw [e] at hlt; omega
      have hex : Int.log 2 x - 23 ≤ ulpExponent x := le_max_left _ _
      have hmid1 : roundMagnitude x ≤ 2 ^ Int.log 2 y := by
        unfold roundMagnitude
        have hm : 0 ≤ Int.log 2 y - ulpExponent x := by omega
        have hxlt : x ≤ 2 ^ Int.log 2 y := by
          have a := lt_two_zpow_log_succ x
          have b : (2 : ℚ) ^ (Int.log 2 x + 1) ≤ 2 ^ Int.log 2 y :=
            zpow_le_zpow_right₀ (by norm_num) (by omega)
          linarith
        have hdiv : x / 2 ^ ulpExponent x ≤ 2 ^ (Int.log 2 y - ulpExponent x) := by
          rw [zpow_sub₀ (by norm_num : (2 : ℚ) ≠ 0)]
          exact div_le_div_of_nonneg_right hxlt (le_of_lt (two_zpow_pos _))
        rw [two_zpow_eq_intCast hm] at hdiv
        have hr := roundNearestEven_mono hdiv
        rw [roundNearestEven_intCast] at hr
        have hr2 : ((roundNearestEven (x / 2 ^ ulpExponent x) : ℤ) : ℚ) ≤
            2 ^ (Int.log 2 y - ulpExponent x) := by
          rw [two_zpow_eq_intCast hm]
          exact_mod_cast hr
        calc (roundNearestEven (x / 2 ^ ulpExponent x) : ℚ) * 2 ^ ulpExponent x
            ≤ 2 ^ (Int.log 2 y - ulpExponent x) * 2 ^ ulpExponent x :=
              mul_le_mul_of_nonneg_right hr2 (le_of_lt (two_zpow_pos _))
          _ = 2 ^ Int.log 2 y := by
              rw [← zpow_add₀ (by norm_num : (2 : ℚ) ≠ 0)]
              congr 1
              omega
      have hmid2 : (2 : ℚ) ^ Int.log 2 y ≤ roundMagnitude y := by
        unfold roundMagnitude
        rw [hey]
        have hyge := two_zpow_log_le hy
        have hdiv : (2 : ℚ) ^ (23 : ℤ) ≤ y / 2 ^ (Int.log 2 y - 23) := by
          rw [le_div_iff₀ (two_zpow_pos _), ← zpow_add₀ (by norm_num : (2 : ℚ) ≠ 0)]
          have : (23 : ℤ) + (Int.log 2 y - 23) = Int.log 2 y := by omega
          rw [this]
          exact hyge
        rw [two_zpow_eq_intCast (by norm_num : (0 : ℤ) ≤ 23)] at hdiv
        have hr := roundNearestEven_mono hdiv
        rw [roundNearestEven_intCast] at hr
        have hr2 : (2 : ℚ) ^ (23 : ℤ) ≤
            ((roundNearestEven (y / 2 ^ (Int.log 2 y - 23)) : ℤ) : ℚ) := by
          rw [two_zpow_eq_intCast (by norm_num : (0 : ℤ) ≤ 23)]
          exact_mod_cast hr
        calc (2 : ℚ) ^ Int.log 2 y = 2 ^ (23 : ℤ) * 2 ^ (Int.log 2 y - 23) := by
              rw [← zpow_add₀ (by norm_num : (2 : ℚ) ≠ 0)]
              congr 1
              omega
          _ ≤ _ := mul_le_mul_of_nonneg_right hr2 (le_of_lt (two_zpow_pos _))
      exact le_trans hmid1 hmid2

theorem roundF32_zero : roundF32 0 = 0 := by
  unfold roundF32
  rw [if_neg (lt_irrefl _), roundMagnitude_zero]

theorem roundF32_of_nonneg {q : ℚ} (h : 0 ≤ q) : roundF32 q = roundMagnitude q := by
  unfold roundF32
  rw [if_neg (not_lt.mpr h)]

theorem roundF32_of_neg {q : ℚ} (h : q < 0) : roundF32 q = - roundMagnitude (-q) := by
  unfold roundF32
  rw [if_pos h]

theorem roundF32_neg (q : ℚ) : roundF32 (-q) = - roundF32 q := by
  rcases lt_trichotomy q 0 with h | h | h
  · rw [roundF32_of_neg h, roundF32_of_nonneg (by linarith), neg_neg]
  · rw [h, neg_zero, roundF32_zero, neg_zero]
  · rw [roundF32_of_neg (by linarith : -q < 0), neg_neg, roundF32_of_nonneg (le_of_lt h)]

theorem roundF32_nonneg {q : ℚ} (h : 0 ≤ q) : 0 ≤ roundF32 q := by
  rw [roundF32_of_nonneg h]
  exact roundMagnitude_nonneg h

theorem roundF32_nonpos {q : ℚ} (h : q ≤ 0) : roundF32 q ≤ 0 := by
  have := roundF32_nonneg (neg_nonneg.mpr h)
  rw [roundF32_neg] at this
  linarith

/-- Rounding to binary32 is monotone. -/
theorem roundF32_mono {x y : ℚ} (h : x ≤ y) : roundF32 x ≤ roundF32 y := by
  rcases le_or_lt 0 x with hx | hx
  · rw [roundF32_of_nonneg hx, roundF32_of_nonneg (le_trans hx h)]
    exact roundMagnitude_mono hx h
  · rcases le_or_lt 0 y with hy | hy
    · exact le_trans (roundF32_nonpos (le_of_lt hx)) (roundF32_nonneg hy)
    · rw [roundF32_of_neg hx, roundF32_of_neg hy]
      apply neg_le_neg
      exact roundMagnitude_mono (by linarith) (by linarith)

/-- The rounding of a rational whose magnitude lies in `[2 ^ k, 2 ^ (k + 1))`,
in the normal range: `n` units of `2 ^ (k - 23)` when `n` is the nearest
integer multiple (the even one at a tie). -/
theorem roundMagnitude_eq (q : ℚ) (k n : ℤ) (hk : -126 ≤ k) (h1 : 2 ^ k ≤ q)
    (h2 : q < 2 ^ (k + 1))
    (h : |q / 2 ^ (k - 23) - n| < 1 / 2 ∨ (|q / 2 ^ (k - 23) - n| = 1 / 2 ∧ n % 2 = 0)) :
    roundMagnitude q = n * 2 ^ (k - 23) := by
  have he : ulpExponent q = k - 23 := by
    unfold ulpExponent
    rw [log_two_eq h1 h2]
    exact max_eq_left (by omega)
  unfold roundMagnitude
  rw [he, roundNearestEven_eq _ n h]

/-- A value with a significand of at most 24 bits is left as it is. -/
theorem roundMagnitude_eq_self (n : ℕ) (j : ℤ) (hn : n < 2 ^ 24) (hj : -149 ≤ j) :
    roundMagnitude (n * 2 ^ j) = n * 2 ^ j := by
  rcases Nat.eq_zero_or_pos n with h0 | hpos
  · rw [h0]
    simp [roundMagnitude_zero]
  · have hq : (0 : ℚ) < n * 2 ^ j := mul_pos (by exact_mod_cast hpos) (two_zpow_pos j)
    have hlt : (n : ℚ) * 2 ^ j < 2 ^ (24 + j) := by
      rw [zpow_add₀ (by norm_num : (2 : ℚ) ≠ 0)]
      apply mul_lt_mul_of_pos_right _ (two_zpow_pos j)
      exact_mod_cast hn
    have hlog : Int.log 2 ((n : ℚ) * 2 ^ j) < 24 + j := by
      apply (Int.lt_zpow_iff_log_lt (by norm_num) hq).mp
      simpa using hlt
    have he : ulpExponent ((n : ℚ) * 2 ^ j) ≤ j := by
      unfold ulpExponent
      exact max_le (by omega) hj
    have hm : 0 ≤ j - ulpExponent ((n : ℚ) * 2 ^ j) := by omega
    unfold roundMagnitude
    have hdiv : (n : ℚ) * 2 ^ j / 2 ^ ulpExponent ((n : ℚ) * 2 ^ j) =
        (((n : ℤ) * (2 : ℤ) ^ (j - ulpExponent ((n : ℚ) * 2 ^ j)).toNat : ℤ) : ℚ) := by
      rw [mul_div_assoc, ← zpow_sub₀ (by norm_num : (2 : ℚ) ≠ 0), two_zpow_eq_intCast hm]
      push_cast
      rfl
    rw [hdiv, roundNearestEven_intCast, ← hdiv]
    rw [div_mul_cancel₀ _ (ne_of_gt (two_zpow_pos _))]

theorem roundF32_eq_self (n : ℤ) (j : ℤ) (hn : |n| < 2 ^ 24) (hj : -149 ≤ j) :
    roundF32 (n * 2 ^ j) = n * 2 ^ j := by
  rcases le_or_lt 0 n with h | h
  · obtain ⟨m, rfl⟩ := Int.eq_ofNat_of_zero_le h
    have hq : (0 : ℚ) ≤ ((m : ℤ) : ℚ) * 2 ^ j :=
      mul_nonneg (by exact_mod_cast h) (le_of_lt (two_zpow_pos j))
    rw [roundF32_of_nonneg hq]
    have hm : m < 2 ^ 24 := by
      rw [abs_of_nonneg h] at hn
      exact_mod_cast hn
    simpa using roundMagnitude_eq_self m j hm hj
  · have hneg : (n : ℚ) * 2 ^ j < 0 :=
      mul_neg_of_neg_of_pos (by exact_mod_cast h) (two_zpow_pos j)
    rw [roundF32_of_neg hneg]
    obtain ⟨m, hm⟩ := Int.eq_ofNat_of_zero_le (by omega : 0 ≤ -n)
    have hm24 : m < 2 ^ 24 := by
      rw [abs_of_neg h] at hn
      omega
    have e : -((n : ℚ) * 2 ^ j) = (m : ℚ) * 2 ^ j := by
      have : ((-n : ℤ) : ℚ) = ((m : ℤ) : ℚ) := by rw [hm]
      push_cast at this
      rw [← this]
      ring
    rw [e, roundMagnitude_eq_self m j hm24 hj, ← e]
    ring

/-! ## Lemmas on maps and on the listener -/

theorem mapAt_mapSet {V : Type} (m : Nat → Option V) (k j : Nat) (v dflt : V) :
    mapAt (mapSet m k v) j dflt = if j = k then v else mapAt m j dflt := by
  unfold mapAt mapSet
  split_ifs <;> rfl

theorem mapAt_mapTouch {V : Type} (m : Nat → Option V) (k j : Nat) (dflt : V) :
    mapAt (mapTouch m k dflt) j dflt = mapAt m j dflt := by
  unfold mapTouch
  rw [mapAt_mapSet]
  split_ifs with h
  · rw [h]
  · rfl

/-- The method `isGrounded` is the test "counter > 0", an absent entry counting as 0. -/
theorem isGrounded_iff (l : PlayerContactListener) (p : Nat) :
    l.isGrounded p = true ↔ 0 < l.footContacts p := by
  unfold PlayerContactListener.isGrounded PlayerContactListener.footContacts mapAt
  cases h : l.footContactsMap p <;> simp

/-- A `BeginContact` leaves a counter as it is or adds one to it. -/
theorem footContacts_BeginContact (l : PlayerContactListener) (c : b2Contact) (p : Nat) :
    (l.BeginContact c).footContacts p = l.footContacts p ∨
      (l.BeginContact c).footContacts p = l.footContacts p + 1 := by
  unfold PlayerContactListener.BeginContact PlayerContactListener.footContacts
  simp only []
  split_ifs <;> simp only [mapAt_mapSet] <;> (try split_ifs) <;> (try subst_vars) <;>
    first | exact Or.inl trivial | exact Or.inr trivial | (left; rfl) | (right; rfl)

/-- An `EndContact` leaves a counter as it is, or takes one from a positive one. -/
theorem footContacts_EndContact (l : PlayerContactListener) (c : b2Contact) (p : Nat) :
    (l.EndContact c).footContacts p = l.footContacts p ∨
      (0 < l.footContacts p ∧ (l.EndContact c).footContacts p = l.footContacts p - 1) := by
  unfold PlayerContactListener.EndContact PlayerContactListener.footContacts
  simp only []
  split_ifs with h1 h2 h3 <;> simp only [mapAt_mapSet, mapAt_mapTouch] <;> (try split_ifs) <;>
    (try subst_vars) <;> first
    | exact Or.inl trivial
    | (left; rfl)
    | (rename_i hpos; exact Or.inr ⟨by simpa only [mapAt_mapTouch, gt_iff_lt] using hpos, rfl⟩)

theorem footContacts_reset (l : PlayerContactListener) (p : Nat) :
    l.reset.footContacts p = 0 := rfl

/-- Every call keeps all counters non-negative. -/
theorem footContacts_call_nonneg (l : PlayerContactListener) (call : ListenerCall)
    (h : ∀ p, 0 ≤ l.footContacts p) (p : Nat) : 0 ≤ (l.call call).footContacts p := by
  cases call with
  | BeginContact c =>
    rcases footContacts_BeginContact l c p with e | e <;>
      simp only [PlayerContactListener.call, e] <;> linarith [h p]
  | EndContact c =>
    rcases footContacts_EndContact l c p with e | ⟨hpos, e⟩ <;>
      simp only [PlayerContactListener.call, e] <;> linarith [h p]
  | reset => simp [PlayerContactListener.call, footContacts_reset]

theorem footContacts_calls_nonneg (cs : List ListenerCall) :
    ∀ (l : PlayerContactListener), (∀ p, 0 ≤ l.footContacts p) →
      ∀ p, 0 ≤ (l.calls cs).footContacts p := by
  induction cs with
  | nil => intro l h p; exact h p
  | cons c cs ih =>
    intro l h p
    exact ih (l.call c) (footContacts_call_nonneg l c h) p

/-! ## The listener of `Boxing7_temp.cpp` -/

theorem footContacts7_call_nonneg (l : Boxing7_temp.PlayerContactListener)
    (call : Boxing7_temp.ListenerCall) (h : 0 ≤ l.footContacts) :
    0 ≤ (l.call call).footContacts := by
  cases call with
  | BeginContact c =>
    simp only [Boxing7_temp.PlayerContactListener.call,
      Boxing7_temp.PlayerContactListener.BeginContact]
    split <;> split_ifs <;> (try dsimp only) <;> omega
  | EndContact c =>
    simp only [Boxing7_temp.PlayerContactListener.call,
      Boxing7_temp.PlayerContactListener.EndContact]
    split_ifs <;> (try dsimp only at *) <;> omega

theorem footContacts7_calls_nonneg (cs : List Boxing7_temp.ListenerCall) :
    ∀ (l : Boxing7_temp.PlayerContactListener), 0 ≤ l.footContacts →
      0 ≤ (l.calls cs).footContacts := by
  induction cs with
  | nil => intro l h; exact h
  | cons c cs ih =>
    intro l h
    exact ih (l.call c) (footContacts7_call_nonneg l c h)

/-! ## C1 -/

/-- C1, evaluated on the code: on a freshly constructed listener, a
begin-contact between the foot sensor (tag `FOOT_SENSOR_ID`, on body 2) and a
platform (tag `PLATFORM_ID_BASE`, on body 3), in either fixture order, leaves
both foot-contact counters at 0 and `isGrounded` false for both players: the
counter the specification expects to grow by one does not change. -/
theorem C1_foot_sensor_begin_contact_counts_nothing :
    (((PlayerContactListener.new []).BeginContact
        ⟨⟨FOOT_SENSOR_ID, 2⟩, ⟨PLATFORM_ID_BASE, 3⟩⟩).footContacts PLAYER1_ID = 0 ∧
     ((PlayerContactListener.new []).BeginContact
        ⟨⟨FOOT_SENSOR_ID, 2⟩, ⟨PLATFORM_ID_BASE, 3⟩⟩).footContacts PLAYER2_ID = 0 ∧
     ((PlayerContactListener.new []).BeginContact
        ⟨⟨FOOT_SENSOR_ID, 2⟩, ⟨PLATFORM_ID_BASE, 3⟩⟩).isGrounded PLAYER1_ID = false ∧
     ((PlayerContactListener.new []).BeginContact
        ⟨⟨FOOT_SENSOR_ID, 2⟩, ⟨PLATFORM_ID_BASE, 3⟩⟩).isGrounded PLAYER2_ID = false) ∧
    (((PlayerContactListener.new []).BeginContact
        ⟨⟨PLATFORM_ID_BASE, 3⟩, ⟨FOOT_SENSOR_ID, 2⟩⟩).footContacts PLAYER1_ID = 0 ∧
     ((PlayerContactListener.new []).BeginContact
        ⟨⟨PLATFORM_ID_BASE, 3⟩, ⟨FOOT_SENSOR_ID, 2⟩⟩).footContacts PLAYER2_ID = 0 ∧
     ((PlayerContactListener.new []).BeginContact
        ⟨⟨PLATFORM_ID_BASE, 3⟩, ⟨FOOT_SENSOR_ID, 2⟩⟩).isGrounded PLAYER1_ID = false ∧
     ((PlayerContactListener.new []).BeginContact
        ⟨⟨PLATFORM_ID_BASE, 3⟩, ⟨FOOT_SENSOR_ID, 2⟩⟩).isGrounded PLAYER2_ID = false) := by
  refine ⟨⟨?_, ?_, ?_, ?_⟩, ⟨?_, ?_, ?_, ?_⟩⟩ <;> decide

/-! ## C2 -/

/-- C2: for every sequence of `BeginContact`, `EndContact` and `reset` calls on
a freshly constructed listener and every player id, the foot-contact counter
(0 for a player without a map entry) is non-negative afterwards, `isGrounded`
is true exactly when that counter is positive, and a following `EndContact`
that finds the counter at 0 leaves it at 0. The last three conjuncts state the
same for an arbitrary listener state: `isGrounded` is the test "counter > 0",
`EndContact` keeps a 0 counter at 0, and every call keeps all counters
non-negative. The final conjunct is the same invariant for the one-counter
listener of `Boxing7_temp.cpp`. -/
theorem C2_foot_counter_nonneg_and_isGrounded (cs : List ListenerCall) (playerId : Nat) :
    0 ≤ ((PlayerContactListener.new []).calls cs).footContacts playerId ∧
    (((PlayerContactListener.new []).calls cs).isGrounded playerId = true ↔
      0 < ((PlayerContactListener.new []).calls cs).footContacts playerId) ∧
    (∀ contact, ((PlayerContactListener.new []).calls cs).footContacts playerId = 0 →
      (((PlayerContactListener.new []).calls cs).EndContact contact).footContacts playerId = 0) ∧
    (∀ l : PlayerContactListener, l.isGrounded playerId = true ↔ 0 < l.footContacts playerId) ∧
    (∀ (l : PlayerContactListener) contact, l.footContacts playerId = 0 →
      (l.EndContact contact).footContacts playerId = 0) ∧
    (∀ (l : PlayerContactListener) call, (∀ p, 0 ≤ l.footContacts p) →
      0 ≤ (l.call call).footContacts playerId) ∧
    (∀ cs7 : List Boxing7_temp.ListenerCall,
      0 ≤ ((Boxing7_temp.PlayerContactListener.new []).calls cs7).footContacts ∧
      (((Boxing7_temp.PlayerContactListener.new []).calls cs7).isGrounded = true ↔
        0 < ((Boxing7_temp.PlayerContactListener.new []).calls cs7).footContacts)) := by
  have hend : ∀ (l : PlayerContactListener) contact, l.footContacts playerId = 0 →
      (l.EndContact contact).footContacts playerId = 0 := by
    intro l contact h0
    rcases footContacts_EndContact l contact playerId with e | ⟨hpos, _⟩
    · rw [e, h0]
    · omega
  refine ⟨?_, isGrounded_iff _ _, fun contact => hend _ contact, fun l => isGrounded_iff l _,
    hend, fun l call h => footContacts_call_nonneg l call h playerId, ?_⟩
  · exact footContacts_calls_nonneg cs _ (fun p => by
      simp [PlayerContactListener.footContacts, PlayerContactListener.new, mapAt]) playerId
  · intro cs7
    refine ⟨footContacts7_calls_nonneg cs7 _ (by simp [Boxing7_temp.PlayerContactListener.new]), ?_⟩
    simp [Boxing7_temp.PlayerContactListener.isGrounded]

/-! ## C3 -/

theorem jump_snd_range (GetMass : b2Body → ℚ) (w : b2World) (body : Option b2Body) (j : Int)
    (h : 0 ≤ j ∧ j ≤ maxJumps) :
    0 ≤ (jump GetMass w body j).2 ∧ (jump GetMass w body j).2 ≤ maxJumps := by
  unfold jump
  split
  · split_ifs <;> dsimp only <;> omega
  · exact h

theorem handleEvent_jumpsInRange (GetMass : b2Body → ℚ) (now : Int) (g : Game) (e : Event)
    (h : g.jumpsInRange) : (handleEvent GetMass now g e).jumpsInRange := by
  have hm : (0 : Int) ≤ maxJumps := by decide
  obtain ⟨h1, h2⟩ := h
  have j1 := jump_snd_range GetMass g.world g.playerBody g.jumpsRemaining h1
  have j2 := fun w => jump_snd_range GetMass w g.player2Body g.jumpsRemaining2 h2
  unfold Game.jumpsInRange
  cases e <;> simp only [handleEvent, reduceCtorEq, if_true, if_false] <;> split <;>
    (try split) <;> (try split_ifs) <;>
    (try simp only [startSingle, startMulti, jumpPlayer1, jumpPlayer2]) <;>
    first
    | exact ⟨h1, h2⟩
    | exact ⟨j1, h2⟩
    | exact ⟨h1, j2 _⟩
    | exact ⟨j1, j2 _⟩
    | exact ⟨⟨hm, le_refl _⟩, h2⟩
    | exact ⟨⟨hm, le_refl _⟩, ⟨hm, le_refl _⟩⟩

theorem refillJumps_jumpsInRange (g : Game) (h : g.jumpsInRange) :
    (refillJumps g).jumpsInRange := by
  have hm : (0 : Int) ≤ maxJumps := by decide
  obtain ⟨h1, h2⟩ := h
  unfold Game.jumpsInRange
  simp only [refillJumps]
  split <;> (try split_ifs) <;>
    first
    | exact ⟨h1, h2⟩
    | exact ⟨⟨hm, le_refl _⟩, h2⟩
    | exact ⟨h1, ⟨hm, le_refl _⟩⟩
    | exact ⟨⟨hm, le_refl _⟩, ⟨hm, le_refl _⟩⟩

theorem op_jumpsInRange (GetMass : b2Body → ℚ) (g : Game) (o : GameOp) (h : g.jumpsInRange) :
    (g.op GetMass o).jumpsInRange := by
  cases o with
  | event now e => exact handleEvent_jumpsInRange GetMass now g e h
  | listener call => exact h
  | refillJumps => exact refillJumps_jumpsInRange g h

theorem ops_jumpsInRange (GetMass : b2Body → ℚ) (os : List GameOp) :
    ∀ g : Game, g.jumpsInRange → (g.ops GetMass os).jumpsInRange := by
  induction os with
  | nil => intro g h; exact h
  | cons o os ih => intro g h; exact ih (g.op GetMass o) (op_jumpsInRange GetMass g o h)

/-- C3: both jump counters stay in `[0, maxJumps]`. They are so when the
frame loop is entered; every operation that writes them (a polled event, which
covers session start and the jump keys, and the per-tick grounded refill),
run in any state in which they are in range, leaves them in range; hence they
are in range after every sequence of such operations and listener callbacks,
from the start of the program or from any state in range. -/
theorem C3_jumpsRemaining_in_range (GetMass : b2Body → ℚ) (highScoreFile : Option Int)
    (now : Int) (os : List GameOp) :
    (Game.start highScoreFile now).jumpsInRange ∧
    ((Game.start highScoreFile now).ops GetMass os).jumpsInRange ∧
    (∀ (g : Game) (o : GameOp), g.jumpsInRange → (g.op GetMass o).jumpsInRange) ∧
    (∀ g : Game, g.jumpsInRange → (g.ops GetMass os).jumpsInRange) := by
  have h0 : (Game.start highScoreFile now).jumpsInRange := by
    have hm : (0 : Int) ≤ maxJumps := by decide
    exact ⟨⟨hm, le_refl _⟩, ⟨hm, le_refl _⟩⟩
  exact ⟨h0, ops_jumpsInRange GetMass os _ h0, op_jumpsInRange GetMass,
    ops_jumpsInRange GetMass os⟩

/-- C3 at a concrete state: in `sceneGrounded` (player 1 grounded, three jumps
left) the counters are in range, the refill sets player 1's counter to
`maxJumps`, and C3 gives the range afterwards. -/
theorem C3_jumpsRemaining_in_range_witness :
    sceneGrounded.jumpsInRange ∧
    (sceneGrounded.op playerMass .refillJumps).jumpsRemaining = maxJumps ∧
    (sceneGrounded.op playerMass .refillJumps).jumpsInRange := by
  have h : sceneGrounded.jumpsInRange := by
    unfold Game.jumpsInRange
    decide
  exact ⟨h, by decide,
    (C3_jumpsRemaining_in_range playerMass none 0 []).2.2.1 _ .refillJumps h⟩

/-! ## C4 -/

/-- C4: a press of player 1's jump key `W` in `PlayingSingle` or
`PlayingMulti`, and of player 2's jump key `Up` in `PlayingMulti`: when that
player's body exists and the player's jump counter is positive, the counter
decreases by exactly 1 and exactly one call is made on the world, the impulse
`(0, -(playerJumpForce * METERS_PER_PIXEL * mass))` on that body; when the
body does not exist or the counter is not positive (in particular 0), the
counter and the world are unchanged. The jump keys are read only in these
states: on the start screen and after game over a press of `W` or `Up` changes
neither the counters nor the world. -/
theorem C4_jump_key (GetMass : b2Body → ℚ) (now : Int) (g : Game) :
    ((g.currentState = .PlayingSingle ∨ g.currentState = .PlayingMulti) →
      (∀ b, g.playerBody = some b → 0 < g.jumpsRemaining →
        (handleEvent GetMass now g (.KeyPressed .W)).jumpsRemaining = g.jumpsRemaining - 1 ∧
        (handleEvent GetMass now g (.KeyPressed .W)).world.calls = g.world.calls ++
          [b2Call.ApplyLinearImpulseToCenter b
            (0, -(playerJumpForce * METERS_PER_PIXEL * GetMass b))]) ∧
      (g.playerBody = none ∨ g.jumpsRemaining ≤ 0 →
        (handleEvent GetMass now g (.KeyPressed .W)).jumpsRemaining = g.jumpsRemaining ∧
        (handleEvent GetMass now g (.KeyPressed .W)).world = g.world)) ∧
    (g.currentState = .PlayingMulti →
      (∀ b, g.player2Body = some b → 0 < g.jumpsRemaining2 →
        (handleEvent GetMass now g (.KeyPressed .Up)).jumpsRemaining2 = g.jumpsRemaining2 - 1 ∧
        (handleEvent GetMass now g (.KeyPressed .Up)).world.calls = g.world.calls ++
          [b2Call.ApplyLinearImpulseToCenter b
            (0, -(playerJumpForce * METERS_PER_PIXEL * GetMass b))]) ∧
      (g.player2Body = none ∨ g.jumpsRemaining2 ≤ 0 →
        (handleEvent GetMass now g (.KeyPressed .Up)).jumpsRemaining2 = g.jumpsRemaining2 ∧
        (handleEvent GetMass now g (.KeyPressed .Up)).world = g.world)) ∧
    ((g.currentState = .StartScreen ∨ g.currentState = .GameOver) →
      ∀ code, code = Key.W ∨ code = Key.Up →
        (handleEvent GetMass now g (.KeyPressed code)).jumpsRemaining = g.jumpsRemaining ∧
        (handleEvent GetMass now g (.KeyPressed code)).jumpsRemaining2 = g.jumpsRemaining2 ∧
        (handleEvent GetMass now g (.KeyPressed code)).world = g.world) := by
  refine ⟨?_, ?_, ?_⟩
  · intro hs
    refine ⟨?_, ?_⟩
    · intro b hb hj
      rcases hs with hs | hs <;>
        simp [handleEvent, hs, jumpPlayer1, jump, hb, hj, b2World.call]
    · intro hn
      rcases hs with hs | hs <;> rcases hn with hn | hn <;>
        simp [handleEvent, hs, jumpPlayer1, jump, hn, not_lt.mpr] <;>
        cases hb : g.playerBody <;> simp [not_lt.mpr hn]
  · intro hs
    refine ⟨?_, ?_⟩
    · intro b hb hj
      simp [handleEvent, hs, jumpPlayer2, jump, hb, hj, b2World.call]
    · intro hn
      rcases hn with hn | hn
      · simp [handleEvent, hs, jumpPlayer2, jump, hn]
      · cases hb : g.player2Body <;>
          simp [handleEvent, hs, jumpPlayer2, jump, hb, not_lt.mpr hn]
  · intro hs code hc
    rcases hs with hs | hs <;> rcases hc with hc | hc <;> simp [handleEvent, hs, hc]

/-- C4 in two concrete sessions. In `sceneSingle` (body 2, ten jumps left) a
press of `W` leaves nine jumps and applies the impulse `(0, -(700 · 1/50 ·
24/25))` to body 2; in `sceneNoJumps` (no jump left) it changes neither the
counter nor the world. -/
theorem C4_jump_key_witness :
    ((handleEvent playerMass 5 sceneSingle (.KeyPressed .W)).jumpsRemaining =
        sceneSingle.jumpsRemaining - 1 ∧
      (handleEvent playerMass 5 sceneSingle (.KeyPressed .W)).world.calls =
        sceneSingle.world.calls ++
          [b2Call.ApplyLinearImpulseToCenter 2
            (0, -(playerJumpForce * METERS_PER_PIXEL * playerMass 2))]) ∧
    ((handleEvent playerMass 5 sceneNoJumps (.KeyPressed .W)).jumpsRemaining =
        sceneNoJumps.jumpsRemaining ∧
      (handleEvent playerMass 5 sceneNoJumps (.KeyPressed .W)).world = sceneNoJumps.world) ∧
    sceneSingle.jumpsRemaining - 1 = 9 ∧ sceneNoJumps.jumpsRemaining = 0 :=
  ⟨((C4_jump_key playerMass 5 sceneSingle).1 (Or.inl (by decide))).1 2 (by decide)
      (by decide),
    ((C4_jump_key playerMass 5 sceneNoJumps).1 (Or.inl (by decide))).2
      (Or.inr (by decide)),
    by decide, by decide⟩

/-! ## C5 and C6 -/

theorem visualOverlap_eq_true_iff (getGlobalBounds : RectangleShape → FloatRect)
    (blocks : List Block) (candidate : Block) :
    visualOverlap getGlobalBounds blocks candidate = true ↔
      ∃ block ∈ blocks, block.markedForRemoval = false ∧ block.body.isSome = true ∧
        (candidateBounds getGlobalBounds candidate).intersects (getGlobalBounds block.shape)
          = true := by
  simp [visualOverlap, List.any_eq_true, and_assoc]

theorem visualOverlap_eq_false_iff (getGlobalBounds : RectangleShape → FloatRect)
    (blocks : List Block) (candidate : Block) :
    visualOverlap getGlobalBounds blocks candidate = false ↔
      ∀ block ∈ blocks, block.markedForRemoval = false → block.body.isSome = true →
        (candidateBounds getGlobalBounds candidate).intersects (getGlobalBounds block.shape)
          = false := by
  rw [← Bool.not_eq_true, visualOverlap_eq_true_iff]
  simp

/-- The block list after a spawn attempt whose timer has expired. -/
theorem spawnBlock_blocks (getGlobalBounds : RectangleShape → FloatRect) (now : Int)
    (d : SpawnDraws) (g : Game) (hexp : g.spawnClock.elapsedSeconds now ≥ g.nextSpawnTime) :
    (spawnBlock getGlobalBounds now d g).blocks =
      if visualOverlap getGlobalBounds g.blocks (newBlock d g) = true then g.blocks
      else g.blocks ++ [newBlock d g] := by
  simp only [spawnBlock, hexp, if_true]
  cases h : visualOverlap getGlobalBounds g.blocks (newBlock d g)
  · simp only [Bool.not_false, if_true, Bool.false_eq_true, if_false]
    split_ifs <;> rfl
  · simp only [Bool.not_true, Bool.false_eq_true, if_false, if_true]

/-- The collectible list after a rejected spawn attempt. -/
theorem spawnBlock_collectibles_of_overlap (getGlobalBounds : RectangleShape → FloatRect)
    (now : Int) (d : SpawnDraws) (g : Game)
    (hov : visualOverlap getGlobalBounds g.blocks (newBlock d g) = true) :
    (spawnBlock getGlobalBounds now d g).collectibles = g.collectibles := by
  simp only [spawnBlock, hov, Bool.not_true, Bool.false_eq_true, if_false]
  split_ifs <;> rfl

/-- For rectangles of non-negative size, `intersects` holds exactly when the
common region has strictly positive width and strictly positive height. -/
theorem intersects_iff_of_nonneg (r1 r2 : FloatRect) (w1 : 0 ≤ r1.width) (h1 : 0 ≤ r1.height)
    (w2 : 0 ≤ r2.width) (h2 : 0 ≤ r2.height) :
    r1.intersects r2 = true ↔
      max r1.left r2.left < min (r1.left + r1.width) (r2.left + r2.width) ∧
      max r1.top r2.top < min (r1.top + r1.height) (r2.top + r2.height) := by
  unfold FloatRect.intersects
  simp only [decide_eq_true_eq]
  rw [min_eq_left (by linarith : r1.left ≤ r1.left + r1.width),
    max_eq_right (by linarith : r1.left ≤ r1.left + r1.width),
    min_eq_left (by linarith : r2.left ≤ r2.left + r2.width),
    max_eq_right (by linarith : r2.left ≤ r2.left + r2.width),
    min_eq_left (by linarith : r1.top ≤ r1.top + r1.height),
    max_eq_right (by linarith : r1.top ≤ r1.top + r1.height),
    min_eq_left (by linarith : r2.top ≤ r2.top + r2.height),
    max_eq_right (by linarith : r2.top ≤ r2.top + r2.height)]

/-! ### Evaluation of the scenes -/

theorem sceneSingle_currentState : sceneSingle.currentState = .PlayingSingle := by decide

theorem sceneLongBlock_lengthBounds :
    currentLengthBounds sceneLongBlock = ⟨200, 600, .greenBlockColor⟩ := by
  simp [currentLengthBounds, sceneLongBlock, sceneSingle_currentState]
  norm_num [baseMinLength, baseMaxLength, lengthenFactor]

theorem sceneNearBlock_lengthBounds :
    currentLengthBounds sceneNearBlock = ⟨200, 600, .greenBlockColor⟩ := by
  simp [currentLengthBounds, sceneNearBlock, sceneLongBlock, sceneSingle_currentState]
  norm_num [baseMinLength, baseMaxLength, lengthenFactor]

theorem sceneLongBlock_expired :
    sceneLongBlock.spawnClock.elapsedSeconds 2800000 ≥ sceneLongBlock.nextSpawnTime := by
  simp [sceneLongBlock, sceneSingle, handleEvent, Game.start, startSingle,
    Clock.elapsedSeconds, Clock.restart]
  norm_num

theorem sceneNearBlock_expired :
    sceneNearBlock.spawnClock.elapsedSeconds 2800000 ≥ sceneNearBlock.nextSpawnTime := by
  simp [sceneNearBlock, sceneLongBlock, sceneSingle, handleEvent, Game.start, startSingle,
    Clock.elapsedSeconds, Clock.restart]
  norm_num

theorem sceneLongBlock_no_overlap :
    visualOverlap sfGlobalBounds sceneLongBlock.blocks (newBlock drawsLow sceneLongBlock)
      = false := by
  simp only [newBlock, sceneLongBlock_lengthBounds, visualOverlap, candidateBounds,
    sfGlobalBounds, drawsLow, uniformReal, windowWidth, windowHeight, fixedHeight,
    FloatRect.intersects]
  simp [sceneLongBlock, longBlock]
  norm_num

theorem sceneLongBlock_committed :
    (spawnBlock sfGlobalBounds 2800000 drawsLow sceneLongBlock).blocks =
      sceneLongBlock.blocks ++ [newBlock drawsLow sceneLongBlock] := by
  rw [spawnBlock_blocks _ _ _ _ sceneLongBlock_expired, sceneLongBlock_no_overlap]
  rfl

/-! ### C5 -/

/-- C5 as stated fails. In `sceneLongBlock` the timer has expired and the
candidate (visual bounds from x = 1197.5, widened from x = 1147.5) is
committed, because the live block ends at x = 1142.5; yet the candidate's
widened box intersects the live block's equally widened box, which ends at
x = 1192.5. -/
theorem C5_widened_boxes_can_intersect :
    sceneLongBlock.spawnClock.elapsedSeconds 2800000 ≥ sceneLongBlock.nextSpawnTime ∧
    (spawnBlock sfGlobalBounds 2800000 drawsLow sceneLongBlock).blocks =
      sceneLongBlock.blocks ++ [newBlock drawsLow sceneLongBlock] ∧
    ∃ other ∈ sceneLongBlock.blocks, other.markedForRemoval = false ∧
      other.body.isSome = true ∧
      ((sfGlobalBounds (newBlock drawsLow sceneLongBlock).shape).widened).intersects
        ((sfGlobalBounds other.shape).widened) = true := by
  refine ⟨sceneLongBlock_expired, sceneLongBlock_committed, longBlock, ?_, rfl, rfl, ?_⟩
  · simp [sceneLongBlock]
  · simp only [newBlock, sceneLongBlock_lengthBounds, FloatRect.widened, sfGlobalBounds,
      drawsLow, uniformReal, windowWidth, windowHeight, fixedHeight, FloatRect.intersects,
      longBlock]
    norm_num

/-- C5, amended: when a spawn attempt (timer expired) commits its candidate,
the candidate's bounding box widened by 50 units on each horizontal side does
not intersect the bounding box, as it is, of any block already in the list that
is not marked for removal and has a body. -/
theorem C5_committed_clear_of_live_blocks (getGlobalBounds : RectangleShape → FloatRect)
    (now : Int) (d : SpawnDraws) (g : Game)
    (hexp : g.spawnClock.elapsedSeconds now ≥ g.nextSpawnTime)
    (hcommit : (spawnBlock getGlobalBounds now d g).blocks = g.blocks ++ [newBlock d g]) :
    ∀ other ∈ g.blocks, other.markedForRemoval = false → other.body.isSome = true →
      ((getGlobalBounds (newBlock d g).shape).widened).intersects
        (getGlobalBounds other.shape) = false := by
  rw [spawnBlock_blocks _ _ _ _ hexp] at hcommit
  cases hov : visualOverlap getGlobalBounds g.blocks (newBlock d g)
  · exact (visualOverlap_eq_false_iff _ _ _).mp hov
  · rw [hov] at hcommit
    simp at hcommit

/-- C5 amended, in `sceneLongBlock`: the committed candidate, widened, does
not intersect the live block. -/
theorem C5_committed_clear_of_live_blocks_witness :
    sceneLongBlock.spawnClock.elapsedSeconds 2800000 ≥ sceneLongBlock.nextSpawnTime ∧
    (spawnBlock sfGlobalBounds 2800000 drawsLow sceneLongBlock).blocks =
      sceneLongBlock.blocks ++ [newBlock drawsLow sceneLongBlock] ∧
    ((sfGlobalBounds (newBlock drawsLow sceneLongBlock).shape).widened).intersects
      (sfGlobalBounds longBlock.shape) = false :=
  ⟨sceneLongBlock_expired, sceneLongBlock_committed,
    C5_committed_clear_of_live_blocks sfGlobalBounds 2800000 drawsLow sceneLongBlock
      sceneLongBlock_expired sceneLongBlock_committed longBlock
      (by simp [sceneLongBlock]) rfl rfl⟩

/-! ### C6 -/

/-- C6: in a spawn attempt whose timer has expired, the rectangle tested is the
candidate's bounding box with `left` moved 50 to the left and `width` grown by
100; the candidate is appended to the block list if and only if that rectangle
intersects the bounding box of no list entry that is not marked for removal
and has a body; when it does intersect one, the block list and the collectible
list are unchanged. `intersects` is, for rectangles of non-negative size,
"the common region has strictly positive width and height". -/
theorem C6_commit_iff_no_overlap (getGlobalBounds : RectangleShape → FloatRect)
    (now : Int) (d : SpawnDraws) (g : Game)
    (hexp : g.spawnClock.elapsedSeconds now ≥ g.nextSpawnTime) :
    candidateBounds getGlobalBounds (newBlock d g) =
      { left := (getGlobalBounds (newBlock d g).shape).left - 50
        top := (getGlobalBounds (newBlock d g).shape).top
        width := (getGlobalBounds (newBlock d g).shape).width + 100
        height := (getGlobalBounds (newBlock d g).shape).height } ∧
    ((spawnBlock getGlobalBounds now d g).blocks = g.blocks ++ [newBlock d g] ↔
      ∀ block ∈ g.blocks, block.markedForRemoval = false → block.body.isSome = true →
        (candidateBounds getGlobalBounds (newBlock d g)).intersects
          (getGlobalBounds block.shape) = false) ∧
    ((∃ block ∈ g.blocks, block.markedForRemoval = false ∧ block.body.isSome = true ∧
        (candidateBounds getGlobalBounds (newBlock d g)).intersects
          (getGlobalBounds block.shape) = true) →
      (spawnBlock getGlobalBounds now d g).blocks = g.blocks ∧
      (spawnBlock getGlobalBounds now d g).collectibles = g.collectibles) ∧
    (∀ r1 r2 : FloatRect, 0 ≤ r1.width → 0 ≤ r1.height → 0 ≤ r2.width → 0 ≤ r2.height →
      (r1.intersects r2 = true ↔
        max r1.left r2.left < min (r1.left + r1.width) (r2.left + r2.width) ∧
        max r1.top r2.top < min (r1.top + r1.height) (r2.top + r2.height))) := by
  refine ⟨rfl, ?_, ?_, intersects_iff_of_nonneg⟩
  · rw [spawnBlock_blocks _ _ _ _ hexp, ← visualOverlap_eq_false_iff]
    cases hov : visualOverlap getGlobalBounds g.blocks (newBlock d g) <;> simp
  · intro hex
    have hov := (visualOverlap_eq_true_iff _ _ _).mpr hex
    refine ⟨?_, spawnBlock_collectibles_of_overlap _ _ _ _ hov⟩
    rw [spawnBlock_blocks _ _ _ _ hexp, hov]
    rfl

/-- C6 in `sceneNearBlock`: the timer has expired, the live block (visual
bounds up to x = 1152.5) intersects the tested rectangle (from x = 1147.5), and
the attempt leaves the block list and the collectible list as they were. -/
theorem C6_commit_iff_no_overlap_witness :
    sceneNearBlock.spawnClock.elapsedSeconds 2800000 ≥ sceneNearBlock.nextSpawnTime ∧
    (spawnBlock sfGlobalBounds 2800000 drawsLow sceneNearBlock).blocks =
      sceneNearBlock.blocks ∧
    (spawnBlock sfGlobalBounds 2800000 drawsLow sceneNearBlock).collectibles =
      sceneNearBlock.collectibles :=
  ⟨sceneNearBlock_expired,
    (C6_commit_iff_no_overlap sfGlobalBounds 2800000 drawsLow sceneNearBlock
      sceneNearBlock_expired).2.2.1
      ⟨{ longBlock with shape := { longBlock.shape with position := (900, 400) } },
        by simp [sceneNearBlock], rfl, rfl, by
          simp only [newBlock, sceneNearBlock_lengthBounds, candidateBounds, sfGlobalBounds,
            drawsLow, uniformReal, windowWidth, windowHeight, fixedHeight,
            FloatRect.intersects, longBlock]
          norm_num⟩⟩

/-! ## C7 -/

theorem collect_score_bounds (now : Int) (g : Game) (type : CollectibleType)
    (h : 0 ≤ g.score) :
    0 ≤ (collect now g type).score ∧ (collect now g type).score ≤ g.score + 3 := by
  cases type <;> simp only [collect] <;> refine ⟨?_, ?_⟩ <;> omega

theorem collectAll_score_bounds (picks : List (Int × CollectibleType)) :
    ∀ g : Game, 0 ≤ g.score →
      0 ≤ (collectAll g picks).score ∧
      (collectAll g picks).score ≤ g.score + 3 * (picks.length : Int) := by
  induction picks with
  | nil => intro g h; simpa [collectAll] using h
  | cons pick picks ih =>
    intro g h
    have hb := collect_score_bounds pick.1 g pick.2 h
    have hr := ih (collect pick.1 g pick.2) hb.1
    simp only [collectAll, List.foldl_cons, List.length_cons] at hr ⊢
    refine ⟨hr.1, ?_⟩
    push_cast
    linarith [hr.2, hb.2]

theorem resolveSingle_score_nonneg (now : Int) (g : Game) (b : b2Body) (h : 0 ≤ g.score) :
    0 ≤ (resolveSingle now g b).score := by
  unfold resolveSingle
  split
  · exact (collect_score_bounds now g _ h).1
  · exact h

theorem foldl_resolveSingle_score_nonneg (now : Int) (queue : List b2Body) :
    ∀ g : Game, 0 ≤ g.score → 0 ≤ (queue.foldl (resolveSingle now) g).score := by
  induction queue with
  | nil => intro g h; exact h
  | cons b queue ih =>
    intro g h
    exact ih _ (resolveSingle_score_nonneg now g b h)

theorem foldl_resolveMulti_score (queue : List b2Body) :
    ∀ g : Game, (queue.foldl resolveMulti g).score = g.score := by
  induction queue with
  | nil => intro g; rfl
  | cons b queue ih =>
    intro g
    rw [List.foldl_cons, ih]
    unfold resolveMulti
    split <;> rfl

theorem processCollected_score_nonneg (now : Int) (g : Game) (h : 0 ≤ g.score) :
    0 ≤ (processCollected now g).score := by
  simp only [processCollected]
  split_ifs
  · exact foldl_resolveSingle_score_nonneg now _ g h
  · rw [foldl_resolveMulti_score]; exact h

/-- C7: the score is 0 when a single-player session starts; after every
sequence of consumptions from there it is at least 0 (and at most three times
the number of consumptions, so it stays far inside the range of `int` for any
session of fewer than 715 million pickups); a `MinusScore` consumption sets
the score to `max(0, score - 2)` in any state; and from any state with a
non-negative score one consumption, and the resolution of any removal queue,
leave it non-negative. -/
theorem C7_score_never_negative (now0 now : Int) (g0 g : Game)
    (picks : List (Int × CollectibleType)) :
    (startSingle now0 g0).score = 0 ∧
    0 ≤ (collectAll (startSingle now0 g0) picks).score ∧
    (collectAll (startSingle now0 g0) picks).score ≤ 3 * (picks.length : Int) ∧
    (collect now g .MinusScore).score = max 0 (g.score - 2) ∧
    (0 ≤ g.score → ∀ type, 0 ≤ (collect now g type).score) ∧
    (0 ≤ g.score → 0 ≤ (processCollected now g).score) := by
  have h0 : (startSingle now0 g0).score = 0 := rfl
  have hb := collectAll_score_bounds picks (startSingle now0 g0) (le_of_eq h0.symm)
  refine ⟨h0, hb.1, ?_, rfl, fun h type => (collect_score_bounds now g type h).1,
    processCollected_score_nonneg now g⟩
  have := hb.2
  rw [h0] at this
  linarith

/-! ## C8 -/

/-- The inner loop marks the first collectible that has the body. -/
theorem markCollected_first (b : b2Body) (c : Collectible) (post : List Collectible)
    (hc : c.body = some b) :
    ∀ pre : List Collectible, (∀ x ∈ pre, x.body ≠ some b) →
      markCollected b (pre ++ c :: post) =
        some (c.type, pre ++ { c with markedForRemoval := true } :: post) := by
  intro pre
  induction pre with
  | nil => intro _; simp [markCollected, hc]
  | cons x pre ih =>
    intro hpre
    have hx : x.body ≠ some b := hpre x (List.mem_cons_self _ _)
    have hrest := ih (fun y hy => hpre y (List.mem_cons_of_mem _ hy))
    simp [markCollected, hx, hrest]

/-- The state after resolving a queue that holds one body, the body of a
collectible in the list, in single-player mode. -/
theorem processCollected_single_one (now : Int) (g : Game) (b : b2Body)
    (pre : List Collectible) (c : Collectible) (post : List Collectible)
    (hstate : g.currentState = .PlayingSingle)
    (hqueue : g.collectiblesToRemoveFromWorld = [b])
    (hlist : g.collectibles = pre ++ c :: post)
    (hc : c.body = some b) (hpre : ∀ x ∈ pre, x.body ≠ some b) :
    processCollected now g =
      { collect now g c.type with
        collectibles := pre ++ { c with markedForRemoval := true } :: post
        contactListener :=
          { (collect now g c.type).contactListener with collectiblesToRemove := [] } } := by
  simp only [processCollected, hstate, if_true, hqueue, List.foldl_cons, List.foldl_nil,
    resolveSingle, hlist, markCollected_first b c post hc pre hpre]

/-- C8: in single-player mode, resolving a removal queue that holds the body of
one collectible of the list (the first list entry with that body) marks that
collectible for removal, leaves the other list entries as they are, empties
the queue, and changes score, platform effect and rain flag as the
collectible's type prescribes and not otherwise: Magenta adds 1 to the score;
Orange adds 3; Green sets the effect to Lengthen and restarts the effect clock;
Red sets it to Shorten and restarts the effect clock; White sets the rain flag
and restarts the rain-duration and rain-spawn clocks; MinusScore sets the score
to `max(0, score - 2)`. -/
theorem C8_consumption_effect (now : Int) (g : Game) (b : b2Body)
    (pre : List Collectible) (c : Collectible) (post : List Collectible)
    (hstate : g.currentState = .PlayingSingle)
    (hqueue : g.collectiblesToRemoveFromWorld = [b])
    (hlist : g.collectibles = pre ++ c :: post)
    (hc : c.body = some b) (hpre : ∀ x ∈ pre, x.body ≠ some b) :
    (processCollected now g).collectibles =
      pre ++ { c with markedForRemoval := true } :: post ∧
    (processCollected now g).collectiblesToRemoveFromWorld = [] ∧
    (c.type = .Magenta →
      (processCollected now g).score = g.score + 1 ∧
      (processCollected now g).currentPlatformEffect = g.currentPlatformEffect ∧
      (processCollected now g).isRainingMagenta = g.isRainingMagenta) ∧
    (c.type = .Orange →
      (processCollected now g).score = g.score + 3 ∧
      (processCollected now g).currentPlatformEffect = g.currentPlatformEffect ∧
      (processCollected now g).isRainingMagenta = g.isRainingMagenta) ∧
    (c.type = .Green →
      (processCollected now g).score = g.score ∧
      (processCollected now g).currentPlatformEffect = .Lengthen ∧
      (processCollected now g).platformEffectClock = { m_startTime := now } ∧
      (processCollected now g).isRainingMagenta = g.isRainingMagenta) ∧
    (c.type = .Red →
      (processCollected now g).score = g.score ∧
      (processCollected now g).currentPlatformEffect = .Shorten ∧
      (processCollected now g).platformEffectClock = { m_startTime := now } ∧
      (processCollected now g).isRainingMagenta = g.isRainingMagenta) ∧
    (c.type = .White →
      (processCollected now g).score = g.score ∧
      (processCollected now g).currentPlatformEffect = g.currentPlatformEffect ∧
      (processCollected now g).isRainingMagenta = true ∧
      (processCollected now g).magentaRainClock = { m_startTime := now } ∧
      (processCollected now g).magentaRainSpawnClock = { m_startTime := now }) ∧
    (c.type = .MinusScore →
      (processCollected now g).score = max 0 (g.score - 2) ∧
      (processCollected now g).currentPlatformEffect = g.currentPlatformEffect ∧
      (processCollected now g).isRainingMagenta = g.isRainingMagenta) := by
  rw [processCollected_single_one now g b pre c post hstate hqueue hlist hc hpre]
  refine ⟨rfl, rfl, ?_, ?_, ?_, ?_, ?_, ?_⟩ <;> intro ht <;> rw [ht] <;>
    simp [collect, Clock.restart]

/-- C8 in `scenePickup`: the queue holds the poison's body; resolving it marks
the poison (second in the list) and takes the score from 1 to 0. -/
theorem C8_consumption_effect_witness :
    scenePickup.currentState = .PlayingSingle ∧
    scenePickup.collectiblesToRemoveFromWorld = [5] ∧
    (processCollected 7000000 scenePickup).collectibles =
      [pizza] ++ { poison with markedForRemoval := true } :: [] ∧
    (processCollected 7000000 scenePickup).score = max 0 (scenePickup.score - 2) ∧
    max 0 (scenePickup.score - 2) = 0 :=
  ⟨by decide, by decide,
    (C8_consumption_effect 7000000 scenePickup 5 [pizza] poison [] (by decide) (by decide)
      rfl rfl (by decide)).1,
    ((C8_consumption_effect 7000000 scenePickup 5 [pizza] poison [] (by decide) (by decide)
      rfl rfl (by decide)).2.2.2.2.2.2.2 rfl).1,
    by decide⟩

/-! ## C9 -/

/-- C9: for a frame with `dt ≥ 0` and `blockSpeed ≤ maxBlockSpeed` (which is
600), the ramp yields a speed that is at least the old one and at most
`maxBlockSpeed`; it is `min(blockSpeed + 5·dt, 600)` when `blockSpeed < 600`
and the old speed otherwise. -/
theorem C9_speed_ramp (dt : ℚ) (g : Game) (hdt : 0 ≤ dt)
    (hle : g.blockSpeed ≤ maxBlockSpeed) :
    maxBlockSpeed = 600 ∧
    g.blockSpeed ≤ (speedRamp dt g).blockSpeed ∧
    (speedRamp dt g).blockSpeed ≤ maxBlockSpeed ∧
    (g.blockSpeed < 600 → (speedRamp dt g).blockSpeed = min (g.blockSpeed + 5 * dt) 600) ∧
    (¬ g.blockSpeed < 600 → (speedRamp dt g).blockSpeed = g.blockSpeed) := by
  have hmax : maxBlockSpeed = 600 := rfl
  have hfac : blockSpeedIncreaseFactor = 5 := rfl
  refine ⟨hmax, ?_, ?_, ?_, ?_⟩
  · simp only [speedRamp]
    split_ifs with h
    · exact le_min (by rw [hfac]; nlinarith) hle
    · exact le_refl _
  · simp only [speedRamp]
    split_ifs with h
    · exact min_le_right _ _
    · exact hle
  · intro h
    simp only [speedRamp, hmax, h, if_true, hfac]
  · intro h
    simp only [speedRamp, hmax, h, if_false]

/-- C9 in `sceneSingle` for a frame of 0.1 s: the speed goes from 200 to
200.5. -/
theorem C9_speed_ramp_witness :
    (0 : ℚ) ≤ 1 / 10 ∧ sceneSingle.blockSpeed ≤ maxBlockSpeed ∧
    sceneSingle.blockSpeed ≤ (speedRamp (1 / 10) sceneSingle).blockSpeed ∧
    (speedRamp (1 / 10) sceneSingle).blockSpeed ≤ maxBlockSpeed ∧
    (speedRamp (1 / 10) sceneSingle).blockSpeed = 401 / 2 := by
  have hb : sceneSingle.blockSpeed = 200 := rfl
  have h0 : (0 : ℚ) ≤ 1 / 10 := by norm_num
  have hle : sceneSingle.blockSpeed ≤ maxBlockSpeed := by
    rw [hb]; norm_num [maxBlockSpeed]
  have h := C9_speed_ramp (1 / 10) sceneSingle h0 hle
  refine ⟨h0, hle, h.2.1, h.2.2.1, ?_⟩
  rw [h.2.2.2.1 (by rw [hb]; norm_num), hb]
  norm_num

/-! ## C10 -/

/-- C10: in single-player mode the length bounds of a spawn are `[200, 600]`
under Lengthen, `[50, 150]` under Shorten and `[100, 300]` under None, that
is the base bounds `[100, 300]` times 2, times 1/2 and as they are; the lower
bound never exceeds the upper one; and the candidate's length, drawn with a
canonical value in `[0, 1]`, lies within these bounds. -/
theorem C10_length_bounds (g : Game) (hs : g.currentState = .PlayingSingle) :
    (baseMinLength = 100 ∧ baseMaxLength = 300 ∧ lengthenFactor = 2 ∧ shortenFactor = 1 / 2) ∧
    (g.currentPlatformEffect = .Lengthen →
      (currentLengthBounds g).currentMinLength = baseMinLength * lengthenFactor ∧
      (currentLengthBounds g).currentMaxLength = baseMaxLength * lengthenFactor ∧
      (currentLengthBounds g).currentMinLength = 200 ∧
      (currentLengthBounds g).currentMaxLength = 600) ∧
    (g.currentPlatformEffect = .Shorten →
      (currentLengthBounds g).currentMinLength = baseMinLength * shortenFactor ∧
      (currentLengthBounds g).currentMaxLength = baseMaxLength * shortenFactor ∧
      (currentLengthBounds g).currentMinLength = 50 ∧
      (currentLengthBounds g).currentMaxLength = 150) ∧
    (g.currentPlatformEffect = .None →
      (currentLengthBounds g).currentMinLength = 100 ∧
      (currentLengthBounds g).currentMaxLength = 300) ∧
    (currentLengthBounds g).currentMinLength ≤ (currentLengthBounds g).currentMaxLength ∧
    (∀ d : SpawnDraws, 0 ≤ d.blockLength → d.blockLength ≤ 1 →
      (currentLengthBounds g).currentMinLength ≤ (newBlock d g).shape.size.1 ∧
      (newBlock d g).shape.size.1 ≤ (currentLengthBounds g).currentMaxLength) := by
  have hL : g.currentPlatformEffect = .Lengthen → currentLengthBounds g =
      ⟨baseMinLength * lengthenFactor, baseMaxLength * lengthenFactor, .greenBlockColor⟩ := by
    intro he; simp [currentLengthBounds, hs, he]
  have hS : g.currentPlatformEffect = .Shorten → currentLengthBounds g =
      ⟨baseMinLength * shortenFactor, baseMaxLength * shortenFactor, .redBlockColor⟩ := by
    intro he; simp [currentLengthBounds, hs, he]
  have hN : g.currentPlatformEffect = .None → currentLengthBounds g =
      ⟨baseMinLength, baseMaxLength, .defaultBlockColor⟩ := by
    intro he; simp [currentLengthBounds, hs, he]
  have hle : (currentLengthBounds g).currentMinLength ≤
      (currentLengthBounds g).currentMaxLength := by
    cases he : g.currentPlatformEffect
    · rw [hN he]; norm_num [baseMinLength, baseMaxLength]
    · rw [hL he]; norm_num [baseMinLength, baseMaxLength, lengthenFactor]
    · rw [hS he]; norm_num [baseMinLength, baseMaxLength, shortenFactor]
  refine ⟨⟨rfl, rfl, rfl, rfl⟩, ?_, ?_, ?_, hle, ?_⟩
  · intro he
    rw [hL he]; norm_num [baseMinLength, baseMaxLength, lengthenFactor]
  · intro he
    rw [hS he]; norm_num [baseMinLength, baseMaxLength, shortenFactor]
  · intro he
    rw [hN he]; norm_num [baseMinLength, baseMaxLength]
  · intro d h0 h1
    simp only [newBlock, uniformReal]
    constructor <;> nlinarith

/-- C10 in `sceneLongBlock` (single-player, Lengthen): the bounds are
`[200, 600]`. -/
theorem C10_length_bounds_witness :
    sceneLongBlock.currentState = .PlayingSingle ∧
    sceneLongBlock.currentPlatformEffect = .Lengthen ∧
    (currentLengthBounds sceneLongBlock).currentMinLength = 200 ∧
    (currentLengthBounds sceneLongBlock).currentMaxLength = 600 :=
  ⟨by decide, by decide,
    ((C10_length_bounds sceneLongBlock (by decide)).2.1 (by decide)).2.2.1,
    ((C10_length_bounds sceneLongBlock (by decide)).2.1 (by decide)).2.2.2⟩

/-! ## C12, C13, C14: the ground flag and the removal queue -/

theorem touchedGroundMap_BeginContact (l : PlayerContactListener) (c : b2Contact) :
    (l.BeginContact c).touchedGroundMap =
      if c.fixtureA.userData = PLAYER1_ID ∨ c.fixtureA.userData = PLAYER2_ID then
        if c.fixtureB.userData = GROUND_ID then
          mapSet l.touchedGroundMap c.fixtureA.userData true
        else l.touchedGroundMap
      else if c.fixtureB.userData = PLAYER1_ID ∨ c.fixtureB.userData = PLAYER2_ID then
        if c.fixtureA.userData = GROUND_ID then
          mapSet l.touchedGroundMap c.fixtureB.userData true
        else l.touchedGroundMap
      else l.touchedGroundMap := by
  unfold PlayerContactListener.BeginContact
  simp only []
  by_cases hA : c.fixtureA.userData = PLAYER1_ID ∨ c.fixtureA.userData = PLAYER2_ID
  · simp only [hA, if_true]
    by_cases hg : c.fixtureB.userData = GROUND_ID
    · simp only [hg, if_true]
      split_ifs <;> rfl
    · simp only [hg, if_false]
      split_ifs <;> rfl
  · by_cases hB : c.fixtureB.userData = PLAYER1_ID ∨ c.fixtureB.userData = PLAYER2_ID
    · simp only [hA, hB, if_true, if_false]
      by_cases hg : c.fixtureA.userData = GROUND_ID
      · simp only [hg, if_true]
        split_ifs <;> rfl
      · simp only [hg, if_false]
        split_ifs <;> rfl
    · have h0 : ¬ (0 : Nat) = GROUND_ID := by decide
      simp only [hA, hB, h0, if_false]
      split_ifs <;> rfl

theorem touchedGroundMap_EndContact (l : PlayerContactListener) (c : b2Contact) :
    (l.EndContact c).touchedGroundMap =
      if (c.fixtureA.userData = PLAYER1_ID ∨ c.fixtureA.userData = PLAYER2_ID) ∧
          c.fixtureB.userData = GROUND_ID then
        mapSet l.touchedGroundMap c.fixtureA.userData false
      else if (c.fixtureB.userData = PLAYER1_ID ∨ c.fixtureB.userData = PLAYER2_ID) ∧
          c.fixtureA.userData = GROUND_ID then
        mapSet l.touchedGroundMap c.fixtureB.userData false
      else l.touchedGroundMap := by
  unfold PlayerContactListener.EndContact
  simp only []
  by_cases hA : (c.fixtureA.userData = PLAYER1_ID ∨ c.fixtureA.userData = PLAYER2_ID) ∧
      c.fixtureB.userData = GROUND_ID
  · have hne : ¬ c.fixtureA.userData = GROUND_ID := by
      rcases hA.1 with h | h <;> rw [h] <;> decide
    simp only [hA, hne, true_or, and_self, if_true, if_false]
    split_ifs <;> rfl
  · by_cases hB : (c.fixtureB.userData = PLAYER1_ID ∨ c.fixtureB.userData = PLAYER2_ID) ∧
        c.fixtureA.userData = GROUND_ID
    · simp only [hA, if_false, false_or]
      simp only [hB.1, hB.2, true_and, and_self, if_true]
      split_ifs <;> rfl
    · simp only [hA, hB, or_self, if_false]
      split_ifs <;> rfl

theorem collectiblesToRemove_BeginContact (l : PlayerContactListener) (c : b2Contact) :
    (l.BeginContact c).collectiblesToRemove =
      if isPlayerTag c.fixtureA.userData ∧ isCollectibleTag c.fixtureB.userData then
        l.collectiblesToRemove ++ [c.fixtureB.body]
      else if isPlayerTag c.fixtureB.userData ∧ isCollectibleTag c.fixtureA.userData then
        l.collectiblesToRemove ++ [c.fixtureA.body]
      else l.collectiblesToRemove := by
  unfold PlayerContactListener.BeginContact isPlayerTag isCollectibleTag
  simp only []
  by_cases hA : c.fixtureA.userData = PLAYER1_ID ∨ c.fixtureA.userData = PLAYER2_ID
  · have hnc : ¬ (c.fixtureA.userData = MAGENTA_COLLECTIBLE_ID ∨
        c.fixtureA.userData = ORANGE_COLLECTIBLE_ID ∨ c.fixtureA.userData = GREEN_COLLECTIBLE_ID ∨
        c.fixtureA.userData = RED_COLLECTIBLE_ID ∨ c.fixtureA.userData = WHITE_COLLECTIBLE_ID ∨
        c.fixtureA.userData = MINUS_SCORE_COLLECTIBLE_ID) := by
      rcases hA with h | h <;> rw [h] <;> decide
    simp only [hA, hnc, if_true, true_and, and_false, if_false]
    by_cases hcB : c.fixtureB.userData = MAGENTA_COLLECTIBLE_ID ∨
        c.fixtureB.userData = ORANGE_COLLECTIBLE_ID ∨ c.fixtureB.userData = GREEN_COLLECTIBLE_ID ∨
        c.fixtureB.userData = RED_COLLECTIBLE_ID ∨ c.fixtureB.userData = WHITE_COLLECTIBLE_ID ∨
        c.fixtureB.userData = MINUS_SCORE_COLLECTIBLE_ID
    · simp only [hcB, if_true]
      split_ifs <;> rfl
    · simp only [hcB, if_false]
      split_ifs <;> rfl
  · by_cases hB : c.fixtureB.userData = PLAYER1_ID ∨ c.fixtureB.userData = PLAYER2_ID
    · have hne : ¬ c.fixtureA.userData = c.fixtureB.userData := by
        intro h; rw [h] at hA; exact hA hB
      simp only [hA, hB, if_true, true_and, false_and, if_false]
      by_cases hcA : c.fixtureA.userData = MAGENTA_COLLECTIBLE_ID ∨
          c.fixtureA.userData = ORANGE_COLLECTIBLE_ID ∨
          c.fixtureA.userData = GREEN_COLLECTIBLE_ID ∨
          c.fixtureA.userData = RED_COLLECTIBLE_ID ∨ c.fixtureA.userData = WHITE_COLLECTIBLE_ID ∨
          c.fixtureA.userData = MINUS_SCORE_COLLECTIBLE_ID
      · simp only [hcA, hne, if_true, if_false]
        split_ifs <;> rfl
      · simp only [hcA, if_false]
        split_ifs <;> rfl
    · have h0 : ¬ ((0 : Nat) = MAGENTA_COLLECTIBLE_ID ∨ (0 : Nat) = ORANGE_COLLECTIBLE_ID ∨
          (0 : Nat) = GREEN_COLLECTIBLE_ID ∨ (0 : Nat) = RED_COLLECTIBLE_ID ∨
          (0 : Nat) = WHITE_COLLECTIBLE_ID ∨ (0 : Nat) = MINUS_SCORE_COLLECTIBLE_ID) := by
        decide
      simp only [hA, hB, h0, if_false, false_and]
      split_ifs <;> rfl

theorem collectiblesToRemove_EndContact (l : PlayerContactListener) (c : b2Contact) :
    (l.EndContact c).collectiblesToRemove = l.collectiblesToRemove := by
  unfold PlayerContactListener.EndContact
  simp only []
  split_ifs <;> rfl

theorem hasTouchedGround_mapSet (l : PlayerContactListener) (m : Nat → Option Bool)
    (k p : Nat) (v : Bool) (hm : l.touchedGroundMap = mapSet m k v) :
    l.hasTouchedGround p = if p = k then v else
      (match m p with
       | some b => b
       | none => false) := by
  unfold PlayerContactListener.hasTouchedGround
  rw [hm]
  unfold mapSet
  split_ifs <;> rfl

/-- A ground contact of a player with a main-body tag, read off the two tags. -/
theorem groundContact_cases (p : Nat) (c : b2Contact) (hp : isPlayerTag p)
    (hc : isGroundContactOf p c) :
    ((c.fixtureA.userData = PLAYER1_ID ∨ c.fixtureA.userData = PLAYER2_ID) ∧
      c.fixtureB.userData = GROUND_ID ∧ c.fixtureA.userData = p) ∨
    (¬ (c.fixtureA.userData = PLAYER1_ID ∨ c.fixtureA.userData = PLAYER2_ID) ∧
      (c.fixtureB.userData = PLAYER1_ID ∨ c.fixtureB.userData = PLAYER2_ID) ∧
      c.fixtureA.userData = GROUND_ID ∧ c.fixtureB.userData = p) := by
  rcases hc with ⟨hA, hB⟩ | ⟨hB, hA⟩
  · left
    exact ⟨by rw [hA]; exact hp, hB, hA⟩
  · right
    refine ⟨?_, by rw [hB]; exact hp, hA, hB⟩
    rw [hA]
    decide

/-- C12: a `BeginContact` between the main body of player `p` (tag
`PLAYER1_ID` or `PLAYER2_ID`) and the ground, in either fixture order, sets
the ground-touched flag of `p` to true and writes nothing else to the flag
map; for every other event the flag of `p` is as before, and when the event is
a ground contact of neither player (a foot sensor with the ground, for one)
the whole flag map is unchanged. -/
theorem C12_begin_contact_ground_flag (l : PlayerContactListener) (contact : b2Contact) :
    (∀ p, isPlayerTag p → isGroundContactOf p contact →
      (l.BeginContact contact).touchedGroundMap = mapSet l.touchedGroundMap p true ∧
      (l.BeginContact contact).hasTouchedGround p = true) ∧
    (∀ p, ¬ (isPlayerTag p ∧ isGroundContactOf p contact) →
      (l.BeginContact contact).touchedGroundMap p = l.touchedGroundMap p ∧
      (l.BeginContact contact).hasTouchedGround p = l.hasTouchedGround p) ∧
    ((¬ ∃ p, isPlayerTag p ∧ isGroundContactOf p contact) →
      (l.BeginContact contact).touchedGroundMap = l.touchedGroundMap) ∧
    (isGroundContactOf FOOT_SENSOR_ID contact →
      (l.BeginContact contact).touchedGroundMap = l.touchedGroundMap) := by
  have hset : ∀ p, isPlayerTag p → isGroundContactOf p contact →
      (l.BeginContact contact).touchedGroundMap = mapSet l.touchedGroundMap p true := by
    intro p hp hc
    rw [touchedGroundMap_BeginContact]
    rcases groundContact_cases p contact hp hc with ⟨hA, hB, hAp⟩ | ⟨hnA, hB, hA, hBp⟩
    · rw [if_pos hA, if_pos hB, hAp]
    · rw [if_neg hnA, if_pos hB, if_pos hA, hBp]
  have hnone : (¬ ∃ p, isPlayerTag p ∧ isGroundContactOf p contact) →
      (l.BeginContact contact).touchedGroundMap = l.touchedGroundMap := by
    intro hno
    rw [touchedGroundMap_BeginContact]
    split_ifs with hA hB hB2 hA2
    · exact absurd ⟨_, hA, Or.inl ⟨rfl, hB⟩⟩ hno
    · rfl
    · exact absurd ⟨_, hB2, Or.inr ⟨rfl, hA2⟩⟩ hno
    · rfl
    · rfl
  have hkeep : ∀ p, ¬ (isPlayerTag p ∧ isGroundContactOf p contact) →
      (l.BeginContact contact).touchedGroundMap p = l.touchedGroundMap p := by
    intro p hnp
    by_cases hex : ∃ q, isPlayerTag q ∧ isGroundContactOf q contact
    · obtain ⟨q, hq, hcq⟩ := hex
      rw [hset q hq hcq]
      have hne : p ≠ q := by
        intro h; rw [h] at hnp; exact hnp ⟨hq, hcq⟩
      simp [mapSet, hne]
    · rw [hnone hex]
  refine ⟨fun p hp hc => ⟨hset p hp hc, ?_⟩, fun p hnp => ⟨hkeep p hnp, ?_⟩, hnone, ?_⟩
  · rw [hasTouchedGround_mapSet _ _ _ p _ (hset p hp hc)]
    simp
  · unfold PlayerContactListener.hasTouchedGround
    rw [hkeep p hnp]
  · intro hf
    apply hnone
    rintro ⟨p, hp, hc⟩
    rcases hf with ⟨hA, hB⟩ | ⟨hB, hA⟩ <;> rcases hc with ⟨hA2, hB2⟩ | ⟨hB2, hA2⟩ <;>
      rcases hp with hp | hp <;> simp_all [PLAYER1_ID, PLAYER2_ID, GROUND_ID, FOOT_SENSOR_ID]

/-- C13 as stated fails. After a `BeginContact` of player 1's main body (on
body 2) with the ground (on body 0) on a fresh listener,
`hasTouchedGround(PLAYER1_ID)` is true; the `EndContact` of the same contact
makes it false. -/
theorem C13_end_contact_clears_ground_flag :
    ((PlayerContactListener.new []).BeginContact
        ⟨⟨PLAYER1_ID, 2⟩, ⟨GROUND_ID, 0⟩⟩).hasTouchedGround PLAYER1_ID = true ∧
    (((PlayerContactListener.new []).BeginContact
        ⟨⟨PLAYER1_ID, 2⟩, ⟨GROUND_ID, 0⟩⟩).EndContact
        ⟨⟨PLAYER1_ID, 2⟩, ⟨GROUND_ID, 0⟩⟩).hasTouchedGround PLAYER1_ID = false := by
  constructor <;> decide

/-- C13, amended: an `EndContact` between the main body of player `p` and the
ground sets the ground-touched flag of `p` to false; every other `EndContact`
leaves the flag of `p` as it is, so that `hasTouchedGround(p)`, when true
before such an event, is true after it. -/
theorem C13_end_contact_ground_flag (l : PlayerContactListener) (contact : b2Contact)
    (p : Nat) :
    (isPlayerTag p → isGroundContactOf p contact →
      (l.EndContact contact).touchedGroundMap = mapSet l.touchedGroundMap p false ∧
      (l.EndContact contact).hasTouchedGround p = false) ∧
    (¬ (isPlayerTag p ∧ isGroundContactOf p contact) →
      (l.EndContact contact).touchedGroundMap p = l.touchedGroundMap p ∧
      (l.EndContact contact).hasTouchedGround p = l.hasTouchedGround p) ∧
    (¬ (isPlayerTag p ∧ isGroundContactOf p contact) → l.hasTouchedGround p = true →
      (l.EndContact contact).hasTouchedGround p = true) := by
  have hset : ∀ q, isPlayerTag q → isGroundContactOf q contact →
      (l.EndContact contact).touchedGroundMap = mapSet l.touchedGroundMap q false := by
    intro q hq hc
    rw [touchedGroundMap_EndContact]
    rcases groundContact_cases q contact hq hc with ⟨hA, hB, hAp⟩ | ⟨hnA, hB, hA, hBp⟩
    · rw [if_pos ⟨hA, hB⟩, hAp]
    · rw [if_neg (fun h => hnA h.1), if_pos ⟨hB, hA⟩, hBp]
  have hkeep : ¬ (isPlayerTag p ∧ isGroundContactOf p contact) →
      (l.EndContact contact).touchedGroundMap p = l.touchedGroundMap p := by
    intro hnp
    rw [touchedGroundMap_EndContact]
    split_ifs with hA hB
    · have hne : p ≠ contact.fixtureA.userData := by
        intro h; exact hnp ⟨by rw [h]; exact hA.1, Or.inl ⟨h.symm, hA.2⟩⟩
      simp [mapSet, hne]
    · have hne : p ≠ contact.fixtureB.userData := by
        intro h; exact hnp ⟨by rw [h]; exact hB.1, Or.inr ⟨h.symm, hB.2⟩⟩
      simp [mapSet, hne]
    · rfl
  have hflag : ¬ (isPlayerTag p ∧ isGroundContactOf p contact) →
      (l.EndContact contact).hasTouchedGround p = l.hasTouchedGround p := by
    intro hnp
    unfold PlayerContactListener.hasTouchedGround
    rw [hkeep hnp]
  refine ⟨fun hp hc => ⟨hset p hp hc, ?_⟩, fun hnp => ⟨hkeep hnp, hflag hnp⟩,
    fun hnp h => by rw [hflag hnp, h]⟩
  rw [hasTouchedGround_mapSet _ _ _ p _ (hset p hp hc)]
  simp

/-- C13 amended, on a listener whose flag for player 1 is set: the end of a
contact of the foot sensor with a platform leaves the flag set. -/
theorem C13_end_contact_ground_flag_witness :
    (((PlayerContactListener.new []).BeginContact
        ⟨⟨PLAYER1_ID, 2⟩, ⟨GROUND_ID, 0⟩⟩).EndContact
        ⟨⟨FOOT_SENSOR_ID, 2⟩, ⟨PLATFORM_ID_BASE, 3⟩⟩).hasTouchedGround PLAYER1_ID = true :=
  (C13_end_contact_ground_flag _ ⟨⟨FOOT_SENSOR_ID, 2⟩, ⟨PLATFORM_ID_BASE, 3⟩⟩ PLAYER1_ID).2.2
    (by decide) (by decide)

/-! ### C14 -/

theorem collectiblesToRemove_callback (l : PlayerContactListener) (cb : ContactCallback) :
    ∃ added : List b2Body,
      (l.callback cb).collectiblesToRemove = l.collectiblesToRemove ++ added ∧
      added.length ≤ 1 := by
  cases cb with
  | BeginContact c =>
    simp only [PlayerContactListener.callback]
    rw [collectiblesToRemove_BeginContact]
    split_ifs
    · exact ⟨[c.fixtureB.body], rfl, le_refl _⟩
    · exact ⟨[c.fixtureA.body], rfl, le_refl _⟩
    · exact ⟨[], by simp, by simp⟩
  | PreSolve c => exact ⟨[], by simp [PlayerContactListener.callback], by simp⟩
  | EndContact c =>
    exact ⟨[], by simp [PlayerContactListener.callback, collectiblesToRemove_EndContact],
      by simp⟩

theorem collectiblesToRemove_callbacks (cs : List ContactCallback) :
    ∀ l : PlayerContactListener, ∃ added : List b2Body,
      (l.callbacks cs).collectiblesToRemove = l.collectiblesToRemove ++ added := by
  induction cs with
  | nil => intro l; exact ⟨[], by simp [PlayerContactListener.callbacks]⟩
  | cons cb cs ih =>
    intro l
    obtain ⟨a1, h1, _⟩ := collectiblesToRemove_callback l cb
    obtain ⟨a2, h2⟩ := ih (l.callback cb)
    refine ⟨a1 ++ a2, ?_⟩
    simp only [PlayerContactListener.callbacks, List.foldl_cons] at h2 ⊢
    rw [h2, h1, List.append_assoc]

/-- C14: a `BeginContact` whose tags are a player main-body tag and one of the
six collectible tags appends exactly one entry to the removal queue, the body
of the fixture that carries the collectible tag; every other `BeginContact`
leaves the queue as it is; `EndContact` and `PreSolve` leave it as it is; and
after any sequence of callbacks the queue is the old queue followed by what
was appended, so no entry is removed or moved. -/
theorem C14_removal_queue (l : PlayerContactListener) (contact : b2Contact)
    (cs : List ContactCallback) :
    (isPlayerTag contact.fixtureA.userData ∧ isCollectibleTag contact.fixtureB.userData →
      (l.BeginContact contact).collectiblesToRemove =
        l.collectiblesToRemove ++ [contact.fixtureB.body]) ∧
    (isPlayerTag contact.fixtureB.userData ∧ isCollectibleTag contact.fixtureA.userData →
      (l.BeginContact contact).collectiblesToRemove =
        l.collectiblesToRemove ++ [contact.fixtureA.body]) ∧
    (¬ (isPlayerTag contact.fixtureA.userData ∧ isCollectibleTag contact.fixtureB.userData) →
      ¬ (isPlayerTag contact.fixtureB.userData ∧ isCollectibleTag contact.fixtureA.userData) →
      (l.BeginContact contact).collectiblesToRemove = l.collectiblesToRemove) ∧
    (l.EndContact contact).collectiblesToRemove = l.collectiblesToRemove ∧
    (l.callback (.PreSolve contact)).collectiblesToRemove = l.collectiblesToRemove ∧
    (∃ added : List b2Body,
      (l.callbacks cs).collectiblesToRemove = l.collectiblesToRemove ++ added) := by
  refine ⟨fun h => ?_, fun h => ?_, fun h1 h2 => ?_, collectiblesToRemove_EndContact l contact,
    rfl, collectiblesToRemove_callbacks cs l⟩
  · rw [collectiblesToRemove_BeginContact, if_pos h]
  · have hn : ¬ (isPlayerTag contact.fixtureA.userData ∧
        isCollectibleTag contact.fixtureB.userData) := by
      rintro ⟨hA, _⟩
      rcases hA with hA | hA <;> rcases h.2 with h2 | h2 | h2 | h2 | h2 | h2 <;>
        rw [hA] at h2 <;> exact absurd h2 (by decide)
    rw [collectiblesToRemove_BeginContact, if_neg hn, if_pos h]
  · rw [collectiblesToRemove_BeginContact, if_neg h1, if_neg h2]

/-! ## The frame: which fragment writes which variables -/

theorem foldl_proj {α β : Type} (f : Game → α → Game) (proj : Game → β)
    (h : ∀ g x, proj (f g x) = proj g) :
    ∀ (xs : List α) (g : Game), proj (xs.foldl f g) = proj g := by
  intro xs
  induction xs with
  | nil => intro g; rfl
  | cons x xs ih => intro g; rw [List.foldl_cons, ih, h]

theorem setGravityScale_eq (g : Game) (body : b2Body) (fastFall : Bool) (playerId : Nat) :
    setGravityScale g body fastFall playerId =
      { g with
        world := g.world.call (.SetGravityScale body
          (if fastFall = true ∧ g.contactListener.isGrounded playerId = false
           then fastFallGravityScale else 1)) } := by
  unfold setGravityScale
  split_ifs <;> rfl

theorem applyGravityScale_vars (g : Game) :
    (applyGravityScale g).playerVars = g.playerVars ∧
    (applyGravityScale g).effectVars = g.effectVars ∧
    (applyGravityScale g).score = g.score ∧
    (applyGravityScale g).contactListener = g.contactListener := by
  simp only [applyGravityScale, setGravityScale_eq]
  split <;> split <;> exact ⟨rfl, rfl, rfl, rfl⟩

theorem syncEntities_vars (GetPosition : b2Body → ℚ × ℚ) (g : Game) :
    (syncEntities GetPosition g).playerVars = g.playerVars ∧
    (syncEntities GetPosition g).effectVars = g.effectVars ∧
    (syncEntities GetPosition g).score = g.score ∧
    (syncEntities GetPosition g).contactListener = g.contactListener := by
  simp only [syncEntities]
  split_ifs <;> exact ⟨rfl, rfl, rfl, rfl⟩

theorem eraseBlocks_vars (ended : b2Body → List b2Contact) (g : Game) :
    (eraseBlocks ended g).playerVars = g.playerVars ∧
    (eraseBlocks ended g).effectVars = g.effectVars ∧
    (eraseBlocks ended g).score = g.score := by
  have key := foldl_proj
    (fun (h : Game) (block : Block) =>
      match block.body with
      | some body => if block.markedForRemoval = true then destroyBody ended h body else h
      | none => h)
    (fun h => (h.playerVars, h.effectVars, h.score))
    (by
      intro h block
      dsimp only
      split
      · split_ifs <;> rfl
      · rfl)
    g.blocks g
  simp only [Prod.mk.injEq] at key
  exact key

theorem eraseCollectibles_vars (ended : b2Body → List b2Contact) (g : Game) :
    (eraseCollectibles ended g).playerVars = g.playerVars ∧
    (eraseCollectibles ended g).effectVars = g.effectVars ∧
    (eraseCollectibles ended g).score = g.score := by
  have key := foldl_proj
    (fun (h : Game) (c : Collectible) =>
      match c.body with
      | some body => if c.markedForRemoval = true then destroyBody ended h body else h
      | none => h)
    (fun h => (h.playerVars, h.effectVars, h.score))
    (by
      intro h c
      dsimp only
      split
      · split_ifs <;> rfl
      · rfl)
    g.collectibles g
  simp only [Prod.mk.injEq] at key
  exact key

theorem processCollected_playerVars (now : Int) (g : Game) :
    (processCollected now g).playerVars = g.playerVars := by
  simp only [processCollected]
  split_ifs
  · exact foldl_proj (resolveSingle now) Game.playerVars
      (by
        intro h b
        unfold resolveSingle
        split
        · rename_i r _
          cases r.1 <;> rfl
        · rfl) _ g
  · exact foldl_proj resolveMulti Game.playerVars
      (by
        intro h b
        unfold resolveMulti
        split <;> rfl) _ g

theorem beforePlayerLogic_playerVars (inp : FrameInput) (g : Game) :
    (beforePlayerLogic inp g).playerVars = g.playerVars := by
  simp only [beforePlayerLogic]
  rw [(eraseCollectibles_vars _ _).1, (eraseBlocks_vars _ _).1, processCollected_playerVars,
    (syncEntities_vars _ _).1]
  simp only [worldStep]
  exact (applyGravityScale_vars _).1


theorem effectAndRain_playerVars (now : Int) (rainX : ℚ) (g : Game) :
    (effectAndRain now rainX g).playerVars = g.playerVars := by
  simp only [effectAndRain, magentaRain, effectExpiry]
  split_ifs <;> rfl

theorem spawnBlock_playerVars (getGlobalBounds : RectangleShape → FloatRect) (now : Int)
    (d : SpawnDraws) (g : Game) :
    (spawnBlock getGlobalBounds now d g).playerVars = g.playerVars := by
  simp only [spawnBlock]
  split_ifs <;> rfl

theorem speedRamp_playerVars (dt : ℚ) (g : Game) :
    (speedRamp dt g).playerVars = g.playerVars := by
  simp only [speedRamp]
  split_ifs <;> rfl

/-- In a playing frame the session variables after the frame are those the
player logic leaves. -/
theorem frame_playerVars (getGlobalBounds : RectangleShape → FloatRect) (inp : FrameInput)
    (g : Game) (hplay : g.currentState = .PlayingSingle ∨ g.currentState = .PlayingMulti) :
    (frame getGlobalBounds inp g).playerVars =
      (playerLogic inp.GetPosition inp.ended inp.writable
        (beforePlayerLogic inp g)).playerVars := by
  have hn : ¬ (g.currentState ≠ .PlayingSingle ∧ g.currentState ≠ .PlayingMulti) := by
    rcases hplay with h | h <;> simp [h]
  simp only [frame, hn, if_false, beforeSpawn]
  rw [speedRamp_playerVars, spawnBlock_playerVars, effectAndRain_playerVars]

theorem playerVars_currentState {g h : Game} (e : g.playerVars = h.playerVars) :
    g.currentState = h.currentState := congrArg (·.1) e

theorem playerVars_playerBody {g h : Game} (e : g.playerVars = h.playerVars) :
    g.playerBody = h.playerBody := congrArg (·.2.1) e

/-! ## The world's live bodies -/

theorem liveBodiesAfter_append (cs ds : List b2Call) :
    ∀ live : List b2Body,
      liveBodiesAfter live (cs ++ ds) = liveBodiesAfter (liveBodiesAfter live cs) ds := by
  induction cs with
  | nil => intro live; rfl
  | cons c cs ih =>
    intro live
    cases c <;> simp only [List.cons_append, liveBodiesAfter] <;> exact ih _

theorem liveBodies_call_DestroyBody (w : b2World) (body : b2Body) :
    (w.call (.DestroyBody body)).liveBodies = w.liveBodies.filter (· ≠ body) := by
  simp only [b2World.liveBodies, b2World.call, liveBodiesAfter_append, liveBodiesAfter]

theorem not_mem_liveBodies_DestroyBody (w : b2World) (body : b2Body) :
    body ∉ (w.call (.DestroyBody body)).liveBodies := by
  rw [liveBodies_call_DestroyBody]
  simp

/-! ## The death test in single-player mode (C15) -/

theorem deathCondition_eq_true_iff (l : PlayerContactListener) (playerId : Nat)
    (position : ℚ × ℚ) :
    deathCondition l playerId position = true ↔
      (l.hasTouchedGround playerId = true ∨
        position.2 > (toMeters (0, windowHeight + playerHeight)).2 ∨
        position.1 < (toMeters (-playerWidth, 0)).1) := by
  simp [deathCondition]

/-- The single-player logic for an existing body, in one expression. -/
theorem playerLogicSingle_eq (GetPosition : b2Body → ℚ × ℚ)
    (ended : b2Body → List b2Contact) (writable : Bool) (g : Game) (body : b2Body)
    (hb : g.playerBody = some body) :
    playerLogicSingle GetPosition ended writable g =
      if deathCondition g.contactListener PLAYER1_ID (GetPosition body) = true then
        { g with
          jumpsRemaining :=
            if g.contactListener.isGrounded PLAYER1_ID = true then maxJumps
            else g.jumpsRemaining
          currentState := .GameOver
          highScore := if g.score > g.highScore then g.score else g.highScore
          highScoreFile :=
            if g.score > g.highScore then saveHighScore writable g.highScoreFile g.score
            else g.highScoreFile
          world :=
            (g.world.call (.SetGravityScale body
              (if g.fastFallActive = true ∧ g.contactListener.isGrounded PLAYER1_ID = false
               then fastFallGravityScale else 1))).call (.DestroyBody body)
          contactListener :=
            (ended body).foldl PlayerContactListener.EndContact g.contactListener
          playerBody := none }
      else
        { g with
          jumpsRemaining :=
            if g.contactListener.isGrounded PLAYER1_ID = true then maxJumps
            else g.jumpsRemaining
          world :=
            g.world.call (.SetGravityScale body
              (if g.fastFallActive = true ∧ g.contactListener.isGrounded PLAYER1_ID = false
               then fastFallGravityScale else 1)) } := by
  simp only [playerLogicSingle, hb, setGravityScale, destroyBody]
  by_cases h1 : g.contactListener.isGrounded PLAYER1_ID = true <;>
  by_cases h2 : g.fastFallActive = true <;>
  by_cases h3 : deathCondition g.contactListener PLAYER1_ID (GetPosition body) = true <;>
  by_cases h4 : g.score > g.highScore <;>
  simp [h1, h2, h3, h4, hb]

/-- C15: in a frame that starts in `PlayingSingle` with a player body,
the state after the frame is `GameOver` exactly when, at the death test,
`hasTouchedGround(PLAYER1_ID)` holds or the body's `y` exceeds
`windowHeight + playerHeight` in meters or its `x` is below `-playerWidth` in
meters; then the handle is cleared and `DestroyBody` was called on the body,
which is no longer alive in the world; otherwise the state is still
`PlayingSingle` and the handle is kept. -/
theorem C15_single_player_death (getGlobalBounds : RectangleShape → FloatRect)
    (inp : FrameInput) (g : Game) (body : b2Body)
    (hs : g.currentState = .PlayingSingle) (hb : g.playerBody = some body) :
    ((frame getGlobalBounds inp g).currentState = .GameOver ↔
      ((beforePlayerLogic inp g).contactListener.hasTouchedGround PLAYER1_ID = true ∨
        (inp.GetPosition body).2 > (toMeters (0, windowHeight + playerHeight)).2 ∨
        (inp.GetPosition body).1 < (toMeters (-playerWidth, 0)).1)) ∧
    ((frame getGlobalBounds inp g).currentState = .GameOver →
      (frame getGlobalBounds inp g).playerBody = none ∧
      b2Call.DestroyBody body ∈
        (playerLogic inp.GetPosition inp.ended inp.writable
          (beforePlayerLogic inp g)).world.calls ∧
      body ∉
        (playerLogic inp.GetPosition inp.ended inp.writable
          (beforePlayerLogic inp g)).world.liveBodies) ∧
    ((frame getGlobalBounds inp g).currentState ≠ .GameOver →
      (frame getGlobalBounds inp g).currentState = .PlayingSingle ∧
      (frame getGlobalBounds inp g).playerBody = some body) := by
  have hv := frame_playerVars getGlobalBounds inp g (Or.inl hs)
  have hq := beforePlayerLogic_playerVars inp g
  have hqs : (beforePlayerLogic inp g).currentState = .PlayingSingle := by
    rw [playerVars_currentState hq, hs]
  have hqb : (beforePlayerLogic inp g).playerBody = some body := by
    rw [playerVars_playerBody hq, hb]
  have hlogic : playerLogic inp.GetPosition inp.ended inp.writable (beforePlayerLogic inp g) =
      playerLogicSingle inp.GetPosition inp.ended inp.writable (beforePlayerLogic inp g) := by
    simp only [playerLogic, hqs]
  rw [playerVars_currentState hv, playerVars_playerBody hv, hlogic,
    playerLogicSingle_eq _ _ _ _ body hqb, ← deathCondition_eq_true_iff]
  cases hd : deathCondition (beforePlayerLogic inp g).contactListener PLAYER1_ID
      (inp.GetPosition body)
  · simp [hqs, hqb]
  · simp only [if_true, true_and, ne_eq, not_true_eq_false, false_implies, and_true,
      forall_const]
    refine ⟨?_, not_mem_liveBodies_DestroyBody _ _⟩
    simp [b2World.call]

/-- C15 in `sceneSingle` for the frame `inputFall`: the body is found at
`y = 16` meters, below `(700 + 60) / 50 = 15.2`, so the state is `GameOver`
and the handle is cleared. -/
theorem C15_single_player_death_witness :
    sceneSingle.currentState = .PlayingSingle ∧ sceneSingle.playerBody = some 2 ∧
    (frame sfGlobalBounds inputFall sceneSingle).currentState = .GameOver ∧
    (frame sfGlobalBounds inputFall sceneSingle).playerBody = none :=
  have h := C15_single_player_death sfGlobalBounds inputFall sceneSingle 2
    (by decide) (by decide)
  have hgo : (frame sfGlobalBounds inputFall sceneSingle).currentState = .GameOver :=
    h.1.mpr (Or.inr (Or.inl (by
      norm_num [inputFall, toMeters, windowHeight, playerHeight, METERS_PER_PIXEL,
        PIXELS_PER_METER])))
  ⟨by decide, by decide, hgo, (h.2.1 hgo).1⟩

/-! ## The death tests in multiplayer mode (C16, C17) -/

/-- Player 1's multiplayer logic for a living player with a body, in one
expression. -/
theorem playerLogicMulti1_eq (GetPosition : b2Body → ℚ × ℚ)
    (ended : b2Body → List b2Contact) (g : Game) (body : b2Body)
    (hb : g.playerBody = some body) (ha : g.player1Alive = true) :
    playerLogicMulti1 GetPosition ended g =
      if deathCondition g.contactListener PLAYER1_ID (GetPosition body) = true then
        { g with
          jumpsRemaining :=
            if g.contactListener.isGrounded PLAYER1_ID = true then maxJumps
            else g.jumpsRemaining
          player1Alive := false
          world :=
            (g.world.call (.SetGravityScale body
              (if g.fastFallActive = true ∧ g.contactListener.isGrounded PLAYER1_ID = false
               then fastFallGravityScale else 1))).call (.DestroyBody body)
          contactListener :=
            (ended body).foldl PlayerContactListener.EndContact g.contactListener
          playerBody := none
          winner := if g.player2Alive = true then 2 else 0 }
      else
        { g with
          jumpsRemaining :=
            if g.contactListener.isGrounded PLAYER1_ID = true then maxJumps
            else g.jumpsRemaining
          world :=
            g.world.call (.SetGravityScale body
              (if g.fastFallActive = true ∧ g.contactListener.isGrounded PLAYER1_ID = false
               then fastFallGravityScale else 1)) } := by
  simp only [playerLogicMulti1, hb, ha, setGravityScale, destroyBody]
  by_cases h1 : g.contactListener.isGrounded PLAYER1_ID = true <;>
  by_cases h2 : g.fastFallActive = true <;>
  by_cases h3 : deathCondition g.contactListener PLAYER1_ID (GetPosition body) = true <;>
  simp [h1, h2, h3, hb, ha]

/-- Player 2's multiplayer logic for a living player with a body, in one
expression. -/
theorem playerLogicMulti2_eq (GetPosition : b2Body → ℚ × ℚ)
    (ended : b2Body → List b2Contact) (g : Game) (body : b2Body)
    (hb : g.player2Body = some body) (ha : g.player2Alive = true) :
    playerLogicMulti2 GetPosition ended g =
      if deathCondition g.contactListener PLAYER2_ID (GetPosition body) = true then
        { g with
          jumpsRemaining2 :=
            if g.contactListener.isGrounded PLAYER2_ID = true then maxJumps
            else g.jumpsRemaining2
          player2Alive := false
          world :=
            (g.world.call (.SetGravityScale body
              (if g.fastFallActive2 = true ∧ g.contactListener.isGrounded PLAYER2_ID = false
               then fastFallGravityScale else 1))).call (.DestroyBody body)
          contactListener :=
            (ended body).foldl PlayerContactListener.EndContact g.contactListener
          player2Body := none
          winner := if g.player1Alive = true then 1 else 0 }
      else
        { g with
          jumpsRemaining2 :=
            if g.contactListener.isGrounded PLAYER2_ID = true then maxJumps
            else g.jumpsRemaining2
          world :=
            g.world.call (.SetGravityScale body
              (if g.fastFallActive2 = true ∧ g.contactListener.isGrounded PLAYER2_ID = false
               then fastFallGravityScale else 1)) } := by
  simp only [playerLogicMulti2, hb, ha, setGravityScale, destroyBody]
  by_cases h1 : g.contactListener.isGrounded PLAYER2_ID = true <;>
  by_cases h2 : g.fastFallActive2 = true <;>
  by_cases h3 : deathCondition g.contactListener PLAYER2_ID (GetPosition body) = true <;>
  simp [h1, h2, h3, hb, ha]

/-- An `EndContact` that is not a ground contact of player `p` leaves
`hasTouchedGround(p)` as it is. -/
theorem hasTouchedGround_EndContact_of_not (l : PlayerContactListener) (c : b2Contact)
    (p : Nat) (hn : ¬ isGroundContactOf p c) :
    (l.EndContact c).hasTouchedGround p = l.hasTouchedGround p := by
  unfold PlayerContactListener.hasTouchedGround
  rw [touchedGroundMap_EndContact]
  split_ifs with hA hB
  · have hne : p ≠ c.fixtureA.userData := fun h => hn (Or.inl ⟨h.symm, hA.2⟩)
    simp [mapSet, hne]
  · have hne : p ≠ c.fixtureB.userData := fun h => hn (Or.inr ⟨h.symm, hB.2⟩)
    simp [mapSet, hne]
  · rfl

theorem hasTouchedGround_foldl_EndContact (p : Nat) (cs : List b2Contact) :
    ∀ l : PlayerContactListener, (∀ c ∈ cs, ¬ isGroundContactOf p c) →
      (cs.foldl PlayerContactListener.EndContact l).hasTouchedGround p =
        l.hasTouchedGround p := by
  induction cs with
  | nil => intro l _; rfl
  | cons c cs ih =>
    intro l h
    rw [List.foldl_cons, ih _ (fun d hd => h d (List.mem_cons_of_mem _ hd)),
      hasTouchedGround_EndContact_of_not l c p (h c (List.mem_cons_self _ _))]

theorem deathCondition_congr (l1 l2 : PlayerContactListener) (p : Nat) (position : ℚ × ℚ)
    (h : l1.hasTouchedGround p = l2.hasTouchedGround p) :
    deathCondition l1 p position = deathCondition l2 p position := by
  simp only [deathCondition, h]


/-- The session variables after the multiplayer logic when both players are
alive and have bodies, by the two death tests; the contacts ended by the
destruction of player 1's body are supposed not to be ground contacts of
player 2's main body. -/
theorem playerLogicMulti_playerVars (GetPosition : b2Body → ℚ × ℚ)
    (ended : b2Body → List b2Contact) (q : Game) (b1 b2 : b2Body)
    (hb1 : q.playerBody = some b1) (ha1 : q.player1Alive = true)
    (hb2 : q.player2Body = some b2) (ha2 : q.player2Alive = true)
    (hwf : ∀ c ∈ ended b1, ¬ isGroundContactOf PLAYER2_ID c) :
    (playerLogicMulti GetPosition ended q).playerVars =
      (if deathCondition q.contactListener PLAYER1_ID (GetPosition b1) = true ∨
          deathCondition q.contactListener PLAYER2_ID (GetPosition b2) = true
        then GameState.GameOver else q.currentState,
       if deathCondition q.contactListener PLAYER1_ID (GetPosition b1) = true
        then none else some b1,
       if deathCondition q.contactListener PLAYER2_ID (GetPosition b2) = true
        then none else some b2,
       !deathCondition q.contactListener PLAYER1_ID (GetPosition b1),
       !deathCondition q.contactListener PLAYER2_ID (GetPosition b2),
       if deathCondition q.contactListener PLAYER2_ID (GetPosition b2) = true then
         (if deathCondition q.contactListener PLAYER1_ID (GetPosition b1) = true
          then 0 else 1)
       else if deathCondition q.contactListener PLAYER1_ID (GetPosition b1) = true
         then 2 else q.winner,
       q.highScore, q.highScoreFile) := by
  have hd2 : deathCondition
      ((ended b1).foldl PlayerContactListener.EndContact q.contactListener) PLAYER2_ID
        (GetPosition b2) = deathCondition q.contactListener PLAYER2_ID (GetPosition b2) :=
    deathCondition_congr _ _ _ _ (hasTouchedGround_foldl_EndContact _ _ _ hwf)
  have e1 := playerLogicMulti1_eq GetPosition ended q b1 hb1 ha1
  have hg1b2 : (playerLogicMulti1 GetPosition ended q).player2Body = some b2 := by
    rw [e1]; split_ifs <;> exact hb2
  have hg1a2 : (playerLogicMulti1 GetPosition ended q).player2Alive = true := by
    rw [e1]; split_ifs <;> exact ha2
  simp only [playerLogicMulti]
  rw [playerLogicMulti2_eq GetPosition ended _ b2 hg1b2 hg1a2]
  cases h1 : deathCondition q.contactListener PLAYER1_ID (GetPosition b1)
  · rw [h1] at e1
    simp only [Bool.false_eq_true, if_false] at e1
    rw [e1]
    cases h2 : deathCondition q.contactListener PLAYER2_ID (GetPosition b2)
    · simp [Game.playerVars, h2, ha1, ha2, hb1, hb2]
    · simp [Game.playerVars, h2, ha1, ha2, hb1, hb2]
  · rw [h1] at e1
    simp only [if_true] at e1
    rw [e1]
    simp only [hd2]
    cases h2 : deathCondition q.contactListener PLAYER2_ID (GetPosition b2)
    · simp [Game.playerVars, h2, ha1, ha2, hb1, hb2]
    · simp [Game.playerVars, h2, ha1, ha2, hb1, hb2]


theorem liveBodies_call_SetGravityScale (w : b2World) (body : b2Body) (scale : ℚ) :
    (w.call (.SetGravityScale body scale)).liveBodies = w.liveBodies := by
  simp only [b2World.liveBodies, b2World.call, liveBodiesAfter_append, liveBodiesAfter]

/-- The bodies destroyed by the multiplayer logic: a player who meets the
death test has the body destroyed, and the body is no longer alive in the
world afterwards. -/
theorem playerLogicMulti_destroys (GetPosition : b2Body → ℚ × ℚ)
    (ended : b2Body → List b2Contact) (q : Game) (b1 b2 : b2Body)
    (hb1 : q.playerBody = some b1) (ha1 : q.player1Alive = true)
    (hb2 : q.player2Body = some b2) (ha2 : q.player2Alive = true)
    (hwf : ∀ c ∈ ended b1, ¬ isGroundContactOf PLAYER2_ID c) :
    (deathCondition q.contactListener PLAYER1_ID (GetPosition b1) = true →
      b2Call.DestroyBody b1 ∈ (playerLogicMulti GetPosition ended q).world.calls ∧
      b1 ∉ (playerLogicMulti GetPosition ended q).world.liveBodies) ∧
    (deathCondition q.contactListener PLAYER2_ID (GetPosition b2) = true →
      b2Call.DestroyBody b2 ∈ (playerLogicMulti GetPosition ended q).world.calls ∧
      b2 ∉ (playerLogicMulti GetPosition ended q).world.liveBodies) := by
  have hd2 : deathCondition
      ((ended b1).foldl PlayerContactListener.EndContact q.contactListener) PLAYER2_ID
        (GetPosition b2) = deathCondition q.contactListener PLAYER2_ID (GetPosition b2) :=
    deathCondition_congr _ _ _ _ (hasTouchedGround_foldl_EndContact _ _ _ hwf)
  have e1 := playerLogicMulti1_eq GetPosition ended q b1 hb1 ha1
  have hg1b2 : (playerLogicMulti1 GetPosition ended q).player2Body = some b2 := by
    rw [e1]; split_ifs <;> exact hb2
  have hg1a2 : (playerLogicMulti1 GetPosition ended q).player2Alive = true := by
    rw [e1]; split_ifs <;> exact ha2
  have hworld : (playerLogicMulti GetPosition ended q).world =
      (playerLogicMulti2 GetPosition ended (playerLogicMulti1 GetPosition ended q)).world := by
    simp only [playerLogicMulti]
    split_ifs <;> rfl
  rw [hworld, playerLogicMulti2_eq GetPosition ended _ b2 hg1b2 hg1a2]
  cases h1 : deathCondition q.contactListener PLAYER1_ID (GetPosition b1)
  · rw [h1] at e1
    simp only [Bool.false_eq_true, if_false] at e1
    rw [e1]
    cases h2 : deathCondition q.contactListener PLAYER2_ID (GetPosition b2)
    · simp
    · simp only [Bool.false_eq_true, false_implies, true_and, if_true, forall_const]
      exact ⟨by simp [b2World.call], not_mem_liveBodies_DestroyBody _ _⟩
  · rw [h1] at e1
    simp only [if_true] at e1
    rw [e1]
    simp only [hd2]
    cases h2 : deathCondition q.contactListener PLAYER2_ID (GetPosition b2)
    · simp only [Bool.false_eq_true, if_false, forall_const, false_implies, and_true]
      refine ⟨by simp [b2World.call], ?_⟩
      rw [liveBodies_call_SetGravityScale]
      exact not_mem_liveBodies_DestroyBody _ _
    · simp only [if_true, forall_const]
      refine ⟨⟨by simp [b2World.call], ?_⟩, by simp [b2World.call],
        not_mem_liveBodies_DestroyBody _ _⟩
      rw [liveBodies_call_DestroyBody, liveBodies_call_SetGravityScale]
      intro hmem
      exact not_mem_liveBodies_DestroyBody _ _ (List.mem_of_mem_filter hmem)


theorem playerVars_winner {g h : Game} (e : g.playerVars = h.playerVars) :
    g.winner = h.winner := congrArg (·.2.2.2.2.2.1) e

theorem playerVars_player1Alive {g h : Game} (e : g.playerVars = h.playerVars) :
    g.player1Alive = h.player1Alive := congrArg (·.2.2.2.1) e

theorem playerVars_player2Alive {g h : Game} (e : g.playerVars = h.playerVars) :
    g.player2Alive = h.player2Alive := congrArg (·.2.2.2.2.1) e

theorem playerVars_player2Body {g h : Game} (e : g.playerVars = h.playerVars) :
    g.player2Body = h.player2Body := congrArg (·.2.2.1) e

theorem playerVars_highScore {g h : Game} (e : g.playerVars = h.playerVars) :
    g.highScore = h.highScore := congrArg (·.2.2.2.2.2.2.1) e

theorem playerVars_highScoreFile {g h : Game} (e : g.playerVars = h.playerVars) :
    g.highScoreFile = h.highScoreFile := congrArg (·.2.2.2.2.2.2.2) e

/-- The session variables after a frame that starts in `PlayingMulti` with
both players alive and having bodies, by the two death tests. -/
theorem frame_multi_playerVars (getGlobalBounds : RectangleShape → FloatRect)
    (inp : FrameInput) (g : Game) (b1 b2 : b2Body)
    (hs : g.currentState = .PlayingMulti)
    (hb1 : g.playerBody = some b1) (ha1 : g.player1Alive = true)
    (hb2 : g.player2Body = some b2) (ha2 : g.player2Alive = true)
    (hwf : ∀ c ∈ inp.ended b1, ¬ isGroundContactOf PLAYER2_ID c) :
    (frame getGlobalBounds inp g).playerVars =
      (if deathCondition (beforePlayerLogic inp g).contactListener PLAYER1_ID
            (inp.GetPosition b1) = true ∨
          deathCondition (beforePlayerLogic inp g).contactListener PLAYER2_ID
            (inp.GetPosition b2) = true
        then GameState.GameOver else GameState.PlayingMulti,
       if deathCondition (beforePlayerLogic inp g).contactListener PLAYER1_ID
            (inp.GetPosition b1) = true
        then none else some b1,
       if deathCondition (beforePlayerLogic inp g).contactListener PLAYER2_ID
            (inp.GetPosition b2) = true
        then none else some b2,
       !deathCondition (beforePlayerLogic inp g).contactListener PLAYER1_ID
          (inp.GetPosition b1),
       !deathCondition (beforePlayerLogic inp g).contactListener PLAYER2_ID
          (inp.GetPosition b2),
       if deathCondition (beforePlayerLogic inp g).contactListener PLAYER2_ID
            (inp.GetPosition b2) = true then
         (if deathCondition (beforePlayerLogic inp g).contactListener PLAYER1_ID
            (inp.GetPosition b1) = true
          then 0 else 1)
       else if deathCondition (beforePlayerLogic inp g).contactListener PLAYER1_ID
            (inp.GetPosition b1) = true
         then 2 else g.winner,
       g.highScore, g.highScoreFile) := by
  have hq := beforePlayerLogic_playerVars inp g
  have hqs : (beforePlayerLogic inp g).currentState = .PlayingMulti := by
    rw [playerVars_currentState hq, hs]
  have hlogic : playerLogic inp.GetPosition inp.ended inp.writable (beforePlayerLogic inp g) =
      playerLogicMulti inp.GetPosition inp.ended (beforePlayerLogic inp g) := by
    simp only [playerLogic, hqs]
  rw [frame_playerVars getGlobalBounds inp g (Or.inr hs), hlogic,
    playerLogicMulti_playerVars inp.GetPosition inp.ended (beforePlayerLogic inp g) b1 b2
      (by rw [playerVars_playerBody hq, hb1]) (by rw [playerVars_player1Alive hq, ha1])
      (by rw [playerVars_player2Body hq, hb2]) (by rw [playerVars_player2Alive hq, ha2]) hwf,
    hqs, playerVars_winner hq, playerVars_highScore hq, playerVars_highScoreFile hq]

/-- The bodies destroyed in a frame that starts in `PlayingMulti` with both
players alive and having bodies. -/
theorem frame_multi_destroys
    (inp : FrameInput) (g : Game) (b1 b2 : b2Body)
    (hs : g.currentState = .PlayingMulti)
    (hb1 : g.playerBody = some b1) (ha1 : g.player1Alive = true)
    (hb2 : g.player2Body = some b2) (ha2 : g.player2Alive = true)
    (hwf : ∀ c ∈ inp.ended b1, ¬ isGroundContactOf PLAYER2_ID c) :
    (deathCondition (beforePlayerLogic inp g).contactListener PLAYER1_ID
        (inp.GetPosition b1) = true →
      b2Call.DestroyBody b1 ∈
        (playerLogic inp.GetPosition inp.ended inp.writable
          (beforePlayerLogic inp g)).world.calls ∧
      b1 ∉
        (playerLogic inp.GetPosition inp.ended inp.writable
          (beforePlayerLogic inp g)).world.liveBodies) ∧
    (deathCondition (beforePlayerLogic inp g).contactListener PLAYER2_ID
        (inp.GetPosition b2) = true →
      b2Call.DestroyBody b2 ∈
        (playerLogic inp.GetPosition inp.ended inp.writable
          (beforePlayerLogic inp g)).world.calls ∧
      b2 ∉
        (playerLogic inp.GetPosition inp.ended inp.writable
          (beforePlayerLogic inp g)).world.liveBodies) := by
  have hq := beforePlayerLogic_playerVars inp g
  have hqs : (beforePlayerLogic inp g).currentState = .PlayingMulti := by
    rw [playerVars_currentState hq, hs]
  have hlogic : playerLogic inp.GetPosition inp.ended inp.writable (beforePlayerLogic inp g) =
      playerLogicMulti inp.GetPosition inp.ended (beforePlayerLogic inp g) := by
    simp only [playerLogic, hqs]
  rw [hlogic]
  exact playerLogicMulti_destroys inp.GetPosition inp.ended (beforePlayerLogic inp g) b1 b2
      (by rw [playerVars_playerBody hq, hb1]) (by rw [playerVars_player1Alive hq, ha1])
      (by rw [playerVars_player2Body hq, hb2]) (by rw [playerVars_player2Alive hq, ha2]) hwf

/-- C16: in a frame that starts in `PlayingMulti` with both players
alive (and having bodies), if exactly one player meets the death test then
after the frame that player is not alive, its handle is cleared and
`DestroyBody` was called on its body, the other player is alive, `winner` is
the other player's number (2 when player 1 dies, 1 when player 2 dies) and
the state is `GameOver`. The contacts that end with player 1's body are
supposed not to be ground contacts of player 2's main body. -/
theorem C16_multiplayer_single_death (getGlobalBounds : RectangleShape → FloatRect)
    (inp : FrameInput) (g : Game) (b1 b2 : b2Body)
    (hs : g.currentState = .PlayingMulti)
    (hb1 : g.playerBody = some b1) (ha1 : g.player1Alive = true)
    (hb2 : g.player2Body = some b2) (ha2 : g.player2Alive = true)
    (hwf : ∀ c ∈ inp.ended b1, ¬ isGroundContactOf PLAYER2_ID c) :
    (deathCondition (beforePlayerLogic inp g).contactListener PLAYER1_ID
        (inp.GetPosition b1) = true →
     deathCondition (beforePlayerLogic inp g).contactListener PLAYER2_ID
        (inp.GetPosition b2) = false →
      (frame getGlobalBounds inp g).player1Alive = false ∧
      (frame getGlobalBounds inp g).playerBody = none ∧
      b2Call.DestroyBody b1 ∈
        (playerLogic inp.GetPosition inp.ended inp.writable
          (beforePlayerLogic inp g)).world.calls ∧
      b1 ∉
        (playerLogic inp.GetPosition inp.ended inp.writable
          (beforePlayerLogic inp g)).world.liveBodies ∧
      (frame getGlobalBounds inp g).player2Alive = true ∧
      (frame getGlobalBounds inp g).player2Body = some b2 ∧
      (frame getGlobalBounds inp g).winner = 2 ∧
      winMessage (frame getGlobalBounds inp g).winner = "Player 2 Wins!" ∧
      (frame getGlobalBounds inp g).currentState = .GameOver) ∧
    (deathCondition (beforePlayerLogic inp g).contactListener PLAYER1_ID
        (inp.GetPosition b1) = false →
     deathCondition (beforePlayerLogic inp g).contactListener PLAYER2_ID
        (inp.GetPosition b2) = true →
      (frame getGlobalBounds inp g).player2Alive = false ∧
      (frame getGlobalBounds inp g).player2Body = none ∧
      b2Call.DestroyBody b2 ∈
        (playerLogic inp.GetPosition inp.ended inp.writable
          (beforePlayerLogic inp g)).world.calls ∧
      b2 ∉
        (playerLogic inp.GetPosition inp.ended inp.writable
          (beforePlayerLogic inp g)).world.liveBodies ∧
      (frame getGlobalBounds inp g).player1Alive = true ∧
      (frame getGlobalBounds inp g).playerBody = some b1 ∧
      (frame getGlobalBounds inp g).winner = 1 ∧
      winMessage (frame getGlobalBounds inp g).winner = "Player 1 Wins!" ∧
      (frame getGlobalBounds inp g).currentState = .GameOver) := by
  have hv := frame_multi_playerVars getGlobalBounds inp g b1 b2 hs hb1 ha1 hb2 ha2 hwf
  have hd := frame_multi_destroys inp g b1 b2 hs hb1 ha1 hb2 ha2 hwf
  constructor
  · intro h1 h2
    rw [h1, h2] at hv
    have hw : (frame getGlobalBounds inp g).winner = 2 := congrArg (·.2.2.2.2.2.1) hv
    refine ⟨congrArg (·.2.2.2.1) hv, congrArg (·.2.1) hv, (hd.1 h1).1, (hd.1 h1).2,
      congrArg (·.2.2.2.2.1) hv, congrArg (·.2.2.1) hv, hw, ?_, congrArg (·.1) hv⟩
    rw [hw]; rfl
  · intro h1 h2
    rw [h1, h2] at hv
    have hw : (frame getGlobalBounds inp g).winner = 1 := congrArg (·.2.2.2.2.2.1) hv
    refine ⟨congrArg (·.2.2.2.2.1) hv, congrArg (·.2.2.1) hv, (hd.2 h2).1, (hd.2 h2).2,
      congrArg (·.2.2.2.1) hv, congrArg (·.2.1) hv, hw, ?_, congrArg (·.1) hv⟩
    rw [hw]; rfl

/-- C16 in `sceneMulti` for the frame `inputPlayer1Falls`: only player 1 meets
the death test, and player 2 wins. -/
theorem C16_multiplayer_single_death_witness :
    (frame sfGlobalBounds inputPlayer1Falls sceneMulti).player1Alive = false ∧
    (frame sfGlobalBounds inputPlayer1Falls sceneMulti).player2Alive = true ∧
    (frame sfGlobalBounds inputPlayer1Falls sceneMulti).winner = 2 ∧
    (frame sfGlobalBounds inputPlayer1Falls sceneMulti).currentState = .GameOver :=
  have h1 : deathCondition (beforePlayerLogic inputPlayer1Falls sceneMulti).contactListener
      PLAYER1_ID (inputPlayer1Falls.GetPosition 2) = true :=
    (deathCondition_eq_true_iff _ _ _).mpr (Or.inr (Or.inl (by
      norm_num [inputPlayer1Falls, toMeters, windowHeight, playerHeight, METERS_PER_PIXEL,
        PIXELS_PER_METER])))
  have h2 : deathCondition (beforePlayerLogic inputPlayer1Falls sceneMulti).contactListener
      PLAYER2_ID (inputPlayer1Falls.GetPosition 3) = false := by
    have ht : (beforePlayerLogic inputPlayer1Falls sceneMulti).contactListener.hasTouchedGround
        PLAYER2_ID = false := by decide
    rw [Bool.eq_false_iff, ne_eq, deathCondition_eq_true_iff, ht]
    norm_num [inputPlayer1Falls, toMeters, windowHeight, playerHeight, playerWidth,
      METERS_PER_PIXEL, PIXELS_PER_METER]
  have h := (C16_multiplayer_single_death sfGlobalBounds inputPlayer1Falls sceneMulti 2 3
    (by decide) (by decide) (by decide) (by decide) (by decide)
    (by intro c hc; cases hc)).1 h1 h2
  ⟨h.1, h.2.2.2.2.1, h.2.2.2.2.2.2.1, h.2.2.2.2.2.2.2.2⟩

/-! ## Both players die in the same frame (C17) -/

/-- C17 as stated fails: in the frame `inputFall` of the session
`sceneMulti` both players meet the death test, and the winner after the frame
is 0, shown as a tie, not player 2. -/
theorem C17_simultaneous_death_is_a_tie :
    deathCondition (beforePlayerLogic inputFall sceneMulti).contactListener PLAYER1_ID
      (inputFall.GetPosition 2) = true ∧
    deathCondition (beforePlayerLogic inputFall sceneMulti).contactListener PLAYER2_ID
      (inputFall.GetPosition 3) = true ∧
    (frame sfGlobalBounds inputFall sceneMulti).currentState = .GameOver ∧
    (frame sfGlobalBounds inputFall sceneMulti).winner = 0 ∧
    (frame sfGlobalBounds inputFall sceneMulti).winner ≠ 2 ∧
    winMessage (frame sfGlobalBounds inputFall sceneMulti).winner = "Tie!" := by
  have h1 : deathCondition (beforePlayerLogic inputFall sceneMulti).contactListener
      PLAYER1_ID (inputFall.GetPosition 2) = true :=
    (deathCondition_eq_true_iff _ _ _).mpr (Or.inr (Or.inl (by
      norm_num [inputFall, toMeters, windowHeight, playerHeight, METERS_PER_PIXEL,
        PIXELS_PER_METER])))
  have h2 : deathCondition (beforePlayerLogic inputFall sceneMulti).contactListener
      PLAYER2_ID (inputFall.GetPosition 3) = true :=
    (deathCondition_eq_true_iff _ _ _).mpr (Or.inr (Or.inl (by
      norm_num [inputFall, toMeters, windowHeight, playerHeight, METERS_PER_PIXEL,
        PIXELS_PER_METER])))
  have hv := frame_multi_playerVars sfGlobalBounds inputFall sceneMulti 2 3
    (by decide) (by decide) (by decide) (by decide) (by decide) (by intro c hc; cases hc)
  rw [h1, h2] at hv
  have hw : (frame sfGlobalBounds inputFall sceneMulti).winner = 0 :=
    congrArg (·.2.2.2.2.2.1) hv
  refine ⟨h1, h2, congrArg (·.1) hv, hw, ?_, ?_⟩
  · rw [hw]; decide
  · rw [hw]; rfl

/-- C17, amended: in a frame that starts in `PlayingMulti` with both
players alive (and having bodies) and in which both meet the death test,
player 1's check records winner 2, then player 2's check, which finds player 1
no longer alive, replaces it by 0; after the frame both players are not alive,
the state is `GameOver`, `winner` is 0 and the message shown is the tie. -/
theorem C17_simultaneous_death (getGlobalBounds : RectangleShape → FloatRect)
    (inp : FrameInput) (g : Game) (b1 b2 : b2Body)
    (hs : g.currentState = .PlayingMulti)
    (hb1 : g.playerBody = some b1) (ha1 : g.player1Alive = true)
    (hb2 : g.player2Body = some b2) (ha2 : g.player2Alive = true)
    (hwf : ∀ c ∈ inp.ended b1, ¬ isGroundContactOf PLAYER2_ID c)
    (h1 : deathCondition (beforePlayerLogic inp g).contactListener PLAYER1_ID
        (inp.GetPosition b1) = true)
    (h2 : deathCondition (beforePlayerLogic inp g).contactListener PLAYER2_ID
        (inp.GetPosition b2) = true) :
    (playerLogicMulti1 inp.GetPosition inp.ended (beforePlayerLogic inp g)).winner = 2 ∧
    (frame getGlobalBounds inp g).player1Alive = false ∧
    (frame getGlobalBounds inp g).player2Alive = false ∧
    (frame getGlobalBounds inp g).currentState = .GameOver ∧
    (frame getGlobalBounds inp g).winner = 0 ∧
    winMessage (frame getGlobalBounds inp g).winner = "Tie!" := by
  have hq := beforePlayerLogic_playerVars inp g
  have hv := frame_multi_playerVars getGlobalBounds inp g b1 b2 hs hb1 ha1 hb2 ha2 hwf
  rw [h1, h2] at hv
  have hw : (frame getGlobalBounds inp g).winner = 0 := congrArg (·.2.2.2.2.2.1) hv
  refine ⟨?_, congrArg (·.2.2.2.1) hv, congrArg (·.2.2.2.2.1) hv, congrArg (·.1) hv, hw, ?_⟩
  · rw [playerLogicMulti1_eq inp.GetPosition inp.ended (beforePlayerLogic inp g) b1
      (by rw [playerVars_playerBody hq, hb1]) (by rw [playerVars_player1Alive hq, ha1]), h1]
    simp only [if_true, playerVars_player2Alive hq, ha2]
  · rw [hw]; rfl

/-- C17 amended, in `sceneMulti` for the frame `inputFall`, in which both
bodies are found below the window. -/
theorem C17_simultaneous_death_witness :
    (frame sfGlobalBounds inputFall sceneMulti).player1Alive = false ∧
    (frame sfGlobalBounds inputFall sceneMulti).player2Alive = false ∧
    (frame sfGlobalBounds inputFall sceneMulti).winner = 0 :=
  have h := C17_simultaneous_death sfGlobalBounds inputFall sceneMulti 2 3
    (by decide) (by decide) (by decide) (by decide) (by decide) (by intro c hc; cases hc)
    ((deathCondition_eq_true_iff _ _ _).mpr (Or.inr (Or.inl (by
      norm_num [inputFall, toMeters, windowHeight, playerHeight, METERS_PER_PIXEL,
        PIXELS_PER_METER]))))
    ((deathCondition_eq_true_iff _ _ _).mpr (Or.inr (Or.inl (by
      norm_num [inputFall, toMeters, windowHeight, playerHeight, METERS_PER_PIXEL,
        PIXELS_PER_METER]))))
  ⟨h.2.1, h.2.2.1, h.2.2.2.2.1⟩

/-! ## The high score at game over (C18) -/

theorem playerLogicSingle_score (GetPosition : b2Body → ℚ × ℚ)
    (ended : b2Body → List b2Contact) (writable : Bool) (g : Game) :
    (playerLogicSingle GetPosition ended writable g).score = g.score := by
  cases hb : g.playerBody with
  | none => simp only [playerLogicSingle, hb]
  | some body =>
    rw [playerLogicSingle_eq GetPosition ended writable g body hb]
    split_ifs <;> rfl

theorem effectAndRain_score (now : Int) (rainX : ℚ) (g : Game) :
    (effectAndRain now rainX g).score = g.score := by
  simp only [effectAndRain, magentaRain, effectExpiry]
  split_ifs <;> rfl

theorem spawnBlock_score (getGlobalBounds : RectangleShape → FloatRect) (now : Int)
    (d : SpawnDraws) (g : Game) :
    (spawnBlock getGlobalBounds now d g).score = g.score := by
  simp only [spawnBlock]
  split_ifs <;> rfl

theorem speedRamp_score (dt : ℚ) (g : Game) : (speedRamp dt g).score = g.score := by
  simp only [speedRamp]
  split_ifs <;> rfl

/-- In a single-player frame the score after the frame is the score at the
death test. -/
theorem frame_single_score (getGlobalBounds : RectangleShape → FloatRect) (inp : FrameInput)
    (g : Game) (hs : g.currentState = .PlayingSingle) :
    (frame getGlobalBounds inp g).score = (beforePlayerLogic inp g).score := by
  have hq := beforePlayerLogic_playerVars inp g
  have hqs : (beforePlayerLogic inp g).currentState = .PlayingSingle := by
    rw [playerVars_currentState hq, hs]
  have hn : ¬ (g.currentState ≠ .PlayingSingle ∧ g.currentState ≠ .PlayingMulti) := by
    simp [hs]
  simp only [frame, hn, if_false, beforeSpawn]
  rw [speedRamp_score, spawnBlock_score, effectAndRain_score]
  simp only [playerLogic, hqs]
  exact playerLogicSingle_score _ _ _ _

/-- The session variables after a frame that starts in `PlayingSingle` with
a player body, by the death test. -/
theorem frame_single_playerVars (getGlobalBounds : RectangleShape → FloatRect)
    (inp : FrameInput) (g : Game) (body : b2Body)
    (hs : g.currentState = .PlayingSingle) (hb : g.playerBody = some body) :
    (frame getGlobalBounds inp g).playerVars =
      (if deathCondition (beforePlayerLogic inp g).contactListener PLAYER1_ID
            (inp.GetPosition body) = true
        then GameState.GameOver else GameState.PlayingSingle,
       if deathCondition (beforePlayerLogic inp g).contactListener PLAYER1_ID
            (inp.GetPosition body) = true
        then none else some body,
       g.player2Body, g.player1Alive, g.player2Alive, g.winner,
       if deathCondition (beforePlayerLogic inp g).contactListener PLAYER1_ID
            (inp.GetPosition body) = true ∧ (beforePlayerLogic inp g).score > g.highScore
        then (beforePlayerLogic inp g).score else g.highScore,
       if deathCondition (beforePlayerLogic inp g).contactListener PLAYER1_ID
            (inp.GetPosition body) = true ∧ (beforePlayerLogic inp g).score > g.highScore
        then saveHighScore inp.writable g.highScoreFile (beforePlayerLogic inp g).score
        else g.highScoreFile) := by
  have hq := beforePlayerLogic_playerVars inp g
  have hqs : (beforePlayerLogic inp g).currentState = .PlayingSingle := by
    rw [playerVars_currentState hq, hs]
  have hqb : (beforePlayerLogic inp g).playerBody = some body := by
    rw [playerVars_playerBody hq, hb]
  have hlogic : playerLogic inp.GetPosition inp.ended inp.writable (beforePlayerLogic inp g) =
      playerLogicSingle inp.GetPosition inp.ended inp.writable (beforePlayerLogic inp g) := by
    simp only [playerLogic, hqs]
  rw [frame_playerVars getGlobalBounds inp g (Or.inl hs), hlogic,
    playerLogicSingle_eq _ _ _ _ body hqb]
  cases hd : deathCondition (beforePlayerLogic inp g).contactListener PLAYER1_ID
      (inp.GetPosition body)
  · simp only [Bool.false_eq_true, if_false, false_and]
    simp only [Game.playerVars, hqs, hqb, playerVars_player2Body hq,
      playerVars_player1Alive hq, playerVars_player2Alive hq, playerVars_winner hq,
      playerVars_highScore hq, playerVars_highScoreFile hq]
  · simp only [if_true, true_and]
    simp only [Game.playerVars, playerVars_player2Body hq,
      playerVars_player1Alive hq, playerVars_player2Alive hq, playerVars_winner hq,
      playerVars_highScore hq, playerVars_highScoreFile hq]

/-- C18 as stated fails: the session `sceneScored` (score 5, high score
3, read from the file) ends in the frame `inputFallReadOnly`; the score
exceeds the previous high score and the file still holds 3, because it could
not be opened for writing. -/
theorem C18_file_not_overwritten :
    sceneScored.highScore = 3 ∧ sceneScored.highScoreFile = some 3 ∧
    (frame sfGlobalBounds inputFallReadOnly sceneScored).currentState = .GameOver ∧
    (frame sfGlobalBounds inputFallReadOnly sceneScored).score = 5 ∧
    (frame sfGlobalBounds inputFallReadOnly sceneScored).highScore = 5 ∧
    (frame sfGlobalBounds inputFallReadOnly sceneScored).highScoreFile = some 3 := by
  have hd : deathCondition (beforePlayerLogic inputFallReadOnly sceneScored).contactListener
      PLAYER1_ID (inputFallReadOnly.GetPosition 2) = true :=
    (deathCondition_eq_true_iff _ _ _).mpr (Or.inr (Or.inl (by
      norm_num [inputFallReadOnly, inputFall, toMeters, windowHeight, playerHeight,
        METERS_PER_PIXEL, PIXELS_PER_METER])))
  have hsc : (beforePlayerLogic inputFallReadOnly sceneScored).score = 5 := by decide
  have hv := frame_single_playerVars sfGlobalBounds inputFallReadOnly sceneScored 2
    (by decide) (by decide)
  have hss := frame_single_score sfGlobalBounds inputFallReadOnly sceneScored (by decide)
  rw [hd, hsc] at hv
  have hh : sceneScored.highScore = 3 := by decide
  have hf : sceneScored.highScoreFile = some 3 := by decide
  rw [hh, hf] at hv
  refine ⟨hh, hf, congrArg (·.1) hv, hss.trans hsc, ?_, ?_⟩
  · have := congrArg (·.2.2.2.2.2.2.1) hv
    simpa using this
  · have := congrArg (·.2.2.2.2.2.2.2) hv
    simpa [saveHighScore, inputFallReadOnly] using this

/-- C18, amended: when a frame of a single-player session (with a
player body) ends in `GameOver`, the in-memory high score becomes the larger
of the previous high score and the score, and the high-score file is
overwritten with the score exactly when the score exceeds the previous high
score and the file can be opened for writing, otherwise it keeps its content;
`loadHighScore` returns 0 when the file cannot be opened and the stored number
otherwise. -/
theorem C18_high_score_update (getGlobalBounds : RectangleShape → FloatRect)
    (inp : FrameInput) (g : Game) (body : b2Body)
    (hs : g.currentState = .PlayingSingle) (hb : g.playerBody = some body)
    (hgo : (frame getGlobalBounds inp g).currentState = .GameOver) :
    (frame getGlobalBounds inp g).highScore =
      max g.highScore (frame getGlobalBounds inp g).score ∧
    (frame getGlobalBounds inp g).highScoreFile =
      (if (frame getGlobalBounds inp g).score > g.highScore ∧ inp.writable = true
       then some (frame getGlobalBounds inp g).score else g.highScoreFile) ∧
    loadHighScore none = 0 ∧ (∀ n : Int, loadHighScore (some n) = n) := by
  have hv := frame_single_playerVars getGlobalBounds inp g body hs hb
  have hss := frame_single_score getGlobalBounds inp g hs
  have hd : deathCondition (beforePlayerLogic inp g).contactListener PLAYER1_ID
      (inp.GetPosition body) = true := by
    cases hd : deathCondition (beforePlayerLogic inp g).contactListener PLAYER1_ID
      (inp.GetPosition body)
    · rw [hd] at hv
      have := (congrArg (·.1) hv : (frame getGlobalBounds inp g).currentState = _)
      rw [hgo] at this
      simp at this
    · rfl
  rw [hd, ← hss] at hv
  simp only [true_and] at hv
  have h1 : (frame getGlobalBounds inp g).highScore = _ := congrArg (·.2.2.2.2.2.2.1) hv
  have h2 : (frame getGlobalBounds inp g).highScoreFile = _ := congrArg (·.2.2.2.2.2.2.2) hv
  refine ⟨?_, ?_, rfl, fun _ => rfl⟩
  · rw [h1]
    by_cases hgt : (frame getGlobalBounds inp g).score > g.highScore
    · simp only [hgt, if_true]
      exact (max_eq_right (le_of_lt hgt)).symm
    · simp only [hgt, if_false]
      exact (max_eq_left (not_lt.mp hgt)).symm
  · rw [h2]
    by_cases hgt : (frame getGlobalBounds inp g).score > g.highScore
    · cases hw : inp.writable <;> simp [hgt, saveHighScore]
    · simp [hgt]

/-- C18 amended, in `sceneScored` for the frame `inputFall`, in which the file
can be written: the high score and the file go from 3 to 5. -/
theorem C18_high_score_update_witness :
    (frame sfGlobalBounds inputFall sceneScored).highScore = 5 ∧
    (frame sfGlobalBounds inputFall sceneScored).highScoreFile = some 5 := by
  have hd : deathCondition (beforePlayerLogic inputFall sceneScored).contactListener
      PLAYER1_ID (inputFall.GetPosition 2) = true :=
    (deathCondition_eq_true_iff _ _ _).mpr (Or.inr (Or.inl (by
      norm_num [inputFall, toMeters, windowHeight, playerHeight,
        METERS_PER_PIXEL, PIXELS_PER_METER])))
  have hv := frame_single_playerVars sfGlobalBounds inputFall sceneScored 2
    (by decide) (by decide)
  rw [hd] at hv
  have hgo : (frame sfGlobalBounds inputFall sceneScored).currentState = .GameOver :=
    congrArg (·.1) hv
  have hsc : (frame sfGlobalBounds inputFall sceneScored).score = 5 :=
    (frame_single_score sfGlobalBounds inputFall sceneScored (by decide)).trans (by decide)
  have h := C18_high_score_update sfGlobalBounds inputFall sceneScored 2
    (by decide) (by decide) hgo
  have hh : sceneScored.highScore = 3 := by decide
  rw [hsc, hh] at h
  exact ⟨by simpa using h.1, by simpa [inputFall] using h.2.1⟩

/-! ## Evaluation of whole frames -/

set_option maxHeartbeats 1000000 in
theorem frame_inputIdle_sceneSingle :
    frame sfGlobalBounds inputIdle sceneSingle = sceneFirstFrame := by
  simp [sceneFirstFrame, firstBlock, inputIdle,
    frame, beforeSpawn, beforePlayerLogic, applyGravityScale, setGravityScale, worldStep,
    syncEntities, processCollected, eraseBlocks, eraseCollectibles, playerLogic,
    playerLogicSingle, destroyBody, effectAndRain, spawnBlock, speedRamp, frameDt,
    sceneSingle, handleEvent, startSingle, Game.start, createPlayer, b2World.CreateBody,
    b2World.call, deathCondition, toMeters, toPixels, Clock.elapsedSeconds, Clock.restart,
    PlayerContactListener.reset, PlayerContactListener.new, PlayerContactListener.callbacks,
    PlayerContactListener.isGrounded, PlayerContactListener.hasTouchedGround,
    Game.collectiblesToRemoveFromWorld, visualOverlap, newBlock, drawsLow,
    windowHeight, playerHeight, playerWidth, METERS_PER_PIXEL, PIXELS_PER_METER, windowWidth,
    maxBlockSpeed, currentLengthBounds, loadHighScore, saveHighScore, baseMinLength,
    baseMaxLength, maxJumps, PLATFORM_ID_BASE, uniformReal, chooseType, candidateBounds,
    effectExpiry, magentaRain, syncBlock,
    blockSpeedIncreaseFactor, lerp, minSpawnTimeBase, maxSpawnTimeBase, fixedHeight,
    collectibleSpawnChance, collectibleRadius]
  norm_num
  simp
  norm_num

set_option maxHeartbeats 1000000 in
theorem sceneGameOver_eval :
    sceneGameOver.currentState = .GameOver ∧
    sceneGameOver.playerBody = none ∧
    sceneGameOver.blocks.map (·.body) = [some 3] ∧
    sceneGameOver.world.liveBodies = [0, 1, 3] := by
  have h : sceneGameOver = frame sfGlobalBounds inputLater sceneFirstFrame := by
    rw [← frame_inputIdle_sceneSingle]; rfl
  rw [h]
  simp [sceneFirstFrame, firstBlock, inputLater,
    frame, beforeSpawn, beforePlayerLogic, applyGravityScale, setGravityScale, worldStep,
    syncEntities, processCollected, eraseBlocks, eraseCollectibles, playerLogic,
    playerLogicSingle, destroyBody, effectAndRain, spawnBlock, speedRamp, frameDt,
    sceneSingle, handleEvent, startSingle, Game.start, createPlayer, b2World.CreateBody,
    b2World.call, deathCondition, toMeters, toPixels, Clock.elapsedSeconds, Clock.restart,
    PlayerContactListener.reset, PlayerContactListener.new, PlayerContactListener.callbacks,
    PlayerContactListener.isGrounded, PlayerContactListener.hasTouchedGround,
    Game.collectiblesToRemoveFromWorld, visualOverlap, newBlock, drawsLow,
    windowHeight, playerHeight, playerWidth, METERS_PER_PIXEL, PIXELS_PER_METER, windowWidth,
    maxBlockSpeed, currentLengthBounds, loadHighScore, saveHighScore, baseMinLength,
    baseMaxLength, maxJumps, PLATFORM_ID_BASE, uniformReal, chooseType, candidateBounds,
    effectExpiry, magentaRain, syncBlock, b2World.liveBodies, liveBodiesAfter,
    blockSpeedIncreaseFactor, lerp, minSpawnTimeBase, maxSpawnTimeBase, fixedHeight,
    collectibleSpawnChance, collectibleRadius]
  norm_num
  simp
  norm_num
  simp [liveBodiesAfter]

set_option maxHeartbeats 1000000 in
theorem sceneMultiOver_eval :
    sceneMultiOver.currentState = .GameOver ∧
    sceneMultiOver.player2Body = some 3 ∧
    sceneMultiOver.world.liveBodies = [0, 1, 3, 4] := by
  simp [sceneMultiOver, sceneMulti, inputPlayer1Falls,
    frame, beforeSpawn, beforePlayerLogic, applyGravityScale, setGravityScale, worldStep,
    syncEntities, processCollected, eraseBlocks, eraseCollectibles, playerLogic,
    playerLogicMulti, playerLogicMulti1, playerLogicMulti2, destroyBody, effectAndRain,
    spawnBlock, speedRamp, frameDt,
    handleEvent, startMulti, Game.start, createPlayer, b2World.CreateBody,
    b2World.call, deathCondition, toMeters, toPixels, Clock.elapsedSeconds, Clock.restart,
    PlayerContactListener.reset, PlayerContactListener.new, PlayerContactListener.callbacks,
    PlayerContactListener.isGrounded, PlayerContactListener.hasTouchedGround,
    Game.collectiblesToRemoveFromWorld, visualOverlap, newBlock, drawsLow,
    windowHeight, playerHeight, playerWidth, METERS_PER_PIXEL, PIXELS_PER_METER, windowWidth,
    maxBlockSpeed, currentLengthBounds, loadHighScore, saveHighScore, baseMinLength,
    baseMaxLength, maxJumps, PLATFORM_ID_BASE, uniformReal, chooseType, candidateBounds,
    effectExpiry, magentaRain, syncBlock, b2World.liveBodies, liveBodiesAfter,
    blockSpeedIncreaseFactor, lerp, minSpawnTimeBase, maxSpawnTimeBase, fixedHeight,
    collectibleSpawnChance, collectibleRadius]
  norm_num
  simp
  norm_num
  simp [liveBodiesAfter]

/-! ## Session start and restart (C19, C20) -/

/-- Space after game over (lines 611-624), in one expression. -/
theorem handleEvent_restart (GetMass : b2Body → ℚ) (now : Int) (g : Game)
    (h : g.currentState = .GameOver) :
    handleEvent GetMass now g (.KeyPressed .Space) =
      { g with
        currentState := .StartScreen
        playerBody := none
        player2Body := none
        blocks := []
        collectibles := []
        contactListener := g.contactListener.reset } := by
  simp [handleEvent, h]

/-- A left click on the single-player text of the start screen runs the
single-player start. -/
theorem handleEvent_selectSingle (GetMass : b2Body → ℚ) (now : Int) (g : Game)
    (onMultiPlayerText : Bool) (h : g.currentState = .StartScreen) :
    handleEvent GetMass now g (.MouseButtonPressed true true onMultiPlayerText) =
      startSingle now g := by
  simp [handleEvent, h]

/-- The single-player start creates one body and destroys none. -/
theorem liveBodies_startSingle (now : Int) (g : Game) :
    (startSingle now g).world.liveBodies = g.world.liveBodies ++ [g.world.nextBody] := by
  simp [startSingle, createPlayer, b2World.CreateBody, b2World.call, b2World.liveBodies,
    liveBodiesAfter_append, liveBodiesAfter]

/-- C19: a left click on the single-player text of the start screen runs
the single-player start, and whatever the state before, the state after it has
mode `PlayingSingle`, score 0, game time 0, block speed 200, spawn-interval
bounds `[2.5, 3.5]`, length bounds `[100, 300]`, platform effect `None`, rain
flag false, `jumpsRemaining = maxJumps`, fast-fall flag false, empty platform
and collectible lists, an empty removal queue, and a listener in which
`isGrounded` and `hasTouchedGround` are false for every player. -/
theorem C19_single_player_start (GetMass : b2Body → ℚ) (now : Int) (g : Game)
    (onMultiPlayerText : Bool) (hs : g.currentState = .StartScreen) :
    handleEvent GetMass now g (.MouseButtonPressed true true onMultiPlayerText) =
      startSingle now g ∧
    (startSingle now g).currentState = .PlayingSingle ∧
    (startSingle now g).score = 0 ∧
    (startSingle now g).gameTime = 0 ∧
    (startSingle now g).blockSpeed = 200 ∧
    (startSingle now g).minSpawnTime = 25 / 10 ∧
    (startSingle now g).maxSpawnTime = 35 / 10 ∧
    (startSingle now g).minLength = 100 ∧
    (startSingle now g).maxLength = 300 ∧
    (currentLengthBounds (startSingle now g)).currentMinLength = 100 ∧
    (currentLengthBounds (startSingle now g)).currentMaxLength = 300 ∧
    (startSingle now g).currentPlatformEffect = .None ∧
    (startSingle now g).isRainingMagenta = false ∧
    (startSingle now g).jumpsRemaining = maxJumps ∧
    (startSingle now g).fastFallActive = false ∧
    (startSingle now g).blocks = [] ∧
    (startSingle now g).collectibles = [] ∧
    (startSingle now g).collectiblesToRemoveFromWorld = [] ∧
    (∀ p : Nat, (startSingle now g).contactListener.isGrounded p = false ∧
      (startSingle now g).contactListener.hasTouchedGround p = false) := by
  refine ⟨handleEvent_selectSingle GetMass now g onMultiPlayerText hs, rfl, rfl, rfl, rfl, rfl,
    rfl, rfl, rfl, ?_, ?_, rfl, rfl, rfl, rfl, rfl, rfl, rfl, fun p => ⟨rfl, rfl⟩⟩
  · simp [currentLengthBounds, startSingle, baseMinLength]
  · simp [currentLengthBounds, startSingle, baseMaxLength]

/-- C19 on the start screen reached after the finished session
`sceneGameOver`. -/
theorem C19_single_player_start_witness :
    sceneRestarted.currentState = .StartScreen ∧
    sceneSecondSession.currentState = .PlayingSingle ∧
    sceneSecondSession.score = 0 ∧
    sceneSecondSession.blocks = [] ∧
    sceneSecondSession.contactListener.hasTouchedGround PLAYER1_ID = false := by
  have hr : sceneRestarted.currentState = .StartScreen := by
    simp only [sceneRestarted]
    rw [handleEvent_restart _ _ _ sceneGameOver_eval.1]
  have h := C19_single_player_start playerMass 4000000 sceneRestarted false hr
  have e : sceneSecondSession = startSingle 4000000 sceneRestarted := h.1
  rw [e]
  exact ⟨hr, h.2.1, h.2.2.1, h.2.2.2.2.2.2.2.2.2.2.2.2.2.2.2.1,
    (h.2.2.2.2.2.2.2.2.2.2.2.2.2.2.2.2.2.2 PLAYER1_ID).2⟩

/-- C20 fails on the code. In the session `sceneGameOver` the platform
of body 3 is in the list and alive in the world; after Space the lists are
empty and the listener is reset, but the world is the same and body 3 is
still alive in it, and it still is after single-player mode is selected again.
In the multiplayer session `sceneMultiOver` the surviving player 2 has body 3;
after Space the handle is cleared and the body is still alive in the world. -/
theorem C20_bodies_outlive_restart :
    (sceneGameOver.currentState = .GameOver ∧
      sceneGameOver.blocks.map (·.body) = [some 3] ∧
      3 ∈ sceneGameOver.world.liveBodies) ∧
    (sceneRestarted.currentState = .StartScreen ∧
      sceneRestarted.blocks = [] ∧ sceneRestarted.collectibles = [] ∧
      sceneRestarted.contactListener = sceneGameOver.contactListener.reset ∧
      sceneRestarted.world = sceneGameOver.world ∧
      3 ∈ sceneRestarted.world.liveBodies) ∧
    (sceneSecondSession.currentState = .PlayingSingle ∧
      sceneSecondSession.blocks = [] ∧
      3 ∈ sceneSecondSession.world.liveBodies) ∧
    (sceneMultiOver.currentState = .GameOver ∧
      sceneMultiOver.player2Body = some 3 ∧
      sceneMultiRestarted.currentState = .StartScreen ∧
      sceneMultiRestarted.player2Body = none ∧
      3 ∈ sceneMultiRestarted.world.liveBodies) := by
  have hg := sceneGameOver_eval
  have hm := sceneMultiOver_eval
  have hr : sceneRestarted = _ := handleEvent_restart playerMass 3000000 sceneGameOver hg.1
  have hmr : sceneMultiRestarted = _ :=
    handleEvent_restart playerMass 3000000 sceneMultiOver hm.1
  have hrs : sceneRestarted.currentState = .StartScreen := by rw [hr]
  have h3 : (3 : b2Body) ∈ sceneGameOver.world.liveBodies := by rw [hg.2.2.2]; decide
  have hrw : sceneRestarted.world = sceneGameOver.world := by rw [hr]
  have hss : sceneSecondSession = startSingle 4000000 sceneRestarted :=
    handleEvent_selectSingle playerMass 4000000 sceneRestarted false hrs
  refine ⟨⟨hg.1, hg.2.2.1, h3⟩, ⟨hrs, by rw [hr], by rw [hr], by rw [hr], hrw, ?_⟩,
    ⟨by rw [hss]; rfl, by rw [hss]; rfl, ?_⟩, hm.1, hm.2.1, by rw [hmr], by rw [hmr], ?_⟩
  · rw [hrw]; exact h3
  · rw [hss, liveBodies_startSingle, hrw]
    exact List.mem_append_left _ h3
  · rw [hmr]
    show (3 : b2Body) ∈ sceneMultiOver.world.liveBodies
    rw [hm.2.2]; decide

/-! ## The platform effect over a run of frames (C11) -/

theorem beforePlayerLogic_eq (inp : FrameInput) (g : Game) :
    beforePlayerLogic inp g =
      eraseCollectibles inp.ended
        (eraseBlocks inp.ended (processCollected inp.now (beforeCollected inp g))) := rfl

theorem elapsedSeconds_mono (c : Clock) {a b : Int} (h : a ≤ b) :
    c.elapsedSeconds a ≤ c.elapsedSeconds b := by
  simp only [Clock.elapsedSeconds]
  have : ((a - c.m_startTime : Int) : ℚ) ≤ ((b - c.m_startTime : Int) : ℚ) := by
    exact_mod_cast sub_le_sub_right h _
  exact div_le_div_of_nonneg_right this (by norm_num)

theorem collect_effectVars (now : Int) (g : Game) (type : CollectibleType)
    (h : type ≠ .Green ∧ type ≠ .Red) : (collect now g type).effectVars = g.effectVars := by
  cases type
  · rfl
  · rfl
  · exact absurd rfl h.1
  · exact absurd rfl h.2
  · rfl
  · rfl

theorem foldl_resolveSingle_effectVars (now : Int) (queue : List b2Body) :
    ∀ g : Game,
      (∀ type ∈ collectedTypes queue g.collectibles, type ≠ .Green ∧ type ≠ .Red) →
      (queue.foldl (resolveSingle now) g).effectVars = g.effectVars := by
  induction queue with
  | nil => intro g _; rfl
  | cons b rest ih =>
    intro g h
    rw [List.foldl_cons]
    cases hm : markCollected b g.collectibles with
    | none =>
      have e : resolveSingle now g b = g := by simp only [resolveSingle, hm]
      rw [e]
      apply ih
      intro type ht
      apply h
      simp only [collectedTypes, hm]
      exact ht
    | some r =>
      have e : resolveSingle now g b = { collect now g r.1 with collectibles := r.2 } := by
        simp only [resolveSingle, hm]
      have hc : collectedTypes (b :: rest) g.collectibles = r.1 :: collectedTypes rest r.2 := by
        simp only [collectedTypes, hm]
      rw [hc] at h
      rw [e, ih _ (fun type ht => h type (List.mem_cons_of_mem _ ht))]
      exact collect_effectVars now g r.1 (h r.1 (List.mem_cons_self _ _))

theorem foldl_resolveMulti_effectVars (queue : List b2Body) (g : Game) :
    (queue.foldl resolveMulti g).effectVars = g.effectVars :=
  foldl_proj resolveMulti Game.effectVars
    (by
      intro h b
      unfold resolveMulti
      split <;> rfl) _ g

theorem processCollected_effectVars (now : Int) (g : Game)
    (h : ∀ type ∈ collectedTypes g.collectiblesToRemoveFromWorld g.collectibles,
      type ≠ .Green ∧ type ≠ .Red) :
    (processCollected now g).effectVars = g.effectVars := by
  simp only [processCollected]
  split_ifs
  · exact foldl_resolveSingle_effectVars now _ g h
  · exact foldl_resolveMulti_effectVars _ g

theorem beforeCollected_vars (inp : FrameInput) (g : Game) :
    (beforeCollected inp g).playerVars = g.playerVars ∧
    (beforeCollected inp g).effectVars = g.effectVars := by
  simp only [beforeCollected]
  rw [(syncEntities_vars _ _).1, (syncEntities_vars _ _).2.1]
  simp only [worldStep]
  exact ⟨(applyGravityScale_vars _).1, (applyGravityScale_vars _).2.1⟩

theorem beforePlayerLogic_effectVars (inp : FrameInput) (g : Game)
    (h : ∀ type ∈ frameCollected inp g, type ≠ .Green ∧ type ≠ .Red) :
    (beforePlayerLogic inp g).effectVars = g.effectVars := by
  rw [beforePlayerLogic_eq, (eraseCollectibles_vars _ _).2.1, (eraseBlocks_vars _ _).2.1,
    processCollected_effectVars _ _ h, (beforeCollected_vars inp g).2]

theorem playerLogicMulti1_vars (GetPosition : b2Body → ℚ × ℚ)
    (ended : b2Body → List b2Contact) (g : Game) :
    (playerLogicMulti1 GetPosition ended g).effectVars = g.effectVars ∧
    (playerLogicMulti1 GetPosition ended g).currentState = g.currentState := by
  simp only [playerLogicMulti1, setGravityScale, destroyBody]
  split
  · split_ifs <;> exact ⟨rfl, rfl⟩
  · exact ⟨rfl, rfl⟩

theorem playerLogicMulti2_vars (GetPosition : b2Body → ℚ × ℚ)
    (ended : b2Body → List b2Contact) (g : Game) :
    (playerLogicMulti2 GetPosition ended g).effectVars = g.effectVars ∧
    (playerLogicMulti2 GetPosition ended g).currentState = g.currentState := by
  simp only [playerLogicMulti2, setGravityScale, destroyBody]
  split
  · split_ifs <;> exact ⟨rfl, rfl⟩
  · exact ⟨rfl, rfl⟩

theorem playerLogicSingle_effectVars (GetPosition : b2Body → ℚ × ℚ)
    (ended : b2Body → List b2Contact) (writable : Bool) (g : Game) :
    (playerLogicSingle GetPosition ended writable g).effectVars = g.effectVars := by
  cases hb : g.playerBody with
  | none => simp only [playerLogicSingle, hb]
  | some body =>
    rw [playerLogicSingle_eq GetPosition ended writable g body hb]
    split_ifs <;> rfl

/-- The player logic does not write the platform effect, and it never enters
`PlayingSingle`. -/
theorem playerLogic_vars (GetPosition : b2Body → ℚ × ℚ)
    (ended : b2Body → List b2Contact) (writable : Bool) (g : Game) :
    (playerLogic GetPosition ended writable g).effectVars = g.effectVars ∧
    ((playerLogic GetPosition ended writable g).currentState = .PlayingSingle →
      g.currentState = .PlayingSingle) := by
  cases hs : g.currentState with
  | StartScreen => simp [playerLogic, hs]
  | GameOver => simp [playerLogic, hs]
  | PlayingSingle =>
    simp only [playerLogic, hs]
    exact ⟨playerLogicSingle_effectVars _ _ _ _, fun _ => trivial⟩
  | PlayingMulti =>
    simp only [playerLogic, hs, playerLogicMulti]
    have h1 := playerLogicMulti1_vars GetPosition ended g
    have h2 := playerLogicMulti2_vars GetPosition ended (playerLogicMulti1 GetPosition ended g)
    split_ifs
    · exact ⟨h2.1.trans h1.1, fun h => by cases h⟩
    · refine ⟨h2.1.trans h1.1, fun h => ?_⟩
      rw [h2.2, h1.2, hs] at h
      cases h

theorem magentaRain_effectVars (now : Int) (rainX : ℚ) (g : Game) :
    (magentaRain now rainX g).effectVars = g.effectVars := by
  simp only [magentaRain]
  split_ifs <;> rfl

theorem spawnBlock_effectVars (getGlobalBounds : RectangleShape → FloatRect) (now : Int)
    (d : SpawnDraws) (g : Game) :
    (spawnBlock getGlobalBounds now d g).effectVars = g.effectVars := by
  simp only [spawnBlock]
  split_ifs <;> rfl

theorem speedRamp_effectVars (dt : ℚ) (g : Game) :
    (speedRamp dt g).effectVars = g.effectVars := by
  simp only [speedRamp]
  split_ifs <;> rfl

theorem speedRamp_blocks (dt : ℚ) (g : Game) : (speedRamp dt g).blocks = g.blocks := by
  simp only [speedRamp]
  split_ifs <;> rfl

/-- A spawn attempt leaves the block list as it is or appends the candidate. -/
theorem spawnBlock_blocks_cases (getGlobalBounds : RectangleShape → FloatRect) (now : Int)
    (d : SpawnDraws) (g : Game) :
    (spawnBlock getGlobalBounds now d g).blocks = g.blocks ∨
    (spawnBlock getGlobalBounds now d g).blocks = g.blocks ++ [newBlock d g] := by
  by_cases hexp : g.spawnClock.elapsedSeconds now ≥ g.nextSpawnTime
  · rw [spawnBlock_blocks getGlobalBounds now d g hexp]
    split_ifs
    · exact Or.inl rfl
    · exact Or.inr rfl
  · left
    simp only [spawnBlock, hexp, if_false]

/-- The candidate's length lies within the current length bounds when the
canonical value does in `[0, 1]`. -/
theorem newBlock_length (d : SpawnDraws) (g : Game)
    (h0 : 0 ≤ d.blockLength) (h1 : d.blockLength ≤ 1)
    (hle : (currentLengthBounds g).currentMinLength ≤ (currentLengthBounds g).currentMaxLength) :
    (currentLengthBounds g).currentMinLength ≤ (newBlock d g).shape.size.1 ∧
    (newBlock d g).shape.size.1 ≤ (currentLengthBounds g).currentMaxLength := by
  simp only [newBlock, uniformReal]
  constructor <;> nlinarith

theorem foldl_resolveSingle_effectVars_green (now : Int) (after : List CollectibleType)
    (hafter : ∀ type ∈ after, type ≠ .Green ∧ type ≠ .Red) (queue : List b2Body) :
    ∀ (g : Game) (before : List CollectibleType),
      collectedTypes queue g.collectibles = before ++ .Green :: after →
      (queue.foldl (resolveSingle now) g).effectVars = (.Lengthen, ⟨now⟩) := by
  induction queue with
  | nil =>
    intro g before h
    simp [collectedTypes] at h
  | cons b rest ih =>
    intro g before h
    rw [List.foldl_cons]
    cases hm : markCollected b g.collectibles with
    | none =>
      have e : resolveSingle now g b = g := by simp only [resolveSingle, hm]
      rw [e]
      apply ih g before
      simpa only [collectedTypes, hm] using h
    | some r =>
      have e : resolveSingle now g b = { collect now g r.1 with collectibles := r.2 } := by
        simp only [resolveSingle, hm]
      have hc : collectedTypes (b :: rest) g.collectibles = r.1 :: collectedTypes rest r.2 := by
        simp only [collectedTypes, hm]
      rw [hc] at h
      rw [e]
      cases before with
      | nil =>
        rw [List.nil_append, List.cons.injEq] at h
        rw [foldl_resolveSingle_effectVars now rest _ (by rw [h.2]; exact hafter), h.1]
        rfl
      | cons x before =>
        rw [List.cons_append, List.cons.injEq] at h
        exact ih _ before h.2

/-- The platform effect after a frame's consumptions when the last Lengthen or
Shorten collectible consumed is a Lengthen one: the effect is Lengthen and its
clock was restarted in this frame. -/
theorem beforePlayerLogic_effectVars_green (inp : FrameInput) (g : Game)
    (before after : List CollectibleType)
    (hs : g.currentState = .PlayingSingle)
    (hgreen : frameCollected inp g = before ++ .Green :: after)
    (hafter : ∀ type ∈ after, type ≠ .Green ∧ type ≠ .Red) :
    (beforePlayerLogic inp g).effectVars = (.Lengthen, ⟨inp.now⟩) := by
  have hcs : (beforeCollected inp g).currentState = .PlayingSingle := by
    rw [playerVars_currentState (beforeCollected_vars inp g).1, hs]
  rw [beforePlayerLogic_eq, (eraseCollectibles_vars _ _).2.1, (eraseBlocks_vars _ _).2.1]
  simp only [processCollected, hcs, if_true]
  exact foldl_resolveSingle_effectVars_green inp.now after hafter _ _ before hgreen

/-- The platform effect when the spawn code of a frame runs in single-player
mode, from the effect and its clock after the consumptions of the frame. -/
theorem beforeSpawn_effect_of (inp : FrameInput) (g : Game) (e : PlatformEffect) (c : Clock)
    (hq : (beforePlayerLogic inp g).effectVars = (e, c))
    (hplay : (beforeSpawn inp g).currentState = .PlayingSingle) :
    (beforeSpawn inp g).effectVars =
      (if e ≠ .None ∧ c.elapsedSeconds inp.now ≥ platformEffectDuration then .None else e, c) := by
  have hps : (playerLogic inp.GetPosition inp.ended inp.writable
      (beforePlayerLogic inp g)).currentState = .PlayingSingle := by
    rw [← playerVars_currentState (effectAndRain_playerVars inp.now inp.rainX _)]
    exact hplay
  have hpe := (playerLogic_vars inp.GetPosition inp.ended inp.writable
    (beforePlayerLogic inp g)).1
  rw [hq] at hpe
  have he : (playerLogic inp.GetPosition inp.ended inp.writable
      (beforePlayerLogic inp g)).currentPlatformEffect = e := congrArg (·.1) hpe
  have hc : (playerLogic inp.GetPosition inp.ended inp.writable
      (beforePlayerLogic inp g)).platformEffectClock = c := congrArg (·.2) hpe
  simp only [beforeSpawn, effectAndRain, hps, if_true]
  rw [magentaRain_effectVars]
  simp only [effectExpiry, he, hc]
  split_ifs
  · simp only [Game.effectVars, hc]
  · simp only [Game.effectVars, he, hc]

/-- In a frame of single-player mode the state at the spawn code is that of
the start of the frame. -/
theorem currentState_of_beforeSpawn (inp : FrameInput) (g : Game)
    (hplay : (beforeSpawn inp g).currentState = .PlayingSingle) :
    g.currentState = .PlayingSingle := by
  have hps : (playerLogic inp.GetPosition inp.ended inp.writable
      (beforePlayerLogic inp g)).currentState = .PlayingSingle := by
    rw [← playerVars_currentState (effectAndRain_playerVars inp.now inp.rainX _)]
    exact hplay
  have := (playerLogic_vars inp.GetPosition inp.ended inp.writable
    (beforePlayerLogic inp g)).2 hps
  rwa [playerVars_currentState (beforePlayerLogic_playerVars inp g)] at this

/-- The state and the platform effect after a frame are those at its spawn
code; a frame that ends in `PlayingSingle` ran the spawn code. -/
theorem frame_of_playingSingle (getGlobalBounds : RectangleShape → FloatRect)
    (inp : FrameInput) (g : Game)
    (hf : (frame getGlobalBounds inp g).currentState = .PlayingSingle) :
    g.currentState = .PlayingSingle ∧
    (beforeSpawn inp g).currentState = .PlayingSingle ∧
    (frame getGlobalBounds inp g).effectVars = (beforeSpawn inp g).effectVars := by
  by_cases hn : g.currentState ≠ .PlayingSingle ∧ g.currentState ≠ .PlayingMulti
  · unfold frame at hf
    rw [if_pos hn] at hf
    exact absurd hf hn.1
  · unfold frame at hf ⊢
    rw [if_neg hn] at hf ⊢
    rw [playerVars_currentState (speedRamp_playerVars _ _),
      playerVars_currentState (spawnBlock_playerVars _ _ _ _)] at hf
    refine ⟨currentState_of_beforeSpawn inp g hf, hf, ?_⟩
    rw [speedRamp_effectVars, spawnBlock_effectVars]

/-- One frame without a Lengthen or Shorten consumption, started in a state
in which the Lengthen effect runs on the clock `c` or has expired on it at an
instant `t` not later than the frame: at the spawn code the effect is Lengthen
before ten seconds have elapsed on `c` and None afterwards, and the state
after the frame is again of that kind. -/
theorem frame_effect_step (getGlobalBounds : RectangleShape → FloatRect)
    (inp : FrameInput) (g : Game) (c : Clock) (t : Int)
    (hI : g.currentState = .PlayingSingle →
      g.effectVars = (.Lengthen, c) ∨
      (g.currentPlatformEffect = .None ∧ platformEffectDuration ≤ c.elapsedSeconds t))
    (ht : t ≤ inp.now)
    (hq : ∀ type ∈ frameCollected inp g, type ≠ .Green ∧ type ≠ .Red) :
    ((beforeSpawn inp g).currentState = .PlayingSingle →
      (c.elapsedSeconds inp.now < platformEffectDuration →
        (beforeSpawn inp g).currentPlatformEffect = .Lengthen) ∧
      (platformEffectDuration ≤ c.elapsedSeconds inp.now →
        (beforeSpawn inp g).currentPlatformEffect = .None)) ∧
    ((frame getGlobalBounds inp g).currentState = .PlayingSingle →
      (frame getGlobalBounds inp g).effectVars = (.Lengthen, c) ∨
      ((frame getGlobalBounds inp g).currentPlatformEffect = .None ∧
        platformEffectDuration ≤ c.elapsedSeconds inp.now)) := by
  have key : (beforeSpawn inp g).currentState = .PlayingSingle →
      ((beforeSpawn inp g).effectVars = (.Lengthen, c) ∧
        c.elapsedSeconds inp.now < platformEffectDuration) ∨
      ((beforeSpawn inp g).currentPlatformEffect = .None ∧
        platformEffectDuration ≤ c.elapsedSeconds inp.now) := by
    intro hplay
    have hgs := currentState_of_beforeSpawn inp g hplay
    have hqe := beforePlayerLogic_effectVars inp g hq
    rcases hI hgs with h | h
    · rw [h] at hqe
      have hr := beforeSpawn_effect_of inp g _ _ hqe hplay
      rcases lt_or_le (c.elapsedSeconds inp.now) platformEffectDuration with hlt | hle
      · left
        refine ⟨?_, hlt⟩
        rw [hr, if_neg (fun hh => absurd hh.2 (not_le.mpr hlt))]
      · right
        refine ⟨?_, hle⟩
        have := congrArg (·.1) hr
        simp only [Game.effectVars] at this
        rw [this, if_pos ⟨by decide, hle⟩]
    · right
      have hg : g.effectVars = (.None, g.platformEffectClock) := by
        simp only [Game.effectVars, h.1]
      rw [hg] at hqe
      have hr := beforeSpawn_effect_of inp g _ _ hqe hplay
      have := congrArg (·.1) hr
      simp only [Game.effectVars] at this
      refine ⟨?_, le_trans h.2 (elapsedSeconds_mono c ht)⟩
      rw [this]
      simp
  constructor
  · intro hplay
    rcases key hplay with h | h
    · exact ⟨fun _ => congrArg (·.1) h.1, fun hle => absurd hle (not_le.mpr h.2)⟩
    · exact ⟨fun hlt => absurd h.2 (not_le.mpr hlt), fun _ => h.1⟩
  · intro hf
    have hfr := frame_of_playingSingle getGlobalBounds inp g hf
    rcases key hfr.2.1 with h | h
    · left
      rw [hfr.2.2, h.1]
    · right
      refine ⟨?_, h.2⟩
      have := congrArg (·.1) hfr.2.2
      simp only [Game.effectVars] at this
      rw [this, h.1]

/-- A run of frames without a Lengthen or Shorten consumption, at instants in
order, started in a state in which the Lengthen effect runs on the clock `c`
or has expired on it: at the spawn code of the last frame the effect is
Lengthen before ten seconds have elapsed on `c` and None afterwards. -/
theorem frames_effect (getGlobalBounds : RectangleShape → FloatRect) (inp : FrameInput)
    (c : Clock) :
    ∀ (pre : List FrameInput) (g : Game) (t : Int),
      (g.currentState = .PlayingSingle →
        g.effectVars = (.Lengthen, c) ∨
        (g.currentPlatformEffect = .None ∧ platformEffectDuration ≤ c.elapsedSeconds t)) →
      List.Chain (· ≤ ·) t ((pre ++ [inp]).map (·.now)) →
      noEffectPickup getGlobalBounds (pre ++ [inp]) g →
      (beforeSpawn inp (frames getGlobalBounds pre g)).currentState = .PlayingSingle →
      (c.elapsedSeconds inp.now < platformEffectDuration →
        (beforeSpawn inp (frames getGlobalBounds pre g)).currentPlatformEffect = .Lengthen) ∧
      (platformEffectDuration ≤ c.elapsedSeconds inp.now →
        (beforeSpawn inp (frames getGlobalBounds pre g)).currentPlatformEffect = .None) := by
  intro pre
  induction pre with
  | nil =>
    intro g t hI hmono hquiet hplay
    simp only [List.nil_append, List.map_cons, List.map_nil, List.chain_cons] at hmono
    exact (frame_effect_step getGlobalBounds inp g c t hI hmono.1 hquiet.1).1 hplay
  | cons a rest ih =>
    intro g t hI hmono hquiet hplay
    simp only [List.cons_append, List.map_cons, List.chain_cons] at hmono
    exact ih (frame getGlobalBounds a g) a.now
      (frame_effect_step getGlobalBounds a g c t hI hmono.1 hquiet.1).2 hmono.2 hquiet.2 hplay

/-- The platforms a single-player frame adds: none, or one whose length lies
within the length bounds at the spawn code. -/
theorem frame_blocks_single (getGlobalBounds : RectangleShape → FloatRect) (inp : FrameInput)
    (g : Game) (lo hi : ℚ) (color : BlockColor)
    (hplay : (beforeSpawn inp g).currentState = .PlayingSingle)
    (hb : currentLengthBounds (beforeSpawn inp g) = ⟨lo, hi, color⟩) (hle : lo ≤ hi)
    (h0u : 0 ≤ inp.draws.blockLength) (h1u : inp.draws.blockLength ≤ 1) :
    (frame getGlobalBounds inp g).blocks = (beforeSpawn inp g).blocks ∨
    ∃ b : Block,
      (frame getGlobalBounds inp g).blocks = (beforeSpawn inp g).blocks ++ [b] ∧
      lo ≤ b.shape.size.1 ∧ b.shape.size.1 ≤ hi := by
  have hgs := currentState_of_beforeSpawn inp g hplay
  have hn : ¬ (g.currentState ≠ .PlayingSingle ∧ g.currentState ≠ .PlayingMulti) := by
    simp [hgs]
  unfold frame
  rw [if_neg hn, speedRamp_blocks]
  rcases spawnBlock_blocks_cases getGlobalBounds inp.now inp.draws (beforeSpawn inp g) with h | h
  · exact Or.inl h
  · refine Or.inr ⟨newBlock inp.draws (beforeSpawn inp g), h, ?_⟩
    have := newBlock_length inp.draws (beforeSpawn inp g) h0u h1u (by rw [hb]; exact hle)
    rw [hb] at this
    exact this

/-- The length bounds at the spawn code in single-player mode under Lengthen
and under None. -/
theorem currentLengthBounds_of_effect (g : Game) (hs : g.currentState = .PlayingSingle) :
    (g.currentPlatformEffect = .Lengthen →
      currentLengthBounds g = ⟨200, 600, .greenBlockColor⟩) ∧
    (g.currentPlatformEffect = .None →
      currentLengthBounds g = ⟨100, 300, .defaultBlockColor⟩) := by
  constructor
  · intro he
    simp only [currentLengthBounds, hs, he, if_true, baseMinLength, baseMaxLength,
      lengthenFactor]
    norm_num
  · intro he
    simp [currentLengthBounds, hs, he, baseMinLength, baseMaxLength]

/-! ### Evaluation of the Lengthen scenes -/

theorem frameCollected_inputGreen : frameCollected inputGreen sceneItems = [.Green] := by
  decide

theorem frameCollected_inputQuiet : frameCollected inputQuiet sceneAfterGreen = [] := by
  decide

theorem frameCollected_inputRed : frameCollected inputRed sceneAfterGreen = [.Red] := by
  decide

set_option maxHeartbeats 1000000 in
theorem frame_inputGreen_sceneItems :
    frame sfGlobalBounds inputGreen sceneItems = sceneAfterGreen := by
  simp [sceneAfterGreen, sceneItems, greenBlock, lengthener, shortener, inputGreen, inputIdle,
    frame, beforeSpawn, beforePlayerLogic, applyGravityScale, setGravityScale, worldStep,
    syncEntities, processCollected, eraseBlocks, eraseCollectibles, playerLogic,
    playerLogicSingle, destroyBody, effectAndRain, spawnBlock, speedRamp, frameDt,
    sceneSingle, handleEvent, startSingle, Game.start, createPlayer, b2World.CreateBody,
    b2World.call, deathCondition, toMeters, toPixels, Clock.elapsedSeconds, Clock.restart,
    PlayerContactListener.reset, PlayerContactListener.new, PlayerContactListener.callbacks,
    PlayerContactListener.callback, PlayerContactListener.BeginContact,
    PlayerContactListener.isGrounded, PlayerContactListener.hasTouchedGround,
    Game.collectiblesToRemoveFromWorld, visualOverlap, newBlock, drawsLow,
    resolveSingle, markCollected, collect, syncCollectible,
    windowHeight, playerHeight, playerWidth, METERS_PER_PIXEL, PIXELS_PER_METER, windowWidth,
    maxBlockSpeed, currentLengthBounds, loadHighScore, saveHighScore, baseMinLength,
    baseMaxLength, maxJumps, PLATFORM_ID_BASE, uniformReal, chooseType, candidateBounds,
    effectExpiry, magentaRain, syncBlock, lengthenFactor, platformEffectDuration,
    blockSpeedIncreaseFactor, lerp, minSpawnTimeBase, maxSpawnTimeBase, fixedHeight,
    collectibleSpawnChance, collectibleRadius, PLAYER1_ID, PLAYER2_ID, GREEN_COLLECTIBLE_ID,
    FOOT_SENSOR_ID, GROUND_ID, MAGENTA_COLLECTIBLE_ID, ORANGE_COLLECTIBLE_ID,
    RED_COLLECTIBLE_ID, WHITE_COLLECTIBLE_ID, MINUS_SCORE_COLLECTIBLE_ID]
  norm_num

set_option maxHeartbeats 1000000 in
theorem frame_inputRed_blocks :
    (frame sfGlobalBounds inputRed sceneAfterGreen).blocks.map (·.shape.size.1) = [200, 50] := by
  simp [sceneAfterGreen, sceneItems, greenBlock, lengthener, shortener, inputRed,
    frame, beforeSpawn, beforePlayerLogic, applyGravityScale, setGravityScale, worldStep,
    syncEntities, processCollected, eraseBlocks, eraseCollectibles, playerLogic,
    playerLogicSingle, destroyBody, effectAndRain, spawnBlock, speedRamp, frameDt,
    sceneSingle, handleEvent, startSingle, Game.start, createPlayer, b2World.CreateBody,
    b2World.call, deathCondition, toMeters, toPixels, Clock.elapsedSeconds, Clock.restart,
    PlayerContactListener.reset, PlayerContactListener.new, PlayerContactListener.callbacks,
    PlayerContactListener.callback, PlayerContactListener.BeginContact,
    PlayerContactListener.isGrounded, PlayerContactListener.hasTouchedGround,
    Game.collectiblesToRemoveFromWorld, visualOverlap, newBlock, drawsLow,
    resolveSingle, markCollected, collect, syncCollectible, FloatRect.intersects,
    sfGlobalBounds,
    windowHeight, playerHeight, playerWidth, METERS_PER_PIXEL, PIXELS_PER_METER, windowWidth,
    maxBlockSpeed, currentLengthBounds, loadHighScore, saveHighScore, baseMinLength,
    baseMaxLength, maxJumps, PLATFORM_ID_BASE, uniformReal, chooseType, candidateBounds,
    effectExpiry, magentaRain, syncBlock, lengthenFactor, shortenFactor,
    platformEffectDuration,
    blockSpeedIncreaseFactor, lerp, minSpawnTimeBase, maxSpawnTimeBase, fixedHeight,
    collectibleSpawnChance, collectibleRadius, PLAYER1_ID, PLAYER2_ID, GREEN_COLLECTIBLE_ID,
    FOOT_SENSOR_ID, GROUND_ID, MAGENTA_COLLECTIBLE_ID, ORANGE_COLLECTIBLE_ID,
    RED_COLLECTIBLE_ID, WHITE_COLLECTIBLE_ID, MINUS_SCORE_COLLECTIBLE_ID]
  norm_num
  simp
  norm_num

set_option maxHeartbeats 1000000 in
theorem beforeSpawn_inputQuiet_currentState :
    (beforeSpawn inputQuiet sceneAfterGreen).currentState = .PlayingSingle := by
  have hd : deathCondition (beforePlayerLogic inputQuiet sceneAfterGreen).contactListener
      PLAYER1_ID (inputQuiet.GetPosition 2) = false := by
    have ht : (beforePlayerLogic inputQuiet sceneAfterGreen).contactListener.hasTouchedGround
        PLAYER1_ID = false := by
      simp [sceneAfterGreen, sceneItems, greenBlock, shortener, inputQuiet, inputRed,
        beforePlayerLogic, applyGravityScale, setGravityScale, worldStep,
        syncEntities, processCollected, eraseBlocks, eraseCollectibles, destroyBody, frameDt,
        sceneSingle, handleEvent, startSingle, Game.start, createPlayer, b2World.CreateBody,
        b2World.call, toMeters, toPixels, Clock.elapsedSeconds, Clock.restart,
        PlayerContactListener.reset, PlayerContactListener.callbacks,
        PlayerContactListener.isGrounded, PlayerContactListener.hasTouchedGround,
        Game.collectiblesToRemoveFromWorld, syncCollectible, syncBlock,
        windowHeight, METERS_PER_PIXEL, PIXELS_PER_METER, windowWidth, collectibleRadius]
      norm_num
    rw [Bool.eq_false_iff, ne_eq, deathCondition_eq_true_iff, ht]
    norm_num [inputQuiet, inputRed, toMeters, windowHeight, playerHeight, playerWidth,
      METERS_PER_PIXEL, PIXELS_PER_METER]
  have hv := frame_single_playerVars sfGlobalBounds inputQuiet sceneAfterGreen 2
    (by decide) (by decide)
  rw [hd] at hv
  exact (frame_of_playingSingle sfGlobalBounds inputQuiet sceneAfterGreen
    (congrArg (·.1) hv)).2.1

/-- C11 as stated fails: in the session `sceneItems` a Lengthen
collectible is consumed in the frame `inputGreen`; three seconds later, in the
frame `inputRed`, a Shorten collectible is consumed and a platform is spawned,
and its length is 50, outside `[200, 600]`. -/
theorem C11_shorten_within_ten_seconds :
    sceneItems.currentState = .PlayingSingle ∧
    frameCollected inputGreen sceneItems = [.Green] ∧
    (Clock.mk inputGreen.now).elapsedSeconds inputRed.now = 3 ∧
    (frames sfGlobalBounds [inputGreen, inputRed] sceneItems).blocks.map (·.shape.size.1) =
      [200, 50] := by
  refine ⟨by decide, frameCollected_inputGreen, ?_, ?_⟩
  · norm_num [Clock.elapsedSeconds, inputGreen, inputIdle, inputRed]
  · have h : frames sfGlobalBounds [inputGreen, inputRed] sceneItems =
        frame sfGlobalBounds inputRed sceneAfterGreen := by
      rw [← frame_inputGreen_sceneItems]; rfl
    rw [h]
    exact frame_inputRed_blocks

/-- C11, amended: in single-player mode, let a frame consume a Lengthen
collectible as the last Lengthen or Shorten collectible of that frame, and let
the following frames, at instants in order, consume no Lengthen and no Shorten
collectible. In the consuming frame, and in every following frame whose
instant is less than 10 seconds after it, the length bounds at the spawn code
are `[200, 600]`; in every following frame at 10 seconds or later they are
`[100, 300]`; this when the state is still `PlayingSingle` at the spawn code.
Such a frame adds no platform or one platform, whose length (drawn with a
canonical value in `[0, 1]`) lies within these bounds. -/
theorem C11_lengthen_window (getGlobalBounds : RectangleShape → FloatRect) (g : Game)
    (first : FrameInput) (pre : List FrameInput) (inp : FrameInput)
    (before after : List CollectibleType)
    (hs : g.currentState = .PlayingSingle)
    (hgreen : frameCollected first g = before ++ .Green :: after)
    (hafter : ∀ type ∈ after, type ≠ .Green ∧ type ≠ .Red)
    (hmono : List.Chain (· ≤ ·) first.now ((pre ++ [inp]).map (·.now)))
    (hquiet : noEffectPickup getGlobalBounds (pre ++ [inp]) (frame getGlobalBounds first g))
    (hplay : (beforeSpawn inp (frames getGlobalBounds (first :: pre) g)).currentState =
      .PlayingSingle)
    (h0u : 0 ≤ inp.draws.blockLength) (h1u : inp.draws.blockLength ≤ 1) :
    platformEffectDuration = 10 ∧
    ((beforeSpawn first g).currentState = .PlayingSingle →
      currentLengthBounds (beforeSpawn first g) = ⟨200, 600, .greenBlockColor⟩) ∧
    ((Clock.mk first.now).elapsedSeconds inp.now < platformEffectDuration →
      currentLengthBounds (beforeSpawn inp (frames getGlobalBounds (first :: pre) g)) =
        ⟨200, 600, .greenBlockColor⟩ ∧
      ((frame getGlobalBounds inp (frames getGlobalBounds (first :: pre) g)).blocks =
          (beforeSpawn inp (frames getGlobalBounds (first :: pre) g)).blocks ∨
        ∃ b : Block,
          (frame getGlobalBounds inp (frames getGlobalBounds (first :: pre) g)).blocks =
            (beforeSpawn inp (frames getGlobalBounds (first :: pre) g)).blocks ++ [b] ∧
          200 ≤ b.shape.size.1 ∧ b.shape.size.1 ≤ 600)) ∧
    (platformEffectDuration ≤ (Clock.mk first.now).elapsedSeconds inp.now →
      currentLengthBounds (beforeSpawn inp (frames getGlobalBounds (first :: pre) g)) =
        ⟨100, 300, .defaultBlockColor⟩ ∧
      ((frame getGlobalBounds inp (frames getGlobalBounds (first :: pre) g)).blocks =
          (beforeSpawn inp (frames getGlobalBounds (first :: pre) g)).blocks ∨
        ∃ b : Block,
          (frame getGlobalBounds inp (frames getGlobalBounds (first :: pre) g)).blocks =
            (beforeSpawn inp (frames getGlobalBounds (first :: pre) g)).blocks ++ [b] ∧
          100 ≤ b.shape.size.1 ∧ b.shape.size.1 ≤ 300)) := by
  have hq := beforePlayerLogic_effectVars_green first g before after hs hgreen hafter
  have h0 : (Clock.mk first.now).elapsedSeconds first.now < platformEffectDuration := by
    simp [Clock.elapsedSeconds, platformEffectDuration]
  have hfirst : (beforeSpawn first g).currentState = .PlayingSingle →
      (beforeSpawn first g).effectVars = (.Lengthen, ⟨first.now⟩) := by
    intro hp
    rw [beforeSpawn_effect_of first g _ _ hq hp,
      if_neg (fun hh => absurd hh.2 (not_le.mpr h0))]
  have hI : (frame getGlobalBounds first g).currentState = .PlayingSingle →
      (frame getGlobalBounds first g).effectVars = (.Lengthen, ⟨first.now⟩) ∨
      ((frame getGlobalBounds first g).currentPlatformEffect = .None ∧
        platformEffectDuration ≤ (Clock.mk first.now).elapsedSeconds first.now) := by
    intro hf
    have hfr := frame_of_playingSingle getGlobalBounds first g hf
    left
    rw [hfr.2.2, hfirst hfr.2.1]
  have hrun := frames_effect getGlobalBounds inp ⟨first.now⟩ pre
    (frame getGlobalBounds first g) first.now hI hmono hquiet hplay
  have hb := currentLengthBounds_of_effect _ hplay
  refine ⟨rfl, ?_, ?_, ?_⟩
  · intro hp
    exact (currentLengthBounds_of_effect _ hp).1 (congrArg (·.1) (hfirst hp))
  · intro hlt
    have hbb := hb.1 (hrun.1 hlt)
    exact ⟨hbb, frame_blocks_single getGlobalBounds inp _ 200 600 _ hplay hbb (by norm_num)
      h0u h1u⟩
  · intro hle
    have hbb := hb.2 (hrun.2 hle)
    exact ⟨hbb, frame_blocks_single getGlobalBounds inp _ 100 300 _ hplay hbb (by norm_num)
      h0u h1u⟩

/-- C11 amended, in `sceneItems`: the Lengthen collectible is consumed in the
frame `inputGreen`, and three seconds later, in the frame `inputQuiet`, the
length bounds at the spawn code are `[200, 600]`. -/
theorem C11_lengthen_window_witness :
    frameCollected inputGreen sceneItems = [.Green] ∧
    (Clock.mk inputGreen.now).elapsedSeconds inputQuiet.now = 3 ∧
    currentLengthBounds (beforeSpawn inputQuiet (frames sfGlobalBounds [inputGreen] sceneItems)) =
      ⟨200, 600, .greenBlockColor⟩ := by
  have he : (Clock.mk inputGreen.now).elapsedSeconds inputQuiet.now = 3 := by
    norm_num [Clock.elapsedSeconds, inputGreen, inputIdle, inputQuiet, inputRed]
  have hf : frames sfGlobalBounds [inputGreen] sceneItems = sceneAfterGreen :=
    frame_inputGreen_sceneItems
  have h := C11_lengthen_window sfGlobalBounds sceneItems inputGreen [] inputQuiet [] []
    (by decide) frameCollected_inputGreen (by intro _ h; cases h)
    (by simp [inputGreen, inputIdle, inputQuiet, inputRed])
    ⟨(by rw [frame_inputGreen_sceneItems, frameCollected_inputQuiet]; intro _ h; cases h),
      trivial⟩
    (by rw [hf]; exact beforeSpawn_inputQuiet_currentState)
    (by norm_num [inputQuiet, inputRed, drawsLow])
    (by norm_num [inputQuiet, inputRed, drawsLow])
  exact ⟨frameCollected_inputGreen, he,
    (h.2.2.1 (by rw [he]; norm_num [platformEffectDuration])).1⟩

/-! ## The spawn timer (C21) -/

/-- A draw of a uniform distribution with a canonical value in `[0, 1]` lies
in the interval. -/
theorem uniformReal_mem (a b u : ℚ) (hab : a ≤ b) (h0 : 0 ≤ u) (h1 : u ≤ 1) :
    a ≤ uniformReal a b u ∧ uniformReal a b u ≤ b := by
  simp only [uniformReal]
  constructor <;> nlinarith

/-- The timer variables and the id counter after a spawn attempt whose timer
has expired. -/
theorem spawnBlock_timer (getGlobalBounds : RectangleShape → FloatRect) (now : Int)
    (d : SpawnDraws) (g : Game) (hexp : g.spawnClock.elapsedSeconds now ≥ g.nextSpawnTime) :
    (spawnBlock getGlobalBounds now d g).spawnClock = g.spawnClock.restart now ∧
    (spawnBlock getGlobalBounds now d g).nextSpawnTime =
      uniformReal g.minSpawnTime g.maxSpawnTime d.nextSpawnTime ∧
    (spawnBlock getGlobalBounds now d g).nextPlatformId = (g.nextPlatformId + 1) % 2 ^ 64 := by
  simp only [spawnBlock, hexp, if_true]
  split_ifs <;> simp

/-- The calls a spawn attempt whose timer has expired makes on the world: the
candidate's body is created, given its fixture and its velocity; then it is
destroyed when the candidate is rejected, and nothing or the collectible's
three calls follow when it is committed. -/
theorem spawnBlock_calls (getGlobalBounds : RectangleShape → FloatRect) (now : Int)
    (d : SpawnDraws) (g : Game) (hexp : g.spawnClock.elapsedSeconds now ≥ g.nextSpawnTime) :
    ∃ rest : List b2Call,
      (spawnBlock getGlobalBounds now d g).world.calls =
        g.world.calls ++
          [.CreateBody g.world.nextBody .b2_kinematicBody
              (toMeters (newBlock d g).shape.position),
            .CreateFixture g.world.nextBody g.nextPlatformId false,
            .SetLinearVelocity g.world.nextBody ((toMeters (-g.blockSpeed, 0)).1, 0)] ++ rest ∧
      (visualOverlap getGlobalBounds g.blocks (newBlock d g) = true →
        rest = [.DestroyBody g.world.nextBody]) ∧
      (visualOverlap getGlobalBounds g.blocks (newBlock d g) = false →
        ∀ c ∈ rest, ∀ body tag, c ≠ .CreateFixture body tag false) := by
  simp only [spawnBlock, hexp, if_true]
  cases h : visualOverlap getGlobalBounds g.blocks (newBlock d g)
  · simp only [Bool.not_false, if_true]
    split_ifs
    · refine ⟨[.CreateBody (g.world.nextBody + 1) .b2_kinematicBody
          (toMeters ((newBlock d g).shape.position.1,
            (newBlock d g).shape.position.2 - (fixedHeight / 2 + collectibleRadius + 5))),
        .CreateFixture (g.world.nextBody + 1) (chooseType d.typeRoll).2 true,
        .SetLinearVelocity (g.world.nextBody + 1) ((toMeters (-g.blockSpeed, 0)).1, 0)],
        ?_, fun hh => absurd hh (by simp), fun _ => ?_⟩
      · simp only [b2World.call, b2World.CreateBody, newBlock, List.append_assoc,
          List.cons_append, List.nil_append]
      · intro c hc body tag
        simp only [List.mem_cons, List.mem_singleton, List.not_mem_nil, or_false] at hc
        rcases hc with hc | hc | hc <;> rw [hc] <;> simp
    · refine ⟨[], ?_, fun hh => absurd hh (by simp), fun _ c hc => absurd hc (by simp)⟩
      simp only [b2World.call, b2World.CreateBody, newBlock, List.append_assoc,
        List.cons_append, List.nil_append, List.append_nil]
  · simp only [Bool.not_true, Bool.false_eq_true, if_false]
    refine ⟨[.DestroyBody g.world.nextBody], ?_, fun _ => rfl, fun hh => absurd hh (by simp)⟩
    simp only [b2World.call, b2World.CreateBody, newBlock, List.append_assoc,
      List.cons_append, List.nil_append]

/-- C21: a spawn attempt whose timer has expired makes one candidate (one
body, one platform fixture, one id taken from the counter); the block list is
left as it is or extended by the candidate, so it grows by at most one; the
spawn clock is restarted and the next interval is drawn from
`[minSpawnTime, maxSpawnTime]`, whether the candidate is committed or not.
When the timer has not expired nothing changes. -/
theorem C21_spawn_timer (getGlobalBounds : RectangleShape → FloatRect) (now : Int)
    (d : SpawnDraws) (g : Game) :
    (g.spawnClock.elapsedSeconds now ≥ g.nextSpawnTime →
      ((spawnBlock getGlobalBounds now d g).blocks = g.blocks ∨
        (spawnBlock getGlobalBounds now d g).blocks = g.blocks ++ [newBlock d g]) ∧
      (spawnBlock getGlobalBounds now d g).blocks.length ≤ g.blocks.length + 1 ∧
      (spawnBlock getGlobalBounds now d g).nextPlatformId = (g.nextPlatformId + 1) % 2 ^ 64 ∧
      (∃ rest : List b2Call,
        (spawnBlock getGlobalBounds now d g).world.calls =
          g.world.calls ++
            [.CreateBody g.world.nextBody .b2_kinematicBody
                (toMeters (newBlock d g).shape.position),
              .CreateFixture g.world.nextBody g.nextPlatformId false,
              .SetLinearVelocity g.world.nextBody ((toMeters (-g.blockSpeed, 0)).1, 0)] ++
            rest ∧
        (visualOverlap getGlobalBounds g.blocks (newBlock d g) = true →
          rest = [.DestroyBody g.world.nextBody]) ∧
        (visualOverlap getGlobalBounds g.blocks (newBlock d g) = false →
          ∀ c ∈ rest, ∀ body tag, c ≠ .CreateFixture body tag false)) ∧
      (spawnBlock getGlobalBounds now d g).spawnClock = g.spawnClock.restart now ∧
      (spawnBlock getGlobalBounds now d g).spawnClock.elapsedSeconds now = 0 ∧
      (spawnBlock getGlobalBounds now d g).nextSpawnTime =
        uniformReal g.minSpawnTime g.maxSpawnTime d.nextSpawnTime ∧
      (g.minSpawnTime ≤ g.maxSpawnTime → 0 ≤ d.nextSpawnTime → d.nextSpawnTime ≤ 1 →
        g.minSpawnTime ≤ (spawnBlock getGlobalBounds now d g).nextSpawnTime ∧
        (spawnBlock getGlobalBounds now d g).nextSpawnTime ≤ g.maxSpawnTime)) ∧
    (¬ g.spawnClock.elapsedSeconds now ≥ g.nextSpawnTime →
      spawnBlock getGlobalBounds now d g = g) := by
  constructor
  · intro hexp
    have hb := spawnBlock_blocks_cases getGlobalBounds now d g
    have ht := spawnBlock_timer getGlobalBounds now d g hexp
    refine ⟨hb, ?_, ht.2.2, spawnBlock_calls getGlobalBounds now d g hexp, ht.1, ?_, ht.2.1, ?_⟩
    · rcases hb with h | h <;> rw [h] <;> simp
    · rw [ht.1]
      simp [Clock.restart, Clock.elapsedSeconds]
    · intro hle h0 h1
      rw [ht.2.1]
      exact uniformReal_mem _ _ _ hle h0 h1
  · intro hn
    simp only [spawnBlock, hn, if_false]

/-! ## The gravity scale (C24) -/

/-- The gravity-scale statement on an existing body appends one call to the
world and changes nothing else. -/
theorem setGravityScale_calls (g : Game) (body : b2Body) (fastFall : Bool) (playerId : Nat) :
    setGravityScale g body fastFall playerId =
      { g with
        world :=
          { g.world with
            calls := g.world.calls ++
              [.SetGravityScale body
                (if fastFall = true ∧ g.contactListener.isGrounded playerId = false
                 then 100 else 1)] } } := by
  unfold setGravityScale
  split_ifs <;> rfl

/-- C24: the gravity-scale statements of a playing frame (lines 635-649) make
one `SetGravityScale` call on each player body that exists, player 1's first,
with scale 100 when the player's fast-fall flag is set and `isGrounded` is
false for the player and scale 1 otherwise; they make no call for a player
without a body, and change nothing but the calls made on the world. The
statement of the player logic (lines 743-747, 794-798, 835-839) is the same. -/
theorem C24_gravity_scale (g : Game) :
    fastFallGravityScale = 100 ∧
    (∀ body fastFall playerId,
      setGravityScale g body fastFall playerId =
        { g with
          world :=
            { g.world with
              calls := g.world.calls ++
                [.SetGravityScale body
                  (if fastFall = true ∧ g.contactListener.isGrounded playerId = false
                   then 100 else 1)] } }) ∧
    (∀ b1 b2, g.playerBody = some b1 → g.player2Body = some b2 →
      applyGravityScale g =
        { g with
          world :=
            { g.world with
              calls := g.world.calls ++
                [.SetGravityScale b1
                    (if g.fastFallActive = true ∧
                        g.contactListener.isGrounded PLAYER1_ID = false then 100 else 1),
                  .SetGravityScale b2
                    (if g.fastFallActive2 = true ∧
                        g.contactListener.isGrounded PLAYER2_ID = false then 100 else 1)] } }) ∧
    (∀ b1, g.playerBody = some b1 → g.player2Body = none →
      applyGravityScale g =
        { g with
          world :=
            { g.world with
              calls := g.world.calls ++
                [.SetGravityScale b1
                    (if g.fastFallActive = true ∧
                        g.contactListener.isGrounded PLAYER1_ID = false then 100 else 1)] } }) ∧
    (∀ b2, g.playerBody = none → g.player2Body = some b2 →
      applyGravityScale g =
        { g with
          world :=
            { g.world with
              calls := g.world.calls ++
                [.SetGravityScale b2
                    (if g.fastFallActive2 = true ∧
                        g.contactListener.isGrounded PLAYER2_ID = false then 100 else 1)] } }) ∧
    (g.playerBody = none → g.player2Body = none → applyGravityScale g = g) := by
  refine ⟨rfl, fun body fastFall playerId => setGravityScale_calls g body fastFall playerId,
    ?_, ?_, ?_, ?_⟩
  · intro b1 b2 h1 h2
    simp only [applyGravityScale, h1, h2, setGravityScale_calls, List.append_assoc,
      List.cons_append, List.nil_append]
  · intro b1 h1 h2
    simp only [applyGravityScale, h1, h2, setGravityScale_calls]
  · intro b2 h1 h2
    simp only [applyGravityScale, h1, h2, setGravityScale_calls]
  · intro h1 h2
    simp only [applyGravityScale, h1, h2]

/-! ## The variables a frame writes, continued -/

theorem applyGravityScale_spawnVars (g : Game) :
    (applyGravityScale g).spawnVars = g.spawnVars ∧
    (applyGravityScale g).blocks = g.blocks ∧
    (applyGravityScale g).collectibles = g.collectibles ∧
    (applyGravityScale g).currentState = g.currentState := by
  simp only [applyGravityScale, setGravityScale_eq]
  split <;> split <;> exact ⟨rfl, rfl, rfl, rfl⟩

theorem processCollected_spawnVars (now : Int) (g : Game) :
    (processCollected now g).spawnVars = g.spawnVars ∧
    (processCollected now g).blocks = g.blocks := by
  have key : ((processCollected now g).spawnVars, (processCollected now g).blocks) =
      (g.spawnVars, g.blocks) := by
    simp only [processCollected]
    split_ifs
    · exact foldl_proj (resolveSingle now) (fun h => (h.spawnVars, h.blocks))
        (by
          intro h b
          unfold resolveSingle
          split
          · rename_i r _
            cases r.1 <;> rfl
          · rfl) _ g
    · exact foldl_proj resolveMulti (fun h => (h.spawnVars, h.blocks))
        (by
          intro h b
          unfold resolveMulti
          split <;> rfl) _ g
  simp only [Prod.mk.injEq] at key
  exact key

theorem eraseBlocks_spawnVars (ended : b2Body → List b2Contact) (g : Game) :
    (eraseBlocks ended g).spawnVars = g.spawnVars ∧
    (eraseBlocks ended g).collectibles = g.collectibles ∧
    (eraseBlocks ended g).currentState = g.currentState ∧
    (eraseBlocks ended g).blocks =
      g.blocks.filter fun block => !(block.markedForRemoval && block.body.isSome) := by
  have key := foldl_proj
    (fun (h : Game) (block : Block) =>
      match block.body with
      | some body => if block.markedForRemoval = true then destroyBody ended h body else h
      | none => h)
    (fun h => (h.spawnVars, h.collectibles, h.currentState))
    (by
      intro h block
      dsimp only
      split
      · split_ifs <;> rfl
      · rfl)
    g.blocks g
  simp only [Prod.mk.injEq] at key
  exact ⟨key.1, key.2.1, key.2.2, rfl⟩

theorem eraseCollectibles_spawnVars (ended : b2Body → List b2Contact) (g : Game) :
    (eraseCollectibles ended g).spawnVars = g.spawnVars ∧
    (eraseCollectibles ended g).blocks = g.blocks ∧
    (eraseCollectibles ended g).currentState = g.currentState ∧
    (eraseCollectibles ended g).collectibles =
      g.collectibles.filter fun c => !(c.markedForRemoval && c.body.isSome) := by
  have key := foldl_proj
    (fun (h : Game) (c : Collectible) =>
      match c.body with
      | some body => if c.markedForRemoval = true then destroyBody ended h body else h
      | none => h)
    (fun h => (h.spawnVars, h.blocks, h.currentState))
    (by
      intro h c
      dsimp only
      split
      · split_ifs <;> rfl
      · rfl)
    g.collectibles g
  simp only [Prod.mk.injEq] at key
  exact ⟨key.1, key.2.1, key.2.2, rfl⟩

theorem syncEntities_spawnVars (GetPosition : b2Body → ℚ × ℚ) (g : Game) :
    (syncEntities GetPosition g).spawnVars = g.spawnVars ∧
    (syncEntities GetPosition g).blocks = g.blocks.map (syncBlock GetPosition) ∧
    (g.currentState ≠ .PlayingSingle →
      (syncEntities GetPosition g).collectibles = g.collectibles) := by
  simp only [syncEntities]
  split_ifs with h
  · exact ⟨rfl, rfl, fun hn => absurd h hn⟩
  · exact ⟨rfl, rfl, fun _ => rfl⟩

theorem playerLogicSingle_spawnVars (GetPosition : b2Body → ℚ × ℚ)
    (ended : b2Body → List b2Contact) (writable : Bool) (g : Game) :
    (playerLogicSingle GetPosition ended writable g).spawnVars = g.spawnVars ∧
    (playerLogicSingle GetPosition ended writable g).blocks = g.blocks ∧
    (playerLogicSingle GetPosition ended writable g).collectibles = g.collectibles := by
  cases hb : g.playerBody with
  | none => simp only [playerLogicSingle, hb]; exact ⟨trivial, trivial, trivial⟩
  | some body =>
    rw [playerLogicSingle_eq GetPosition ended writable g body hb]
    split_ifs <;> exact ⟨rfl, rfl, rfl⟩

theorem playerLogicMulti1_spawnVars (GetPosition : b2Body → ℚ × ℚ)
    (ended : b2Body → List b2Contact) (g : Game) :
    (playerLogicMulti1 GetPosition ended g).spawnVars = g.spawnVars ∧
    (playerLogicMulti1 GetPosition ended g).blocks = g.blocks ∧
    (playerLogicMulti1 GetPosition ended g).collectibles = g.collectibles := by
  simp only [playerLogicMulti1, setGravityScale, destroyBody]
  split
  · split_ifs <;> exact ⟨rfl, rfl, rfl⟩
  · exact ⟨rfl, rfl, rfl⟩

theorem playerLogicMulti2_spawnVars (GetPosition : b2Body → ℚ × ℚ)
    (ended : b2Body → List b2Contact) (g : Game) :
    (playerLogicMulti2 GetPosition ended g).spawnVars = g.spawnVars ∧
    (playerLogicMulti2 GetPosition ended g).blocks = g.blocks ∧
    (playerLogicMulti2 GetPosition ended g).collectibles = g.collectibles := by
  simp only [playerLogicMulti2, setGravityScale, destroyBody]
  split
  · split_ifs <;> exact ⟨rfl, rfl, rfl⟩
  · exact ⟨rfl, rfl, rfl⟩

theorem playerLogic_spawnVars (GetPosition : b2Body → ℚ × ℚ)
    (ended : b2Body → List b2Contact) (writable : Bool) (g : Game) :
    (playerLogic GetPosition ended writable g).spawnVars = g.spawnVars ∧
    (playerLogic GetPosition ended writable g).blocks = g.blocks ∧
    (playerLogic GetPosition ended writable g).collectibles = g.collectibles := by
  unfold playerLogic
  split
  · exact playerLogicSingle_spawnVars _ _ _ _
  · have h1 := playerLogicMulti1_spawnVars GetPosition ended g
    have h2 := playerLogicMulti2_spawnVars GetPosition ended
      (playerLogicMulti1 GetPosition ended g)
    simp only [playerLogicMulti]
    split_ifs
    · exact ⟨h2.1.trans h1.1, h2.2.1.trans h1.2.1, h2.2.2.trans h1.2.2⟩
    · exact ⟨h2.1.trans h1.1, h2.2.1.trans h1.2.1, h2.2.2.trans h1.2.2⟩
  · exact ⟨rfl, rfl, rfl⟩

theorem effectAndRain_spawnVars (now : Int) (rainX : ℚ) (g : Game) :
    (effectAndRain now rainX g).spawnVars = g.spawnVars ∧
    (effectAndRain now rainX g).blocks = g.blocks ∧
    (g.currentState ≠ .PlayingSingle → effectAndRain now rainX g = g) := by
  simp only [effectAndRain, magentaRain, effectExpiry]
  split_ifs <;> first | exact ⟨rfl, rfl, fun _ => rfl⟩ | exact ⟨rfl, rfl, fun hn => absurd ‹_› hn⟩

theorem speedRamp_spawnVars (dt : ℚ) (g : Game) :
    (speedRamp dt g).spawnVars = g.spawnVars ∧
    (speedRamp dt g).collectibles = g.collectibles := by
  simp only [speedRamp]
  split_ifs <;> exact ⟨rfl, rfl⟩

theorem spawnBlock_gameTime (getGlobalBounds : RectangleShape → FloatRect) (now : Int)
    (d : SpawnDraws) (g : Game) :
    (spawnBlock getGlobalBounds now d g).gameTime = g.gameTime := by
  simp only [spawnBlock]
  split_ifs <;> rfl

/-- The frame clock variables, the id counter and the blocks when the player
logic of a frame runs. -/
theorem beforePlayerLogic_spawnVars (inp : FrameInput) (g : Game) :
    (beforePlayerLogic inp g).gameTime = g.gameTime + frameDt inp g ∧
    (beforePlayerLogic inp g).nextPlatformId = g.nextPlatformId ∧
    (beforePlayerLogic inp g).blocks =
      (g.blocks.map (syncBlock inp.GetPosition)).filter
        fun block => !(block.markedForRemoval && block.body.isSome) := by
  have h : (beforePlayerLogic inp g).spawnVars = (g.gameTime + frameDt inp g, g.nextPlatformId) ∧
      (beforePlayerLogic inp g).blocks =
        (g.blocks.map (syncBlock inp.GetPosition)).filter
          fun block => !(block.markedForRemoval && block.body.isSome) := by
    simp only [beforePlayerLogic]
    rw [(eraseCollectibles_spawnVars _ _).1, (eraseCollectibles_spawnVars _ _).2.1,
      (eraseBlocks_spawnVars _ _).1, (eraseBlocks_spawnVars _ _).2.2.2,
      (processCollected_spawnVars _ _).1, (processCollected_spawnVars _ _).2,
      (syncEntities_spawnVars _ _).1, (syncEntities_spawnVars _ _).2.1]
    simp only [worldStep]
    exact ⟨(applyGravityScale_spawnVars _).1, by rw [(applyGravityScale_spawnVars _).2.1]⟩
  exact ⟨congrArg (·.1) h.1, congrArg (·.2) h.1, h.2⟩

/-- The same when the spawn code runs. -/
theorem beforeSpawn_spawnVars (inp : FrameInput) (g : Game) :
    (beforeSpawn inp g).gameTime = g.gameTime + frameDt inp g ∧
    (beforeSpawn inp g).nextPlatformId = g.nextPlatformId ∧
    (beforeSpawn inp g).blocks =
      (g.blocks.map (syncBlock inp.GetPosition)).filter
        fun block => !(block.markedForRemoval && block.body.isSome) := by
  have h := beforePlayerLogic_spawnVars inp g
  have h1 := effectAndRain_spawnVars inp.now inp.rainX
    (playerLogic inp.GetPosition inp.ended inp.writable (beforePlayerLogic inp g))
  have h2 := playerLogic_spawnVars inp.GetPosition inp.ended inp.writable
    (beforePlayerLogic inp g)
  refine ⟨?_, ?_, ?_⟩
  · rw [← h.1]
    exact (congrArg (·.1) (h1.1.trans h2.1) : _)
  · rw [← h.2.1]
    exact (congrArg (·.2) (h1.1.trans h2.1) : _)
  · rw [← h.2.2]
    exact h1.2.1.trans h2.2.1

theorem frame_playing (getGlobalBounds : RectangleShape → FloatRect) (inp : FrameInput)
    (g : Game) (hplay : g.currentState = .PlayingSingle ∨ g.currentState = .PlayingMulti) :
    frame getGlobalBounds inp g =
      speedRamp (frameDt inp g)
        (spawnBlock getGlobalBounds inp.now inp.draws (beforeSpawn inp g)) := by
  have hn : ¬ (g.currentState ≠ .PlayingSingle ∧ g.currentState ≠ .PlayingMulti) := by
    rcases hplay with h | h <;> simp [h]
  unfold frame
  rw [if_neg hn]

theorem frame_not_playing (getGlobalBounds : RectangleShape → FloatRect) (inp : FrameInput)
    (g : Game) (hn : g.currentState ≠ .PlayingSingle ∧ g.currentState ≠ .PlayingMulti) :
    frame getGlobalBounds inp g = { g with deltaClock := g.deltaClock.restart inp.now } := by
  unfold frame
  rw [if_pos hn]

/-! ## The time step (C23) -/

theorem applyGravityScale_world_clock (g : Game) (c : Clock) (t : ℚ) :
    (applyGravityScale { g with deltaClock := c, gameTime := t }).world =
      (applyGravityScale g).world := by
  simp only [applyGravityScale, setGravityScale_eq]
  cases h1 : g.playerBody <;> cases h2 : g.player2Body <;> rfl

theorem syncEntities_world (GetPosition : b2Body → ℚ × ℚ) (g : Game) :
    (syncEntities GetPosition g).world = g.world := by
  simp only [syncEntities]
  split_ifs <;> rfl

/-- The calls made on the world up to the physics step of a playing frame:
the gravity-scale calls, then the step with the clamped frame time. -/
theorem beforeCollected_world (inp : FrameInput) (g : Game) :
    (beforeCollected inp g).world.calls =
      (applyGravityScale g).world.calls ++ [.Step (frameDt inp g)] := by
  simp only [beforeCollected]
  rw [syncEntities_world]
  simp only [worldStep, b2World.call]
  rw [applyGravityScale_world_clock]

/-- C23: in `PlayingSingle` and `PlayingMulti` the time step of a frame is the
frame time clamped to 0.1 s, the physics step is made with it and `gameTime`
grows by it; in `StartScreen` and `GameOver` the time step is 0, and the frame
changes nothing but the frame clock, which is restarted. -/
theorem C23_time_step (getGlobalBounds : RectangleShape → FloatRect) (inp : FrameInput)
    (g : Game) :
    (g.currentState = .PlayingSingle ∨ g.currentState = .PlayingMulti →
      dt inp g = min (g.deltaClock.elapsedSeconds inp.now) (1 / 10) ∧
      dt inp g ≤ 1 / 10 ∧
      (beforeCollected inp g).world.calls =
        (applyGravityScale g).world.calls ++ [.Step (dt inp g)] ∧
      (frame getGlobalBounds inp g).gameTime = g.gameTime + dt inp g) ∧
    (g.currentState = .StartScreen ∨ g.currentState = .GameOver →
      dt inp g = 0 ∧
      (frame getGlobalBounds inp g).gameTime = g.gameTime ∧
      frame getGlobalBounds inp g = { g with deltaClock := g.deltaClock.restart inp.now }) := by
  constructor
  · intro hplay
    have hn : ¬ (g.currentState ≠ .PlayingSingle ∧ g.currentState ≠ .PlayingMulti) := by
      rcases hplay with h | h <;> simp [h]
    have hd : dt inp g = frameDt inp g := by
      simp only [dt, hn, if_false, frameDt]
    refine ⟨by rw [hd]; rfl, by rw [hd]; exact min_le_right _ _, ?_, ?_⟩
    · rw [hd]; exact beforeCollected_world inp g
    · rw [frame_playing getGlobalBounds inp g hplay, hd]
      have h1 := (speedRamp_spawnVars (frameDt inp g)
        (spawnBlock getGlobalBounds inp.now inp.draws (beforeSpawn inp g))).1
      have h2 : (speedRamp (frameDt inp g)
          (spawnBlock getGlobalBounds inp.now inp.draws (beforeSpawn inp g))).gameTime =
          (spawnBlock getGlobalBounds inp.now inp.draws (beforeSpawn inp g)).gameTime :=
        congrArg (·.1) h1
      rw [h2, spawnBlock_gameTime]
      exact (beforeSpawn_spawnVars inp g).1
  · intro hstop
    have hn : g.currentState ≠ .PlayingSingle ∧ g.currentState ≠ .PlayingMulti := by
      rcases hstop with h | h <;> simp [h]
    have hf := frame_not_playing getGlobalBounds inp g hn
    refine ⟨by unfold dt; rw [if_pos hn], by rw [hf], hf⟩

/-! ## Collectibles by mode (C22) -/

/-- Marking a collectible changes no type and no body. -/
theorem markCollected_map (b : b2Body) :
    ∀ (cs : List Collectible) (r : CollectibleType × List Collectible),
      markCollected b cs = some r →
      r.2.map (fun c => (c.type, c.body)) = cs.map (fun c => (c.type, c.body)) := by
  intro cs
  induction cs with
  | nil => intro r h; simp [markCollected] at h
  | cons c cs ih =>
    intro r h
    simp only [markCollected] at h
    split_ifs at h with hc
    · cases h
      rfl
    · cases hm : markCollected b cs with
      | none => simp [hm] at h
      | some r2 =>
        simp only [hm, Option.some.injEq] at h
        cases h
        simp only [List.map_cons, ih r2 hm]

theorem foldl_resolveMulti_vars (queue : List b2Body) :
    ∀ g : Game,
      (queue.foldl resolveMulti g).collectibles.map (fun c => (c.type, c.body)) =
        g.collectibles.map (fun c => (c.type, c.body)) ∧
      (queue.foldl resolveMulti g).score = g.score ∧
      (queue.foldl resolveMulti g).effectVars = g.effectVars ∧
      (queue.foldl resolveMulti g).isRainingMagenta = g.isRainingMagenta ∧
      (queue.foldl resolveMulti g).magentaRainClock = g.magentaRainClock ∧
      (queue.foldl resolveMulti g).magentaRainSpawnClock = g.magentaRainSpawnClock := by
  induction queue with
  | nil => intro g; exact ⟨rfl, rfl, rfl, rfl, rfl, rfl⟩
  | cons b rest ih =>
    intro g
    rw [List.foldl_cons]
    have h := ih (resolveMulti g b)
    cases hm : markCollected b g.collectibles with
    | none =>
      have e : resolveMulti g b = g := by simp only [resolveMulti, hm]
      rw [e] at h ⊢
      exact h
    | some r =>
      have e : resolveMulti g b = { g with collectibles := r.2 } := by
        simp only [resolveMulti, hm]
      rw [e] at h ⊢
      exact ⟨h.1.trans (markCollected_map b _ r hm), h.2⟩

/-- Resolving the removal queue outside single-player mode writes nothing
but the marks of the collectibles and the queue. -/
theorem processCollected_multi (now : Int) (g : Game) (hs : g.currentState ≠ .PlayingSingle) :
    (processCollected now g).collectibles.map (fun c => (c.type, c.body)) =
      g.collectibles.map (fun c => (c.type, c.body)) ∧
    (processCollected now g).score = g.score ∧
    (processCollected now g).currentPlatformEffect = g.currentPlatformEffect ∧
    (processCollected now g).platformEffectClock = g.platformEffectClock ∧
    (processCollected now g).isRainingMagenta = g.isRainingMagenta ∧
    (processCollected now g).magentaRainClock = g.magentaRainClock ∧
    (processCollected now g).magentaRainSpawnClock = g.magentaRainSpawnClock := by
  have h := foldl_resolveMulti_vars g.collectiblesToRemoveFromWorld g
  simp only [processCollected, hs, if_false]
  exact ⟨h.1, h.2.1, congrArg (·.1) h.2.2.1, congrArg (·.2) h.2.2.1, h.2.2.2.1, h.2.2.2.2.1,
    h.2.2.2.2.2⟩

/-- The collectible list after a spawn attempt: one collectible is appended
when the timer has expired, the candidate is committed, the state is
`PlayingSingle` and the first roll is below `collectibleSpawnChance`; the list
is left as it is otherwise. -/
theorem spawnBlock_collectibles (getGlobalBounds : RectangleShape → FloatRect) (now : Int)
    (d : SpawnDraws) (g : Game) :
    (g.spawnClock.elapsedSeconds now ≥ g.nextSpawnTime ∧
        visualOverlap getGlobalBounds g.blocks (newBlock d g) = false ∧
        g.currentState = .PlayingSingle ∧ d.collectibleRoll < collectibleSpawnChance →
      ∃ c : Collectible,
        (spawnBlock getGlobalBounds now d g).collectibles = g.collectibles ++ [c] ∧
        c.type = (chooseType d.typeRoll).1 ∧ c.body = some (g.world.nextBody + 1) ∧
        c.markedForRemoval = false) ∧
    (¬ (g.spawnClock.elapsedSeconds now ≥ g.nextSpawnTime ∧
        visualOverlap getGlobalBounds g.blocks (newBlock d g) = false ∧
        g.currentState = .PlayingSingle ∧ d.collectibleRoll < collectibleSpawnChance) →
      (spawnBlock getGlobalBounds now d g).collectibles = g.collectibles) := by
  by_cases hexp : g.spawnClock.elapsedSeconds now ≥ g.nextSpawnTime
  · cases hov : visualOverlap getGlobalBounds g.blocks (newBlock d g)
    · by_cases hc : g.currentState = .PlayingSingle ∧ d.collectibleRoll < collectibleSpawnChance
      · constructor
        · intro _
          simp only [spawnBlock, hexp, if_true, hov, Bool.not_false, hc, and_self]
          exact ⟨_, rfl, rfl, rfl, rfl⟩
        · intro hn
          exact absurd ⟨hexp, rfl, hc⟩ hn
      · constructor
        · intro h
          exact absurd h.2.2 hc
        · intro _
          simp only [spawnBlock, hexp, if_true, hov, Bool.not_false, hc, if_false]
    · constructor
      · intro h
        exact absurd h.2.1 (by simp)
      · intro _
        simp only [spawnBlock, hexp, if_true, hov, Bool.not_true, Bool.false_eq_true, if_false]
  · constructor
    · intro h
      exact absurd h.1 hexp
    · intro _
      simp only [spawnBlock, hexp, if_false]

/-- C22: in a frame that starts in `PlayingMulti` no collectible is added:
the types and bodies of the collectibles after the frame are a sublist of
those before it. Resolving the removal queue in `PlayingMulti` leaves the
score, the platform effect with its clock, and the rain flag with its clocks
unchanged. A spawn attempt appends a collectible exactly when its timer has
expired, the candidate is committed, the state is `PlayingSingle` and the
first roll is below `collectibleSpawnChance`, which is 0.45. -/
theorem C22_collectibles_by_mode (getGlobalBounds : RectangleShape → FloatRect)
    (inp : FrameInput) (now : Int) (d : SpawnDraws) (g : Game) :
    (g.currentState = .PlayingMulti →
      List.Sublist
        ((frame getGlobalBounds inp g).collectibles.map (fun c => (c.type, c.body)))
        (g.collectibles.map (fun c => (c.type, c.body))) ∧
      (frame getGlobalBounds inp g).collectibles.length ≤ g.collectibles.length) ∧
    (g.currentState = .PlayingMulti →
      (processCollected now g).score = g.score ∧
      (processCollected now g).currentPlatformEffect = g.currentPlatformEffect ∧
      (processCollected now g).platformEffectClock = g.platformEffectClock ∧
      (processCollected now g).isRainingMagenta = g.isRainingMagenta ∧
      (processCollected now g).magentaRainClock = g.magentaRainClock ∧
      (processCollected now g).magentaRainSpawnClock = g.magentaRainSpawnClock) ∧
    collectibleSpawnChance = 45 / 100 ∧
    (g.spawnClock.elapsedSeconds now ≥ g.nextSpawnTime ∧
        visualOverlap getGlobalBounds g.blocks (newBlock d g) = false ∧
        g.currentState = .PlayingSingle ∧ d.collectibleRoll < collectibleSpawnChance →
      ∃ c : Collectible,
        (spawnBlock getGlobalBounds now d g).collectibles = g.collectibles ++ [c] ∧
        c.type = (chooseType d.typeRoll).1 ∧ c.body = some (g.world.nextBody + 1) ∧
        c.markedForRemoval = false) ∧
    (¬ (g.spawnClock.elapsedSeconds now ≥ g.nextSpawnTime ∧
        visualOverlap getGlobalBounds g.blocks (newBlock d g) = false ∧
        g.currentState = .PlayingSingle ∧ d.collectibleRoll < collectibleSpawnChance) →
      (spawnBlock getGlobalBounds now d g).collectibles = g.collectibles) := by
  have hsp := spawnBlock_collectibles getGlobalBounds now d g
  refine ⟨?_, ?_, rfl, hsp.1, hsp.2⟩
  · intro hs
    have hsub : List.Sublist
        ((frame getGlobalBounds inp g).collectibles.map (fun c => (c.type, c.body)))
        (g.collectibles.map (fun c => (c.type, c.body))) := by
      have hq := beforePlayerLogic_playerVars inp g
      have hqs : (beforePlayerLogic inp g).currentState = .PlayingMulti := by
        rw [playerVars_currentState hq, hs]
      have hpns : (playerLogic inp.GetPosition inp.ended inp.writable
          (beforePlayerLogic inp g)).currentState ≠ .PlayingSingle := by
        intro h
        have := (playerLogic_vars inp.GetPosition inp.ended inp.writable
          (beforePlayerLogic inp g)).2 h
        rw [hqs] at this
        cases this
      have hr : beforeSpawn inp g =
          playerLogic inp.GetPosition inp.ended inp.writable (beforePlayerLogic inp g) :=
        (effectAndRain_spawnVars inp.now inp.rainX _).2.2 hpns
      have hrs : (beforeSpawn inp g).currentState ≠ .PlayingSingle := by rw [hr]; exact hpns
      rw [frame_playing getGlobalBounds inp g (Or.inr hs), (speedRamp_spawnVars _ _).2,
        (spawnBlock_collectibles getGlobalBounds inp.now inp.draws (beforeSpawn inp g)).2
          (fun h => hrs h.2.2.1),
        hr, (playerLogic_spawnVars _ _ _ _).2.2, beforePlayerLogic_eq,
        (eraseCollectibles_spawnVars _ _).2.2.2]
      have hbs : (beforeCollected inp g).currentState ≠ .PlayingSingle := by
        rw [playerVars_currentState (beforeCollected_vars inp g).1, hs]
        decide
      have hbc : (beforeCollected inp g).collectibles = g.collectibles := by
        simp only [beforeCollected]
        rw [(syncEntities_spawnVars _ _).2.2 (by
          simp only [worldStep]
          rw [(applyGravityScale_spawnVars _).2.2.2, hs]
          decide)]
        simp only [worldStep]
        rw [(applyGravityScale_spawnVars _).2.2.1]
      have hpc := (processCollected_multi inp.now (beforeCollected inp g) hbs).1
      rw [hbc] at hpc
      rw [← hpc, (eraseBlocks_spawnVars _ _).2.1]
      exact List.Sublist.map _ (List.filter_sublist _)
    refine ⟨hsub, ?_⟩
    have := hsub.length_le
    simpa using this
  · intro hs
    have h := processCollected_multi now g (by rw [hs]; decide)
    exact h.2

/-! ## Platform ids (C28) -/

theorem handleEvent_blocks (GetMass : b2Body → ℚ) (now : Int) (g : Game) (e : Event) :
    (handleEvent GetMass now g e).nextPlatformId = g.nextPlatformId ∧
    ((handleEvent GetMass now g e).blocks = g.blocks ∨
      (handleEvent GetMass now g e).blocks = []) := by
  cases e <;> simp only [handleEvent, reduceCtorEq, if_true, if_false] <;> split <;>
    (try split) <;> (try split_ifs) <;>
    (try simp only [startSingle, startMulti, jumpPlayer1, jumpPlayer2]) <;>
    first
    | exact ⟨rfl, Or.inl rfl⟩
    | exact ⟨rfl, Or.inr rfl⟩
    | simp

theorem syncBlock_id (GetPosition : b2Body → ℚ × ℚ) (block : Block) :
    (syncBlock GetPosition block).id = block.id := by
  unfold syncBlock
  split <;> rfl

/-- The ids of the blocks at the spawn code of a frame are a sublist of those
at its start. -/
theorem beforeSpawn_ids (inp : FrameInput) (g : Game) :
    List.Sublist ((beforeSpawn inp g).blocks.map (·.id)) (g.blocks.map (·.id)) := by
  rw [(beforeSpawn_spawnVars inp g).2.2]
  have h : g.blocks.map (·.id) = (g.blocks.map (syncBlock inp.GetPosition)).map (·.id) := by
    rw [List.map_map]
    apply List.map_congr_left
    intro b _
    exact (syncBlock_id inp.GetPosition b).symm
  rw [h]
  exact List.Sublist.map _ (List.filter_sublist _)

theorem spawnBlock_ids (getGlobalBounds : RectangleShape → FloatRect) (now : Int)
    (d : SpawnDraws) (g : Game) :
    ((spawnBlock getGlobalBounds now d g).blocks = g.blocks ∧
      ((spawnBlock getGlobalBounds now d g).nextPlatformId = g.nextPlatformId ∨
        (spawnBlock getGlobalBounds now d g).nextPlatformId = (g.nextPlatformId + 1) % 2 ^ 64)) ∨
    ((spawnBlock getGlobalBounds now d g).blocks = g.blocks ++ [newBlock d g] ∧
      (spawnBlock getGlobalBounds now d g).nextPlatformId = (g.nextPlatformId + 1) % 2 ^ 64) := by
  by_cases hexp : g.spawnClock.elapsedSeconds now ≥ g.nextSpawnTime
  · have ht := (spawnBlock_timer getGlobalBounds now d g hexp).2.2
    rcases spawnBlock_blocks_cases getGlobalBounds now d g with h | h
    · exact Or.inl ⟨h, Or.inr ht⟩
    · exact Or.inr ⟨h, ht⟩
  · left
    simp only [spawnBlock, hexp, if_false]
    exact ⟨trivial, Or.inl trivial⟩

theorem newBlock_id (d : SpawnDraws) (g : Game) : (newBlock d g).id = g.nextPlatformId := rfl

/-- The blocks and the id counter after a frame: the ids at the spawn code,
with the counter as it was or advanced by one, or these ids followed by the
old value of the counter, which is advanced by one. -/
theorem frame_ids (getGlobalBounds : RectangleShape → FloatRect) (inp : FrameInput) (g : Game) :
    ∃ ids : List Nat, List.Sublist ids (g.blocks.map (·.id)) ∧
      (((frame getGlobalBounds inp g).blocks.map (·.id) = ids ∧
          ((frame getGlobalBounds inp g).nextPlatformId = g.nextPlatformId ∨
            (frame getGlobalBounds inp g).nextPlatformId = (g.nextPlatformId + 1) % 2 ^ 64)) ∨
        ((frame getGlobalBounds inp g).blocks.map (·.id) = ids ++ [g.nextPlatformId] ∧
          (frame getGlobalBounds inp g).nextPlatformId = (g.nextPlatformId + 1) % 2 ^ 64)) := by
  by_cases hn : g.currentState ≠ .PlayingSingle ∧ g.currentState ≠ .PlayingMulti
  · rw [frame_not_playing getGlobalBounds inp g hn]
    exact ⟨_, List.Sublist.refl _, Or.inl ⟨rfl, Or.inl rfl⟩⟩
  · have hplay : g.currentState = .PlayingSingle ∨ g.currentState = .PlayingMulti := by
      by_cases h1 : g.currentState = .PlayingSingle
      · exact Or.inl h1
      · by_cases h2 : g.currentState = .PlayingMulti
        · exact Or.inr h2
        · exact absurd ⟨h1, h2⟩ hn
    rw [frame_playing getGlobalBounds inp g hplay]
    have hr := (speedRamp_spawnVars (frameDt inp g)
      (spawnBlock getGlobalBounds inp.now inp.draws (beforeSpawn inp g))).1
    have hrn : (speedRamp (frameDt inp g)
        (spawnBlock getGlobalBounds inp.now inp.draws (beforeSpawn inp g))).nextPlatformId =
        (spawnBlock getGlobalBounds inp.now inp.draws (beforeSpawn inp g)).nextPlatformId :=
      congrArg (·.2) hr
    rw [speedRamp_blocks, hrn]
    have hnp := (beforeSpawn_spawnVars inp g).2.1
    refine ⟨_, beforeSpawn_ids inp g, ?_⟩
    rcases spawnBlock_ids getGlobalBounds inp.now inp.draws (beforeSpawn inp g) with h | h
    · left
      rw [h.1, ← hnp]
      exact ⟨rfl, h.2⟩
    · right
      rw [h.1, h.2, List.map_append, ← hnp]
      exact ⟨rfl, rfl⟩

/-- One turn of the main loop keeps the platform ids ordered and advances the
id counter by at most one, as long as the counter does not wrap. -/
theorem step_platformIds (getGlobalBounds : RectangleShape → FloatRect)
    (GetMass : b2Body → ℚ) (g : Game) (s : LoopStep)
    (h : g.platformIdsOrdered) (h0 : PLATFORM_ID_BASE ≤ g.nextPlatformId)
    (hw : g.nextPlatformId + 1 < 2 ^ 64) :
    (g.step getGlobalBounds GetMass s).platformIdsOrdered ∧
    g.nextPlatformId ≤ (g.step getGlobalBounds GetMass s).nextPlatformId ∧
    (g.step getGlobalBounds GetMass s).nextPlatformId ≤ g.nextPlatformId + 1 := by
  have hmod : (g.nextPlatformId + 1) % 2 ^ 64 = g.nextPlatformId + 1 := Nat.mod_eq_of_lt hw
  cases s with
  | event now e =>
    have he := handleEvent_blocks GetMass now g e
    simp only [Game.step]
    refine ⟨?_, by rw [he.1], by rw [he.1]; exact Nat.le_succ _⟩
    unfold Game.platformIdsOrdered
    rw [he.1]
    rcases he.2 with hb | hb
    · rw [hb]; exact h
    · rw [hb]; exact ⟨List.Pairwise.nil, fun i hi => absurd hi (by simp)⟩
  | frame inp =>
    simp only [Game.step]
    obtain ⟨ids, hsub, hcase⟩ := frame_ids getGlobalBounds inp g
    have hp : ids.Pairwise (· < ·) := h.1.sublist hsub
    have hb : ∀ i ∈ ids, PLATFORM_ID_BASE ≤ i ∧ i < g.nextPlatformId :=
      fun i hi => h.2 i (hsub.subset hi)
    rcases hcase with ⟨hids, hn⟩ | ⟨hids, hn⟩
    · rw [hmod] at hn
      refine ⟨?_, ?_, ?_⟩
      · unfold Game.platformIdsOrdered
        rw [hids]
        refine ⟨hp, fun i hi => ⟨(hb i hi).1, ?_⟩⟩
        rcases hn with hn | hn <;> rw [hn]
        · exact (hb i hi).2
        · exact Nat.lt_succ_of_lt (hb i hi).2
      · rcases hn with hn | hn <;> rw [hn]
        exact Nat.le_succ _
      · rcases hn with hn | hn <;> rw [hn]
        exact Nat.le_succ _
    · rw [hmod] at hn
      refine ⟨?_, by rw [hn]; exact Nat.le_succ _, by rw [hn]⟩
      unfold Game.platformIdsOrdered
      rw [hids, hn]
      refine ⟨?_, ?_⟩
      · rw [List.pairwise_append]
        refine ⟨hp, List.pairwise_singleton _ _, ?_⟩
        intro i hi j hj
        rw [List.mem_singleton] at hj
        rw [hj]
        exact (hb i hi).2
      · intro i hi
        rw [List.mem_append, List.mem_singleton] at hi
        rcases hi with hi | hi
        · exact ⟨(hb i hi).1, Nat.lt_succ_of_lt (hb i hi).2⟩
        · rw [hi]
          exact ⟨h0, Nat.lt_succ_self _⟩

/-- A run of turns of the main loop keeps the platform ids ordered and
advances the id counter by at most the number of turns, as long as the
counter does not wrap. -/
theorem run_platformIds (getGlobalBounds : RectangleShape → FloatRect)
    (GetMass : b2Body → ℚ) (steps : List LoopStep) :
    ∀ g : Game, g.platformIdsOrdered → PLATFORM_ID_BASE ≤ g.nextPlatformId →
      g.nextPlatformId + steps.length < 2 ^ 64 →
      (g.run getGlobalBounds GetMass steps).platformIdsOrdered ∧
      g.nextPlatformId ≤ (g.run getGlobalBounds GetMass steps).nextPlatformId ∧
      (g.run getGlobalBounds GetMass steps).nextPlatformId ≤
        g.nextPlatformId + steps.length := by
  induction steps with
  | nil => intro g h _ _; exact ⟨h, le_refl _, le_refl _⟩
  | cons s rest ih =>
    intro g h h0 hw
    simp only [List.length_cons] at hw
    have hs := step_platformIds getGlobalBounds GetMass g s h h0 (by omega)
    have hr := ih (g.step getGlobalBounds GetMass s) hs.1 (le_trans h0 hs.2.1) (by omega)
    simp only [Game.run, List.foldl_cons, List.length_cons]
    simp only [Game.run] at hr
    exact ⟨hr.1, le_trans hs.2.1 hr.2.1, by omega⟩

/-- The block a playing frame commits has the old value of the id counter as
its id. -/
theorem frame_commit_id (getGlobalBounds : RectangleShape → FloatRect) (inp : FrameInput)
    (g : Game) (a : Block)
    (hplay : g.currentState = .PlayingSingle ∨ g.currentState = .PlayingMulti)
    (ha : (frame getGlobalBounds inp g).blocks = (beforeSpawn inp g).blocks ++ [a]) :
    a = newBlock inp.draws (beforeSpawn inp g) ∧ a.id = g.nextPlatformId ∧
    (frame getGlobalBounds inp g).nextPlatformId = (g.nextPlatformId + 1) % 2 ^ 64 := by
  rw [frame_playing getGlobalBounds inp g hplay, speedRamp_blocks] at ha
  have hr := (speedRamp_spawnVars (frameDt inp g)
    (spawnBlock getGlobalBounds inp.now inp.draws (beforeSpawn inp g))).1
  have hrn : (speedRamp (frameDt inp g)
      (spawnBlock getGlobalBounds inp.now inp.draws (beforeSpawn inp g))).nextPlatformId =
      (spawnBlock getGlobalBounds inp.now inp.draws (beforeSpawn inp g)).nextPlatformId :=
    congrArg (·.2) hr
  rw [frame_playing getGlobalBounds inp g hplay, hrn]
  have hnp := (beforeSpawn_spawnVars inp g).2.1
  rcases spawnBlock_ids getGlobalBounds inp.now inp.draws (beforeSpawn inp g) with h | h
  · rw [h.1] at ha
    have := congrArg List.length ha
    simp at this
  · rw [h.1] at ha
    have e := List.append_cancel_left ha
    rw [List.cons.injEq] at e
    refine ⟨e.1.symm, ?_, ?_⟩
    · rw [← e.1, newBlock_id, hnp]
    · rw [h.2, hnp]

theorem start_platformIds (highScoreFile : Option Int) (now : Int) :
    (Game.start highScoreFile now).platformIdsOrdered ∧
    (Game.start highScoreFile now).nextPlatformId = PLATFORM_ID_BASE :=
  ⟨⟨List.Pairwise.nil, fun i hi => absurd hi (by simp [Game.start])⟩, rfl⟩

theorem not_fixedTag_of_ge (i : Nat) (h : PLATFORM_ID_BASE ≤ i) : ∀ tag ∈ fixedTags, i ≠ tag := by
  intro tag ht
  have hlt : tag < PLATFORM_ID_BASE := by
    simp only [fixedTags, List.mem_cons, List.mem_singleton, List.not_mem_nil, or_false] at ht
    rcases ht with h | h | h | h | h | h | h | h | h | h | h <;> rw [h] <;> decide
  omega

/-- C28: along a run of the main loop from a state with ordered platform ids
(the start of the program is one, with the id counter at 1000), and as long as
the id counter has not wrapped at `2 ^ 64`, a block committed by a frame has
the value of the counter as its id, which is at least `PLATFORM_ID_BASE`, and a
block committed by a later frame, whatever events and frames lie in between,
has a strictly greater id; the ids of the live platforms increase along the
list, so they are pairwise distinct; and no platform id is one of the other
eleven tags. -/
theorem C28_platform_ids (getGlobalBounds : RectangleShape → FloatRect)
    (GetMass : b2Body → ℚ) (g0 : Game) (steps1 : List LoopStep) (inpA : FrameInput)
    (a : Block) (steps2 : List LoopStep) (inpB : FrameInput) (b : Block)
    (h0 : g0.platformIdsOrdered) (hb0 : PLATFORM_ID_BASE ≤ g0.nextPlatformId)
    (hlen : g0.nextPlatformId + steps1.length + steps2.length + 2 < 2 ^ 64)
    (hpA : (g0.run getGlobalBounds GetMass steps1).currentState = .PlayingSingle ∨
      (g0.run getGlobalBounds GetMass steps1).currentState = .PlayingMulti)
    (hA : (frame getGlobalBounds inpA (g0.run getGlobalBounds GetMass steps1)).blocks =
      (beforeSpawn inpA (g0.run getGlobalBounds GetMass steps1)).blocks ++ [a])
    (hpB :
      ((frame getGlobalBounds inpA (g0.run getGlobalBounds GetMass steps1)).run
          getGlobalBounds GetMass steps2).currentState = .PlayingSingle ∨
      ((frame getGlobalBounds inpA (g0.run getGlobalBounds GetMass steps1)).run
          getGlobalBounds GetMass steps2).currentState = .PlayingMulti)
    (hB :
      (frame getGlobalBounds inpB
        ((frame getGlobalBounds inpA (g0.run getGlobalBounds GetMass steps1)).run
          getGlobalBounds GetMass steps2)).blocks =
      (beforeSpawn inpB
        ((frame getGlobalBounds inpA (g0.run getGlobalBounds GetMass steps1)).run
          getGlobalBounds GetMass steps2)).blocks ++ [b]) :
    (∀ highScoreFile now,
      (Game.start highScoreFile now).platformIdsOrdered ∧
      (Game.start highScoreFile now).nextPlatformId = PLATFORM_ID_BASE) ∧
    PLATFORM_ID_BASE = 1000 ∧
    a.id = (g0.run getGlobalBounds GetMass steps1).nextPlatformId ∧
    PLATFORM_ID_BASE ≤ a.id ∧ a.id < b.id ∧
    (∀ tag ∈ fixedTags, a.id ≠ tag ∧ b.id ≠ tag) ∧
    (frame getGlobalBounds inpB
      ((frame getGlobalBounds inpA (g0.run getGlobalBounds GetMass steps1)).run
        getGlobalBounds GetMass steps2)).platformIdsOrdered ∧
    ((frame getGlobalBounds inpB
      ((frame getGlobalBounds inpA (g0.run getGlobalBounds GetMass steps1)).run
        getGlobalBounds GetMass steps2)).blocks.map (·.id)).Nodup ∧
    (∀ block ∈ (frame getGlobalBounds inpB
      ((frame getGlobalBounds inpA (g0.run getGlobalBounds GetMass steps1)).run
        getGlobalBounds GetMass steps2)).blocks,
      PLATFORM_ID_BASE ≤ block.id ∧ ∀ tag ∈ fixedTags, block.id ≠ tag) := by
  have r1 := run_platformIds getGlobalBounds GetMass steps1 g0 h0 hb0 (by omega)
  have hbA : PLATFORM_ID_BASE ≤ (g0.run getGlobalBounds GetMass steps1).nextPlatformId :=
    le_trans hb0 r1.2.1
  have sA := step_platformIds getGlobalBounds GetMass (g0.run getGlobalBounds GetMass steps1)
    (.frame inpA) r1.1 hbA (by omega)
  simp only [Game.step] at sA
  have cA := frame_commit_id getGlobalBounds inpA _ a hpA hA
  rw [Nat.mod_eq_of_lt (by omega)] at cA
  have r2 := run_platformIds getGlobalBounds GetMass steps2
    (frame getGlobalBounds inpA (g0.run getGlobalBounds GetMass steps1)) sA.1
    (le_trans hbA sA.2.1) (by omega)
  have hbB := le_trans (le_trans hbA sA.2.1) r2.2.1
  have sB := step_platformIds getGlobalBounds GetMass _ (.frame inpB) r2.1 hbB (by omega)
  simp only [Game.step] at sB
  have cB := frame_commit_id getGlobalBounds inpB _ b hpB hB
  have hab : a.id < b.id := by
    rw [cA.2.1, cB.2.1]
    have := r2.2.1
    rw [cA.2.2] at this
    omega
  have ha : PLATFORM_ID_BASE ≤ a.id := by rw [cA.2.1]; exact hbA
  have hb : PLATFORM_ID_BASE ≤ b.id := by rw [cB.2.1]; exact hbB
  refine ⟨start_platformIds, rfl, cA.2.1, ha, hab,
    fun tag ht => ⟨not_fixedTag_of_ge _ ha tag ht, not_fixedTag_of_ge _ hb tag ht⟩,
    sB.1, ?_, ?_⟩
  · exact (sB.1.1.imp (fun h => Nat.ne_of_lt h) : List.Pairwise (· ≠ ·) _)
  · intro block hmem
    have hi := (sB.1.2 block.id (List.mem_map_of_mem _ hmem)).1
    exact ⟨hi, not_fixedTag_of_ge _ hi⟩

/-- C28 in `sceneItems`: the frame `inputGreen` commits `greenBlock` with id
1000, and the frame `inputRed`, three seconds later, commits a block with a
greater id. -/
theorem C28_platform_ids_witness :
    greenBlock.id = 1000 ∧
    greenBlock.id < (newBlock inputRed.draws (beforeSpawn inputRed sceneAfterGreen)).id := by
  have hf := frame_inputGreen_sceneItems
  have hbs : (beforeSpawn inputGreen sceneItems).blocks = [] := by
    rw [(beforeSpawn_spawnVars inputGreen sceneItems).2.2]
    rfl
  have hA : (frame sfGlobalBounds inputGreen sceneItems).blocks =
      (beforeSpawn inputGreen sceneItems).blocks ++ [greenBlock] := by
    rw [hbs, hf]
    rfl
  have hpB : sceneAfterGreen.currentState = .PlayingSingle := by decide
  have hB : (frame sfGlobalBounds inputRed sceneAfterGreen).blocks =
      (beforeSpawn inputRed sceneAfterGreen).blocks ++
        [newBlock inputRed.draws (beforeSpawn inputRed sceneAfterGreen)] := by
    have hlen : (frame sfGlobalBounds inputRed sceneAfterGreen).blocks.length = 2 := by
      have := congrArg List.length frame_inputRed_blocks
      simpa using this
    have hsub := (beforeSpawn_ids inputRed sceneAfterGreen).length_le
    have h1 : sceneAfterGreen.blocks.length = 1 := rfl
    simp only [List.length_map] at hsub
    rw [frame_playing sfGlobalBounds inputRed sceneAfterGreen (Or.inl hpB),
      speedRamp_blocks] at hlen ⊢
    rcases spawnBlock_blocks_cases sfGlobalBounds inputRed.now inputRed.draws
      (beforeSpawn inputRed sceneAfterGreen) with h | h
    · rw [h] at hlen
      omega
    · exact h
  have h := C28_platform_ids sfGlobalBounds playerMass sceneItems [] inputGreen greenBlock []
    inputRed
    (newBlock inputRed.draws (beforeSpawn inputRed (frame sfGlobalBounds inputGreen sceneItems)))
    ⟨List.Pairwise.nil, fun i hi => by
      have e : sceneItems.blocks = [] := rfl
      rw [e] at hi
      cases hi⟩
    (by decide) (by decide) (Or.inl (by decide)) hA
    (Or.inl (by simp only [Game.run, List.foldl_nil]; rw [hf]; exact hpB))
    (by simp only [Game.run, List.foldl_nil]; rw [hf]; exact hB)
  rw [hf] at h
  exact ⟨rfl, h.2.2.2.2.1⟩

/-! ## The foot counters are never written (C29) -/

theorem footContactsMap_BeginContact (l : PlayerContactListener) (c : b2Contact) :
    (l.BeginContact c).footContactsMap = l.footContactsMap := by
  unfold PlayerContactListener.BeginContact
  simp only []
  by_cases hf : (c.fixtureA.userData = FOOT_SENSOR_ID ∧ c.fixtureB.userData ≥ PLATFORM_ID_BASE) ∨
      (c.fixtureB.userData = FOOT_SENSOR_ID ∧ c.fixtureA.userData ≥ PLATFORM_ID_BASE)
  · have hown : ¬ ((if c.fixtureA.userData = FOOT_SENSOR_ID then c.fixtureB.userData
        else c.fixtureA.userData) = PLAYER1_ID ∨
        (if c.fixtureA.userData = FOOT_SENSOR_ID then c.fixtureB.userData
        else c.fixtureA.userData) = PLAYER2_ID) := by
      rcases hf with ⟨hA, hB⟩ | ⟨hB, hA⟩
      · rw [if_pos hA]
        simp only [PLAYER1_ID, PLAYER2_ID, PLATFORM_ID_BASE] at hB ⊢
        omega
      · have hne : ¬ c.fixtureA.userData = FOOT_SENSOR_ID := by
          simp only [FOOT_SENSOR_ID, PLATFORM_ID_BASE] at hA ⊢
          omega
        rw [if_neg hne]
        simp only [PLAYER1_ID, PLAYER2_ID, PLATFORM_ID_BASE] at hA ⊢
        omega
    simp only [hf, if_true, hown, if_false]
    split_ifs <;> rfl
  · simp only [hf, if_false]
    split_ifs <;> rfl

theorem footContactsMap_EndContact (l : PlayerContactListener) (c : b2Contact) :
    (l.EndContact c).footContactsMap = l.footContactsMap := by
  unfold PlayerContactListener.EndContact
  simp only []
  by_cases hf : (c.fixtureA.userData = FOOT_SENSOR_ID ∧ c.fixtureB.userData ≥ PLATFORM_ID_BASE) ∨
      (c.fixtureB.userData = FOOT_SENSOR_ID ∧ c.fixtureA.userData ≥ PLATFORM_ID_BASE)
  · have hown : ¬ ((if c.fixtureA.userData = FOOT_SENSOR_ID then c.fixtureB.userData
        else c.fixtureA.userData) = PLAYER1_ID ∨
        (if c.fixtureA.userData = FOOT_SENSOR_ID then c.fixtureB.userData
        else c.fixtureA.userData) = PLAYER2_ID) := by
      rcases hf with ⟨hA, hB⟩ | ⟨hB, hA⟩
      · rw [if_pos hA]
        simp only [PLAYER1_ID, PLAYER2_ID, PLATFORM_ID_BASE] at hB ⊢
        omega
      · have hne : ¬ c.fixtureA.userData = FOOT_SENSOR_ID := by
          simp only [FOOT_SENSOR_ID, PLATFORM_ID_BASE] at hA ⊢
          omega
        rw [if_neg hne]
        simp only [PLAYER1_ID, PLAYER2_ID, PLATFORM_ID_BASE] at hA ⊢
        omega
    simp only [hf, if_true, hown, if_false]
    split_ifs <;> rfl
  · simp only [hf, if_false]
    split_ifs <;> rfl

theorem footContactsMap_foldl_EndContact (cs : List b2Contact) :
    ∀ l : PlayerContactListener,
      (cs.foldl PlayerContactListener.EndContact l).footContactsMap = l.footContactsMap := by
  induction cs with
  | nil => intro l; rfl
  | cons c cs ih => intro l; rw [List.foldl_cons, ih, footContactsMap_EndContact]

theorem footContactsMap_callbacks (cs : List ContactCallback) :
    ∀ l : PlayerContactListener, (l.callbacks cs).footContactsMap = l.footContactsMap := by
  induction cs with
  | nil => intro l; rfl
  | cons c cs ih =>
    intro l
    simp only [PlayerContactListener.callbacks, List.foldl_cons]
    have := ih (l.callback c)
    simp only [PlayerContactListener.callbacks] at this
    rw [this]
    cases c with
    | BeginContact contact => exact footContactsMap_BeginContact l contact
    | PreSolve contact => rfl
    | EndContact contact => exact footContactsMap_EndContact l contact

/-- From a fresh listener no sequence of calls writes a foot counter. -/
theorem footContactsMap_calls (cs : List ListenerCall) :
    ∀ l : PlayerContactListener, l.footContactsMap = (fun _ => none) →
      (l.calls cs).footContactsMap = (fun _ => none) := by
  induction cs with
  | nil => intro l h; exact h
  | cons c cs ih =>
    intro l h
    simp only [PlayerContactListener.calls, List.foldl_cons]
    have := ih (l.call c)
    simp only [PlayerContactListener.calls] at this
    apply this
    cases c with
    | BeginContact contact =>
      simp only [PlayerContactListener.call]
      rw [footContactsMap_BeginContact, h]
    | EndContact contact =>
      simp only [PlayerContactListener.call]
      rw [footContactsMap_EndContact, h]
    | reset => rfl

theorem isGrounded_of_empty (l : PlayerContactListener)
    (h : l.footContactsMap = (fun _ => none)) (p : Nat) : l.isGrounded p = false := by
  simp only [PlayerContactListener.isGrounded, h]

/-! ### Impulses -/

theorem impulsesOn_append (body : b2Body) (a b : List b2Call) :
    impulsesOn body (a ++ b) = impulsesOn body a + impulsesOn body b := by
  simp only [impulsesOn, List.countP_append]

theorem impulses_call (w : b2World) (c : b2Call) (body : b2Body) :
    (w.call c).impulses body = w.impulses body + impulsesOn body [c] := by
  simp only [b2World.impulses, b2World.call, impulsesOn_append]

theorem impulses_CreateBody (w : b2World) (type : b2BodyType) (position : ℚ × ℚ)
    (body : b2Body) :
    (w.CreateBody type position).1.impulses body = w.impulses body := by
  simp only [b2World.impulses, b2World.CreateBody, impulsesOn_append]
  simp [impulsesOn]

theorem destroyBody_jumpVars (ended : b2Body → List b2Contact) (g : Game) (b body : b2Body) :
    (destroyBody ended g b).jumpVars body = g.jumpVars body := by
  simp only [Game.jumpVars, destroyBody, footContactsMap_foldl_EndContact, impulses_call]
  simp [impulsesOn]

theorem setGravityScale_jumpVars (g : Game) (b : b2Body) (fastFall : Bool) (playerId : Nat)
    (body : b2Body) :
    (setGravityScale g b fastFall playerId).jumpVars body = g.jumpVars body := by
  rw [setGravityScale_eq]
  simp only [Game.jumpVars, impulses_call]
  simp [impulsesOn]

theorem applyGravityScale_jumpVars (g : Game) (body : b2Body) :
    (applyGravityScale g).jumpVars body = g.jumpVars body := by
  simp only [applyGravityScale]
  split <;> split <;> simp only [setGravityScale_jumpVars]

theorem worldStep_jumpVars (dt : ℚ) (callbacks : List ContactCallback) (g : Game)
    (body : b2Body) :
    (worldStep dt callbacks g).jumpVars body = g.jumpVars body := by
  simp only [Game.jumpVars, worldStep, footContactsMap_callbacks, impulses_call]
  simp [impulsesOn]

theorem syncEntities_jumpVars (GetPosition : b2Body → ℚ × ℚ) (g : Game) (body : b2Body) :
    (syncEntities GetPosition g).jumpVars body = g.jumpVars body := by
  simp only [syncEntities]
  split_ifs <;> rfl

theorem processCollected_jumpVars (now : Int) (g : Game) (body : b2Body) :
    (processCollected now g).jumpVars body = g.jumpVars body := by
  simp only [processCollected]
  split_ifs
  · exact foldl_proj (resolveSingle now) (Game.jumpVars body)
      (by
        intro h b
        unfold resolveSingle
        split
        · rename_i r _
          cases r.1 <;> rfl
        · rfl) _ g
  · exact foldl_proj resolveMulti (Game.jumpVars body)
      (by
        intro h b
        unfold resolveMulti
        split <;> rfl) _ g

theorem eraseBlocks_jumpVars (ended : b2Body → List b2Contact) (g : Game) (body : b2Body) :
    (eraseBlocks ended g).jumpVars body = g.jumpVars body :=
  foldl_proj
    (fun (h : Game) (block : Block) =>
      match block.body with
      | some b => if block.markedForRemoval = true then destroyBody ended h b else h
      | none => h)
    (Game.jumpVars body)
    (by
      intro h block
      dsimp only
      split
      · split_ifs
        · exact destroyBody_jumpVars ended h _ body
        · rfl
      · rfl)
    g.blocks g

theorem eraseCollectibles_jumpVars (ended : b2Body → List b2Contact) (g : Game)
    (body : b2Body) :
    (eraseCollectibles ended g).jumpVars body = g.jumpVars body :=
  foldl_proj
    (fun (h : Game) (c : Collectible) =>
      match c.body with
      | some b => if c.markedForRemoval = true then destroyBody ended h b else h
      | none => h)
    (Game.jumpVars body)
    (by
      intro h c
      dsimp only
      split
      · split_ifs
        · exact destroyBody_jumpVars ended h _ body
        · rfl
      · rfl)
    g.collectibles g

theorem beforePlayerLogic_jumpVars (inp : FrameInput) (g : Game) (body : b2Body) :
    (beforePlayerLogic inp g).jumpVars body = g.jumpVars body := by
  simp only [beforePlayerLogic]
  rw [eraseCollectibles_jumpVars, eraseBlocks_jumpVars, processCollected_jumpVars,
    syncEntities_jumpVars, worldStep_jumpVars, applyGravityScale_jumpVars]
  rfl

theorem magentaRain_jumpVars (now : Int) (rainX : ℚ) (g : Game) (body : b2Body) :
    (magentaRain now rainX g).jumpVars body = g.jumpVars body := by
  simp only [magentaRain]
  split_ifs
  · rfl
  · simp only [Game.jumpVars, impulses_call, impulses_CreateBody]
    simp [impulsesOn]
  · rfl
  · rfl

theorem effectAndRain_jumpVars (now : Int) (rainX : ℚ) (g : Game) (body : b2Body) :
    (effectAndRain now rainX g).jumpVars body = g.jumpVars body := by
  simp only [effectAndRain]
  split_ifs
  · rw [magentaRain_jumpVars]
    simp only [effectExpiry]
    split_ifs <;> rfl
  · rfl

theorem spawnBlock_jumpVars (getGlobalBounds : RectangleShape → FloatRect) (now : Int)
    (d : SpawnDraws) (g : Game) (body : b2Body) :
    (spawnBlock getGlobalBounds now d g).jumpVars body = g.jumpVars body := by
  simp only [spawnBlock]
  split_ifs <;>
    simp only [Game.jumpVars, impulses_call, impulses_CreateBody] <;>
    simp [impulsesOn]

theorem speedRamp_jumpVars (dt : ℚ) (g : Game) (body : b2Body) :
    (speedRamp dt g).jumpVars body = g.jumpVars body := by
  simp only [speedRamp]
  split_ifs <;> rfl


/-! ### Steps that leave the jump budget alone -/

theorem jumpVars_map {g h : Game} {body : b2Body} (e : h.jumpVars body = g.jumpVars body) :
    h.contactListener.footContactsMap = g.contactListener.footContactsMap :=
  congrArg (·.1) e

theorem jumpVars_jumps {g h : Game} {body : b2Body} (e : h.jumpVars body = g.jumpVars body) :
    h.jumpsRemaining = g.jumpsRemaining := congrArg (·.2.1) e

theorem jumpVars_jumps2 {g h : Game} {body : b2Body} (e : h.jumpVars body = g.jumpVars body) :
    h.jumpsRemaining2 = g.jumpsRemaining2 := congrArg (·.2.2.1) e

theorem jumpVars_impulses {g h : Game} {body : b2Body} (e : h.jumpVars body = g.jumpVars body) :
    h.world.impulses body = g.world.impulses body := congrArg (·.2.2.2) e

theorem quietStep_of_vars {g h : Game} (body : b2Body) (e : h.jumpVars body = g.jumpVars body)
    (p : h.playerVars = g.playerVars) : g.quietStep body h :=
  ⟨e, Or.inl (playerVars_playerBody p), Or.inl (playerVars_player2Body p),
    fun hs => (playerVars_currentState p) ▸ hs⟩

theorem quietStep_trans {g h k : Game} (body : b2Body) (a : g.quietStep body h)
    (b : h.quietStep body k) : g.quietStep body k := by
  obtain ⟨a1, a2, a3, a4⟩ := a
  obtain ⟨b1, b2, b3, b4⟩ := b
  refine ⟨b1.trans a1, ?_, ?_, fun hs => a4 (b4 hs)⟩
  · rcases b2 with b2 | b2
    · rw [b2]; exact a2
    · exact Or.inr b2
  · rcases b3 with b3 | b3
    · rw [b3]; exact a3
    · exact Or.inr b3

theorem playerLogicSingle_quiet (GetPosition : b2Body → ℚ × ℚ)
    (ended : b2Body → List b2Contact) (writable : Bool) (g : Game) (body : b2Body)
    (hm : g.contactListener.footContactsMap = (fun _ => none)) :
    g.quietStep body (playerLogicSingle GetPosition ended writable g) := by
  cases hb : g.playerBody with
  | none =>
    have e : playerLogicSingle GetPosition ended writable g = g := by
      simp only [playerLogicSingle, hb]
    rw [e]
    exact ⟨rfl, Or.inl rfl, Or.inl rfl, id⟩
  | some b =>
    have hg := isGrounded_of_empty g.contactListener hm PLAYER1_ID
    rw [playerLogicSingle_eq GetPosition ended writable g b hb]
    by_cases hd : deathCondition g.contactListener PLAYER1_ID (GetPosition b) = true
    · rw [if_pos hd]
      refine ⟨?_, Or.inr rfl, Or.inl rfl, ?_⟩
      · simp only [Game.jumpVars, hg, Bool.false_eq_true, if_false,
          footContactsMap_foldl_EndContact, impulses_call]
        simp [impulsesOn]
      · intro hs; cases hs
    · rw [if_neg hd]
      refine ⟨?_, Or.inl rfl, Or.inl rfl, id⟩
      simp only [Game.jumpVars, hg, Bool.false_eq_true, if_false, impulses_call]
      simp [impulsesOn]

theorem playerLogicMulti1_quiet (GetPosition : b2Body → ℚ × ℚ)
    (ended : b2Body → List b2Contact) (g : Game) (body : b2Body)
    (hm : g.contactListener.footContactsMap = (fun _ => none)) :
    g.quietStep body (playerLogicMulti1 GetPosition ended g) := by
  cases hb : g.playerBody with
  | none =>
    have e : playerLogicMulti1 GetPosition ended g = g := by
      simp only [playerLogicMulti1, hb]
    rw [e]
    exact ⟨rfl, Or.inl rfl, Or.inl rfl, id⟩
  | some b =>
    cases ha : g.player1Alive with
    | false =>
      have e : playerLogicMulti1 GetPosition ended g = g := by
        simp only [playerLogicMulti1, hb, ha, Bool.false_eq_true, if_false]
      rw [e]
      exact ⟨rfl, Or.inl rfl, Or.inl rfl, id⟩
    | true =>
      have hg := isGrounded_of_empty g.contactListener hm PLAYER1_ID
      rw [playerLogicMulti1_eq GetPosition ended g b hb ha]
      by_cases hd : deathCondition g.contactListener PLAYER1_ID (GetPosition b) = true
      · rw [if_pos hd]
        refine ⟨?_, Or.inr rfl, Or.inl rfl, id⟩
        simp only [Game.jumpVars, hg, Bool.false_eq_true, if_false,
          footContactsMap_foldl_EndContact, impulses_call]
        simp [impulsesOn]
      · rw [if_neg hd]
        refine ⟨?_, Or.inl rfl, Or.inl rfl, id⟩
        simp only [Game.jumpVars, hg, Bool.false_eq_true, if_false, impulses_call]
        simp [impulsesOn]

theorem playerLogicMulti2_quiet (GetPosition : b2Body → ℚ × ℚ)
    (ended : b2Body → List b2Contact) (g : Game) (body : b2Body)
    (hm : g.contactListener.footContactsMap = (fun _ => none)) :
    g.quietStep body (playerLogicMulti2 GetPosition ended g) := by
  cases hb : g.player2Body with
  | none =>
    have e : playerLogicMulti2 GetPosition ended g = g := by
      simp only [playerLogicMulti2, hb]
    rw [e]
    exact ⟨rfl, Or.inl rfl, Or.inl rfl, id⟩
  | some b =>
    cases ha : g.player2Alive with
    | false =>
      have e : playerLogicMulti2 GetPosition ended g = g := by
        simp only [playerLogicMulti2, hb, ha, Bool.false_eq_true, if_false]
      rw [e]
      exact ⟨rfl, Or.inl rfl, Or.inl rfl, id⟩
    | true =>
      have hg := isGrounded_of_empty g.contactListener hm PLAYER2_ID
      rw [playerLogicMulti2_eq GetPosition ended g b hb ha]
      by_cases hd : deathCondition g.contactListener PLAYER2_ID (GetPosition b) = true
      · rw [if_pos hd]
        refine ⟨?_, Or.inl rfl, Or.inr rfl, id⟩
        simp only [Game.jumpVars, hg, Bool.false_eq_true, if_false,
          footContactsMap_foldl_EndContact, impulses_call]
        simp [impulsesOn]
      · rw [if_neg hd]
        refine ⟨?_, Or.inl rfl, Or.inl rfl, id⟩
        simp only [Game.jumpVars, hg, Bool.false_eq_true, if_false, impulses_call]
        simp [impulsesOn]

theorem playerLogic_quiet (GetPosition : b2Body → ℚ × ℚ)
    (ended : b2Body → List b2Contact) (writable : Bool) (g : Game) (body : b2Body)
    (hm : g.contactListener.footContactsMap = (fun _ => none)) :
    g.quietStep body (playerLogic GetPosition ended writable g) := by
  unfold playerLogic
  split
  · exact playerLogicSingle_quiet GetPosition ended writable g body hm
  · have q1 := playerLogicMulti1_quiet GetPosition ended g body hm
    have hm1 : (playerLogicMulti1 GetPosition ended g).contactListener.footContactsMap =
        (fun _ => none) := (jumpVars_map q1.1).trans hm
    have q2 := playerLogicMulti2_quiet GetPosition ended _ body hm1
    have q := quietStep_trans body q1 q2
    simp only [playerLogicMulti]
    split_ifs
    · obtain ⟨a1, a2, a3, _⟩ := q
      exact ⟨a1, a2, a3, fun hs => by cases hs⟩
    · exact q
  · exact ⟨rfl, Or.inl rfl, Or.inl rfl, id⟩

/-- A frame, run in a state with no foot counter, writes no foot counter and no
jump counter and applies no impulse. -/
theorem frame_quiet (getGlobalBounds : RectangleShape → FloatRect) (inp : FrameInput)
    (g : Game) (body : b2Body)
    (hm : g.contactListener.footContactsMap = (fun _ => none)) :
    g.quietStep body (frame getGlobalBounds inp g) := by
  by_cases hn : g.currentState ≠ .PlayingSingle ∧ g.currentState ≠ .PlayingMulti
  · unfold frame
    rw [if_pos hn]
    exact ⟨rfl, Or.inl rfl, Or.inl rfl, id⟩
  · have hplay : g.currentState = .PlayingSingle ∨ g.currentState = .PlayingMulti := by
      by_contra hc
      exact hn ⟨fun h => hc (Or.inl h), fun h => hc (Or.inr h)⟩
    have q0 : g.quietStep body (beforePlayerLogic inp g) :=
      quietStep_of_vars body (beforePlayerLogic_jumpVars inp g body)
        (beforePlayerLogic_playerVars inp g)
    have hm0 : (beforePlayerLogic inp g).contactListener.footContactsMap = (fun _ => none) :=
      (jumpVars_map q0.1).trans hm
    have q1 := playerLogic_quiet inp.GetPosition inp.ended inp.writable
      (beforePlayerLogic inp g) body hm0
    have ej : (frame getGlobalBounds inp g).jumpVars body =
        (playerLogic inp.GetPosition inp.ended inp.writable
          (beforePlayerLogic inp g)).jumpVars body := by
      unfold frame
      rw [if_neg hn, speedRamp_jumpVars, spawnBlock_jumpVars]
      unfold beforeSpawn
      rw [effectAndRain_jumpVars]
    exact quietStep_trans body q0
      (quietStep_trans body q1
        (quietStep_of_vars body ej (frame_playerVars getGlobalBounds inp g hplay)))

theorem footContactsMap_handleEvent (GetMass : b2Body → ℚ) (now : Int) (g : Game) (e : Event)
    (hm : g.contactListener.footContactsMap = (fun _ => none)) :
    (handleEvent GetMass now g e).contactListener.footContactsMap = (fun _ => none) := by
  cases e <;> simp only [handleEvent, reduceCtorEq, if_true, if_false] <;> split <;>
    (try split) <;> (try split_ifs) <;>
    first
    | exact hm
    | rfl

theorem footContactsMap_step (getGlobalBounds : RectangleShape → FloatRect)
    (GetMass : b2Body → ℚ) (g : Game) (st : LoopStep)
    (hm : g.contactListener.footContactsMap = (fun _ => none)) :
    (g.step getGlobalBounds GetMass st).contactListener.footContactsMap = (fun _ => none) := by
  cases st with
  | event now e => exact footContactsMap_handleEvent GetMass now g e hm
  | frame inp => exact (jumpVars_map (frame_quiet getGlobalBounds inp g 0 hm).1).trans hm

theorem footContactsMap_run (getGlobalBounds : RectangleShape → FloatRect)
    (GetMass : b2Body → ℚ) (steps : List LoopStep) :
    ∀ g : Game, g.contactListener.footContactsMap = (fun _ => none) →
      (g.run getGlobalBounds GetMass steps).contactListener.footContactsMap =
        (fun _ => none) := by
  induction steps with
  | nil => intro g hm; exact hm
  | cons st steps ih =>
    intro g hm
    exact ih _ (footContactsMap_step getGlobalBounds GetMass g st hm)

theorem refillJumps_of_empty (g : Game)
    (hm : g.contactListener.footContactsMap = (fun _ => none)) : refillJumps g = g := by
  have h1 := isGrounded_of_empty g.contactListener hm PLAYER1_ID
  have h2 := isGrounded_of_empty g.contactListener hm PLAYER2_ID
  unfold refillJumps
  split
  · rw [if_neg]
    rw [h1]
    simp
  · simp only [h1, h2, Bool.false_eq_true, and_false, if_false]
  · rfl


/-! ### The jump budget -/

theorem jumpBudget1_of_quiet {g h : Game} {body : b2Body} {c : Int}
    (q : g.quietStep body h) (j : g.jumpBudget1 body c) : h.jumpBudget1 body c := by
  obtain ⟨q1, q2, q3, q4⟩ := q
  obtain ⟨j1, j2, j3, j4, j5⟩ := j
  refine ⟨(jumpVars_map q1).trans j1, ?_, ?_, ?_, ?_⟩
  · rcases q2 with q2 | q2
    · rw [q2]; exact j2
    · exact Or.inr q2
  · intro hs
    rcases q3 with q3 | q3
    · rw [q3]; exact j3 (q4 hs)
    · rw [q3]; exact fun e => by cases e
  · rw [jumpVars_jumps q1]; exact j4
  · rw [jumpVars_jumps q1, jumpVars_impulses q1]; exact j5

theorem jumpBudget2_of_quiet {g h : Game} {body : b2Body} {c : Int}
    (q : g.quietStep body h) (j : g.jumpBudget2 body c) : h.jumpBudget2 body c := by
  obtain ⟨q1, q2, q3, _⟩ := q
  obtain ⟨j1, j2, j3, j4, j5⟩ := j
  refine ⟨(jumpVars_map q1).trans j1, ?_, ?_, ?_, ?_⟩
  · rcases q3 with q3 | q3
    · rw [q3]; exact j2
    · exact Or.inr q3
  · rcases q2 with q2 | q2
    · rw [q2]; exact j3
    · rw [q2]; exact fun e => by cases e
  · rw [jumpVars_jumps2 q1]; exact j4
  · rw [jumpVars_jumps2 q1, jumpVars_impulses q1]; exact j5

/-- The jump statement on the body that is counted: an impulse is paid for by
one jump. -/
theorem jump_same (GetMass : b2Body → ℚ) (w : b2World) (body : b2Body) (j c : Int)
    (h0 : 0 ≤ j) (hc : (w.impulses body : Int) + j ≤ c) :
    0 ≤ (jump GetMass w (some body) j).2 ∧
    ((jump GetMass w (some body) j).1.impulses body : Int) +
      (jump GetMass w (some body) j).2 ≤ c := by
  unfold jump
  dsimp only
  split_ifs with hj
  · dsimp only
    rw [impulses_call]
    have e : impulsesOn body [b2Call.ApplyLinearImpulseToCenter body
        (0, -(playerJumpForce * METERS_PER_PIXEL * GetMass body))] = 1 := by
      simp [impulsesOn]
    rw [e]
    push_cast
    omega
  · exact ⟨h0, hc⟩

/-- The jump statement on another body, or on no body, applies no impulse to
the body that is counted. -/
theorem jump_other (GetMass : b2Body → ℚ) (w : b2World) (other : Option b2Body)
    (body : b2Body) (j : Int) (hne : other ≠ some body) :
    (jump GetMass w other j).1.impulses body = w.impulses body := by
  unfold jump
  split
  · rename_i b
    split_ifs
    · dsimp only
      rw [impulses_call]
      have hb : b ≠ body := fun e => hne (by rw [e])
      simp [impulsesOn, hb]
    · rfl
  · rfl

theorem jump_none (GetMass : b2Body → ℚ) (w : b2World) (j : Int) :
    jump GetMass w none j = (w, j) := rfl

theorem jumpPlayer1_jumpBudget1 (GetMass : b2Body → ℚ) (g : Game) (body : b2Body) (c : Int)
    (h : g.jumpBudget1 body c) : (jumpPlayer1 GetMass g).jumpBudget1 body c := by
  obtain ⟨j1, j2, j3, j4, j5⟩ := h
  rcases j2 with hb | hb
  · have k := jump_same GetMass g.world body g.jumpsRemaining c j4 j5
    rw [← hb] at k
    exact ⟨j1, Or.inl hb, j3, k.1, k.2⟩
  · refine ⟨j1, Or.inr hb, j3, ?_, ?_⟩
    · simp only [jumpPlayer1, hb, jump_none]; exact j4
    · simp only [jumpPlayer1, hb, jump_none]; exact j5

theorem jumpPlayer2_jumpBudget1 (GetMass : b2Body → ℚ) (g : Game) (body : b2Body) (c : Int)
    (hs : g.currentState = .PlayingMulti) (h : g.jumpBudget1 body c) :
    (jumpPlayer2 GetMass g).jumpBudget1 body c := by
  obtain ⟨j1, j2, j3, j4, j5⟩ := h
  have k := jump_other GetMass g.world g.player2Body body g.jumpsRemaining2 (j3 hs)
  refine ⟨j1, j2, j3, j4, ?_⟩
  simp only [jumpPlayer2]
  rw [k]
  exact j5

theorem jumpPlayer2_jumpBudget2 (GetMass : b2Body → ℚ) (g : Game) (body : b2Body) (c : Int)
    (h : g.jumpBudget2 body c) : (jumpPlayer2 GetMass g).jumpBudget2 body c := by
  obtain ⟨j1, j2, j3, j4, j5⟩ := h
  rcases j2 with hb | hb
  · have k := jump_same GetMass g.world body g.jumpsRemaining2 c j4 j5
    rw [← hb] at k
    exact ⟨j1, Or.inl hb, j3, k.1, k.2⟩
  · refine ⟨j1, Or.inr hb, j3, ?_, ?_⟩
    · simp only [jumpPlayer2, hb, jump_none]; exact j4
    · simp only [jumpPlayer2, hb, jump_none]; exact j5

theorem jumpPlayer1_jumpBudget2 (GetMass : b2Body → ℚ) (g : Game) (body : b2Body) (c : Int)
    (h : g.jumpBudget2 body c) : (jumpPlayer1 GetMass g).jumpBudget2 body c := by
  obtain ⟨j1, j2, j3, j4, j5⟩ := h
  have k := jump_other GetMass g.world g.playerBody body g.jumpsRemaining j3
  refine ⟨j1, j2, j3, j4, ?_⟩
  simp only [jumpPlayer1]
  rw [k]
  exact j5

theorem handleEvent_jumpBudget1 (GetMass : b2Body → ℚ) (now : Int) (g : Game) (e : Event)
    (body : b2Body) (c : Int) (he : (LoopStep.event now e).selectsMode = false)
    (h : g.jumpBudget1 body c) : (handleEvent GetMass now g e).jumpBudget1 body c := by
  have hreset : ∀ k : Game, k.jumpBudget1 body c →
      Game.jumpBudget1 body c { k with
        currentState := .StartScreen
        playerBody := none
        player2Body := none
        blocks := []
        collectibles := []
        contactListener := k.contactListener.reset } := by
    intro k hk
    exact ⟨rfl, Or.inr rfl, fun hs => (by cases hs), hk.2.2.2.1, hk.2.2.2.2⟩
  cases e with
  | Closed =>
    simp only [handleEvent, if_true]
    split <;> exact h
  | Other =>
    simp only [handleEvent, reduceCtorEq, if_false]
    split <;> exact h
  | KeyReleased code =>
    simp only [handleEvent, reduceCtorEq, if_false]
    split <;> (try split_ifs) <;> exact h
  | MouseButtonPressed left s m =>
    simp only [handleEvent, reduceCtorEq, if_false]
    split
    · cases left
      · exact h
      · simp only [LoopStep.selectsMode, Bool.or_eq_false_iff] at he
        simp only [he.1, he.2, Bool.false_eq_true, if_false]
        exact h
    · exact h
    · exact h
    · exact h
  | KeyPressed code =>
    simp only [handleEvent, reduceCtorEq, if_false]
    split
    · exact h
    · split_ifs
      · exact jumpPlayer1_jumpBudget1 GetMass g body c h
      · exact h
      · exact h
    · rename_i hs
      have h1 : Game.jumpBudget1 body c
          (if code = .W then jumpPlayer1 GetMass g
           else if code = .S then { g with fastFallActive := true } else g) := by
        split_ifs
        · exact jumpPlayer1_jumpBudget1 GetMass g body c h
        · exact h
        · exact h
      have hs1 : (if code = .W then jumpPlayer1 GetMass g
           else if code = .S then { g with fastFallActive := true } else g).currentState =
            .PlayingMulti := by
        split_ifs <;> exact hs
      split_ifs at h1 hs1 ⊢ <;>
        first
        | exact jumpPlayer2_jumpBudget1 GetMass _ body c hs1 h1
        | exact h1
    · cases code <;> first | exact h | exact hreset g h

theorem handleEvent_jumpBudget2 (GetMass : b2Body → ℚ) (now : Int) (g : Game) (e : Event)
    (body : b2Body) (c : Int) (he : (LoopStep.event now e).selectsMode = false)
    (h : g.jumpBudget2 body c) : (handleEvent GetMass now g e).jumpBudget2 body c := by
  have hreset : ∀ k : Game, k.jumpBudget2 body c →
      Game.jumpBudget2 body c { k with
        currentState := .StartScreen
        playerBody := none
        player2Body := none
        blocks := []
        collectibles := []
        contactListener := k.contactListener.reset } := by
    intro k hk
    exact ⟨rfl, Or.inr rfl, fun hs => (by cases hs), hk.2.2.2.1, hk.2.2.2.2⟩
  cases e with
  | Closed =>
    simp only [handleEvent, if_true]
    split <;> exact h
  | Other =>
    simp only [handleEvent, reduceCtorEq, if_false]
    split <;> exact h
  | KeyReleased code =>
    simp only [handleEvent, reduceCtorEq, if_false]
    split <;> (try split_ifs) <;> exact h
  | MouseButtonPressed left s m =>
    simp only [handleEvent, reduceCtorEq, if_false]
    split
    · cases left
      · exact h
      · simp only [LoopStep.selectsMode, Bool.or_eq_false_iff] at he
        simp only [he.1, he.2, Bool.false_eq_true, if_false]
        exact h
    · exact h
    · exact h
    · exact h
  | KeyPressed code =>
    simp only [handleEvent, reduceCtorEq, if_false]
    split
    · exact h
    · split_ifs
      · exact jumpPlayer1_jumpBudget2 GetMass g body c h
      · exact h
      · exact h
    · have h1 : Game.jumpBudget2 body c
          (if code = .W then jumpPlayer1 GetMass g
           else if code = .S then { g with fastFallActive := true } else g) := by
        split_ifs
        · exact jumpPlayer1_jumpBudget2 GetMass g body c h
        · exact h
        · exact h
      split_ifs at h1 ⊢ <;>
        first
        | exact jumpPlayer2_jumpBudget2 GetMass _ body c h1
        | exact h1
    · cases code <;> first | exact h | exact hreset g h

theorem run_jumpBudget1 (getGlobalBounds : RectangleShape → FloatRect)
    (GetMass : b2Body → ℚ) (body : b2Body) (c : Int) (steps : List LoopStep) :
    ∀ g : Game, (∀ st ∈ steps, st.selectsMode = false) → g.jumpBudget1 body c →
      (g.run getGlobalBounds GetMass steps).jumpBudget1 body c := by
  induction steps with
  | nil => intro g _ h; exact h
  | cons st steps ih =>
    intro g hst h
    refine ih _ (fun x hx => hst x (List.mem_cons_of_mem _ hx)) ?_
    have h0 := hst st (List.mem_cons_self _ _)
    cases st with
    | event now e => exact handleEvent_jumpBudget1 GetMass now g e body c h0 h
    | frame inp => exact jumpBudget1_of_quiet (frame_quiet getGlobalBounds inp g body h.1) h

theorem run_jumpBudget2 (getGlobalBounds : RectangleShape → FloatRect)
    (GetMass : b2Body → ℚ) (body : b2Body) (c : Int) (steps : List LoopStep) :
    ∀ g : Game, (∀ st ∈ steps, st.selectsMode = false) → g.jumpBudget2 body c →
      (g.run getGlobalBounds GetMass steps).jumpBudget2 body c := by
  induction steps with
  | nil => intro g _ h; exact h
  | cons st steps ih =>
    intro g hst h
    refine ih _ (fun x hx => hst x (List.mem_cons_of_mem _ hx)) ?_
    have h0 := hst st (List.mem_cons_self _ _)
    cases st with
    | event now e => exact handleEvent_jumpBudget2 GetMass now g e body c h0 h
    | frame inp => exact jumpBudget2_of_quiet (frame_quiet getGlobalBounds inp g body h.1) h


theorem maxJumps_nonneg : (0 : Int) ≤ maxJumps := by decide

theorem calls_append (l : PlayerContactListener) (cs ds : List ListenerCall) :
    l.calls (cs ++ ds) = (l.calls cs).calls ds := by
  simp only [PlayerContactListener.calls, List.foldl_append]

theorem startSingle_jumpBudget1 (now : Int) (g : Game) (b : b2Body)
    (hb : (startSingle now g).playerBody = some b) :
    (startSingle now g).jumpBudget1 b ((startSingle now g).world.impulses b + maxJumps) :=
  ⟨rfl, Or.inl hb, fun hs => (by cases hs), maxJumps_nonneg, le_refl _⟩

theorem startMulti_jumpBudget1 (now : Int) (g : Game) (b : b2Body)
    (hb : (startMulti now g).playerBody = some b) :
    (startMulti now g).jumpBudget1 b ((startMulti now g).world.impulses b + maxJumps) := by
  refine ⟨rfl, Or.inl hb, fun _ => ?_, maxJumps_nonneg, le_refl _⟩
  simp only [startMulti, createPlayer, b2World.CreateBody, b2World.call, Option.some.injEq,
    ne_eq] at hb ⊢
  rw [← hb]
  exact Nat.succ_ne_self _

theorem startMulti_jumpBudget2 (now : Int) (g : Game) (b : b2Body)
    (hb : (startMulti now g).player2Body = some b) :
    (startMulti now g).jumpBudget2 b ((startMulti now g).world.impulses b + maxJumps) := by
  refine ⟨rfl, Or.inl hb, ?_, maxJumps_nonneg, le_refl _⟩
  simp only [startMulti, createPlayer, b2World.CreateBody, b2World.call, Option.some.injEq,
    ne_eq] at hb ⊢
  rw [← hb]
  exact fun e => Nat.succ_ne_self _ e.symm

/-- C29: in the listener of `Boxing9_2_Fixed.cpp` neither `BeginContact` nor
`EndContact` writes `footContactsMap`, whatever the tags of the two fixtures
(so in particular for the tags the program assigns); after every sequence of
`BeginContact`, `EndContact` and `reset` on a fresh listener the map has no
entry, a further call leaves it so, and `isGrounded` is false for every
player. In every state the program reaches from its start by events and frames
`isGrounded` is false for both players, the grounded refill changes nothing,
and a frame leaves both jump counters as they are. Hence in a session, that is
in any run of events and frames after a mode selection that contains no
further mode selection, the number of jump impulses applied to a player's body
grows by at most `maxJumps`. -/
theorem C29_foot_counters_never_set (getGlobalBounds : RectangleShape → FloatRect)
    (GetMass : b2Body → ℚ) (queue : List b2Body) (cs : List ListenerCall)
    (highScoreFile : Option Int) (now0 : Int) (steps0 : List LoopStep)
    (now : Int) (g : Game) (steps : List LoopStep)
    (hsteps : ∀ st ∈ steps, st.selectsMode = false) :
    (∀ (l : PlayerContactListener) (c : b2Contact),
      (l.BeginContact c).footContactsMap = l.footContactsMap ∧
      (l.EndContact c).footContactsMap = l.footContactsMap) ∧
    (∀ p : Nat, ((PlayerContactListener.new queue).calls cs).footContactsMap p = none ∧
      ((PlayerContactListener.new queue).calls cs).isGrounded p = false) ∧
    (∀ call : ListenerCall,
      ((PlayerContactListener.new queue).calls (cs ++ [call])).footContactsMap =
        ((PlayerContactListener.new queue).calls cs).footContactsMap) ∧
    (((Game.start highScoreFile now0).run getGlobalBounds GetMass steps0).contactListener.isGrounded
        PLAYER1_ID = false ∧
     ((Game.start highScoreFile now0).run getGlobalBounds GetMass steps0).contactListener.isGrounded
        PLAYER2_ID = false ∧
     refillJumps ((Game.start highScoreFile now0).run getGlobalBounds GetMass steps0) =
       (Game.start highScoreFile now0).run getGlobalBounds GetMass steps0 ∧
     ∀ inp : FrameInput,
       (frame getGlobalBounds inp
          ((Game.start highScoreFile now0).run getGlobalBounds GetMass steps0)).jumpsRemaining =
         ((Game.start highScoreFile now0).run getGlobalBounds GetMass steps0).jumpsRemaining ∧
       (frame getGlobalBounds inp
          ((Game.start highScoreFile now0).run getGlobalBounds GetMass steps0)).jumpsRemaining2 =
         ((Game.start highScoreFile now0).run getGlobalBounds GetMass steps0).jumpsRemaining2) ∧
    (∀ b : b2Body, (startSingle now g).playerBody = some b →
      ((((startSingle now g).run getGlobalBounds GetMass steps).world.impulses b : Nat) : Int) ≤
        ((startSingle now g).world.impulses b : Nat) + maxJumps) ∧
    (∀ b : b2Body,
      (startMulti now g).playerBody = some b ∨ (startMulti now g).player2Body = some b →
      ((((startMulti now g).run getGlobalBounds GetMass steps).world.impulses b : Nat) : Int) ≤
        ((startMulti now g).world.impulses b : Nat) + maxJumps) := by
  have hl := footContactsMap_calls cs (PlayerContactListener.new queue) rfl
  have hr := footContactsMap_run getGlobalBounds GetMass steps0
    (Game.start highScoreFile now0) rfl
  refine ⟨fun l c => ⟨footContactsMap_BeginContact l c, footContactsMap_EndContact l c⟩,
    fun p => ⟨by rw [hl], isGrounded_of_empty _ hl p⟩, ?_,
    ⟨isGrounded_of_empty _ hr _, isGrounded_of_empty _ hr _, refillJumps_of_empty _ hr, ?_⟩,
    ?_, ?_⟩
  · intro call
    rw [calls_append, hl]
    exact footContactsMap_calls [call] _ hl
  · intro inp
    have q := (frame_quiet getGlobalBounds inp _ 0 hr).1
    exact ⟨jumpVars_jumps q, jumpVars_jumps2 q⟩
  · intro b hb
    have j := run_jumpBudget1 getGlobalBounds GetMass b _ steps _ hsteps
      (startSingle_jumpBudget1 now g b hb)
    have j4 := j.2.2.2.1
    have j5 := j.2.2.2.2
    omega
  · intro b hb
    rcases hb with hb | hb
    · have j := run_jumpBudget1 getGlobalBounds GetMass b _ steps _ hsteps
        (startMulti_jumpBudget1 now g b hb)
      have j4 := j.2.2.2.1
      have j5 := j.2.2.2.2
      omega
    · have j := run_jumpBudget2 getGlobalBounds GetMass b _ steps _ hsteps
        (startMulti_jumpBudget2 now g b hb)
      have j4 := j.2.2.2.1
      have j5 := j.2.2.2.2
      omega

/-- C29 in a single-player session in which the jump key is pressed eleven
times: ten impulses are applied to the player's body (handle 2), the eleventh
press applies none. -/
theorem C29_foot_counters_never_set_witness :
    (∀ st ∈ List.replicate 11 (LoopStep.event 0 (.KeyPressed .W)), st.selectsMode = false) ∧
    ((((startSingle 0 (Game.start none 0)).run sfGlobalBounds playerMass
        (List.replicate 11 (LoopStep.event 0 (.KeyPressed .W)))).world.impulses 2 : Nat) : Int) ≤
      ((startSingle 0 (Game.start none 0)).world.impulses 2 : Nat) + maxJumps ∧
    (startSingle 0 (Game.start none 0)).world.impulses 2 = 0 ∧
    ((startSingle 0 (Game.start none 0)).run sfGlobalBounds playerMass
        (List.replicate 11 (LoopStep.event 0 (.KeyPressed .W)))).world.impulses 2 = 10 ∧
    ((startSingle 0 (Game.start none 0)).run sfGlobalBounds playerMass
        (List.replicate 10 (LoopStep.event 0 (.KeyPressed .W)))).world.impulses 2 = 10 :=
  ⟨by decide,
    (C29_foot_counters_never_set sfGlobalBounds playerMass [] [] none 0 [] 0
      (Game.start none 0) (List.replicate 11 (LoopStep.event 0 (.KeyPressed .W)))
      (by decide)).2.2.2.2.1 2 (by decide),
    by decide, by decide, by decide⟩

/-! ## The snap ray cast of `Boxing7_temp.cpp` (C27) -/

theorem report_of_not_platform (cb : Boxing7_temp.SnapRayCastCallback)
    (r : Boxing7_temp.RayCastReport) (h : ¬ r.isPlatform) : cb.report r = cb := by
  unfold Boxing7_temp.RayCastReport.isPlatform at h
  simp only [Boxing7_temp.SnapRayCastCallback.report,
    Boxing7_temp.SnapRayCastCallback.ReportFixture, h, if_false]

theorem report_of_closer (cb : Boxing7_temp.SnapRayCastCallback)
    (r : Boxing7_temp.RayCastReport) (h : r.isPlatform) (hlt : r.fraction < cb.closestFraction) :
    cb.report r =
      { closestFraction := r.fraction, closestFixture := some r.fixture, hitPoint := r.point } := by
  unfold Boxing7_temp.RayCastReport.isPlatform at h
  simp only [Boxing7_temp.SnapRayCastCallback.report,
    Boxing7_temp.SnapRayCastCallback.ReportFixture, h, if_true, hlt]

theorem report_of_not_closer (cb : Boxing7_temp.SnapRayCastCallback)
    (r : Boxing7_temp.RayCastReport) (hlt : ¬ r.fraction < cb.closestFraction) :
    cb.report r = cb := by
  simp only [Boxing7_temp.SnapRayCastCallback.report,
    Boxing7_temp.SnapRayCastCallback.ReportFixture, hlt, if_false]
  split_ifs <;> rfl

theorem reports_append_singleton (cb : Boxing7_temp.SnapRayCastCallback)
    (rs : List Boxing7_temp.RayCastReport) (r : Boxing7_temp.RayCastReport) :
    cb.reports (rs ++ [r]) = (cb.reports rs).report r := by
  simp only [Boxing7_temp.SnapRayCastCallback.reports, List.foldl_append, List.foldl_cons,
    List.foldl_nil]

/-- After any sequence of reports on a fresh callback, either nothing was
kept, or what is kept is the first platform report of least fraction. -/
theorem reports_cases (hitPoint : ℚ × ℚ) (rs : List Boxing7_temp.RayCastReport) :
    (((Boxing7_temp.SnapRayCastCallback.new hitPoint).reports rs).closestFixture = none ∧
      ((Boxing7_temp.SnapRayCastCallback.new hitPoint).reports rs).closestFraction = 1 ∧
      ((Boxing7_temp.SnapRayCastCallback.new hitPoint).reports rs).hitPoint = hitPoint ∧
      ∀ x ∈ rs, x.isPlatform → 1 ≤ x.fraction) ∨
    ∃ pre r post, rs = pre ++ r :: post ∧ r.isPlatform ∧ r.fraction < 1 ∧
      (∀ x ∈ pre, x.isPlatform → r.fraction < x.fraction) ∧
      (∀ x ∈ post, x.isPlatform → r.fraction ≤ x.fraction) ∧
      ((Boxing7_temp.SnapRayCastCallback.new hitPoint).reports rs).closestFixture =
        some r.fixture ∧
      ((Boxing7_temp.SnapRayCastCallback.new hitPoint).reports rs).hitPoint = r.point ∧
      ((Boxing7_temp.SnapRayCastCallback.new hitPoint).reports rs).closestFraction =
        r.fraction := by
  induction rs using List.reverseRecOn with
  | nil => exact Or.inl ⟨rfl, rfl, rfl, fun x hx => (by cases hx)⟩
  | append_singleton rs a ih =>
    rw [reports_append_singleton]
    by_cases hp : a.isPlatform
    · by_cases hlt : a.fraction <
          ((Boxing7_temp.SnapRayCastCallback.new hitPoint).reports rs).closestFraction
      · rw [report_of_closer _ a hp hlt]
        right
        refine ⟨rs, a, [], rfl, hp, ?_, ?_, fun x hx => (by cases hx), rfl, rfl, rfl⟩
        · rcases ih with ⟨_, h1, _, _⟩ | ⟨pre, r, post, _, _, hr1, _, _, _, _, hf⟩
          · rw [h1] at hlt; exact hlt
          · rw [hf] at hlt; exact lt_trans hlt hr1
        · intro x hx hxp
          rcases ih with ⟨_, h1, _, hall⟩ | ⟨pre, r, post, hrs, _, _, hpre, hpost, _, _, hf⟩
          · rw [h1] at hlt
            exact lt_of_lt_of_le hlt (hall x hx hxp)
          · rw [hf] at hlt
            rw [hrs] at hx
            rcases List.mem_append.mp hx with hx | hx
            · exact lt_trans hlt (hpre x hx hxp)
            · rcases List.mem_cons.mp hx with hx | hx
              · rw [hx]; exact hlt
              · exact lt_of_lt_of_le hlt (hpost x hx hxp)
      · rw [report_of_not_closer _ a hlt]
        rcases ih with ⟨h0, h1, h2, hall⟩ | ⟨pre, r, post, hrs, hrp, hr1, hpre, hpost, hc, hh, hf⟩
        · left
          refine ⟨h0, h1, h2, ?_⟩
          intro x hx hxp
          rcases List.mem_append.mp hx with hx | hx
          · exact hall x hx hxp
          · rw [List.mem_singleton.mp hx]
            rw [h1] at hlt
            exact not_lt.mp hlt
        · right
          refine ⟨pre, r, post ++ [a], by rw [hrs]; simp, hrp, hr1, hpre, ?_, hc, hh, hf⟩
          intro x hx hxp
          rcases List.mem_append.mp hx with hx | hx
          · exact hpost x hx hxp
          · rw [List.mem_singleton.mp hx]
            rw [hf] at hlt
            exact not_lt.mp hlt
    · rw [report_of_not_platform _ a hp]
      rcases ih with ⟨h0, h1, h2, hall⟩ | ⟨pre, r, post, hrs, hrp, hr1, hpre, hpost, hc, hh, hf⟩
      · left
        refine ⟨h0, h1, h2, ?_⟩
        intro x hx hxp
        rcases List.mem_append.mp hx with hx | hx
        · exact hall x hx hxp
        · rw [List.mem_singleton.mp hx] at hxp
          exact absurd hxp hp
      · right
        refine ⟨pre, r, post ++ [a], by rw [hrs]; simp, hrp, hr1, hpre, ?_, hc, hh, hf⟩
        intro x hx hxp
        rcases List.mem_append.mp hx with hx | hx
        · exact hpost x hx hxp
        · rw [List.mem_singleton.mp hx] at hxp
          exact absurd hxp hp

/-- C27: for the snap ray-cast callback of `Boxing7_temp.cpp`, after any
sequence of `ReportFixture` calls on a fresh callback, `closestFixture` is
null exactly when no reported fixture had a platform tag
(`>= PLATFORM_ID_BASE`, which is 1000) with a fraction below 1, and then
`closestFraction` is still 1 and `hitPoint` was never written; otherwise the
sequence splits around one report of a platform fixture with fraction below 1
whose fraction is strictly below that of every earlier platform report and at
most that of every later one, and `closestFixture`, `hitPoint` and
`closestFraction` are that report's fixture, point and fraction. Each call
returns the reported fraction for a platform fixture and -1 for any other. -/
theorem C27_snap_ray_cast_keeps_closest_platform (hitPoint : ℚ × ℚ)
    (rs : List Boxing7_temp.RayCastReport) :
    (((Boxing7_temp.SnapRayCastCallback.new hitPoint).reports rs).closestFixture = none ↔
      ∀ x ∈ rs, x.fixture.userData ≥ Boxing7_temp.PLATFORM_ID_BASE → ¬ x.fraction < 1) ∧
    Boxing7_temp.PLATFORM_ID_BASE = 1000 ∧
    (((Boxing7_temp.SnapRayCastCallback.new hitPoint).reports rs).closestFixture = none →
      ((Boxing7_temp.SnapRayCastCallback.new hitPoint).reports rs).closestFraction = 1 ∧
      ((Boxing7_temp.SnapRayCastCallback.new hitPoint).reports rs).hitPoint = hitPoint) ∧
    (((Boxing7_temp.SnapRayCastCallback.new hitPoint).reports rs).closestFixture ≠ none →
      ∃ pre r post, rs = pre ++ r :: post ∧
        r.fixture.userData ≥ Boxing7_temp.PLATFORM_ID_BASE ∧ r.fraction < 1 ∧
        (∀ x ∈ pre, x.fixture.userData ≥ Boxing7_temp.PLATFORM_ID_BASE →
          r.fraction < x.fraction) ∧
        (∀ x ∈ post, x.fixture.userData ≥ Boxing7_temp.PLATFORM_ID_BASE →
          r.fraction ≤ x.fraction) ∧
        ((Boxing7_temp.SnapRayCastCallback.new hitPoint).reports rs).closestFixture =
          some r.fixture ∧
        ((Boxing7_temp.SnapRayCastCallback.new hitPoint).reports rs).hitPoint = r.point ∧
        ((Boxing7_temp.SnapRayCastCallback.new hitPoint).reports rs).closestFraction =
          r.fraction) ∧
    (∀ (cb : Boxing7_temp.SnapRayCastCallback) (fixture : b2Fixture) (point normal : ℚ × ℚ)
        (fraction : ℚ),
      (cb.ReportFixture fixture point normal fraction).2 =
        if fixture.userData ≥ Boxing7_temp.PLATFORM_ID_BASE then fraction else -1) := by
  refine ⟨?_, rfl, ?_, ?_, ?_⟩
  · rcases reports_cases hitPoint rs with ⟨h0, _, _, hall⟩ |
      ⟨pre, r, post, hrs, hrp, hr1, _, _, hc, _, _⟩
    · exact ⟨fun _ x hx hxp => not_lt.mpr (hall x hx hxp), fun _ => h0⟩
    · constructor
      · intro hn
        rw [hc] at hn
        cases hn
      · intro hall
        exact absurd hr1 (hall r (by rw [hrs]; simp) hrp)
  · intro hn
    rcases reports_cases hitPoint rs with ⟨_, h1, h2, _⟩ | ⟨pre, r, post, _, _, _, _, _, hc, _, _⟩
    · exact ⟨h1, h2⟩
    · rw [hc] at hn
      cases hn
  · intro hn
    rcases reports_cases hitPoint rs with ⟨h0, _, _, _⟩ | h
    · exact absurd h0 hn
    · exact h
  · intro cb fixture point normal fraction
    simp only [Boxing7_temp.SnapRayCastCallback.ReportFixture]
    split_ifs <;> rfl

/-! ## Resolution of a whole queue (C30) -/

theorem collect_collectibles (now : Int) (g : Game) (cs : List Collectible)
    (type : CollectibleType) :
    collect now { g with collectibles := cs } type =
      { collect now g type with collectibles := cs } := by
  cases type <;> rfl

theorem foldl_collect_collectibles (now : Int) (cs : List Collectible)
    (types : List CollectibleType) :
    ∀ g : Game, types.foldl (collect now) { g with collectibles := cs } =
      { types.foldl (collect now) g with collectibles := cs } := by
  induction types with
  | nil => intro g; rfl
  | cons t types ih =>
    intro g
    rw [List.foldl_cons, List.foldl_cons, collect_collectibles, ih]

theorem foldl_collect_contactListener (now : Int) (types : List CollectibleType) (g : Game) :
    (types.foldl (collect now) g).contactListener = g.contactListener :=
  foldl_proj (collect now) (·.contactListener)
    (by intro h t; cases t <;> rfl) types g

/-- With pairwise distinct bodies, the inner loop marks every collectible
that has the body, which is the first one that has it. -/
theorem markCollected_eq (b : b2Body) :
    ∀ cs : List Collectible, (cs.map (·.body)).Nodup →
      markCollected b cs =
        (cs.find? (fun c => decide (c.body = some b))).map
          (fun c => (c.type, cs.map (fun x =>
            if x.body = some b then { x with markedForRemoval := true } else x))) := by
  intro cs
  induction cs with
  | nil => intro _; rfl
  | cons c rest ih =>
    intro hd
    rw [List.map_cons, List.nodup_cons] at hd
    by_cases hc : c.body = some b
    · have hrest : rest.map (fun x =>
          if x.body = some b then { x with markedForRemoval := true } else x) = rest := by
        conv_rhs => rw [← List.map_id rest]
        apply List.map_congr_left
        intro x hx
        have hne : ¬ x.body = some b := by
          intro hxb
          apply hd.1
          rw [hc, ← hxb]
          exact List.mem_map_of_mem _ hx
        simp only [hne, if_false, id]
      simp only [markCollected, hc, if_true, List.find?_cons, decide_True, Option.map_some',
        List.map_cons, hrest]
    · have hf : decide (c.body = some b) = false := decide_eq_false hc
      simp only [markCollected, hc, if_false, List.find?_cons, hf, List.map_cons, ih hd.2]
      cases rest.find? (fun c => decide (c.body = some b)) <;> rfl

/-- The outer loop in single-player mode, in one expression, for a list with
pairwise distinct bodies. -/
theorem foldl_resolveSingle_eq (now : Int) (queue : List b2Body) :
    ∀ g : Game, (g.collectibles.map (·.body)).Nodup →
      queue.foldl (resolveSingle now) g =
        { (queue.filterMap (fun b =>
              (g.collectibles.find? (fun c => decide (c.body = some b))).map
                (·.type))).foldl (collect now) g with
          collectibles := g.collectibles.map (fun c =>
            if ∃ b ∈ queue, c.body = some b then { c with markedForRemoval := true }
            else c) } := by
  induction queue with
  | nil =>
    intro g _
    simp only [List.foldl_nil, List.filterMap_nil, List.not_mem_nil, false_and, exists_false,
      if_false, List.map_id_fun', id_eq]
  | cons b rest ih =>
    intro g hd
    rw [List.foldl_cons]
    have hm := markCollected_eq b g.collectibles hd
    cases hf : g.collectibles.find? (fun c => decide (c.body = some b)) with
    | none =>
      rw [hf] at hm
      have e : resolveSingle now g b = g := by
        simp only [resolveSingle, hm, Option.map_none']
      rw [e, ih g hd]
      have hne : ∀ x ∈ g.collectibles, ¬ x.body = some b := by
        intro x hx
        have := List.find?_eq_none.mp hf x hx
        simpa using this
      have hmap : g.collectibles.map (fun c =>
            if ∃ b2 ∈ b :: rest, c.body = some b2 then { c with markedForRemoval := true }
            else c) =
          g.collectibles.map (fun c =>
            if ∃ b2 ∈ rest, c.body = some b2 then { c with markedForRemoval := true }
            else c) := by
        apply List.map_congr_left
        intro x hx
        have hiff : (∃ b2 ∈ b :: rest, x.body = some b2) ↔ ∃ b2 ∈ rest, x.body = some b2 := by
          constructor
          · rintro ⟨b2, hb2, hx2⟩
            rcases List.mem_cons.mp hb2 with h | h
            · rw [h] at hx2; exact absurd hx2 (hne x hx)
            · exact ⟨b2, h, hx2⟩
          · rintro ⟨b2, hb2, hx2⟩
            exact ⟨b2, List.mem_cons_of_mem _ hb2, hx2⟩
        simp only [hiff]
      rw [hmap, List.filterMap_cons, hf]
      rfl
    | some c =>
      rw [hf] at hm
      have e : resolveSingle now g b =
          { collect now g c.type with
            collectibles := g.collectibles.map (fun x =>
              if x.body = some b then { x with markedForRemoval := true } else x) } := by
        simp only [resolveSingle, hm, Option.map_some']
      have hbody : (g.collectibles.map (fun x =>
            if x.body = some b then { x with markedForRemoval := true } else x)).map
              (·.body) = g.collectibles.map (·.body) := by
        rw [List.map_map]
        apply List.map_congr_left
        intro x _
        simp only [Function.comp]
        split_ifs <;> rfl
      have hfind : ∀ b2 : b2Body,
          ((g.collectibles.map (fun x =>
            if x.body = some b then { x with markedForRemoval := true } else x)).find?
              (fun c => decide (c.body = some b2))).map (·.type) =
          (g.collectibles.find? (fun c => decide (c.body = some b2))).map (·.type) := by
        intro b2
        induction g.collectibles with
        | nil => rfl
        | cons x xs ihx =>
          rw [List.map_cons, List.find?_cons, List.find?_cons]
          have hb : (if x.body = some b then { x with markedForRemoval := true } else x).body =
              x.body := by split_ifs <;> rfl
          have ht : (if x.body = some b then { x with markedForRemoval := true } else x).type =
              x.type := by split_ifs <;> rfl
          rw [hb]
          cases decide (x.body = some b2)
          · exact ihx
          · simp only [Option.map_some', ht]
      have hmap : (g.collectibles.map (fun x =>
            if x.body = some b then { x with markedForRemoval := true } else x)).map
            (fun c =>
              if ∃ b2 ∈ rest, c.body = some b2 then { c with markedForRemoval := true }
              else c) =
          g.collectibles.map (fun c =>
            if ∃ b2 ∈ b :: rest, c.body = some b2 then { c with markedForRemoval := true }
            else c) := by
        rw [List.map_map]
        apply List.map_congr_left
        intro x _
        simp only [Function.comp]
        by_cases hxb : x.body = some b
        · have h1 : ∃ b2 ∈ b :: rest, x.body = some b2 := ⟨b, List.mem_cons_self _ _, hxb⟩
          rw [if_pos hxb, if_pos h1]
          split_ifs <;> rfl
        · have hiff : (∃ b2 ∈ b :: rest, x.body = some b2) ↔
              ∃ b2 ∈ rest, x.body = some b2 := by
            constructor
            · rintro ⟨b2, hb2, hx2⟩
              rcases List.mem_cons.mp hb2 with h | h
              · rw [h] at hx2; exact absurd hx2 hxb
              · exact ⟨b2, h, hx2⟩
            · rintro ⟨b2, hb2, hx2⟩
              exact ⟨b2, List.mem_cons_of_mem _ hb2, hx2⟩
          rw [if_neg hxb]
          simp only [hiff]
      rw [e, ih _ (by rw [hbody]; exact hd)]
      simp only [hfind, hmap]
      rw [foldl_collect_collectibles, List.filterMap_cons, hf]
      rfl


/-- C30: in single-player mode, for a removal queue that holds no body twice
and a collectible list whose bodies are pairwise distinct, the resolution of
the queue (lines 682-699) gives the state in which
the collectibles whose body is queued are marked for removal and the others
are as before; the effects applied are those of the kinds of the collectibles
found for the queued bodies, taken in queue order, a queued body that no
collectible has contributing none; every collectible whose body is queued
occurs exactly once among the collectibles found, and no other does; and the
queue is empty afterwards. -/
theorem C30_single_player_queue_resolution (now : Int) (g : Game)
    (hstate : g.currentState = .PlayingSingle)
    (hqueue : g.collectiblesToRemoveFromWorld.Nodup)
    (hbodies : (g.collectibles.map (·.body)).Nodup) :
    (processCollected now g).collectibles =
      g.collectibles.map (fun c =>
        if ∃ b ∈ g.collectiblesToRemoveFromWorld, c.body = some b
        then { c with markedForRemoval := true } else c) ∧
    processCollected now g =
      { ((g.collectiblesToRemoveFromWorld.filterMap (fun b =>
            g.collectibles.find? (fun c => decide (c.body = some b)))).map
              (·.type)).foldl (collect now) g with
        collectibles :=
          g.collectibles.map (fun c =>
            if ∃ b ∈ g.collectiblesToRemoveFromWorld, c.body = some b
            then { c with markedForRemoval := true } else c)
        contactListener := { g.contactListener with collectiblesToRemove := [] } } ∧
    (g.collectiblesToRemoveFromWorld.filterMap (fun b =>
        g.collectibles.find? (fun c => decide (c.body = some b)))).Nodup ∧
    (∀ c : Collectible,
      c ∈ g.collectiblesToRemoveFromWorld.filterMap (fun b =>
          g.collectibles.find? (fun c => decide (c.body = some b))) ↔
        c ∈ g.collectibles ∧ ∃ b ∈ g.collectiblesToRemoveFromWorld, c.body = some b) ∧
    (processCollected now g).collectiblesToRemoveFromWorld = [] := by
  have hfold := foldl_resolveSingle_eq now g.collectiblesToRemoveFromWorld g hbodies
  have hp : processCollected now g =
      { ((g.collectiblesToRemoveFromWorld.filterMap (fun b =>
            g.collectibles.find? (fun c => decide (c.body = some b)))).map
              (·.type)).foldl (collect now) g with
        collectibles :=
          g.collectibles.map (fun c =>
            if ∃ b ∈ g.collectiblesToRemoveFromWorld, c.body = some b
            then { c with markedForRemoval := true } else c)
        contactListener := { g.contactListener with collectiblesToRemove := [] } } := by
    unfold processCollected
    rw [if_pos hstate]
    dsimp only
    rw [hfold, List.map_filterMap]
    dsimp only
    rw [foldl_collect_contactListener]
  have hspec : ∀ (b : b2Body) (c : Collectible),
      g.collectibles.find? (fun c => decide (c.body = some b)) = some c →
        c ∈ g.collectibles ∧ c.body = some b := by
    intro b c h
    refine ⟨List.mem_of_find?_eq_some h, ?_⟩
    have := List.find?_some h
    simpa using this
  refine ⟨?_, hp, ?_, ?_, ?_⟩
  · rw [hp]
  · apply List.Nodup.filterMap _ hqueue
    intro b1 b2 c h1 h2
    have e1 := (hspec b1 c h1).2
    have e2 := (hspec b2 c h2).2
    rw [e1] at e2
    exact Option.some.inj e2
  · intro c
    rw [List.mem_filterMap]
    constructor
    · rintro ⟨b, hb, hc⟩
      exact ⟨(hspec b c hc).1, b, hb, (hspec b c hc).2⟩
    · rintro ⟨hc, b, hb, hcb⟩
      refine ⟨b, hb, ?_⟩
      cases hf : g.collectibles.find? (fun c => decide (c.body = some b)) with
      | none =>
        have := List.find?_eq_none.mp hf c hc
        simp only [hcb, decide_True, not_true_eq_false] at this
      | some x =>
        have hx := hspec b x hf
        have hxc : x = c :=
          List.inj_on_of_nodup_map hbodies hx.1 hc (by rw [hx.2, hcb])
        rw [hxc]
  · rw [hp]
    rfl

/-- C30 in `sceneQueue`: the queue holds the poison's body, a body that no
collectible has, and the pizza's body. Both collectibles are marked; the
poison's effect is applied first (score 1 to 0), then the pizza's (0 to 3), as
the queue orders them and not as the list does. -/
theorem C30_single_player_queue_resolution_witness :
    sceneQueue.currentState = .PlayingSingle ∧
    sceneQueue.collectiblesToRemoveFromWorld = [5, 9, 4] ∧
    sceneQueue.collectibles.map (·.body) = [some 4, some 5] ∧
    (processCollected 7000000 sceneQueue).collectibles =
      [{ pizza with markedForRemoval := true }, { poison with markedForRemoval := true }] ∧
    sceneQueue.score = 1 ∧
    (processCollected 7000000 sceneQueue).score = 3 ∧
    (processCollected 7000000 sceneQueue).collectiblesToRemoveFromWorld = [] :=
  ⟨by decide, by decide, by decide,
    (C30_single_player_queue_resolution 7000000 sceneQueue (by decide) (by decide)
      (by decide)).1.trans (by decide),
    by decide,
    (congrArg Game.score (C30_single_player_queue_resolution 7000000 sceneQueue (by decide)
      (by decide) (by decide)).2.1).trans (by decide),
    (C30_single_player_queue_resolution 7000000 sceneQueue (by decide) (by decide)
      (by decide)).2.2.2.2⟩

/-- The rounding of a positive rational in the normal range that is nearer to
`n` units of its spacing than to any other multiple. -/
theorem roundF32_eq (q : ℚ) (k n : ℤ) (hk : -126 ≤ k) (h1 : 2 ^ k ≤ q) (h2 : q < 2 ^ (k + 1))
    (hlo : (n : ℚ) - 1 / 2 < q / 2 ^ (k - 23)) (hhi : q / 2 ^ (k - 23) < n + 1 / 2) :
    roundF32 q = n * 2 ^ (k - 23) := by
  have hq : 0 ≤ q := le_trans (le_of_lt (two_zpow_pos k)) h1
  rw [roundF32_of_nonneg hq]
  apply roundMagnitude_eq q k n hk h1 h2
  left
  rw [abs_lt]
  constructor <;> linarith

/-- The rounding of a positive rational in the normal range that lies halfway
between two multiples of its spacing: the even multiple. -/
theorem roundF32_eq_tie (q : ℚ) (k n : ℤ) (hk : -126 ≤ k) (h1 : 2 ^ k ≤ q)
    (h2 : q < 2 ^ (k + 1)) (hn : n % 2 = 0)
    (h : q / 2 ^ (k - 23) = n + 1 / 2 ∨ q / 2 ^ (k - 23) = n - 1 / 2) :
    roundF32 q = n * 2 ^ (k - 23) := by
  have hq : 0 ≤ q := le_trans (le_of_lt (two_zpow_pos k)) h1
  rw [roundF32_of_nonneg hq]
  apply roundMagnitude_eq q k n hk h1 h2
  right
  refine ⟨?_, hn⟩
  rcases h with h | h
  · rw [h]
    norm_num
  · rw [h]
    norm_num

/-! ## The collectible kind (C25) -/

theorem roundF32_035 : roundF32 (35 / 100) = 11744051 / 33554432 := by
  rw [roundF32_eq (35 / 100) (-2) 11744051 (by norm_num) (by norm_num) (by norm_num)
    (by norm_num) (by norm_num)]
  norm_num

theorem roundF32_055 : roundF32 (55 / 100) = 9227469 / 16777216 := by
  rw [roundF32_eq (55 / 100) (-1) 9227469 (by norm_num) (by norm_num) (by norm_num)
    (by norm_num) (by norm_num)]
  norm_num

theorem roundF32_0675 : roundF32 (675 / 1000) = 11324621 / 16777216 := by
  rw [roundF32_eq (675 / 1000) (-1) 11324621 (by norm_num) (by norm_num) (by norm_num)
    (by norm_num) (by norm_num)]
  norm_num

theorem roundF32_08 : roundF32 (8 / 10) = 13421773 / 16777216 := by
  rw [roundF32_eq (8 / 10) (-1) 13421773 (by norm_num) (by norm_num) (by norm_num)
    (by norm_num) (by norm_num)]
  norm_num

theorem roundF32_085 : roundF32 (85 / 100) = 7130317 / 8388608 := by
  rw [roundF32_eq (85 / 100) (-1) 14260634 (by norm_num) (by norm_num) (by norm_num)
    (by norm_num) (by norm_num)]
  norm_num

/-- The second threshold: `0.35f + 0.20f` in binary32 is `0.55f`. -/
theorem threshold_orange :
    roundF32 (magentaCollectibleProb + orangeCollectibleProb) = 9227469 / 16777216 := by
  have e : magentaCollectibleProb + orangeCollectibleProb = 36909875 / 67108864 := by
    norm_num [magentaCollectibleProb, orangeCollectibleProb]
  rw [e, roundF32_eq (36909875 / 67108864) (-1) 9227469 (by norm_num) (by norm_num)
    (by norm_num) (by norm_num) (by norm_num)]
  norm_num

/-- The third threshold: adding `0.125f` is exact and gives `0.675f`. -/
theorem threshold_green :
    roundF32 (roundF32 (magentaCollectibleProb + orangeCollectibleProb)
      + greenCollectibleProb) = 11324621 / 16777216 := by
  have e : (9227469 / 16777216 : ℚ) + greenCollectibleProb = 11324621 / 16777216 := by
    norm_num [greenCollectibleProb]
  rw [threshold_orange, e, roundF32_eq (11324621 / 16777216) (-1) 11324621 (by norm_num)
    (by norm_num) (by norm_num) (by norm_num) (by norm_num)]
  norm_num

/-- The fourth threshold: adding `0.125f` is exact and gives `0.8f`. -/
theorem threshold_red :
    roundF32 (roundF32 (roundF32 (magentaCollectibleProb + orangeCollectibleProb)
      + greenCollectibleProb) + redCollectibleProb) = 13421773 / 16777216 := by
  have e : (11324621 / 16777216 : ℚ) + redCollectibleProb = 13421773 / 16777216 := by
    norm_num [redCollectibleProb]
  rw [threshold_green, e, roundF32_eq (13421773 / 16777216) (-1) 13421773 (by norm_num)
    (by norm_num) (by norm_num) (by norm_num) (by norm_num)]
  norm_num

/-- The fifth threshold: `0.8f + 0.05f` in binary32 is `0.85f`. -/
theorem threshold_white :
    roundF32 (roundF32 (roundF32 (roundF32 (magentaCollectibleProb + orangeCollectibleProb)
      + greenCollectibleProb) + redCollectibleProb) + whiteCollectibleProb) =
      7130317 / 8388608 := by
  have e : (13421773 / 16777216 : ℚ) + whiteCollectibleProb = 228170141 / 268435456 := by
    norm_num [whiteCollectibleProb]
  rw [threshold_red, e, roundF32_eq (228170141 / 268435456) (-1) 14260634 (by norm_num)
    (by norm_num) (by norm_num) (by norm_num) (by norm_num)]
  norm_num

/-- The six weights, added in binary32, give `1.0f`. -/
theorem weights_total :
    roundF32 (roundF32 (roundF32 (roundF32 (roundF32 (magentaCollectibleProb
      + orangeCollectibleProb) + greenCollectibleProb) + redCollectibleProb)
      + whiteCollectibleProb) + minusScoreCollectibleProb) = 1 := by
  have e : (7130317 / 8388608 : ℚ) + minusScoreCollectibleProb = 33554433 / 33554432 := by
    norm_num [minusScoreCollectibleProb]
  rw [threshold_white, e, roundF32_eq (33554433 / 33554432) 0 8388608 (by norm_num)
    (by norm_num) (by norm_num) (by norm_num) (by norm_num)]
  norm_num

/-- The if-chain of `chooseType` with the thresholds evaluated. -/
theorem chooseType_eq (r : ℚ) :
    chooseType r =
      if r < 11744051 / 33554432 then (.Magenta, MAGENTA_COLLECTIBLE_ID)
      else if r < 9227469 / 16777216 then (.Orange, ORANGE_COLLECTIBLE_ID)
      else if r < 11324621 / 16777216 then (.Green, GREEN_COLLECTIBLE_ID)
      else if r < 13421773 / 16777216 then (.Red, RED_COLLECTIBLE_ID)
      else if r < 7130317 / 8388608 then (.White, WHITE_COLLECTIBLE_ID)
      else (.MinusScore, MINUS_SCORE_COLLECTIBLE_ID) := by
  have e1 : magentaCollectibleProb = 11744051 / 33554432 := rfl
  unfold chooseType
  rw [threshold_white, threshold_red, threshold_green, threshold_orange, e1]

/-- On the grid of spacing `2 ^ -25`, which holds every binary32 value of
`[1/4, 1)`, no value lies from a decimal `d` up to a threshold `t` above it when `t`
is the first grid value above `d`. -/
theorem grid_lt_iff (r : ℚ) (n m : ℤ) (d : ℚ) (hr : r = n / 2 ^ 25)
    (hd1 : ((m : ℚ) - 1) / 2 ^ 25 < d) (hd2 : d ≤ m / 2 ^ 25) :
    r < d ↔ r < m / 2 ^ 25 := by
  constructor
  · intro h
    exact lt_of_lt_of_le h hd2
  · intro h
    rw [hr] at h ⊢
    have h2 : (n : ℚ) < m := by
      have hp : (0 : ℚ) < 2 ^ 25 := by norm_num
      exact (div_lt_div_iff_of_pos_right hp).mp h
    have h3 : n < m := by exact_mod_cast h2
    have h4 : n ≤ m - 1 := by omega
    have h5 : (n : ℚ) ≤ m - 1 := by exact_mod_cast h4
    have h6 : (n : ℚ) / 2 ^ 25 ≤ ((m : ℚ) - 1) / 2 ^ 25 :=
      div_le_div_of_nonneg_right h5 (by norm_num)
    linarith

/-- C25 as stated fails. The roll `0.35f`, the binary32 value
`11744051 / 2 ^ 25` nearest to 0.35, lies in `[0, 1)` and below 0.35, so the
claim gives Magenta for it; the code compares it with the weight `0.35f`
itself, finds it not below, and chooses Orange with the Orange tag. -/
theorem C25_roll_below_035_gives_orange :
    roundF32 (35 / 100) = 11744051 / 33554432 ∧
    (0 : ℚ) ≤ 11744051 / 33554432 ∧ (11744051 / 33554432 : ℚ) < 35 / 100 ∧
    magentaCollectibleProb = 11744051 / 33554432 ∧
    chooseType (11744051 / 33554432) = (.Orange, ORANGE_COLLECTIBLE_ID) := by
  refine ⟨roundF32_035, by norm_num, by norm_num, rfl, ?_⟩
  rw [chooseType_eq, if_neg (by norm_num), if_pos (by norm_num)]

/-- C25, amended: the kind chosen for a type roll `r` is Magenta below
`0.35f`, Orange from `0.35f` and below `0.55f`, Green from `0.55f` and below
`0.675f`, Red from `0.675f` and below `0.8f`, White from `0.8f` and below
`0.85f`, and MinusScore for every other `r`, where the thresholds are the
binary32 sums of the weights and equal the binary32 values of 0.35, 0.55,
0.675, 0.8 and 0.85. For a roll that is a binary32 value of `[0, 1)` (below
`1/4`, or a multiple of `2 ^ -25`) the tests against `0.55f`, `0.675f`, `0.8f`
and `0.85f` agree with the tests against the decimals, and the test against
`0.35f` agrees with the test against 0.35 except at the roll `0.35f` itself.
The binary32 sum of the six weights is 1, and the tag chosen is the tag of the
kind. -/
theorem C25_choose_type (r : ℚ) :
    (r < 11744051 / 33554432 → chooseType r = (.Magenta, MAGENTA_COLLECTIBLE_ID)) ∧
    (11744051 / 33554432 ≤ r → r < 9227469 / 16777216 →
      chooseType r = (.Orange, ORANGE_COLLECTIBLE_ID)) ∧
    (9227469 / 16777216 ≤ r → r < 11324621 / 16777216 →
      chooseType r = (.Green, GREEN_COLLECTIBLE_ID)) ∧
    (11324621 / 16777216 ≤ r → r < 13421773 / 16777216 →
      chooseType r = (.Red, RED_COLLECTIBLE_ID)) ∧
    (13421773 / 16777216 ≤ r → r < 7130317 / 8388608 →
      chooseType r = (.White, WHITE_COLLECTIBLE_ID)) ∧
    (7130317 / 8388608 ≤ r → chooseType r = (.MinusScore, MINUS_SCORE_COLLECTIBLE_ID)) ∧
    (roundF32 (35 / 100) = 11744051 / 33554432 ∧
      roundF32 (55 / 100) = 9227469 / 16777216 ∧
      roundF32 (675 / 1000) = 11324621 / 16777216 ∧
      roundF32 (8 / 10) = 13421773 / 16777216 ∧
      roundF32 (85 / 100) = 7130317 / 8388608) ∧
    (magentaCollectibleProb = 11744051 / 33554432 ∧
      roundF32 (magentaCollectibleProb + orangeCollectibleProb) = 9227469 / 16777216 ∧
      roundF32 (roundF32 (magentaCollectibleProb + orangeCollectibleProb)
        + greenCollectibleProb) = 11324621 / 16777216 ∧
      roundF32 (roundF32 (roundF32 (magentaCollectibleProb + orangeCollectibleProb)
        + greenCollectibleProb) + redCollectibleProb) = 13421773 / 16777216 ∧
      roundF32 (roundF32 (roundF32 (roundF32 (magentaCollectibleProb
        + orangeCollectibleProb) + greenCollectibleProb) + redCollectibleProb)
        + whiteCollectibleProb) = 7130317 / 8388608) ∧
    (r < 1 / 4 ∨ (∃ n : ℤ, r = n / 2 ^ 25) →
      (r < 35 / 100 ↔ r < 11744051 / 33554432 ∨ r = 11744051 / 33554432) ∧
      (r < 55 / 100 ↔ r < 9227469 / 16777216) ∧
      (r < 675 / 1000 ↔ r < 11324621 / 16777216) ∧
      (r < 8 / 10 ↔ r < 13421773 / 16777216) ∧
      (r < 85 / 100 ↔ r < 7130317 / 8388608)) ∧
    roundF32 (roundF32 (roundF32 (roundF32 (roundF32 (magentaCollectibleProb
      + orangeCollectibleProb) + greenCollectibleProb) + redCollectibleProb)
      + whiteCollectibleProb) + minusScoreCollectibleProb) = 1 ∧
    ((chooseType r).1 = .Magenta ↔ (chooseType r).2 = MAGENTA_COLLECTIBLE_ID) ∧
    ((chooseType r).1 = .Orange ↔ (chooseType r).2 = ORANGE_COLLECTIBLE_ID) ∧
    ((chooseType r).1 = .Green ↔ (chooseType r).2 = GREEN_COLLECTIBLE_ID) ∧
    ((chooseType r).1 = .Red ↔ (chooseType r).2 = RED_COLLECTIBLE_ID) ∧
    ((chooseType r).1 = .White ↔ (chooseType r).2 = WHITE_COLLECTIBLE_ID) ∧
    ((chooseType r).1 = .MinusScore ↔ (chooseType r).2 = MINUS_SCORE_COLLECTIBLE_ID) := by
  have tags : ∀ p : CollectibleType × Nat,
      p = (.Magenta, MAGENTA_COLLECTIBLE_ID) ∨ p = (.Orange, ORANGE_COLLECTIBLE_ID) ∨
      p = (.Green, GREEN_COLLECTIBLE_ID) ∨ p = (.Red, RED_COLLECTIBLE_ID) ∨
      p = (.White, WHITE_COLLECTIBLE_ID) ∨ p = (.MinusScore, MINUS_SCORE_COLLECTIBLE_ID) →
      (p.1 = .Magenta ↔ p.2 = MAGENTA_COLLECTIBLE_ID) ∧
      (p.1 = .Orange ↔ p.2 = ORANGE_COLLECTIBLE_ID) ∧
      (p.1 = .Green ↔ p.2 = GREEN_COLLECTIBLE_ID) ∧
      (p.1 = .Red ↔ p.2 = RED_COLLECTIBLE_ID) ∧
      (p.1 = .White ↔ p.2 = WHITE_COLLECTIBLE_ID) ∧
      (p.1 = .MinusScore ↔ p.2 = MINUS_SCORE_COLLECTIBLE_ID) := by
    rintro p (h | h | h | h | h | h) <;> rw [h] <;> decide
  have hc := chooseType_eq r
  have total : chooseType r = (.Magenta, MAGENTA_COLLECTIBLE_ID) ∨
      chooseType r = (.Orange, ORANGE_COLLECTIBLE_ID) ∨
      chooseType r = (.Green, GREEN_COLLECTIBLE_ID) ∨
      chooseType r = (.Red, RED_COLLECTIBLE_ID) ∨
      chooseType r = (.White, WHITE_COLLECTIBLE_ID) ∨
      chooseType r = (.MinusScore, MINUS_SCORE_COLLECTIBLE_ID) := by
    rw [hc]
    split_ifs <;> simp
  have ht := tags _ total
  refine ⟨?_, ?_, ?_, ?_, ?_, ?_,
    ⟨roundF32_035, roundF32_055, roundF32_0675, roundF32_08, roundF32_085⟩,
    ⟨rfl, threshold_orange, threshold_green, threshold_red, threshold_white⟩, ?_,
    weights_total, ht.1, ht.2.1, ht.2.2.1, ht.2.2.2.1, ht.2.2.2.2.1, ht.2.2.2.2.2⟩
  · intro h
    rw [hc, if_pos h]
  · intro h1 h2
    rw [hc, if_neg (not_lt.mpr h1), if_pos h2]
  · intro h1 h2
    rw [hc, if_neg (by linarith), if_neg (not_lt.mpr h1), if_pos h2]
  · intro h1 h2
    rw [hc, if_neg (by linarith), if_neg (by linarith), if_neg (not_lt.mpr h1), if_pos h2]
  · intro h1 h2
    rw [hc, if_neg (by linarith), if_neg (by linarith), if_neg (by linarith),
      if_neg (not_lt.mpr h1), if_pos h2]
  · intro h1
    rw [hc, if_neg (by linarith), if_neg (by linarith), if_neg (by linarith),
      if_neg (by linarith), if_neg (not_lt.mpr h1)]
  · rintro (hq | ⟨n, hn⟩)
    · refine ⟨⟨fun _ => Or.inl (by linarith), fun _ => by linarith⟩,
        ⟨fun _ => by linarith, fun _ => by linarith⟩,
        ⟨fun _ => by linarith, fun _ => by linarith⟩,
        ⟨fun _ => by linarith, fun _ => by linarith⟩,
        ⟨fun _ => by linarith, fun _ => by linarith⟩⟩
    · have g2 := grid_lt_iff r n 18454938 (55 / 100) hn (by norm_num) (by norm_num)
      have g3 := grid_lt_iff r n 22649242 (675 / 1000) hn (by norm_num) (by norm_num)
      have g4 := grid_lt_iff r n 26843546 (8 / 10) hn (by norm_num) (by norm_num)
      have g5 := grid_lt_iff r n 28521268 (85 / 100) hn (by norm_num) (by norm_num)
      have g1 := grid_lt_iff r n 11744052 (35 / 100) hn (by norm_num) (by norm_num)
      refine ⟨?_, ?_, ?_, ?_, ?_⟩
      · rw [g1]
        constructor
        · intro h
          rw [hn] at h ⊢
          have h2 : (n : ℚ) < 11744052 := by
            have hp : (0 : ℚ) < 2 ^ 25 := by norm_num
            have := (div_lt_div_iff_of_pos_right hp).mp h
            exact_mod_cast this
          have h3 : n < 11744052 := by exact_mod_cast h2
          rcases (by omega : n < 11744051 ∨ n = 11744051) with h4 | h4
          · left
            have h5 : (n : ℚ) < 11744051 := by exact_mod_cast h4
            have : (n : ℚ) / 2 ^ 25 < 11744051 / 2 ^ 25 :=
              div_lt_div_of_pos_right h5 (by norm_num)
            norm_num at this ⊢
            exact this
          · right
            rw [h4]
            norm_num
        · rintro (h | h)
          · have : (11744051 / 33554432 : ℚ) < ((11744052 : ℤ) : ℚ) / 2 ^ 25 := by norm_num
            linarith
          · rw [h]
            norm_num
      · rw [g2]; norm_num
      · rw [g3]; norm_num
      · rw [g4]; norm_num
      · rw [g5]; norm_num

/-! ## The spawn-time bounds (C26) -/

/-- A rational with a significand of at most 24 bits is a binary32 value. -/
theorem roundF32_dyadic (q : ℚ) (n j : ℤ) (hq : q = n * 2 ^ j) (hn : |n| < 2 ^ 24)
    (hj : -149 ≤ j) : roundF32 q = q := by
  rw [hq]
  exact roundF32_eq_self n j hn hj

/-- The difference `minSpawnTimeBase - 2.5f` in binary32: the exact difference
lies halfway between two values and is rounded to the even one. -/
theorem slope_min : roundF32 (minSpawnTimeBase - 25 / 10) = -(7130317 / 4194304) := by
  have e : minSpawnTimeBase - 25 / 10 = -(28521267 / 16777216) := by
    norm_num [minSpawnTimeBase]
  rw [e, roundF32_neg, roundF32_eq_tie (28521267 / 16777216) 0 14260634 (by norm_num)
    (by norm_num) (by norm_num) (by norm_num) (Or.inr (by norm_num))]
  norm_num

theorem slope_max : roundF32 (maxSpawnTimeBase - 35 / 10) = -2 := by
  have e : maxSpawnTimeBase - 35 / 10 = -2 := by norm_num [maxSpawnTimeBase]
  rw [e, roundF32_neg, roundF32_dyadic 2 1 1 (by norm_num) (by norm_num) (by norm_num)]

theorem speedRatio_den : roundF32 (maxBlockSpeed - 200) = 400 := by
  have e : maxBlockSpeed - 200 = 400 := by norm_num [maxBlockSpeed]
  rw [e, roundF32_dyadic 400 25 4 (by norm_num) (by norm_num) (by norm_num)]

theorem speedRatio_eq (s : ℚ) : speedRatio s = roundF32 (roundF32 (s - 200) / 400) := by
  unfold speedRatio
  rw [speedRatio_den]

theorem roundF32_one : roundF32 1 = 1 :=
  roundF32_dyadic 1 1 0 (by norm_num) (by norm_num) (by norm_num)

theorem speedRatio_nonneg {s : ℚ} (h : 200 ≤ s) : 0 ≤ speedRatio s := by
  rw [speedRatio_eq]
  apply roundF32_nonneg
  apply div_nonneg _ (by norm_num)
  exact roundF32_nonneg (by linarith)

theorem speedRatio_le_one {s : ℚ} (h : s ≤ 600) : speedRatio s ≤ 1 := by
  rw [speedRatio_eq]
  have h1 : roundF32 (s - 200) ≤ 400 := by
    have := roundF32_mono (by linarith : s - 200 ≤ 400)
    rwa [roundF32_dyadic 400 25 4 (by norm_num) (by norm_num) (by norm_num)] at this
  have h2 : roundF32 (s - 200) / 400 ≤ 1 := by
    rw [div_le_one (by norm_num)]
    exact h1
  have := roundF32_mono h2
  rwa [roundF32_one] at this

theorem speedRatio_mono {s s2 : ℚ} (h : s ≤ s2) : speedRatio s ≤ speedRatio s2 := by
  rw [speedRatio_eq, speedRatio_eq]
  apply roundF32_mono
  apply div_le_div_of_nonneg_right _ (by norm_num)
  exact roundF32_mono (by linarith)

theorem speedRatio_600 : speedRatio 600 = 1 := by
  rw [speedRatio_eq]
  have e : (600 : ℚ) - 200 = 400 := by norm_num
  rw [e, roundF32_dyadic 400 25 4 (by norm_num) (by norm_num) (by norm_num)]
  have e2 : (400 : ℚ) / 400 = 1 := by norm_num
  rw [e2, roundF32_one]

theorem speedRatio_200 : speedRatio 200 = 0 := by
  rw [speedRatio_eq]
  have e : (200 : ℚ) - 200 = 0 := by norm_num
  rw [e, roundF32_zero, zero_div, roundF32_zero]

theorem lerp_min_eq (t : ℚ) :
    lerp (25 / 10) minSpawnTimeBase t =
      roundF32 (25 / 10 + roundF32 (t * -(7130317 / 4194304))) := by
  unfold lerp
  rw [slope_min]

theorem lerp_max_eq (t : ℚ) :
    lerp (35 / 10) maxSpawnTimeBase t = roundF32 (35 / 10 + roundF32 (t * -2)) := by
  unfold lerp
  rw [slope_max]

theorem lerp_min_anti {t t2 : ℚ} (h : t ≤ t2) :
    lerp (25 / 10) minSpawnTimeBase t2 ≤ lerp (25 / 10) minSpawnTimeBase t := by
  rw [lerp_min_eq, lerp_min_eq]
  apply roundF32_mono
  have : roundF32 (t2 * -(7130317 / 4194304)) ≤ roundF32 (t * -(7130317 / 4194304)) :=
    roundF32_mono (by nlinarith)
  linarith

theorem lerp_max_anti {t t2 : ℚ} (h : t ≤ t2) :
    lerp (35 / 10) maxSpawnTimeBase t2 ≤ lerp (35 / 10) maxSpawnTimeBase t := by
  rw [lerp_max_eq, lerp_max_eq]
  apply roundF32_mono
  have : roundF32 (t2 * -2) ≤ roundF32 (t * -2) := roundF32_mono (by linarith)
  linarith

/-- An upper bound of the lower spawn time from an upper bound `x` of the
product, when `x` and `2.5 + x` are binary32 values. -/
theorem lerp_min_le (t x : ℚ) (h : t * -(7130317 / 4194304) ≤ x) (hx : roundF32 x = x)
    (hy : roundF32 (25 / 10 + x) = 25 / 10 + x) :
    lerp (25 / 10) minSpawnTimeBase t ≤ 25 / 10 + x := by
  rw [lerp_min_eq]
  have h1 := roundF32_mono h
  rw [hx] at h1
  have h2 := roundF32_mono
    (by linarith : 25 / 10 + roundF32 (t * -(7130317 / 4194304)) ≤ 25 / 10 + x)
  rwa [hy] at h2

theorem le_lerp_min (t x : ℚ) (h : x ≤ t * -(7130317 / 4194304)) (hx : roundF32 x = x)
    (hy : roundF32 (25 / 10 + x) = 25 / 10 + x) :
    25 / 10 + x ≤ lerp (25 / 10) minSpawnTimeBase t := by
  rw [lerp_min_eq]
  have h1 := roundF32_mono h
  rw [hx] at h1
  have h2 := roundF32_mono
    (by linarith : 25 / 10 + x ≤ 25 / 10 + roundF32 (t * -(7130317 / 4194304)))
  rwa [hy] at h2

theorem lerp_max_le (t x : ℚ) (h : t * -2 ≤ x) (hx : roundF32 x = x)
    (hy : roundF32 (35 / 10 + x) = 35 / 10 + x) :
    lerp (35 / 10) maxSpawnTimeBase t ≤ 35 / 10 + x := by
  rw [lerp_max_eq]
  have h1 := roundF32_mono h
  rw [hx] at h1
  have h2 := roundF32_mono (by linarith : 35 / 10 + roundF32 (t * -2) ≤ 35 / 10 + x)
  rwa [hy] at h2

theorem le_lerp_max (t x : ℚ) (h : x ≤ t * -2) (hx : roundF32 x = x)
    (hy : roundF32 (35 / 10 + x) = 35 / 10 + x) :
    35 / 10 + x ≤ lerp (35 / 10) maxSpawnTimeBase t := by
  rw [lerp_max_eq]
  have h1 := roundF32_mono h
  rw [hx] at h1
  have h2 := roundF32_mono (by linarith : 35 / 10 + x ≤ 35 / 10 + roundF32 (t * -2))
  rwa [hy] at h2

theorem lerp_min_bounds {t : ℚ} (h0 : 0 ≤ t) (h1 : t ≤ 1) :
    3355443 / 4194304 ≤ lerp (25 / 10) minSpawnTimeBase t ∧
    lerp (25 / 10) minSpawnTimeBase t ≤ 25 / 10 := by
  constructor
  · have := le_lerp_min t (-(7130317 / 4194304)) (by nlinarith)
      (roundF32_dyadic _ (-14260634) (-23) (by norm_num) (by norm_num) (by norm_num))
      (roundF32_dyadic _ 6710886 (-23) (by norm_num) (by norm_num) (by norm_num))
    norm_num at this ⊢
    exact this
  · have := lerp_min_le t 0 (by nlinarith) roundF32_zero
      (roundF32_dyadic _ 5 (-1) (by norm_num) (by norm_num) (by norm_num))
    norm_num at this ⊢
    exact this

theorem lerp_max_bounds {t : ℚ} (h0 : 0 ≤ t) (h1 : t ≤ 1) :
    15 / 10 ≤ lerp (35 / 10) maxSpawnTimeBase t ∧
    lerp (35 / 10) maxSpawnTimeBase t ≤ 35 / 10 := by
  constructor
  · have := le_lerp_max t (-2) (by linarith)
      (roundF32_dyadic _ (-1) 1 (by norm_num) (by norm_num) (by norm_num))
      (roundF32_dyadic _ 3 (-1) (by norm_num) (by norm_num) (by norm_num))
    norm_num at this ⊢
    exact this
  · have := lerp_max_le t 0 (by linarith) roundF32_zero
      (roundF32_dyadic _ 7 (-1) (by norm_num) (by norm_num) (by norm_num))
    norm_num at this ⊢
    exact this

/-- At ratio 1 the lower spawn time is `0.79999995f`, the binary32 value just
below `0.8f`. -/
theorem lerp_min_one : lerp (25 / 10) minSpawnTimeBase 1 = 3355443 / 4194304 := by
  have h := lerp_min_bounds (le_of_lt one_pos) (le_refl (1 : ℚ))
  have h2 := lerp_min_le 1 (-(7130317 / 4194304)) (by norm_num)
    (roundF32_dyadic _ (-14260634) (-23) (by norm_num) (by norm_num) (by norm_num))
    (roundF32_dyadic _ 6710886 (-23) (by norm_num) (by norm_num) (by norm_num))
  norm_num at h2 h ⊢
  exact le_antisymm h2 h.1

theorem lerp_max_one : lerp (35 / 10) maxSpawnTimeBase 1 = 15 / 10 := by
  have h := lerp_max_bounds (le_of_lt one_pos) (le_refl (1 : ℚ))
  have h2 := lerp_max_le 1 (-2) (by norm_num)
    (roundF32_dyadic _ (-1) 1 (by norm_num) (by norm_num) (by norm_num))
    (roundF32_dyadic _ 3 (-1) (by norm_num) (by norm_num) (by norm_num))
  norm_num at h2 h ⊢
  exact le_antisymm h2 h.1

theorem lerp_min_zero : lerp (25 / 10) minSpawnTimeBase 0 = 25 / 10 := by
  have h := lerp_min_bounds (le_refl (0 : ℚ)) (le_of_lt one_pos)
  have h2 := le_lerp_min 0 0 (by norm_num) roundF32_zero
    (roundF32_dyadic _ 5 (-1) (by norm_num) (by norm_num) (by norm_num))
  norm_num at h2 h ⊢
  exact le_antisymm h.2 h2

theorem lerp_max_zero : lerp (35 / 10) maxSpawnTimeBase 0 = 35 / 10 := by
  have h := lerp_max_bounds (le_refl (0 : ℚ)) (le_of_lt one_pos)
  have h2 := le_lerp_max 0 0 (by norm_num) roundF32_zero
    (roundF32_dyadic _ 7 (-1) (by norm_num) (by norm_num) (by norm_num))
  norm_num at h2 h ⊢
  exact le_antisymm h.2 h2

/-- The lower spawn time is below the upper one at every ratio of `[0, 1]`. -/
theorem lerp_min_lt_max {t : ℚ} (h0 : 0 ≤ t) (h1 : t ≤ 1) :
    lerp (25 / 10) minSpawnTimeBase t < lerp (35 / 10) maxSpawnTimeBase t := by
  rcases le_total t (1 / 4) with ha | ha
  · have u := (lerp_min_bounds h0 h1).2
    have l := le_lerp_max t (-(1 / 2)) (by linarith)
      (roundF32_dyadic _ (-1) (-1) (by norm_num) (by norm_num) (by norm_num))
      (roundF32_dyadic _ 3 0 (by norm_num) (by norm_num) (by norm_num))
    linarith
  · rcases le_total t (1 / 2) with hb | hb
    · have u := lerp_min_le t (-(1 / 4)) (by nlinarith)
        (roundF32_dyadic _ (-1) (-2) (by norm_num) (by norm_num) (by norm_num))
        (roundF32_dyadic _ 9 (-2) (by norm_num) (by norm_num) (by norm_num))
      have l := le_lerp_max t (-1) (by linarith)
        (roundF32_dyadic _ (-1) 0 (by norm_num) (by norm_num) (by norm_num))
        (roundF32_dyadic _ 5 (-1) (by norm_num) (by norm_num) (by norm_num))
      linarith
    · rcases le_total t (3 / 4) with hc | hc
      · have u := lerp_min_le t (-(3 / 4)) (by nlinarith)
          (roundF32_dyadic _ (-3) (-2) (by norm_num) (by norm_num) (by norm_num))
          (roundF32_dyadic _ 7 (-2) (by norm_num) (by norm_num) (by norm_num))
        have l := le_lerp_max t (-(3 / 2)) (by linarith)
          (roundF32_dyadic _ (-3) (-1) (by norm_num) (by norm_num) (by norm_num))
          (roundF32_dyadic _ 2 0 (by norm_num) (by norm_num) (by norm_num))
        linarith
      · have u := lerp_min_le t (-(9 / 8)) (by nlinarith)
          (roundF32_dyadic _ (-9) (-3) (by norm_num) (by norm_num) (by norm_num))
          (roundF32_dyadic _ 11 (-3) (by norm_num) (by norm_num) (by norm_num))
        have l := (lerp_max_bounds h0 h1).1
        linarith

/-! ### The ramp variables along a frame -/

theorem applyGravityScale_rampVars (g : Game) :
    (applyGravityScale g).rampVars = g.rampVars := by
  simp only [applyGravityScale, setGravityScale_eq]
  split <;> split <;> rfl

theorem processCollected_rampVars (now : Int) (g : Game) :
    (processCollected now g).rampVars = g.rampVars := by
  simp only [processCollected]
  split_ifs
  · exact foldl_proj (resolveSingle now) Game.rampVars
      (by
        intro h b
        unfold resolveSingle
        split
        · rename_i r _
          cases r.1 <;> rfl
        · rfl) _ g
  · exact foldl_proj resolveMulti Game.rampVars
      (by
        intro h b
        unfold resolveMulti
        split <;> rfl) _ g

theorem eraseBlocks_rampVars (ended : b2Body → List b2Contact) (g : Game) :
    (eraseBlocks ended g).rampVars = g.rampVars :=
  foldl_proj
    (fun (h : Game) (block : Block) =>
      match block.body with
      | some body => if block.markedForRemoval = true then destroyBody ended h body else h
      | none => h)
    Game.rampVars
    (by
      intro h block
      dsimp only
      split
      · split_ifs <;> rfl
      · rfl)
    g.blocks g

theorem eraseCollectibles_rampVars (ended : b2Body → List b2Contact) (g : Game) :
    (eraseCollectibles ended g).rampVars = g.rampVars :=
  foldl_proj
    (fun (h : Game) (c : Collectible) =>
      match c.body with
      | some body => if c.markedForRemoval = true then destroyBody ended h body else h
      | none => h)
    Game.rampVars
    (by
      intro h c
      dsimp only
      split
      · split_ifs <;> rfl
      · rfl)
    g.collectibles g

theorem syncEntities_rampVars (GetPosition : b2Body → ℚ × ℚ) (g : Game) :
    (syncEntities GetPosition g).rampVars = g.rampVars := by
  simp only [syncEntities]
  split_ifs <;> rfl

theorem beforePlayerLogic_rampVars (inp : FrameInput) (g : Game) :
    (beforePlayerLogic inp g).rampVars = g.rampVars := by
  simp only [beforePlayerLogic]
  rw [eraseCollectibles_rampVars, eraseBlocks_rampVars, processCollected_rampVars,
    syncEntities_rampVars]
  simp only [worldStep]
  exact applyGravityScale_rampVars _

theorem playerLogicSingle_rampVars (GetPosition : b2Body → ℚ × ℚ)
    (ended : b2Body → List b2Contact) (writable : Bool) (g : Game) :
    (playerLogicSingle GetPosition ended writable g).rampVars = g.rampVars := by
  cases hb : g.playerBody with
  | none => simp only [playerLogicSingle, hb]
  | some body =>
    rw [playerLogicSingle_eq GetPosition ended writable g body hb]
    split_ifs <;> rfl

theorem playerLogicMulti1_rampVars (GetPosition : b2Body → ℚ × ℚ)
    (ended : b2Body → List b2Contact) (g : Game) :
    (playerLogicMulti1 GetPosition ended g).rampVars = g.rampVars := by
  simp only [playerLogicMulti1, setGravityScale, destroyBody]
  split
  · split_ifs <;> rfl
  · rfl

theorem playerLogicMulti2_rampVars (GetPosition : b2Body → ℚ × ℚ)
    (ended : b2Body → List b2Contact) (g : Game) :
    (playerLogicMulti2 GetPosition ended g).rampVars = g.rampVars := by
  simp only [playerLogicMulti2, setGravityScale, destroyBody]
  split
  · split_ifs <;> rfl
  · rfl

theorem playerLogic_rampVars (GetPosition : b2Body → ℚ × ℚ)
    (ended : b2Body → List b2Contact) (writable : Bool) (g : Game) :
    (playerLogic GetPosition ended writable g).rampVars = g.rampVars := by
  unfold playerLogic
  split
  · exact playerLogicSingle_rampVars _ _ _ _
  · have h1 := playerLogicMulti1_rampVars GetPosition ended g
    have h2 := playerLogicMulti2_rampVars GetPosition ended
      (playerLogicMulti1 GetPosition ended g)
    simp only [playerLogicMulti]
    split_ifs
    · exact h2.trans h1
    · exact h2.trans h1
  · rfl

theorem effectAndRain_rampVars (now : Int) (rainX : ℚ) (g : Game) :
    (effectAndRain now rainX g).rampVars = g.rampVars := by
  simp only [effectAndRain, magentaRain, effectExpiry]
  split_ifs <;> rfl

theorem spawnBlock_rampVars (getGlobalBounds : RectangleShape → FloatRect) (now : Int)
    (d : SpawnDraws) (g : Game) :
    (spawnBlock getGlobalBounds now d g).rampVars = g.rampVars := by
  simp only [spawnBlock]
  split_ifs <;> rfl

/-- What a ramp step leaves in the ramp variables depends only on what it
finds in them. -/
theorem speedRamp_rampVars_congr (dt : ℚ) {g h : Game} (e : g.rampVars = h.rampVars) :
    (speedRamp dt g).rampVars = (speedRamp dt h).rampVars := by
  have e1 : g.blockSpeed = h.blockSpeed := congrArg (·.1) e
  unfold speedRamp
  rw [e1]
  split_ifs
  · rfl
  · exact e

/-- The ramp variables after a playing frame are those the ramp step of the
frame leaves. -/
theorem frame_rampVars (getGlobalBounds : RectangleShape → FloatRect) (inp : FrameInput)
    (g : Game) :
    (frame getGlobalBounds inp g).rampVars = g.rampVars ∨
    (frame getGlobalBounds inp g).rampVars = (speedRamp (frameDt inp g) g).rampVars := by
  by_cases hn : g.currentState ≠ .PlayingSingle ∧ g.currentState ≠ .PlayingMulti
  · left
    unfold frame
    rw [if_pos hn]
    rfl
  · right
    unfold frame
    rw [if_neg hn]
    apply speedRamp_rampVars_congr
    rw [spawnBlock_rampVars]
    unfold beforeSpawn
    rw [effectAndRain_rampVars, playerLogic_rampVars, beforePlayerLogic_rampVars]

theorem handleEvent_rampVars (GetMass : b2Body → ℚ) (now : Int) (g : Game) (e : Event) :
    (handleEvent GetMass now g e).rampVars = g.rampVars ∨
    (handleEvent GetMass now g e).rampVars = (200, 25 / 10, 35 / 10) := by
  cases e <;> simp only [handleEvent, reduceCtorEq, if_true, if_false] <;> split <;>
    (try split) <;> (try split_ifs) <;>
    first
    | exact Or.inl rfl
    | exact Or.inr rfl

/-! ### The spawn-time bounds follow the speed -/

theorem spawnTimesFollowSpeed_of_rampVars {g h : Game} (e : g.rampVars = h.rampVars)
    (hh : h.spawnTimesFollowSpeed ∧ h.blockSpeed ≤ 600) :
    g.spawnTimesFollowSpeed ∧ g.blockSpeed ≤ 600 := by
  have e1 : g.blockSpeed = h.blockSpeed := congrArg (·.1) e
  have e2 : g.minSpawnTime = h.minSpawnTime := congrArg (·.2.1) e
  have e3 : g.maxSpawnTime = h.maxSpawnTime := congrArg (·.2.2) e
  unfold Game.spawnTimesFollowSpeed at hh ⊢
  rw [e1, e2, e3]
  exact hh

theorem spawnTimesFollowSpeed_of_start {g : Game}
    (e : g.rampVars = (200, 25 / 10, 35 / 10)) :
    g.spawnTimesFollowSpeed ∧ g.blockSpeed ≤ 600 := by
  have e1 : g.blockSpeed = 200 := congrArg (·.1) e
  have e2 : g.minSpawnTime = 25 / 10 := congrArg (·.2.1) e
  have e3 : g.maxSpawnTime = 35 / 10 := congrArg (·.2.2) e
  unfold Game.spawnTimesFollowSpeed
  rw [e1, e2, e3, speedRatio_200, lerp_min_zero, lerp_max_zero]
  exact ⟨⟨rfl, rfl⟩, by norm_num⟩

/-- A ramp step that runs sets the spawn-time bounds from the speed it
leaves. -/
theorem speedRamp_follows_of_lt (dt : ℚ) (g : Game) (hlt : g.blockSpeed < maxBlockSpeed) :
    (speedRamp dt g).spawnTimesFollowSpeed ∧ (speedRamp dt g).blockSpeed ≤ 600 := by
  unfold speedRamp
  rw [if_pos hlt]
  refine ⟨⟨rfl, rfl⟩, ?_⟩
  show min (g.blockSpeed + blockSpeedIncreaseFactor * dt) maxBlockSpeed ≤ 600
  exact le_trans (min_le_right _ _) (by norm_num [maxBlockSpeed])

/-- Every ramp step, also one that finds the speed at the cap, keeps the
spawn-time bounds in step with the speed. -/
theorem speedRamp_follows (dt : ℚ) (g : Game)
    (hg : g.spawnTimesFollowSpeed ∧ g.blockSpeed ≤ 600) :
    (speedRamp dt g).spawnTimesFollowSpeed ∧ (speedRamp dt g).blockSpeed ≤ 600 := by
  by_cases hlt : g.blockSpeed < maxBlockSpeed
  · exact speedRamp_follows_of_lt dt g hlt
  · have e : speedRamp dt g = g := by
      unfold speedRamp
      rw [if_neg hlt]
    rw [e]
    exact hg

theorem step_follows (getGlobalBounds : RectangleShape → FloatRect) (GetMass : b2Body → ℚ)
    (g : Game) (st : LoopStep) (hg : g.spawnTimesFollowSpeed ∧ g.blockSpeed ≤ 600) :
    (g.step getGlobalBounds GetMass st).spawnTimesFollowSpeed ∧
    (g.step getGlobalBounds GetMass st).blockSpeed ≤ 600 := by
  cases st with
  | event now e =>
    rcases handleEvent_rampVars GetMass now g e with h | h
    · exact spawnTimesFollowSpeed_of_rampVars h hg
    · exact spawnTimesFollowSpeed_of_start h
  | frame inp =>
    rcases frame_rampVars getGlobalBounds inp g with h | h
    · exact spawnTimesFollowSpeed_of_rampVars h hg
    · exact spawnTimesFollowSpeed_of_rampVars h (speedRamp_follows _ g hg)

theorem run_follows (getGlobalBounds : RectangleShape → FloatRect) (GetMass : b2Body → ℚ)
    (steps : List LoopStep) :
    ∀ g : Game, g.spawnTimesFollowSpeed ∧ g.blockSpeed ≤ 600 →
      (g.run getGlobalBounds GetMass steps).spawnTimesFollowSpeed ∧
      (g.run getGlobalBounds GetMass steps).blockSpeed ≤ 600 := by
  induction steps with
  | nil => intro g hg; exact hg
  | cons st steps ih =>
    intro g hg
    exact ih _ (step_follows getGlobalBounds GetMass g st hg)

theorem speedRamp_sceneNearCap :
    (speedRamp (1 / 10) sceneNearCap).blockSpeed = 600 ∧
    (speedRamp (1 / 10) sceneNearCap).minSpawnTime = 3355443 / 4194304 ∧
    (speedRamp (1 / 10) sceneNearCap).maxSpawnTime = 15 / 10 := by
  have hb : sceneNearCap.blockSpeed = 4799 / 8 := rfl
  have hlt : sceneNearCap.blockSpeed < maxBlockSpeed := by
    rw [hb]; norm_num [maxBlockSpeed]
  have hsp : (speedRamp (1 / 10) sceneNearCap).blockSpeed = 600 := by
    unfold speedRamp
    rw [if_pos hlt]
    simp only [hb, maxBlockSpeed, blockSpeedIncreaseFactor]
    norm_num
  have hf := (speedRamp_follows_of_lt (1 / 10) sceneNearCap hlt).1
  unfold Game.spawnTimesFollowSpeed at hf
  rw [hsp, speedRatio_600, lerp_min_one, lerp_max_one] at hf
  exact ⟨hsp, hf.1, hf.2⟩

theorem speedRamp_sceneSingle_blockSpeed :
    (speedRamp (1 / 10) sceneSingle).blockSpeed = 401 / 2 := by
  have hb : sceneSingle.blockSpeed = 200 := rfl
  have hlt : sceneSingle.blockSpeed < maxBlockSpeed := by
    rw [hb]; norm_num [maxBlockSpeed]
  unfold speedRamp
  rw [if_pos hlt]
  simp only [hb, maxBlockSpeed, blockSpeedIncreaseFactor]
  norm_num

/-- C26 as stated fails. In `sceneNearCap` the speed is 599.875; the ramp step
of a frame of 0.1 s leaves `blockSpeed = 600`, the speed ratio is 1, and
`minSpawnTime = lerp(2.5f, 0.8f, 1.0f)` is `2.5f + (0.8f - 2.5f)` in binary32,
which is `3355443 / 4194304 = 0.79999995…`: below 0.8, and one binary32 step
below the program's own `minSpawnTimeBase = 0.8f`. So neither `0.8 ≤
minSpawnTime` nor `minSpawnTime = 0.8` at `s = 600` holds. -/
theorem C26_min_spawn_time_ends_below_base :
    sceneNearCap.blockSpeed = 4799 / 8 ∧
    (speedRamp (1 / 10) sceneNearCap).blockSpeed = 600 ∧
    speedRatio 600 = 1 ∧
    (speedRamp (1 / 10) sceneNearCap).minSpawnTime = 3355443 / 4194304 ∧
    (speedRamp (1 / 10) sceneNearCap).minSpawnTime < 8 / 10 ∧
    roundF32 (8 / 10) = minSpawnTimeBase ∧
    (speedRamp (1 / 10) sceneNearCap).minSpawnTime < minSpawnTimeBase ∧
    minSpawnTimeBase - (speedRamp (1 / 10) sceneNearCap).minSpawnTime = 1 / 2 ^ 24 := by
  have h := speedRamp_sceneNearCap
  refine ⟨rfl, h.1, speedRatio_600, h.2.1, ?_, ?_, ?_, ?_⟩
  · rw [h.2.1]; norm_num
  · rw [roundF32_08]; rfl
  · rw [h.2.1]; norm_num [minSpawnTimeBase]
  · rw [h.2.1]; norm_num [minSpawnTimeBase]

/-- C26, amended: in binary32, a ramp step that runs leaves
`minSpawnTime = lerp(2.5f, 0.8f, r)` and `maxSpawnTime = lerp(3.5f, 1.5f, r)`
with `r = (s - 200.f) / 400.f` for the speed `s` it leaves, a ramp step that
finds the speed at the cap changes nothing, and so the two equations hold, with
`s ≤ 600`, in every state the program reaches. In a state `g` in which they
hold with `200 ≤ s ≤ 600`: `0 ≤ r ≤ 1`;
`0.79999995f ≤ minSpawnTime ≤ 2.5` and `1.5 ≤ maxSpawnTime ≤ 3.5`;
at `s = 600` `minSpawnTime` is `0.79999995f = 3355443 / 4194304`, one binary32
step below `minSpawnTimeBase = 0.8f`, and `maxSpawnTime` is 1.5; at `s = 200`
they are 2.5 and 3.5; `minSpawnTime < maxSpawnTime`; and in a state `g2` with a
speed at least as large the two bounds are not larger. -/
theorem C26_spawn_time_interpolation (getGlobalBounds : RectangleShape → FloatRect)
    (GetMass : b2Body → ℚ) (highScoreFile : Option Int) (now0 : Int)
    (steps : List LoopStep) (dt : ℚ) (g g2 : Game)
    (hg : g.spawnTimesFollowSpeed) (hs : 200 ≤ g.blockSpeed) (hcap : g.blockSpeed ≤ 600) :
    (∀ (h : Game) (d : ℚ), h.blockSpeed < maxBlockSpeed →
      (speedRamp d h).minSpawnTime =
        lerp (25 / 10) minSpawnTimeBase (speedRatio (speedRamp d h).blockSpeed) ∧
      (speedRamp d h).maxSpawnTime =
        lerp (35 / 10) maxSpawnTimeBase (speedRatio (speedRamp d h).blockSpeed) ∧
      (speedRamp d h).blockSpeed ≤ 600) ∧
    (∀ (h : Game) (d : ℚ), ¬ h.blockSpeed < maxBlockSpeed → speedRamp d h = h) ∧
    ((speedRamp dt g).spawnTimesFollowSpeed ∧ (speedRamp dt g).blockSpeed ≤ 600) ∧
    (((Game.start highScoreFile now0).run getGlobalBounds GetMass
        steps).spawnTimesFollowSpeed ∧
      ((Game.start highScoreFile now0).run getGlobalBounds GetMass steps).blockSpeed ≤ 600) ∧
    (speedRatio g.blockSpeed = roundF32 (roundF32 (g.blockSpeed - 200) / 400) ∧
      0 ≤ speedRatio g.blockSpeed ∧ speedRatio g.blockSpeed ≤ 1) ∧
    (3355443 / 4194304 ≤ g.minSpawnTime ∧ g.minSpawnTime ≤ 25 / 10) ∧
    (15 / 10 ≤ g.maxSpawnTime ∧ g.maxSpawnTime ≤ 35 / 10) ∧
    (g.blockSpeed = 600 →
      g.minSpawnTime = 3355443 / 4194304 ∧ g.maxSpawnTime = 15 / 10) ∧
    (minSpawnTimeBase = 13421773 / 16777216 ∧ roundF32 (8 / 10) = minSpawnTimeBase ∧
      (3355443 / 4194304 : ℚ) = minSpawnTimeBase - 1 / 2 ^ 24 ∧
      maxSpawnTimeBase = 15 / 10) ∧
    (g.blockSpeed = 200 → g.minSpawnTime = 25 / 10 ∧ g.maxSpawnTime = 35 / 10) ∧
    g.minSpawnTime < g.maxSpawnTime ∧
    (g2.spawnTimesFollowSpeed → g.blockSpeed ≤ g2.blockSpeed →
      g2.minSpawnTime ≤ g.minSpawnTime ∧ g2.maxSpawnTime ≤ g.maxSpawnTime) := by
  have h0 := speedRatio_nonneg hs
  have h1 := speedRatio_le_one hcap
  have hmin := hg.1
  have hmax := hg.2
  refine ⟨?_, ?_, speedRamp_follows dt g ⟨hg, hcap⟩, ?_, ⟨speedRatio_eq _, h0, h1⟩, ?_, ?_,
    ?_, ⟨rfl, ?_, by norm_num [minSpawnTimeBase], rfl⟩, ?_, ?_, ?_⟩
  · intro h d hlt
    have := speedRamp_follows_of_lt d h hlt
    exact ⟨this.1.1, this.1.2, this.2⟩
  · intro h d hn
    unfold speedRamp
    rw [if_neg hn]
  · exact run_follows getGlobalBounds GetMass steps _ (spawnTimesFollowSpeed_of_start rfl)
  · rw [hmin]; exact lerp_min_bounds h0 h1
  · rw [hmax]; exact lerp_max_bounds h0 h1
  · intro h6
    rw [hmin, hmax, h6, speedRatio_600, lerp_min_one, lerp_max_one]
    exact ⟨rfl, rfl⟩
  · rw [roundF32_08]; rfl
  · intro h2
    rw [hmin, hmax, h2, speedRatio_200, lerp_min_zero, lerp_max_zero]
    exact ⟨rfl, rfl⟩
  · rw [hmin, hmax]; exact lerp_min_lt_max h0 h1
  · intro hg2 hle
    rw [hmin, hmax, hg2.1, hg2.2]
    exact ⟨lerp_min_anti (speedRatio_mono hle), lerp_max_anti (speedRatio_mono hle)⟩

/-- C26 amended, in `sceneSingle` after the ramp step of a frame of 0.1 s,
which leaves the speed 200.5: the bounds follow the speed, lie in the stated
intervals with the lower below the upper, and the bounds left by the step
that reaches the cap (from `sceneNearCap`) are not larger. -/
theorem C26_spawn_time_interpolation_witness :
    (speedRamp (1 / 10) sceneSingle).blockSpeed = 401 / 2 ∧
    (speedRamp (1 / 10) sceneSingle).spawnTimesFollowSpeed ∧
    (3355443 / 4194304 ≤ (speedRamp (1 / 10) sceneSingle).minSpawnTime ∧
      (speedRamp (1 / 10) sceneSingle).minSpawnTime ≤ 25 / 10) ∧
    (15 / 10 ≤ (speedRamp (1 / 10) sceneSingle).maxSpawnTime ∧
      (speedRamp (1 / 10) sceneSingle).maxSpawnTime ≤ 35 / 10) ∧
    (speedRamp (1 / 10) sceneSingle).minSpawnTime <
      (speedRamp (1 / 10) sceneSingle).maxSpawnTime ∧
    (speedRamp (1 / 10) sceneNearCap).minSpawnTime ≤
      (speedRamp (1 / 10) sceneSingle).minSpawnTime ∧
    (speedRamp (1 / 10) sceneNearCap).maxSpawnTime ≤
      (speedRamp (1 / 10) sceneSingle).maxSpawnTime := by
  have hsp := speedRamp_sceneSingle_blockSpeed
  have hf := (speedRamp_follows_of_lt (1 / 10) sceneSingle
    (by norm_num [show sceneSingle.blockSpeed = 200 from rfl, maxBlockSpeed])).1
  have hf2 := (speedRamp_follows_of_lt (1 / 10) sceneNearCap
    (by norm_num [show sceneNearCap.blockSpeed = 4799 / 8 from rfl, maxBlockSpeed])).1
  have h := C26_spawn_time_interpolation sfGlobalBounds playerMass none 0 [] (1 / 10)
    (speedRamp (1 / 10) sceneSingle) (speedRamp (1 / 10) sceneNearCap) hf
    (by rw [hsp]; norm_num) (by rw [hsp]; norm_num)
  have hm := h.2.2.2.2.2.2.2.2.2.2.2 hf2
    (by rw [hsp, speedRamp_sceneNearCap.1]; norm_num)
  exact ⟨hsp, hf, h.2.2.2.2.2.1, h.2.2.2.2.2.2.1, h.2.2.2.2.2.2.2.2.2.2.1, hm.1, hm.2⟩

end Boxing9_2_Fixed
